import Mathlib

/-!
# PBVH GPU buffer builder (`source/blender/gpu/intern/gpu_buffers.c`)

A shallow embedding of the mesh, grid and dynamic-topology buffer builders and of the
node-buffer lifecycle, followed by the properties proved about them.

Conventions of the embedding.

* C `int` / `uint` counts and indices are natural numbers (sizes stay far below `2^31`); values
  that can be negative (`r_edges`, face-set ids, custom-data offsets, material numbers) are
  integers.
* A C array passed by pointer is a `List`; reading `a[i]` is `a.getD i default`.  A pointer that
  may be `NULL` is an `Option`.
* `float` data is carried as raw bit patterns; every floating-point operation is a field of
  `Deps`, as are all functions of other modules whose bodies are not in this file.
* The GPU module's vertex buffer is a write log: the attribute writes performed since the
  storage was allocated, in program order.  An index-buffer builder is the list of indices
  appended so far.
* Every GPU object carries a `handle` so that pointer identity can be stated; handles are drawn
  from the ghost counter `next_handle` of the node buffer object.
-/

namespace GpuBuffers

/-! ## Scalar and vector carriers -/

/-- A 32-bit float, carried as its bit pattern. -/
structure float where
  bits : Nat
  deriving DecidableEq, Repr, Inhabited

/-- C `float[3]`. -/
structure float3 where
  x : float
  y : float
  z : float
  deriving DecidableEq, Repr, Inhabited

/-- C `float[2]`. -/
structure float2 where
  x : float
  y : float
  deriving DecidableEq, Repr, Inhabited

/-- C `short[3]`. -/
structure short3 where
  x : Int
  y : Int
  z : Int
  deriving DecidableEq, Repr, Inhabited

/-- C `uchar[4]`. -/
structure uchar4 where
  r : Nat
  g : Nat
  b : Nat
  a : Nat
  deriving DecidableEq, Repr, Inhabited

/-- C `uchar[3]`, the part of a face-set colour copied into the buffer. -/
structure uchar3 where
  r : Nat
  g : Nat
  b : Nat
  deriving DecidableEq, Repr, Inhabited

/-- C `ushort[4]`. -/
structure ushort4 where
  r : Nat
  g : Nat
  b : Nat
  a : Nat
  deriving DecidableEq, Repr, Inhabited

def UCHAR_MAX : Nat := 255
def USHRT_MAX : Nat := 65535
def INT_MAX : Nat := 2147483647
def UINT_MAX : Nat := 4294967295

/-- First three bytes of a `uchar[4]` (`memcpy(..., sizeof(uchar[3]))`). -/
def uchar4.to3 (c : uchar4) : uchar3 := ⟨c.r, c.g, c.b⟩

/-! ## Mesh data (DNA_meshdata_types.h) -/

structure MVert where
  co : float3
  no : short3
  flag : Nat
  deriving DecidableEq, Repr, Inhabited

structure MLoop where
  v : Nat
  e : Nat
  deriving DecidableEq, Repr, Inhabited

structure MEdge where
  v1 : Nat
  v2 : Nat
  deriving DecidableEq, Repr, Inhabited

structure MPoly where
  loopstart : Nat
  totloop : Nat
  mat_nr : Int
  flag : Nat
  deriving DecidableEq, Repr, Inhabited

structure MLoopTri where
  tri0 : Nat
  tri1 : Nat
  tri2 : Nat
  poly : Nat
  deriving DecidableEq, Repr, Inhabited

/-- Array access `lt->tri[j]`. -/
def MLoopTri.tri (lt : MLoopTri) (j : Nat) : Nat :=
  match j with
  | 0 => lt.tri0
  | 1 => lt.tri1
  | _ => lt.tri2

structure MLoopCol where
  r : Nat
  g : Nat
  b : Nat
  a : Nat
  deriving DecidableEq, Repr, Inhabited

structure MPropCol where
  color0 : float
  color1 : float
  color2 : float
  color3 : float
  deriving DecidableEq, Repr, Inhabited

structure Mesh where
  mloop : List MLoop
  medge : List MEdge
  deriving DecidableEq, Repr, Inhabited

def ME_SMOOTH : Nat := 1
def SCULPT_FACE_SET_NONE : Int := 0
def GPU_PBVH_BUFFERS_SHOW_MASK : Nat := 2
def GPU_PBVH_BUFFERS_SHOW_VCOL : Nat := 4
def GPU_PBVH_BUFFERS_SHOW_SCULPT_FACE_SETS : Nat := 8

/-! ## Grid data (BKE_ccg.h, BKE_subdiv_ccg.h) -/

/-- One grid element: coordinate, normal and paint mask. -/
structure CCGElem where
  co : float3
  no : float3
  mask : float
  deriving DecidableEq, Repr, Inhabited

structure CCGKey where
  grid_size : Nat
  grid_area : Nat
  has_mask : Bool
  deriving DecidableEq, Repr, Inhabited

structure DMFlagMat where
  mat_nr : Int
  flag : Nat
  deriving DecidableEq, Repr, Inhabited

/-- A hidden-element bitmap of one grid. -/
abbrev BLI_bitmap := List Bool

structure SubdivCCG where
  grid_faces : List Nat
  deriving DecidableEq, Repr, Inhabited

/-- Modelled from the spec: the grid element accessor `CCG_grid_elem(key, grid, x, y)` of
BKE_ccg.h (not in src), the element at column `x`, row `y` of a grid stored row by row. -/
def CCG_grid_elem (key : CCGKey) (grid : List CCGElem) (x y : Nat) : CCGElem :=
  grid.getD (y * key.grid_size + x) default

/-! ## GPU module objects -/

inductive GPUPrimType
  | GPU_PRIM_TRIS
  | GPU_PRIM_LINES
  deriving DecidableEq, Repr, Inhabited

open GPUPrimType

/-- One attribute write into a vertex buffer. -/
inductive AttrData
  | pos (co : float3)
  | nor (no : short3)
  | msk (m : Nat)
  | fset (c : uchar3)
  | col (slot : Nat) (c : ushort4)
  | uv (u : float2)
  deriving DecidableEq, Repr, Inhabited

structure VertWrite where
  v_index : Nat
  data : AttrData
  deriving DecidableEq, Repr, Inhabited

/-- A vertex buffer: its length and, when storage is allocated, the attribute writes made into
that storage since it was allocated. -/
structure GPUVertBuf where
  handle : Nat
  vertex_len : Nat
  data : Option (List VertWrite)
  deriving DecidableEq, Repr, Inhabited

structure GPUIndexBuf where
  handle : Nat
  prim_type : GPUPrimType
  index : List Nat
  deriving DecidableEq, Repr, Inhabited

structure GPUIndexBufBuilder where
  prim_type : GPUPrimType
  max_index_len : Nat
  max_allowed_index : Nat
  data : List Nat
  deriving DecidableEq, Repr, Inhabited

/-- A draw batch refers to the buffers it was created from by handle. -/
structure GPUBatch where
  handle : Nat
  prim_type : GPUPrimType
  verts : Option Nat
  elem : Option Nat
  deriving DecidableEq, Repr, Inhabited

def indices_per_primitive : GPUPrimType → Nat
  | GPU_PRIM_TRIS => 3
  | GPU_PRIM_LINES => 2

/-- Modelled from the spec: `GPU_indexbuf_init` of the GPU module (not in src): an empty builder
with room for `prim_len` primitives over vertices `0 .. vertex_len - 1`. -/
def GPU_indexbuf_init (prim : GPUPrimType) (prim_len vertex_len : Nat) : GPUIndexBufBuilder :=
  { prim_type := prim
    max_index_len := prim_len * indices_per_primitive prim
    max_allowed_index := vertex_len - 1
    data := [] }

/-- Modelled from the spec: `GPU_indexbuf_add_line_verts` appends the two indices of a line. -/
def GPU_indexbuf_add_line_verts (elb : GPUIndexBufBuilder) (v1 v2 : Nat) : GPUIndexBufBuilder :=
  { elb with data := elb.data ++ [v1, v2] }

/-- Modelled from the spec: `GPU_indexbuf_add_tri_verts` appends the three indices of a
triangle. -/
def GPU_indexbuf_add_tri_verts (elb : GPUIndexBufBuilder) (v1 v2 v3 : Nat) : GPUIndexBufBuilder :=
  { elb with data := elb.data ++ [v1, v2, v3] }

/-- Number of primitives an index list holds. -/
def GPUIndexBufBuilder.prim_count (elb : GPUIndexBufBuilder) : Nat :=
  elb.data.length / indices_per_primitive elb.prim_type

def GPUIndexBuf.prim_count (ib : GPUIndexBuf) : Nat :=
  ib.index.length / indices_per_primitive ib.prim_type

/-! ## Custom data and BMesh data (DNA_customdata_types.h, bmesh_class.h, BKE_pbvh.h) -/

def MAX_MCOL : Nat := 8
def CD_MLOOPUV : Nat := 16
def CD_MLOOPCOL : Nat := 17
def CD_PAINT_MASK : Nat := 34
def CD_SCULPT_FACE_SETS : Nat := 42
def CD_PROP_COLOR : Nat := 47
def CD_FLAG_TEMPORARY : Nat := 5
def BM_ELEM_HIDDEN : Nat := 2

structure CustomDataLayer where
  type : Nat
  flag : Nat
  offset : Int
  active : Nat
  active_rnd : Nat
  deriving DecidableEq, Repr, Inhabited

structure CustomData where
  layers : List CustomDataLayer
  totlayer : Nat
  deriving DecidableEq, Repr, Inhabited

/-- One value stored in the custom-data block of a BMesh element. -/
inductive CDValue
  | cd_float (x : float)
  | cd_int (n : Int)
  | cd_propcol (c : MPropCol)
  | cd_loopcol (c : MLoopCol)
  | cd_uv (u : float2)
  deriving DecidableEq, Repr, Inhabited

/-- The custom-data block of an element: the value stored at each offset. -/
abbrev CDBlock := List CDValue

/-- Reads the block at an offset (`BM_ELEM_CD_GET_VOID_P`); an offset outside the block gives a
default value. -/
def cd_get (block : CDBlock) (offset : Int) : CDValue :=
  if offset < 0 then default else block.getD offset.toNat default

/-- The macro `BM_ELEM_CD_GET_FLOAT`. -/
def BM_ELEM_CD_GET_FLOAT (block : CDBlock) (offset : Int) : float :=
  match cd_get block offset with
  | CDValue.cd_float x => x
  | _ => default

/-- The macro `BM_ELEM_CD_GET_INT`. -/
def BM_ELEM_CD_GET_INT (block : CDBlock) (offset : Int) : Int :=
  match cd_get block offset with
  | CDValue.cd_int n => n
  | _ => default

/-- The macro `BM_ELEM_CD_GET_VOID_P` read as an `MPropCol`. -/
def BM_ELEM_CD_GET_PROPCOL (block : CDBlock) (offset : Int) : MPropCol :=
  match cd_get block offset with
  | CDValue.cd_propcol c => c
  | _ => default

/-- The macro `BM_ELEM_CD_GET_VOID_P` read as an `MLoopCol`. -/
def BM_ELEM_CD_GET_LOOPCOL (block : CDBlock) (offset : Int) : MLoopCol :=
  match cd_get block offset with
  | CDValue.cd_loopcol c => c
  | _ => default

/-- The macro `BM_ELEM_CD_GET_VOID_P` read as an `MLoopUV`. -/
def BM_ELEM_CD_GET_UV (block : CDBlock) (offset : Int) : float2 :=
  match cd_get block offset with
  | CDValue.cd_uv u => u
  | _ => default

structure BMVert where
  co : float3
  no : float3
  hflag : Nat
  cd : CDBlock
  deriving DecidableEq, Repr, Inhabited

structure BMLoop where
  v : BMVert
  cd : CDBlock
  deriving DecidableEq, Repr, Inhabited

/-- A BMesh face of the sculpt mesh, a triangle (`BLI_assert(f->len == 3)`): its three loops are
`l_first`, `l_first->next` and `l_first->prev`. -/
structure BMFace where
  l_first : BMLoop
  l_next : BMLoop
  l_prev : BMLoop
  no : float3
  mat_nr : Int
  hflag : Nat
  len : Nat
  cd : CDBlock
  deriving DecidableEq, Repr, Inhabited

/-- The test `BM_elem_flag_test(ele, BM_ELEM_HIDDEN)`. -/
def BM_elem_hidden (hflag : Nat) : Bool := hflag &&& BM_ELEM_HIDDEN != 0

/-- Array access `l[j]` on `l[3] = {f->l_first, f->l_first->next, f->l_first->prev}`. -/
def BMFace.l (f : BMFace) (j : Nat) : BMLoop :=
  match j with
  | 0 => f.l_first
  | 1 => f.l_next
  | _ => f.l_prev

/-- The vertices `BM_face_as_array_vert_tri` stores: those of the three loops in order. -/
def BMFace.v (f : BMFace) (j : Nat) : BMVert := (f.l j).v

structure BMesh where
  vdata : CustomData
  ldata : CustomData
  pdata : CustomData
  deriving DecidableEq, Repr, Inhabited

/-- A table set (`TableGSet`): its live elements in iteration order. -/
abbrev TableGSet (α : Type) := List α

def BLI_table_gset_len {α : Type} (ts : TableGSet α) : Nat := ts.length

/-- One triangle of the flattened triangle buffer: corner indices into the vertex array of the
buffer, the face and loops it comes from, and the edge flags. -/
structure PBVHTri where
  v0 : Nat
  v1 : Nat
  v2 : Nat
  f : BMFace
  l0 : BMLoop
  l1 : BMLoop
  l2 : BMLoop
  eflag : Nat
  deriving DecidableEq, Repr, Inhabited

def PBVHTri.l (tri : PBVHTri) (j : Nat) : BMLoop :=
  match j with
  | 0 => tri.l0
  | 1 => tri.l1
  | _ => tri.l2

structure PBVHTriBuf where
  tris : List PBVHTri
  verts : List BMVert
  tottri : Nat
  totvert : Nat
  deriving DecidableEq, Repr, Inhabited

/-! ## Functions of other modules

Everything `gpu_buffers.c` calls whose body lives in another module and whose result is not
fixed by this file: paint visibility tests, mesh queries, colour lookup and all floating-point
arithmetic.  The builders are parametrised over one value of this structure. -/

structure Deps where
  /-- BKE_paint: is a mesh triangle hidden by the paint-hide state of its vertices. -/
  paint_is_face_hidden : MLoopTri → List MVert → List MLoop → Bool
  /-- BKE_paint: is subface `(x, y)` of a grid hidden by the grid bitmap. -/
  paint_is_grid_face_hidden : BLI_bitmap → Nat → Nat → Nat → Bool
  /-- BKE_mesh: entry `j` of `r_edges`, the mesh edge of triangle side `j` or `-1`. -/
  BKE_mesh_looptri_get_real_edges : Mesh → MLoopTri → Nat → Int
  BKE_mesh_calc_poly_normal : MPoly → List MLoop → List MVert → float3
  normal_float_to_short_v3 : float3 → short3
  normal_quad_v3 : float3 → float3 → float3 → float3 → float3
  BKE_paint_face_set_overlay_color_get : Int → Int → uchar4
  BKE_subdiv_ccg_grid_to_face_index : SubdivCCG → Nat → Nat
  unit_float_to_ushort_clamp : float → Nat
  BLI_color_from_srgb_table : Nat → float
  fadd : float → float → float
  fmul : float → float → float
  fdiv : float → float → float
  float_of_int : Int → float
  /-- The C conversion `(uchar)x` of a float. -/
  float_to_uchar : float → Nat
  add_v3_v3 : float3 → float3 → float3
  mul_v3_fl : float3 → float → float3
  interp_v3_v3v3 : float3 → float3 → float → float3
  CustomData_has_layer : CustomData → Nat → Bool
  CustomData_get_offset : CustomData → Nat → Int
  CustomData_get_n_offset : CustomData → Nat → Nat → Int
  CustomData_get_layer_index : CustomData → Nat → Int
  CustomData_get_layer_index_n : CustomData → Nat → Nat → Int
  CustomData_get_active_layer_index : CustomData → Nat → Int
  CustomData_get_render_layer_index : CustomData → Nat → Int
  CustomData_number_of_layers : CustomData → Nat → Nat
  /-- Global `U.experimental.use_sculpt_vertex_colors`. -/
  use_sculpt_vertex_colors : Bool
  /-- Global `G.debug_value`. -/
  debug_value : Int

/-! ## The node buffer object -/

structure GPU_PBVH_Buffers where
  index_buf : Option GPUIndexBuf
  index_buf_fast : Option GPUIndexBuf
  index_lines_buf : Option GPUIndexBuf
  index_lines_buf_fast : Option GPUIndexBuf
  vert_buf : Option GPUVertBuf
  lines : Option GPUBatch
  lines_fast : Option GPUBatch
  triangles : Option GPUBatch
  triangles_fast : Option GPUBatch
  mpoly : Option (List MPoly)
  mloop : Option (List MLoop)
  looptri : Option (List MLoopTri)
  mvert : Option (List MVert)
  face_indices : Option (List Nat)
  face_indices_len : Nat
  gridkey : CCGKey
  grids : Option (List (List CCGElem))
  grid_flag_mats : Option (List DMFlagMat)
  grid_hidden : Option (List (Option BLI_bitmap))
  grid_indices : Option (List Nat)
  totgrid : Nat
  use_bmesh : Bool
  clear_bmesh_on_flush : Bool
  tot_tri : Nat
  tot_quad : Nat
  material_index : Int
  smooth : Bool
  show_overlay : Bool
  /-- Ghost field: number of GPU objects created so far for this node; the next object created
  gets this value as its handle. -/
  next_handle : Nat
  deriving DecidableEq, Repr

/-- The zero-filled object returned by `MEM_callocN(sizeof(GPU_PBVH_Buffers), ...)`. -/
def MEM_callocN : GPU_PBVH_Buffers :=
  { index_buf := none, index_buf_fast := none, index_lines_buf := none
    index_lines_buf_fast := none, vert_buf := none
    lines := none, lines_fast := none, triangles := none, triangles_fast := none
    mpoly := none, mloop := none, looptri := none, mvert := none
    face_indices := none, face_indices_len := 0
    gridkey := ⟨0, 0, false⟩, grids := none, grid_flag_mats := none, grid_hidden := none
    grid_indices := none, totgrid := 0
    use_bmesh := false, clear_bmesh_on_flush := false
    tot_tri := 0, tot_quad := 0, material_index := 0, smooth := false, show_overlay := false
    next_handle := 0 }

/-- Reading `p[i]` through a pointer held in the node buffer object. -/
def deref {α : Type} [Inhabited α] (p : Option (List α)) (i : Nat) : α :=
  (p.getD []).getD i default

/-- Modelled from the spec: `GPU_indexbuf_build` turns a builder into an index buffer object; the
new object gets a fresh handle. -/
def GPU_indexbuf_build (buffers : GPU_PBVH_Buffers) (elb : GPUIndexBufBuilder) :
    GPUIndexBuf × GPU_PBVH_Buffers :=
  (⟨buffers.next_handle, elb.prim_type, elb.data⟩,
   { buffers with next_handle := buffers.next_handle + 1 })

/-- Modelled from the spec: `GPU_indexbuf_build_in_place` fills an existing index buffer object
from a builder; the object keeps its identity. -/
def GPU_indexbuf_build_in_place (elb : GPUIndexBufBuilder) (ib : GPUIndexBuf) : GPUIndexBuf :=
  { ib with prim_type := elb.prim_type, index := elb.data }

/-- Modelled from the spec: `GPU_batch_create(prim, verts, elem)` makes a batch that refers to
the given vertex buffer and index buffer (either may be absent). -/
def GPU_batch_create (buffers : GPU_PBVH_Buffers) (prim : GPUPrimType)
    (verts : Option GPUVertBuf) (elem : Option GPUIndexBuf) : GPUBatch × GPU_PBVH_Buffers :=
  (⟨buffers.next_handle, prim, verts.map (fun vb => vb.handle), elem.map (fun ib => ib.handle)⟩,
   { buffers with next_handle := buffers.next_handle + 1 })

/-- Modelled from the spec: `GPU_vertbuf_data_alloc(verts, v_len)` sets the length and replaces
the storage by fresh uninitialised storage, or by none when the allocator fails. -/
def GPU_vertbuf_data_alloc (vb : GPUVertBuf) (v_len : Nat) (alloc_ok : Bool) : GPUVertBuf :=
  { vb with vertex_len := v_len, data := if alloc_ok then some [] else none }

/-- Allocates a non-initialised buffer to be sent to GPU.  The result is false when the memory
map failed.  `alloc_ok` says whether the allocator can provide storage. -/
def gpu_pbvh_vert_buf_data_set (buffers : GPU_PBVH_Buffers) (vert_len : Nat) (alloc_ok : Bool) :
    GPU_PBVH_Buffers × Bool :=
  let buffers :=
    match buffers.vert_buf with
    | none =>
      { buffers with
        vert_buf := some ⟨buffers.next_handle, 0, none⟩
        next_handle := buffers.next_handle + 1 }
    | some _ => buffers
  match buffers.vert_buf with
  | none => (buffers, false)
  | some vb =>
    let vb := if vb.data.isNone || vb.vertex_len != vert_len then
        GPU_vertbuf_data_alloc vb vert_len alloc_ok
      else vb
    ({ buffers with vert_buf := some vb }, vb.data.isSome)

def gpu_pbvh_batch_init (buffers : GPU_PBVH_Buffers) (prim : GPUPrimType) : GPU_PBVH_Buffers :=
  let buffers :=
    if buffers.triangles.isNone then
      let r := GPU_batch_create buffers prim buffers.vert_buf buffers.index_buf
      { r.2 with triangles := some r.1 }
    else buffers
  let buffers :=
    if buffers.triangles_fast.isNone && buffers.index_buf_fast.isSome then
      let r := GPU_batch_create buffers prim buffers.vert_buf buffers.index_buf_fast
      { r.2 with triangles_fast := some r.1 }
    else buffers
  let buffers :=
    if buffers.lines.isNone then
      let r := GPU_batch_create buffers GPU_PRIM_LINES buffers.vert_buf buffers.index_lines_buf
      { r.2 with lines := some r.1 }
    else buffers
  if buffers.lines_fast.isNone && buffers.index_lines_buf_fast.isSome then
    let r := GPU_batch_create buffers GPU_PRIM_LINES buffers.vert_buf buffers.index_lines_buf_fast
    { r.2 with lines_fast := some r.1 }
  else buffers

/-- Appends attribute writes to the storage of the vertex buffer (`GPU_vertbuf_attr_set` and
writes through raw cursors). -/
def vert_buf_write (buffers : GPU_PBVH_Buffers) (ws : List VertWrite) : GPU_PBVH_Buffers :=
  { buffers with
    vert_buf := buffers.vert_buf.map (fun vb => { vb with data := vb.data.map (fun d => d ++ ws) }) }

/-! ## Mesh PBVH -/

def gpu_pbvh_is_looptri_visible (E : Deps) (lt : MLoopTri) (mvert : List MVert)
    (mloop : List MLoop) (sculpt_face_sets : Option (List Int)) : Bool :=
  !E.paint_is_face_hidden lt mvert mloop &&
    (match sculpt_face_sets with
     | none => false
     | some fs => decide (fs.getD lt.poly 0 > SCULPT_FACE_SET_NONE))

/-- Loop-carried state of the fill loop of `GPU_pbvh_mesh_buffers_update`: the five raw write
cursors (as the vertex slot each will write next), the cached polygon normal, the per-triangle
mask byte, the two overlay trackers and the writes made so far. -/
structure MeshFill where
  pos_step : Nat
  nor_step : Nat
  msk_step : Nat
  fset_step : Nat
  col_step : Nat
  mpoly_prev : Nat
  no : short3
  cmask : Nat
  empty_mask : Bool
  default_face_set : Bool
  writes : List VertWrite
  deriving DecidableEq, Repr

/-- Body of the inner loop `for (j = 0; j < 3; j++)` of `GPU_pbvh_mesh_buffers_update`. -/
def mesh_fill_vert (E : Deps) (smooth show_mask show_vcol : Bool) (mvert : List MVert)
    (vmask : Option (List float)) (vcol : Option (List MLoopCol))
    (vtcol : Option (List MPropCol)) (lt : MLoopTri) (vtri : Nat → Nat)
    (face_set_color : uchar4) (s : MeshFill) (j : Nat) : MeshFill :=
  let v := mvert.getD (vtri j) default
  let w_pos : VertWrite := ⟨s.pos_step, AttrData.pos v.co⟩
  let no := if smooth then v.no else s.no
  let w_nor : VertWrite := ⟨s.nor_step, AttrData.nor no⟩
  let cmask :=
    if show_mask && smooth then
      E.float_to_uchar (E.fmul (deref vmask (vtri j)) (E.float_of_int 255))
    else s.cmask
  let w_msk : VertWrite := ⟨s.msk_step, AttrData.msk cmask⟩
  let empty_mask := s.empty_mask && (cmask == 0)
  let w_col : List VertWrite :=
    if show_vcol then
      if vtcol.isSome && E.use_sculpt_vertex_colors then
        let c := deref vtcol (vtri j)
        [⟨s.col_step, AttrData.col 0
          ⟨E.unit_float_to_ushort_clamp c.color0, E.unit_float_to_ushort_clamp c.color1,
           E.unit_float_to_ushort_clamp c.color2, E.unit_float_to_ushort_clamp c.color3⟩⟩]
      else
        let mcol := deref vcol (lt.tri j)
        [⟨s.col_step, AttrData.col 0
          ⟨E.unit_float_to_ushort_clamp (E.BLI_color_from_srgb_table mcol.r),
           E.unit_float_to_ushort_clamp (E.BLI_color_from_srgb_table mcol.g),
           E.unit_float_to_ushort_clamp (E.BLI_color_from_srgb_table mcol.b),
           E.unit_float_to_ushort_clamp
             (E.fmul (E.float_of_int mcol.a) (E.fdiv (E.float_of_int 1) (E.float_of_int 255)))⟩⟩]
    else []
  let w_fset : VertWrite := ⟨s.fset_step, AttrData.fset face_set_color.to3⟩
  { s with
    pos_step := s.pos_step + 1
    nor_step := s.nor_step + 1
    msk_step := s.msk_step + 1
    col_step := if show_vcol then s.col_step + 1 else s.col_step
    fset_step := s.fset_step + 1
    no := no
    cmask := cmask
    empty_mask := empty_mask
    writes := s.writes ++ [w_pos, w_nor, w_msk] ++ w_col ++ [w_fset] }

/-- Body of the loop `for (i = 0; i < buffers->face_indices_len; i++)` of
`GPU_pbvh_mesh_buffers_update`. -/
def mesh_fill_tri (E : Deps) (buffers : GPU_PBVH_Buffers) (show_mask show_face_sets show_vcol : Bool)
    (mvert : List MVert) (vmask : Option (List float)) (vcol : Option (List MLoopCol))
    (sculpt_face_sets : Option (List Int)) (face_sets_color_seed face_sets_color_default : Int)
    (vtcol : Option (List MPropCol)) (s : MeshFill) (i : Nat) : MeshFill :=
  let lt : MLoopTri := deref buffers.looptri (deref buffers.face_indices i)
  let vtri : Nat → Nat := fun j => (deref buffers.mloop (lt.tri j)).v
  if !gpu_pbvh_is_looptri_visible E lt mvert (buffers.mloop.getD []) sculpt_face_sets then s
  else
    let s :=
      if lt.poly != s.mpoly_prev && !buffers.smooth then
        let mp := deref buffers.mpoly lt.poly
        let fno := E.BKE_mesh_calc_poly_normal mp ((buffers.mloop.getD []).drop mp.loopstart) mvert
        { s with no := E.normal_float_to_short_v3 fno, mpoly_prev := lt.poly }
      else s
    let white : uchar4 := ⟨UCHAR_MAX, UCHAR_MAX, UCHAR_MAX, UCHAR_MAX⟩
    let fs : uchar4 × Bool :=
      if show_face_sets then
        let fset : Int := |deref sculpt_face_sets lt.poly|
        if fset != face_sets_color_default then
          (E.BKE_paint_face_set_overlay_color_get fset face_sets_color_seed, false)
        else (white, s.default_face_set)
      else (white, s.default_face_set)
    let cmask :=
      if show_mask && !buffers.smooth then
        let fmask := E.fdiv
          (E.fadd (E.fadd (deref vmask (vtri 0)) (deref vmask (vtri 1))) (deref vmask (vtri 2)))
          (E.float_of_int 3)
        E.float_to_uchar (E.fmul fmask (E.float_of_int 255))
      else 0
    let s := { s with default_face_set := fs.2, cmask := cmask }
    (List.range 3).foldl
      (mesh_fill_vert E buffers.smooth show_mask show_vcol mvert vmask vcol vtcol lt vtri fs.1) s

/-- The state in which the fill loop of `GPU_pbvh_mesh_buffers_update` starts. -/
def mesh_fill_init : MeshFill :=
  { pos_step := 0, nor_step := 0, msk_step := 0, fset_step := 0, col_step := 0
    mpoly_prev := UINT_MAX, no := ⟨0, 0, 0⟩, cmask := 0
    empty_mask := true, default_face_set := true, writes := [] }

/-- The fill loop of `GPU_pbvh_mesh_buffers_update`, run over the node's face indices. -/
def mesh_fill (E : Deps) (buffers : GPU_PBVH_Buffers) (show_mask show_face_sets show_vcol : Bool)
    (mvert : List MVert) (vmask : Option (List float)) (vcol : Option (List MLoopCol))
    (sculpt_face_sets : Option (List Int)) (face_sets_color_seed face_sets_color_default : Int)
    (vtcol : Option (List MPropCol)) : MeshFill :=
  (List.range buffers.face_indices_len).foldl
    (mesh_fill_tri E buffers show_mask show_face_sets show_vcol mvert vmask vcol sculpt_face_sets
      face_sets_color_seed face_sets_color_default vtcol)
    mesh_fill_init

/-- Threaded - do not call any functions that use OpenGL calls! -/
def GPU_pbvh_mesh_buffers_update (E : Deps) (alloc_ok : Bool) (buffers : GPU_PBVH_Buffers)
    (mvert : List MVert) (vmask : Option (List float)) (vcol : Option (List MLoopCol))
    (sculpt_face_sets : Option (List Int)) (face_sets_color_seed face_sets_color_default : Int)
    (vtcol : Option (List MPropCol)) (update_flags : Nat) : GPU_PBVH_Buffers :=
  let show_mask := vmask.isSome && (update_flags &&& GPU_PBVH_BUFFERS_SHOW_MASK != 0)
  let show_face_sets := sculpt_face_sets.isSome &&
    (update_flags &&& GPU_PBVH_BUFFERS_SHOW_SCULPT_FACE_SETS != 0)
  let show_vcol := (vcol.isSome || (vtcol.isSome && E.use_sculpt_vertex_colors)) &&
    (update_flags &&& GPU_PBVH_BUFFERS_SHOW_VCOL != 0)
  let totelem := buffers.tot_tri * 3
  let r := gpu_pbvh_vert_buf_data_set buffers totelem alloc_ok
  let fill : MeshFill :=
    if r.2 then
      mesh_fill E r.1 show_mask show_face_sets show_vcol mvert vmask vcol sculpt_face_sets
        face_sets_color_seed face_sets_color_default vtcol
    else mesh_fill_init
  let buffers := if r.2 then vert_buf_write r.1 fill.writes else r.1
  let buffers := gpu_pbvh_batch_init buffers GPU_PRIM_TRIS
  let lt : MLoopTri := deref buffers.looptri (deref buffers.face_indices 0)
  let mp : MPoly := deref buffers.mpoly lt.poly
  { buffers with
    material_index := mp.mat_nr
    show_overlay := !fill.empty_mask || !fill.default_face_set
    mvert := some mvert }

/-- State of the counting loop of `GPU_pbvh_mesh_buffers_build`. -/
structure MeshCount where
  tottri : Nat
  tot_real_edges : Nat
  deriving DecidableEq, Repr

/-- Body of the counting loop of `GPU_pbvh_mesh_buffers_build`. -/
def mesh_count_tri (E : Deps) (mloop : List MLoop) (looptri : List MLoopTri) (mvert : List MVert)
    (face_indices : List Nat) (sculpt_face_sets : Option (List Int)) (mesh : Mesh)
    (c : MeshCount) (i : Nat) : MeshCount :=
  let lt := looptri.getD (face_indices.getD i 0) default
  if gpu_pbvh_is_looptri_visible E lt mvert mloop sculpt_face_sets then
    let tot_real_edges := (List.range 3).foldl
      (fun n j => if E.BKE_mesh_looptri_get_real_edges mesh lt j != -1 then n + 1 else n)
      c.tot_real_edges
    { tottri := c.tottri + 1, tot_real_edges := tot_real_edges }
  else c

/-- State of the line loop of `GPU_pbvh_mesh_buffers_build`. -/
structure MeshLines where
  elb_lines : GPUIndexBufBuilder
  vert_idx : Nat
  deriving DecidableEq, Repr

/-- Body of the line loop of `GPU_pbvh_mesh_buffers_build`. -/
def mesh_lines_tri (E : Deps) (mloop : List MLoop) (looptri : List MLoopTri) (mvert : List MVert)
    (face_indices : List Nat) (sculpt_face_sets : Option (List Int)) (mesh : Mesh)
    (s : MeshLines) (i : Nat) : MeshLines :=
  let lt := looptri.getD (face_indices.getD i 0) default
  if !gpu_pbvh_is_looptri_visible E lt mvert mloop sculpt_face_sets then s
  else
    let elb := s.elb_lines
    let elb := if E.BKE_mesh_looptri_get_real_edges mesh lt 0 != -1 then
        GPU_indexbuf_add_line_verts elb (s.vert_idx * 3 + 0) (s.vert_idx * 3 + 1) else elb
    let elb := if E.BKE_mesh_looptri_get_real_edges mesh lt 1 != -1 then
        GPU_indexbuf_add_line_verts elb (s.vert_idx * 3 + 1) (s.vert_idx * 3 + 2) else elb
    let elb := if E.BKE_mesh_looptri_get_real_edges mesh lt 2 != -1 then
        GPU_indexbuf_add_line_verts elb (s.vert_idx * 3 + 2) (s.vert_idx * 3 + 0) else elb
    { elb_lines := elb, vert_idx := s.vert_idx + 1 }

/-- Threaded - do not call any functions that use OpenGL calls! -/
def GPU_pbvh_mesh_buffers_build (E : Deps) (mpoly : List MPoly) (mloop : List MLoop)
    (looptri : List MLoopTri) (mvert : List MVert) (face_indices : List Nat)
    (sculpt_face_sets : Option (List Int)) (face_indices_len : Nat) (mesh : Mesh) :
    GPU_PBVH_Buffers :=
  let buffers := MEM_callocN
  let buffers := { buffers with
    smooth := (mpoly.getD (looptri.getD (face_indices.getD 0 0) default).poly default).flag
      &&& ME_SMOOTH != 0 }
  let buffers := { buffers with show_overlay := false }
  let c := (List.range face_indices_len).foldl
    (mesh_count_tri E mloop looptri mvert face_indices sculpt_face_sets mesh) ⟨0, 0⟩
  if c.tottri == 0 then
    { buffers with
      tot_tri := 0
      mpoly := some mpoly
      mloop := some mloop
      looptri := some looptri
      face_indices := some face_indices
      face_indices_len := 0 }
  else
    let elb_lines := GPU_indexbuf_init GPU_PRIM_LINES c.tot_real_edges INT_MAX
    let s := (List.range face_indices_len).foldl
      (mesh_lines_tri E mloop looptri mvert face_indices sculpt_face_sets mesh) ⟨elb_lines, 0⟩
    let r := GPU_indexbuf_build buffers s.elb_lines
    { r.2 with
      index_lines_buf := some r.1
      tot_tri := c.tottri
      mpoly := some mpoly
      mloop := some mloop
      looptri := some looptri
      face_indices := some face_indices
      face_indices_len := face_indices_len }

/-! ## Reference descriptions used by the statements -/

/-- The triangles visited by a loop whose counter runs through `steps`. -/
def visited_tris (looptri : List MLoopTri) (face_indices : List Nat) (steps : List Nat) :
    List MLoopTri :=
  steps.map (fun i => looptri.getD (face_indices.getD i 0) default)

/-- The triangles a loop over the first `len` face indices visits, in order. -/
def node_looptris (looptri : List MLoopTri) (face_indices : List Nat) (len : Nat) :
    List MLoopTri :=
  visited_tris looptri face_indices (List.range len)

/-- The visibility test of the mesh builder as a predicate on triangles. -/
def mesh_vis (E : Deps) (mvert : List MVert) (mloop : List MLoop)
    (sculpt_face_sets : Option (List Int)) (lt : MLoopTri) : Bool :=
  gpu_pbvh_is_looptri_visible E lt mvert mloop sculpt_face_sets

/-- The visible triangles of a mesh node, in face-index order. -/
def mesh_visible_tris (E : Deps) (mloop : List MLoop) (looptri : List MLoopTri)
    (mvert : List MVert) (face_indices : List Nat) (sculpt_face_sets : Option (List Int))
    (len : Nat) : List MLoopTri :=
  (node_looptris looptri face_indices len).filter (mesh_vis E mvert mloop sculpt_face_sets)

/-- The position writes among a list of attribute writes, as (slot, coordinate) pairs. -/
def pos_writes (ws : List VertWrite) : List (Nat × float3) :=
  ws.filterMap (fun w => match w.data with
    | AttrData.pos co => some (w.v_index, co)
    | _ => none)

/-- Number of writes of one attribute kind other than position and colour. -/
def nor_count (ws : List VertWrite) : Nat :=
  (ws.filter (fun w => match w.data with | AttrData.nor _ => true | _ => false)).length

def msk_count (ws : List VertWrite) : Nat :=
  (ws.filter (fun w => match w.data with | AttrData.msk _ => true | _ => false)).length

def fset_count (ws : List VertWrite) : Nat :=
  (ws.filter (fun w => match w.data with | AttrData.fset _ => true | _ => false)).length

/-- Three position records per triangle, one per corner, the `r`-th triangle of the list
occupying slots `3r`, `3r+1`, `3r+2` (counting from rank `r0`). -/
def mesh_corner_records (mvert : List MVert) (mloop : List MLoop) :
    List MLoopTri → Nat → List (Nat × float3)
  | [], _ => []
  | lt :: rest, r =>
    [(3 * r + 0, (mvert.getD (mloop.getD (lt.tri 0) default).v default).co),
     (3 * r + 1, (mvert.getD (mloop.getD (lt.tri 1) default).v default).co),
     (3 * r + 2, (mvert.getD (mloop.getD (lt.tri 2) default).v default).co)]
      ++ mesh_corner_records mvert mloop rest (r + 1)

/-- The wireframe lines of one triangle of rank `r`: for each edge slot `e` in 0, 1, 2 whose
edge is real, the line joining slots `3r+e` and `3r+((e+1) mod 3)`. -/
def real_edge_lines (E : Deps) (mesh : Mesh) (lt : MLoopTri) (r : Nat) : List Nat :=
  (([0, 1, 2] : List Nat).filter
      (fun e => E.BKE_mesh_looptri_get_real_edges mesh lt e != -1)).flatMap
    (fun e => [3 * r + e, 3 * r + (e + 1) % 3])

/-- The wireframe lines of a list of visible triangles, ranks counted from `r`. -/
def mesh_wire_lines (E : Deps) (mesh : Mesh) : List MLoopTri → Nat → List Nat
  | [], _ => []
  | lt :: rest, r => real_edge_lines E mesh lt r ++ mesh_wire_lines E mesh rest (r + 1)

/-- Number of real edges of a triangle. -/
def real_edge_count (E : Deps) (mesh : Mesh) (lt : MLoopTri) : Nat :=
  (([0, 1, 2] : List Nat).filter
      (fun e => E.BKE_mesh_looptri_get_real_edges mesh lt e != -1)).length

/-- What the fill loop has produced so far, as far as the statements below need it. -/
structure MeshFillView where
  pos_step : Nat
  nor_step : Nat
  msk_step : Nat
  fset_step : Nat
  col_step : Nat
  pos : List (Nat × float3)
  nor : Nat
  msk : Nat
  fset : Nat

def MeshFill.view (s : MeshFill) : MeshFillView :=
  ⟨s.pos_step, s.nor_step, s.msk_step, s.fset_step, s.col_step,
   pos_writes s.writes, nor_count s.writes, msk_count s.writes, fset_count s.writes⟩

/-- The view after `n` more vertices whose position records are `recs`. -/
def MeshFillView.advance (v : MeshFillView) (show_vcol : Bool) (n : Nat)
    (recs : List (Nat × float3)) : MeshFillView :=
  ⟨v.pos_step + n, v.nor_step + n, v.msk_step + n, v.fset_step + n,
   if show_vcol then v.col_step + n else v.col_step,
   v.pos ++ recs, v.nor + n, v.msk + n, v.fset + n⟩

/-! ## Concrete inputs used to instantiate the statements -/

/-- A set of external functions under which nothing is hidden and every edge is real. -/
def deps_plain : Deps :=
  { paint_is_face_hidden := fun _ _ _ => false
    paint_is_grid_face_hidden := fun gh gridsize x y => gh.getD (y * gridsize + x) false
    BKE_mesh_looptri_get_real_edges := fun _ _ j => j
    BKE_mesh_calc_poly_normal := fun _ _ _ => default
    normal_float_to_short_v3 := fun _ => default
    normal_quad_v3 := fun _ _ _ _ => default
    BKE_paint_face_set_overlay_color_get := fun _ _ => default
    BKE_subdiv_ccg_grid_to_face_index := fun _ g => g
    unit_float_to_ushort_clamp := fun f => f.bits
    BLI_color_from_srgb_table := fun n => ⟨n⟩
    fadd := fun a b => ⟨a.bits + b.bits⟩
    fmul := fun a b => ⟨a.bits * b.bits⟩
    fdiv := fun a b => ⟨a.bits / b.bits⟩
    float_of_int := fun i => ⟨i.toNat⟩
    float_to_uchar := fun f => f.bits % 256
    add_v3_v3 := fun a b => ⟨⟨a.x.bits + b.x.bits⟩, ⟨a.y.bits + b.y.bits⟩, ⟨a.z.bits + b.z.bits⟩⟩
    mul_v3_fl := fun a t => ⟨⟨a.x.bits * t.bits⟩, ⟨a.y.bits * t.bits⟩, ⟨a.z.bits * t.bits⟩⟩
    interp_v3_v3v3 := fun a b _ =>
      ⟨⟨(a.x.bits + b.x.bits) / 2⟩, ⟨(a.y.bits + b.y.bits) / 2⟩, ⟨(a.z.bits + b.z.bits) / 2⟩⟩
    CustomData_has_layer := fun cd t => cd.layers.any (fun l => l.type == t)
    CustomData_get_offset := fun cd t =>
      match cd.layers.findIdx? (fun l => l.type == t) with
      | some i => (cd.layers.getD (i + (cd.layers.getD i default).active) default).offset
      | none => -1
    CustomData_get_n_offset := fun cd t n =>
      match (cd.layers.filter (fun l => l.type == t)).get? n with
      | some l => l.offset
      | none => -1
    CustomData_get_layer_index := fun cd t =>
      match cd.layers.findIdx? (fun l => l.type == t) with
      | some i => i
      | none => -1
    CustomData_get_layer_index_n := fun cd t n =>
      match cd.layers.findIdx? (fun l => l.type == t) with
      | some i => if (cd.layers.getD (i + n) default).type == t then ((i + n : Nat) : Int) else -1
      | none => -1
    CustomData_get_active_layer_index := fun cd t =>
      match cd.layers.findIdx? (fun l => l.type == t) with
      | some i => ((i + (cd.layers.getD i default).active : Nat) : Int)
      | none => -1
    CustomData_get_render_layer_index := fun cd t =>
      match cd.layers.findIdx? (fun l => l.type == t) with
      | some i => ((i + (cd.layers.getD i default).active_rnd : Nat) : Int)
      | none => -1
    CustomData_number_of_layers := fun cd t => (cd.layers.filter (fun l => l.type == t)).length
    use_sculpt_vertex_colors := false
    debug_value := 0 }

/-- A one-triangle mesh. -/
def tri_mpoly : List MPoly := [⟨0, 3, 0, 0⟩]
def tri_mloop : List MLoop := [⟨0, 0⟩, ⟨1, 1⟩, ⟨2, 2⟩]
def tri_looptri : List MLoopTri := [⟨0, 1, 2, 0⟩]
def tri_mvert : List MVert :=
  [⟨⟨⟨0⟩, ⟨0⟩, ⟨0⟩⟩, default, 0⟩, ⟨⟨⟨1⟩, ⟨0⟩, ⟨0⟩⟩, default, 0⟩, ⟨⟨⟨0⟩, ⟨1⟩, ⟨0⟩⟩, default, 0⟩]
def tri_mesh : Mesh := ⟨tri_mloop, [⟨0, 1⟩, ⟨1, 2⟩, ⟨2, 0⟩]⟩

/-! ## Grid PBVH -/

/-- Modelled from the spec: `BKE_pbvh_count_grid_quads` of BKE_pbvh (not in src), the external
counting utility over the hidden bitmaps: the number of subfaces of the node grids that are not
hidden, a grid without bitmap counting all its `(gridsize - 1)^2` subfaces. -/
def BKE_pbvh_count_grid_quads (E : Deps) (grid_hidden : List (Option BLI_bitmap))
    (grid_indices : List Nat) (totgrid gridsize : Nat) : Nat :=
  (List.range totgrid).foldl (fun totquad i =>
    match grid_hidden.getD (grid_indices.getD i 0) none with
    | some gh =>
      (List.range (gridsize - 1)).foldl (fun totquad y =>
        (List.range (gridsize - 1)).foldl (fun totquad x =>
          if !E.paint_is_grid_face_hidden gh gridsize x y then totquad + 1 else totquad)
          totquad) totquad
    | none => totquad + (gridsize - 1) * (gridsize - 1)) 0

/-- The test `gh && paint_is_grid_face_hidden(gh, gridsize, k, j)`. -/
def grid_face_hidden (E : Deps) (gh : Option BLI_bitmap) (gridsize k j : Nat) : Bool :=
  match gh with
  | none => false
  | some b => E.paint_is_grid_face_hidden b gridsize k j

/-- Loop-carried state of `gpu_pbvh_grid_fill_index_buffers`: the four builders, the vertex
offset of the current grid, and the locals `v0 .. v3` and `grid_visible` of the grid loop body.
The locals have no initial value in C; they are read only after `grid_visible` was set, which
happens together with their assignment. -/
structure GridFill where
  elb : GPUIndexBufBuilder
  elb_fast : GPUIndexBufBuilder
  elb_lines : GPUIndexBufBuilder
  elb_lines_fast : GPUIndexBufBuilder
  offset : Nat
  v0 : Nat
  v1 : Nat
  v2 : Nat
  v3 : Nat
  grid_visible : Bool
  deriving DecidableEq, Repr

/-- Vertex slots of the four corners of subface `(k, j)`: in the smooth branch
`v0 = offset + j * gridsize + k, v1 = v0 + 1, v2 = v1 + gridsize, v3 = v2 - 1`, in the flat
branch `v0 = offset + (j * (gridsize - 1) + k) * 4, v1 = v0 + 1, v2 = v0 + 2, v3 = v0 + 3`. -/
def grid_quad_verts (smooth : Bool) (gridsize offset j k : Nat) : Nat × Nat × Nat × Nat :=
  if smooth then
    let v0 := offset + j * gridsize + k
    let v1 := v0 + 1
    let v2 := v1 + gridsize
    let v3 := v2 - 1
    (v0, v1, v2, v3)
  else
    let v0 := offset + (j * (gridsize - 1) + k) * 4
    (v0, v0 + 1, v0 + 2, v0 + 3)

/-- Number of vertices of one grid: `gridsize * gridsize` in the smooth branch,
`square_uint(gridsize - 1) * 4` in the flat branch. -/
def grid_vert_len (smooth : Bool) (gridsize : Nat) : Nat :=
  if smooth then gridsize * gridsize else (gridsize - 1) * (gridsize - 1) * 4

/-- Vertex slots of the four grid corners ("Grid corners" in either branch). -/
def grid_corner_verts (smooth : Bool) (gridsize offset : Nat) : Nat × Nat × Nat × Nat :=
  if smooth then
    (offset, offset + gridsize - 1, offset + grid_vert_len true gridsize - 1,
     offset + grid_vert_len true gridsize - gridsize)
  else
    (offset, offset + (gridsize - 1) * 4 - 3, offset + grid_vert_len false gridsize - 2,
     offset + grid_vert_len false gridsize - (gridsize - 1) * 4 + 3)

/-- Body of the loop over `k` of `gpu_pbvh_grid_fill_index_buffers` (the two branches differ
only in `grid_quad_verts`). -/
def grid_fill_quad (E : Deps) (smooth : Bool) (gh : Option BLI_bitmap) (gridsize j : Nat)
    (s : GridFill) (k : Nat) : GridFill :=
  if grid_face_hidden E gh gridsize k j then s
  else
    let v := grid_quad_verts smooth gridsize s.offset j k
    let v0 := v.1
    let v1 := v.2.1
    let v2 := v.2.2.1
    let v3 := v.2.2.2
    let elb := GPU_indexbuf_add_tri_verts s.elb v0 v2 v1
    let elb := GPU_indexbuf_add_tri_verts elb v0 v3 v2
    let elb_lines := GPU_indexbuf_add_line_verts s.elb_lines v0 v1
    let elb_lines := GPU_indexbuf_add_line_verts elb_lines v0 v3
    let elb_lines := if j + 2 == gridsize then GPU_indexbuf_add_line_verts elb_lines v2 v3
      else elb_lines
    { s with elb := elb, elb_lines := elb_lines, v0 := v0, v1 := v1, v2 := v2, v3 := v3
             grid_visible := true }

/-- Body of the loop over `j` of `gpu_pbvh_grid_fill_index_buffers`. -/
def grid_fill_row (E : Deps) (smooth : Bool) (gh : Option BLI_bitmap) (gridsize : Nat)
    (s : GridFill) (j : Nat) : GridFill :=
  let s := (List.range (gridsize - 1)).foldl (grid_fill_quad E smooth gh gridsize j) s
  if s.grid_visible then
    { s with elb_lines := GPU_indexbuf_add_line_verts s.elb_lines s.v1 s.v2 }
  else s

/-- Body of the loop over the grids of `gpu_pbvh_grid_fill_index_buffers`. -/
def grid_fill_grid (E : Deps) (smooth : Bool) (grid_hidden : List (Option BLI_bitmap))
    (grid_indices : List Nat) (gridsize : Nat) (s : GridFill) (i : Nat) : GridFill :=
  let s := { s with grid_visible := false }
  let gh := grid_hidden.getD (grid_indices.getD i 0) none
  let s := (List.range (gridsize - 1)).foldl (grid_fill_row E smooth gh gridsize) s
  let s :=
    if s.grid_visible then
      let v := grid_corner_verts smooth gridsize s.offset
      let v0 := v.1
      let v1 := v.2.1
      let v2 := v.2.2.1
      let v3 := v.2.2.2
      let elb_fast := GPU_indexbuf_add_tri_verts s.elb_fast v0 v2 v1
      let elb_fast := GPU_indexbuf_add_tri_verts elb_fast v0 v3 v2
      let elb_lines_fast := GPU_indexbuf_add_line_verts s.elb_lines_fast v0 v1
      let elb_lines_fast := GPU_indexbuf_add_line_verts elb_lines_fast v1 v2
      let elb_lines_fast := GPU_indexbuf_add_line_verts elb_lines_fast v2 v3
      let elb_lines_fast := GPU_indexbuf_add_line_verts elb_lines_fast v3 v0
      { s with elb_fast := elb_fast, elb_lines_fast := elb_lines_fast
               v0 := v0, v1 := v1, v2 := v2, v3 := v3 }
    else s
  { s with offset := s.offset + grid_vert_len smooth gridsize }

/-- The four builders as `gpu_pbvh_grid_fill_index_buffers` sets them up. -/
def grid_fill_init (visible_quad_len totgrid gridsize : Nat) : GridFill :=
  { elb := GPU_indexbuf_init GPU_PRIM_TRIS (2 * visible_quad_len) INT_MAX
    elb_fast := GPU_indexbuf_init GPU_PRIM_TRIS (2 * totgrid) INT_MAX
    elb_lines := GPU_indexbuf_init GPU_PRIM_LINES (2 * totgrid * gridsize * (gridsize - 1)) INT_MAX
    elb_lines_fast := GPU_indexbuf_init GPU_PRIM_LINES (4 * totgrid) INT_MAX
    offset := 0, v0 := 0, v1 := 0, v2 := 0, v3 := 0, grid_visible := false }

/-- The filling loops of `gpu_pbvh_grid_fill_index_buffers`. -/
def grid_fill (E : Deps) (smooth : Bool) (grid_hidden : List (Option BLI_bitmap))
    (grid_indices : List Nat) (visible_quad_len totgrid gridsize : Nat) : GridFill :=
  (List.range totgrid).foldl (grid_fill_grid E smooth grid_hidden grid_indices gridsize)
    (grid_fill_init visible_quad_len totgrid gridsize)

def gpu_pbvh_grid_fill_index_buffers (E : Deps) (buffers : GPU_PBVH_Buffers)
    (grid_indices : List Nat) (visible_quad_len totgrid gridsize : Nat) : GPU_PBVH_Buffers :=
  let s := grid_fill E buffers.smooth (buffers.grid_hidden.getD []) grid_indices
    visible_quad_len totgrid gridsize
  let r := GPU_indexbuf_build buffers s.elb
  let buffers := { r.2 with index_buf := some r.1 }
  let r := GPU_indexbuf_build buffers s.elb_fast
  let buffers := { r.2 with index_buf_fast := some r.1 }
  let r := GPU_indexbuf_build buffers s.elb_lines
  let buffers := { r.2 with index_lines_buf := some r.1 }
  let r := GPU_indexbuf_build buffers s.elb_lines_fast
  { r.2 with index_lines_buf_fast := some r.1 }

/-- Discards a batch (`GPU_BATCH_DISCARD_SAFE`), an index buffer (`GPU_INDEXBUF_DISCARD_SAFE`)
or a vertex buffer (`GPU_VERTBUF_DISCARD_SAFE`): the pointer becomes `NULL`; an absent resource
stays absent. -/
def DISCARD_SAFE {α : Type} (_p : Option α) : Option α := none

def GPU_pbvh_grid_buffers_update_free (buffers : GPU_PBVH_Buffers)
    (grid_flag_mats : List DMFlagMat) (grid_indices : List Nat) : GPU_PBVH_Buffers :=
  let smooth := (grid_flag_mats.getD (grid_indices.getD 0 0) default).flag &&& ME_SMOOTH != 0
  if buffers.smooth != smooth then
    { buffers with
      smooth := smooth
      triangles := DISCARD_SAFE buffers.triangles
      triangles_fast := DISCARD_SAFE buffers.triangles_fast
      lines := DISCARD_SAFE buffers.lines
      lines_fast := DISCARD_SAFE buffers.lines_fast
      index_buf := DISCARD_SAFE buffers.index_buf
      index_buf_fast := DISCARD_SAFE buffers.index_buf_fast
      index_lines_buf := DISCARD_SAFE buffers.index_lines_buf
      index_lines_buf_fast := DISCARD_SAFE buffers.index_lines_buf_fast }
  else buffers

/-- Loop-carried state of the vertex loops of `GPU_pbvh_grid_buffers_update`. -/
structure GridVbo where
  vbo_index : Nat
  vbo_index_offset : Nat
  empty_mask : Bool
  default_face_set : Bool
  writes : List VertWrite
  deriving DecidableEq, Repr

def white_ushort4 : ushort4 := ⟨USHRT_MAX, USHRT_MAX, USHRT_MAX, USHRT_MAX⟩

/-- Body of the loop over `x` in the smooth branch of `GPU_pbvh_grid_buffers_update`. -/
def grid_vbo_smooth_elem (E : Deps) (key : CCGKey) (grid : List CCGElem)
    (show_mask show_vcol : Bool) (face_set_color : uchar4) (y : Nat) (s : GridVbo) (x : Nat) :
    GridVbo :=
  let elem := CCG_grid_elem key grid x y
  let w := [(⟨s.vbo_index, AttrData.pos elem.co⟩ : VertWrite),
            ⟨s.vbo_index, AttrData.nor (E.normal_float_to_short_v3 elem.no)⟩]
  let cmask := E.float_to_uchar (E.fmul elem.mask (E.float_of_int 255))
  let w := if key.has_mask && show_mask then w ++ [⟨s.vbo_index, AttrData.msk cmask⟩] else w
  let empty_mask := if key.has_mask && show_mask then s.empty_mask && (cmask == 0)
    else s.empty_mask
  let w := if show_vcol then w ++ [⟨s.vbo_index, AttrData.col 0 white_ushort4⟩] else w
  let w := w ++ [⟨s.vbo_index, AttrData.fset face_set_color.to3⟩]
  { s with vbo_index := s.vbo_index + 1, empty_mask := empty_mask, writes := s.writes ++ w }

/-- Body of the loop over `k` in the flat branch of `GPU_pbvh_grid_buffers_update`. -/
def grid_vbo_flat_quad (E : Deps) (key : CCGKey) (grid : List CCGElem)
    (show_mask : Bool) (face_set_color : uchar4) (j : Nat) (s : GridVbo) (k : Nat) : GridVbo :=
  let e0 := CCG_grid_elem key grid k j
  let e1 := CCG_grid_elem key grid (k + 1) j
  let e2 := CCG_grid_elem key grid (k + 1) (j + 1)
  let e3 := CCG_grid_elem key grid k (j + 1)
  let fno := E.normal_quad_v3 e3.co e2.co e1.co e0.co
  let no_short := E.normal_float_to_short_v3 fno
  let w := [(⟨s.vbo_index + 0, AttrData.pos e0.co⟩ : VertWrite),
            ⟨s.vbo_index + 0, AttrData.nor no_short⟩,
            ⟨s.vbo_index + 1, AttrData.pos e1.co⟩,
            ⟨s.vbo_index + 1, AttrData.nor no_short⟩,
            ⟨s.vbo_index + 2, AttrData.pos e2.co⟩,
            ⟨s.vbo_index + 2, AttrData.nor no_short⟩,
            ⟨s.vbo_index + 3, AttrData.pos e3.co⟩,
            ⟨s.vbo_index + 3, AttrData.nor no_short⟩]
  let fmask := E.fmul (E.fadd (E.fadd (E.fadd e0.mask e1.mask) e2.mask) e3.mask)
    (E.fdiv (E.float_of_int 1) (E.float_of_int 4))
  let cmask := E.float_to_uchar (E.fmul fmask (E.float_of_int 255))
  let w := if key.has_mask && show_mask then
      w ++ [⟨s.vbo_index + 0, AttrData.msk cmask⟩, ⟨s.vbo_index + 1, AttrData.msk cmask⟩,
            ⟨s.vbo_index + 2, AttrData.msk cmask⟩, ⟨s.vbo_index + 3, AttrData.msk cmask⟩]
    else w
  let empty_mask := if key.has_mask && show_mask then s.empty_mask && (cmask == 0)
    else s.empty_mask
  let w := w ++ [⟨s.vbo_index + 0, AttrData.col 0 white_ushort4⟩,
                 ⟨s.vbo_index + 1, AttrData.col 0 white_ushort4⟩,
                 ⟨s.vbo_index + 2, AttrData.col 0 white_ushort4⟩,
                 ⟨s.vbo_index + 3, AttrData.col 0 white_ushort4⟩]
  let w := w ++ [⟨s.vbo_index + 0, AttrData.fset face_set_color.to3⟩,
                 ⟨s.vbo_index + 1, AttrData.fset face_set_color.to3⟩,
                 ⟨s.vbo_index + 2, AttrData.fset face_set_color.to3⟩,
                 ⟨s.vbo_index + 3, AttrData.fset face_set_color.to3⟩]
  { s with vbo_index := s.vbo_index + 4, empty_mask := empty_mask, writes := s.writes ++ w }

/-- Body of the loop over the grids in `GPU_pbvh_grid_buffers_update`. -/
def grid_vbo_grid (E : Deps) (smooth : Bool) (subdiv_ccg : Option SubdivCCG)
    (grids : List (List CCGElem)) (grid_indices : List Nat)
    (sculpt_face_sets : Option (List Int)) (face_sets_color_seed face_sets_color_default : Int)
    (key : CCGKey) (show_mask show_vcol show_face_sets : Bool) (s : GridVbo) (i : Nat) :
    GridVbo :=
  let grid_index := grid_indices.getD i 0
  let grid := grids.getD grid_index []
  let s := { s with vbo_index := s.vbo_index_offset }
  let white : uchar4 := ⟨UCHAR_MAX, UCHAR_MAX, UCHAR_MAX, UCHAR_MAX⟩
  let fs : uchar4 × Bool :=
    match subdiv_ccg with
    | some ccg =>
      if show_face_sets && sculpt_face_sets.isSome then
        let face_index := E.BKE_subdiv_ccg_grid_to_face_index ccg grid_index
        let fset : Int := |deref sculpt_face_sets face_index|
        if fset != face_sets_color_default then
          (E.BKE_paint_face_set_overlay_color_get fset face_sets_color_seed, false)
        else (white, s.default_face_set)
      else (white, s.default_face_set)
    | none => (white, s.default_face_set)
  let s := { s with default_face_set := fs.2 }
  if smooth then
    let s := (List.range key.grid_size).foldl (fun s y =>
      (List.range key.grid_size).foldl
        (grid_vbo_smooth_elem E key grid show_mask show_vcol fs.1 y) s) s
    { s with vbo_index_offset := s.vbo_index_offset + key.grid_area }
  else
    let s := (List.range (key.grid_size - 1)).foldl (fun s j =>
      (List.range (key.grid_size - 1)).foldl
        (grid_vbo_flat_quad E key grid show_mask fs.1 j) s) s
    { s with vbo_index_offset :=
        s.vbo_index_offset + (key.grid_size - 1) * (key.grid_size - 1) * 4 }

def grid_vbo_init : GridVbo :=
  { vbo_index := 0, vbo_index_offset := 0, empty_mask := true, default_face_set := true
    writes := [] }

/-- The vertex loops of `GPU_pbvh_grid_buffers_update`. -/
def grid_vbo (E : Deps) (smooth : Bool) (subdiv_ccg : Option SubdivCCG)
    (grids : List (List CCGElem)) (grid_indices : List Nat) (totgrid : Nat)
    (sculpt_face_sets : Option (List Int)) (face_sets_color_seed face_sets_color_default : Int)
    (key : CCGKey) (show_mask show_vcol show_face_sets : Bool) : GridVbo :=
  (List.range totgrid).foldl
    (grid_vbo_grid E smooth subdiv_ccg grids grid_indices sculpt_face_sets face_sets_color_seed
      face_sets_color_default key show_mask show_vcol show_face_sets) grid_vbo_init

/-- Number of vertices `GPU_pbvh_grid_buffers_update` allocates per grid. -/
def grid_vert_per_grid (smooth : Bool) (key : CCGKey) : Nat :=
  if smooth then key.grid_area else (key.grid_size - 1) * (key.grid_size - 1) * 4

/-- Threaded - do not call any functions that use OpenGL calls! -/
def GPU_pbvh_grid_buffers_update (E : Deps) (alloc_ok : Bool) (buffers : GPU_PBVH_Buffers)
    (subdiv_ccg : Option SubdivCCG) (grids : List (List CCGElem))
    (grid_flag_mats : List DMFlagMat) (grid_indices : List Nat) (totgrid : Nat)
    (sculpt_face_sets : Option (List Int)) (face_sets_color_seed face_sets_color_default : Int)
    (key : CCGKey) (update_flags : Nat) : GPU_PBVH_Buffers :=
  let show_mask := update_flags &&& GPU_PBVH_BUFFERS_SHOW_MASK != 0
  let show_vcol := update_flags &&& GPU_PBVH_BUFFERS_SHOW_VCOL != 0
  let show_face_sets := sculpt_face_sets.isSome &&
    (update_flags &&& GPU_PBVH_BUFFERS_SHOW_SCULPT_FACE_SETS != 0)
  let buffers := { buffers with
    smooth := (grid_flag_mats.getD (grid_indices.getD 0 0) default).flag &&& ME_SMOOTH != 0 }
  let vert_per_grid := grid_vert_per_grid buffers.smooth key
  let vert_count := totgrid * vert_per_grid
  let visible_quad_len := BKE_pbvh_count_grid_quads E (buffers.grid_hidden.getD [])
    grid_indices totgrid key.grid_size
  if buffers.index_buf.isNone && visible_quad_len == 0 then
    buffers
  else
    let buffers :=
      if buffers.index_buf.isNone then
        gpu_pbvh_grid_fill_index_buffers E buffers grid_indices visible_quad_len totgrid
          key.grid_size
      else buffers
    let r := gpu_pbvh_vert_buf_data_set buffers vert_count alloc_ok
    let fill : GridVbo :=
      if r.2 then
        grid_vbo E r.1.smooth subdiv_ccg grids grid_indices totgrid sculpt_face_sets
          face_sets_color_seed face_sets_color_default key show_mask show_vcol show_face_sets
      else grid_vbo_init
    let buffers :=
      if r.2 then gpu_pbvh_batch_init (vert_buf_write r.1 fill.writes) GPU_PRIM_TRIS else r.1
    { buffers with
      material_index := (grid_flag_mats.getD (grid_indices.getD 0 0) default).mat_nr
      grids := some grids
      grid_indices := some grid_indices
      totgrid := totgrid
      grid_flag_mats := some grid_flag_mats
      gridkey := key
      show_overlay := !fill.empty_mask || !fill.default_face_set }

/-- Threaded - do not call any functions that use OpenGL calls! -/
def GPU_pbvh_grid_buffers_build (totgrid : Nat) (grid_hidden : List (Option BLI_bitmap)) :
    GPU_PBVH_Buffers :=
  let buffers := MEM_callocN
  { buffers with
    grid_hidden := some grid_hidden
    totgrid := totgrid
    show_overlay := false }

/-! ## Reference descriptions for the grid index buffers -/

/-- A builder with further indices appended. -/
def GPUIndexBufBuilder.extend (elb : GPUIndexBufBuilder) (xs : List Nat) : GPUIndexBufBuilder :=
  { elb with data := elb.data ++ xs }

/-- The two triangles `(v0, v2, v1)` and `(v0, v3, v2)` over four corner slots. -/
def quad_tris (v : Nat × Nat × Nat × Nat) : List Nat :=
  [v.1, v.2.2.1, v.2.1, v.1, v.2.2.2, v.2.2.1]

/-- The four lines `v0-v1, v1-v2, v2-v3, v3-v0` over four corner slots. -/
def quad_outline (v : Nat × Nat × Nat × Nat) : List Nat :=
  [v.1, v.2.1, v.2.1, v.2.2.1, v.2.2.1, v.2.2.2, v.2.2.2, v.1]

/-- The columns `k` among `ks` whose subface `(k, j)` is not hidden. -/
def row_visible (E : Deps) (gh : Option BLI_bitmap) (gridsize j : Nat) (ks : List Nat) :
    List Nat :=
  ks.filter (fun k => !grid_face_hidden E gh gridsize k j)

/-- Two triangles for every non-hidden subface of row `j`. -/
def row_tris (E : Deps) (smooth : Bool) (gh : Option BLI_bitmap) (gridsize offset j : Nat)
    (ks : List Nat) : List Nat :=
  (row_visible E gh gridsize j ks).flatMap
    (fun k => quad_tris (grid_quad_verts smooth gridsize offset j k))

/-- Two triangles for every non-hidden subface of a grid, rows in order. -/
def grid_tris (E : Deps) (smooth : Bool) (gh : Option BLI_bitmap) (gridsize offset : Nat)
    (js ks : List Nat) : List Nat :=
  js.flatMap (fun j => row_tris E smooth gh gridsize offset j ks)

/-- Does a grid have a subface that is not hidden. -/
def grid_has_visible (E : Deps) (gh : Option BLI_bitmap) (gridsize : Nat) (js ks : List Nat) :
    Bool :=
  js.any (fun j => ks.any (fun k => !grid_face_hidden E gh gridsize k j))

/-- Number of non-hidden subfaces of a grid. -/
def grid_visible_count (E : Deps) (gh : Option BLI_bitmap) (gridsize : Nat) (js ks : List Nat) :
    Nat :=
  (js.map (fun j => (row_visible E gh gridsize j ks).length)).sum

/-- The hidden bitmap of the grid at position `i` of the node. -/
def node_grid_hidden (grid_hidden : List (Option BLI_bitmap)) (grid_indices : List Nat)
    (i : Nat) : Option BLI_bitmap :=
  grid_hidden.getD (grid_indices.getD i 0) none

/-- The full-resolution triangle list of a node: for the grid at position `i`, whose vertices
start at slot `i * grid_vert_len`, two triangles per non-hidden subface. -/
def node_tris (E : Deps) (smooth : Bool) (grid_hidden : List (Option BLI_bitmap))
    (grid_indices : List Nat) (gridsize : Nat) (positions : List Nat) : List Nat :=
  positions.flatMap (fun i =>
    grid_tris E smooth (node_grid_hidden grid_hidden grid_indices i) gridsize
      (i * grid_vert_len smooth gridsize)
      (List.range (gridsize - 1)) (List.range (gridsize - 1)))

/-- The positions of the node grids that have a non-hidden subface. -/
def node_visible_grids (E : Deps) (grid_hidden : List (Option BLI_bitmap))
    (grid_indices : List Nat) (gridsize : Nat) (positions : List Nat) : List Nat :=
  positions.filter (fun i =>
    grid_has_visible E (node_grid_hidden grid_hidden grid_indices i) gridsize
      (List.range (gridsize - 1)) (List.range (gridsize - 1)))

/-- The coarse triangle list of a node: two triangles over the four corner slots of every grid
that has a non-hidden subface. -/
def node_tris_fast (E : Deps) (smooth : Bool) (grid_hidden : List (Option BLI_bitmap))
    (grid_indices : List Nat) (gridsize : Nat) (positions : List Nat) : List Nat :=
  (node_visible_grids E grid_hidden grid_indices gridsize positions).flatMap (fun i =>
    quad_tris (grid_corner_verts smooth gridsize (i * grid_vert_len smooth gridsize)))

/-- The coarse wireframe of a node: four lines over the four corner slots of every grid that has
a non-hidden subface. -/
def node_lines_fast (E : Deps) (smooth : Bool) (grid_hidden : List (Option BLI_bitmap))
    (grid_indices : List Nat) (gridsize : Nat) (positions : List Nat) : List Nat :=
  (node_visible_grids E grid_hidden grid_indices gridsize positions).flatMap (fun i =>
    quad_outline (grid_corner_verts smooth gridsize (i * grid_vert_len smooth gridsize)))

/-- Total number of non-hidden subfaces of a node. -/
def node_visible_count (E : Deps) (grid_hidden : List (Option BLI_bitmap))
    (grid_indices : List Nat) (gridsize : Nat) (positions : List Nat) : Nat :=
  (positions.map (fun i =>
    grid_visible_count E (node_grid_hidden grid_hidden grid_indices i) gridsize
      (List.range (gridsize - 1)) (List.range (gridsize - 1)))).sum

/-- The part of the fill state that the triangle and coarse buffers depend on. -/
structure GridFillCore where
  elb : GPUIndexBufBuilder
  elb_fast : GPUIndexBufBuilder
  elb_lines_fast : GPUIndexBufBuilder
  offset : Nat
  grid_visible : Bool

def GridFill.core (s : GridFill) : GridFillCore :=
  ⟨s.elb, s.elb_fast, s.elb_lines_fast, s.offset, s.grid_visible⟩

/-! ## Reference descriptions for the grid vertex buffer -/

/-- Coordinates of the elements of a grid, row by row (`y` outer, `x` inner). -/
def grid_smooth_cos (key : CCGKey) (grid : List CCGElem) (ys xs : List Nat) : List float3 :=
  ys.flatMap (fun y => xs.map (fun x => (CCG_grid_elem key grid x y).co))

/-- Coordinates of the four corners `(k, j), (k+1, j), (k+1, j+1), (k, j+1)` of subface
`(k, j)`. -/
def quad_corner_cos (key : CCGKey) (grid : List CCGElem) (j k : Nat) : List float3 :=
  [(CCG_grid_elem key grid k j).co, (CCG_grid_elem key grid (k + 1) j).co,
   (CCG_grid_elem key grid (k + 1) (j + 1)).co, (CCG_grid_elem key grid k (j + 1)).co]

/-- Corner coordinates of all subfaces of a grid, row by row (`j` outer, `k` inner). -/
def grid_flat_cos (key : CCGKey) (grid : List CCGElem) (js ks : List Nat) : List float3 :=
  js.flatMap (fun j => ks.flatMap (fun k => quad_corner_cos key grid j k))

/-- The grid at position `i` of the node. -/
def node_grid (grids : List (List CCGElem)) (grid_indices : List Nat) (i : Nat) : List CCGElem :=
  grids.getD (grid_indices.getD i 0) []

/-- The coordinates one grid contributes to the vertex buffer. -/
def grid_cos (smooth : Bool) (key : CCGKey) (grid : List CCGElem) : List float3 :=
  if smooth then
    grid_smooth_cos key grid (List.range key.grid_size) (List.range key.grid_size)
  else
    grid_flat_cos key grid (List.range (key.grid_size - 1)) (List.range (key.grid_size - 1))

/-- The coordinates the grids at the given positions contribute, in order. -/
def node_cos (smooth : Bool) (key : CCGKey) (grids : List (List CCGElem))
    (grid_indices : List Nat) (positions : List Nat) : List float3 :=
  positions.flatMap (fun i => grid_cos smooth key (node_grid grids grid_indices i))

/-- The part of the vertex-loop state that the position records depend on. -/
structure GridVboView where
  vbo_index : Nat
  vbo_index_offset : Nat
  pos : List (Nat × float3)

def GridVbo.view (s : GridVbo) : GridVboView :=
  ⟨s.vbo_index, s.vbo_index_offset, pos_writes s.writes⟩

/-- The shading mode `GPU_pbvh_grid_buffers_update` derives from the first grid of the node. -/
def grid_smooth_flag (grid_flag_mats : List DMFlagMat) (grid_indices : List Nat) : Bool :=
  (grid_flag_mats.getD (grid_indices.getD 0 0) default).flag &&& ME_SMOOTH != 0

/-- Handle of the vertex buffer after `gpu_pbvh_vert_buf_data_set`: the existing one, or the
fresh handle of the buffer it creates. -/
def vert_buf_handle_after (buffers : GPU_PBVH_Buffers) : Nat :=
  match buffers.vert_buf with
  | some vb => vb.handle
  | none => buffers.next_handle

/-- Content of the storage after a successful `gpu_pbvh_vert_buf_data_set`: what was there when
the storage is kept (it exists and has the requested length), nothing when it is reallocated. -/
def vert_buf_kept (buffers : GPU_PBVH_Buffers) (vert_len : Nat) : List VertWrite :=
  match buffers.vert_buf with
  | some vb => if vb.data.isNone || vb.vertex_len != vert_len then [] else vb.data.getD []
  | none => []

/-- A node of one smooth grid of size 2 without hidden bitmap. -/
def one_grid : List (List CCGElem) :=
  [[⟨⟨⟨0⟩, ⟨0⟩, ⟨0⟩⟩, default, ⟨0⟩⟩, ⟨⟨⟨1⟩, ⟨0⟩, ⟨0⟩⟩, default, ⟨0⟩⟩,
    ⟨⟨⟨0⟩, ⟨1⟩, ⟨0⟩⟩, default, ⟨0⟩⟩, ⟨⟨⟨1⟩, ⟨1⟩, ⟨0⟩⟩, default, ⟨0⟩⟩]]
def one_grid_key : CCGKey := ⟨2, 4, false⟩
def one_grid_flag_mats : List DMFlagMat := [⟨0, 1⟩]

/-! ## BMesh PBVH -/

/-- The colour written into a colour slot from a float colour layer value. -/
def propcol_to_ushort4 (E : Deps) (c : MPropCol) : ushort4 :=
  ⟨E.unit_float_to_ushort_clamp c.color0, E.unit_float_to_ushort_clamp c.color1,
   E.unit_float_to_ushort_clamp c.color2, E.unit_float_to_ushort_clamp c.color3⟩

/-- The colour writes `for (i < n) GPU_vertbuf_attr_set(vert_buf, g_vbo_id.col[i], v_index, ...)`
reading the float colour layers of a vertex at the given offsets. -/
def vcol_writes (E : Deps) (v : BMVert) (v_index : Nat) (cd_vcol_offsets : List Int) (n : Nat) :
    List VertWrite :=
  (List.range n).map (fun i =>
    ⟨v_index, AttrData.col i
      (propcol_to_ushort4 E (BM_ELEM_CD_GET_PROPCOL v.cd (cd_vcol_offsets.getD i 0)))⟩)

/-- Output a BMVert into a VertexBufferFormat array at v_index.  Returns the writes and the new
value of `*empty_mask`.  `fno` and `fmask` may be `NULL`. -/
def gpu_bmesh_vert_to_buffer_copy (E : Deps) (v : BMVert) (v_index : Nat)
    (fno : Option float3) (fmask : Option float) (cd_vert_mask_offset cd_vert_node_offset : Int)
    (show_mask show_vcol : Bool) (empty_mask : Bool) (cd_vcol_offsets : List Int)
    (totvcol : Int) : List VertWrite × Bool :=
  let w := [(⟨v_index, AttrData.pos v.co⟩ : VertWrite),
            ⟨v_index, AttrData.nor (E.normal_float_to_short_v3 (fno.getD v.no))⟩]
  let effective_mask := fmask.getD (BM_ELEM_CD_GET_FLOAT v.cd cd_vert_mask_offset)
  let effective_mask :=
    if E.debug_value == 889 then
      let ni := BM_ELEM_CD_GET_INT v.cd cd_vert_node_offset
      if ni == -1 then E.float_of_int 0
      else E.fdiv (E.float_of_int ((ni * 50).tmod 32)) (E.float_of_int 32)
    else effective_mask
  let cmask := E.float_to_uchar (E.fmul effective_mask (E.float_of_int 255))
  let w := if show_mask then w ++ [⟨v_index, AttrData.msk cmask⟩] else w
  let empty_mask := if show_mask then empty_mask && (cmask == 0) else empty_mask
  let w :=
    if show_vcol && decide (totvcol > 0) then
      w ++ vcol_writes E v v_index cd_vcol_offsets totvcol.toNat
    else if show_vcol then w ++ [⟨v_index, AttrData.col 0 white_ushort4⟩]
    else w
  let w := w ++ [⟨v_index, AttrData.fset ⟨UCHAR_MAX, UCHAR_MAX, UCHAR_MAX⟩⟩]
  (w, empty_mask)

/-- Return the total number of visible faces -/
def gpu_bmesh_face_visible_count (bm_faces : TableGSet BMFace) (mat_nr : Int) : Nat :=
  bm_faces.foldl (fun totface f =>
    if !BM_elem_hidden f.hflag && f.mat_nr == mat_nr then totface + 1 else totface) 0

def GPU_pbvh_bmesh_buffers_update_free (buffers : GPU_PBVH_Buffers) : GPU_PBVH_Buffers :=
  if buffers.smooth then
    { buffers with
      triangles := DISCARD_SAFE buffers.triangles
      lines := DISCARD_SAFE buffers.lines
      index_lines_buf := DISCARD_SAFE buffers.index_lines_buf
      index_buf := DISCARD_SAFE buffers.index_buf }
  else
    { buffers with
      lines := DISCARD_SAFE buffers.lines
      index_lines_buf := DISCARD_SAFE buffers.index_lines_buf }

/-- A write `a[i] = v` into a C array.  A write past the end of the array is recorded by growing
the list, so that it stays visible. -/
def array_write (a : List Int) (i : Nat) (v : Int) : List Int :=
  if i < a.length then a.set i v else a ++ List.replicate (i - a.length) 0 ++ [v]

/-- Loop-carried state of the layer loop of `gpu_pbvh_bmesh_make_vcol_offs`. -/
structure VcolOffs where
  r_cd_vcols : List Int
  r_cd_layers : List Int
  count : Nat
  stop : Bool
  deriving DecidableEq, Repr

/-- Body of the layer loop of `gpu_pbvh_bmesh_make_vcol_offs` (`stop` records the `break`). -/
def make_vcol_offs_layer (E : Deps) (vdata : CustomData) (s : VcolOffs) (i : Nat) : VcolOffs :=
  if s.stop then s
  else
    let idx := E.CustomData_get_layer_index_n vdata CD_PROP_COLOR i
    if idx < 0 then { s with stop := true }
    else
      let cl := vdata.layers.getD idx.toNat default
      if cl.flag &&& CD_FLAG_TEMPORARY != 0 then s
      else
        { s with
          r_cd_layers := array_write s.r_cd_layers s.count idx
          r_cd_vcols := array_write s.r_cd_vcols s.count
            (E.CustomData_get_n_offset vdata CD_PROP_COLOR i)
          count := s.count + 1 }

/-- Body of the loop of `gpu_pbvh_bmesh_make_vcol_offs` that moves the render layer last. -/
def make_vcol_offs_swap (render : Int) (s : VcolOffs) (i : Nat) : VcolOffs :=
  if s.stop then s
  else if s.r_cd_layers.getD i 0 == render then
    let li := s.r_cd_layers.getD i 0
    let ll := s.r_cd_layers.getD (s.count - 1) 0
    let vi := s.r_cd_vcols.getD i 0
    let vl := s.r_cd_vcols.getD (s.count - 1) 0
    { s with
      r_cd_layers := array_write (array_write s.r_cd_layers i ll) (s.count - 1) li
      r_cd_vcols := array_write (array_write s.r_cd_vcols i vl) (s.count - 1) vi
      stop := true }
  else s

/-- The two output arrays (`int[MAX_MCOL]`, passed in uninitialised; here zero-filled) and the
returned count of `gpu_pbvh_bmesh_make_vcol_offs`. -/
def gpu_pbvh_bmesh_make_vcol_offs (E : Deps) (vdata : CustomData) (active_only : Bool) :
    List Int × List Int × Int :=
  let r_cd_vcols := List.replicate MAX_MCOL (0 : Int)
  let r_cd_layers := List.replicate MAX_MCOL (0 : Int)
  if active_only then
    let idx := E.CustomData_get_offset vdata CD_PROP_COLOR
    if idx >= 0 then
      (array_write r_cd_vcols 0 idx,
       array_write r_cd_layers 0 (E.CustomData_get_active_layer_index vdata CD_PROP_COLOR), 1)
    else (r_cd_vcols, r_cd_layers, 0)
  else
    let tot := E.CustomData_number_of_layers vdata CD_PROP_COLOR
    let s := (List.range tot).foldl (make_vcol_offs_layer E vdata)
      ⟨r_cd_vcols, r_cd_layers, 0, false⟩
    let render := E.CustomData_get_render_layer_index vdata CD_PROP_COLOR
    let s := (List.range s.count).foldl (make_vcol_offs_swap render) { s with stop := false }
    (s.r_cd_vcols, s.r_cd_layers, s.count)

/-- The writes of `gpu_flat_vcol_make_vert`: the colour slots, then coordinate and normal. -/
def gpu_flat_vcol_make_vert (E : Deps) (co : float3) (v : BMVert) (v_index : Nat)
    (cd_vcol_offsets : List Int) (totoffsets : Int) (fno : Option float3) : List VertWrite :=
  vcol_writes E v v_index cd_vcol_offsets totoffsets.toNat ++
    [⟨v_index, AttrData.pos co⟩,
     ⟨v_index, AttrData.nor (E.normal_float_to_short_v3 (fno.getD v.no))⟩]

/-- Loop-carried state of the face loops of the dynamic-topology builders. -/
structure BMeshFill where
  v_index : Nat
  elb_lines : GPUIndexBufBuilder
  empty_mask : Bool
  default_face_set : Bool
  writes : List VertWrite
  deriving DecidableEq, Repr

/-- The face-set colour of a face and the new value of `default_face_set`. -/
def bmesh_face_set_color (E : Deps) (show_face_sets : Bool) (cd_fset_offset : Int)
    (face_sets_color_seed face_sets_color_default : Int) (f : BMFace)
    (default_face_set : Bool) : uchar4 × Bool :=
  let white : uchar4 := ⟨UCHAR_MAX, UCHAR_MAX, UCHAR_MAX, UCHAR_MAX⟩
  if show_face_sets && decide (cd_fset_offset >= 0) then
    let fset := BM_ELEM_CD_GET_INT f.cd cd_fset_offset
    if fset != face_sets_color_default then
      (E.BKE_paint_face_set_overlay_color_get fset face_sets_color_seed, false)
    else (white, default_face_set)
  else (white, default_face_set)

/-- Body of the loop `for (j = 0; j < 3; j++)` of `GPU_pbvh_bmesh_buffers_update_flat_vcol`:
six vertices of the fan around corner `j` and the wireframe line to the next corner. -/
def flat_vcol_corner (E : Deps) (f : BMFace) (cos : Nat → float3) (cd_vcols : List Int)
    (cd_vcol_count : Int) (v_start : Nat) (s : BMeshFill) (j : Nat) : BMeshFill :=
  let next := 3 + (j % 3)
  let prev := 3 + ((j + 3 - 1) % 3)
  let vj := f.v j
  let w :=
    gpu_flat_vcol_make_vert E vj.co vj s.v_index cd_vcols cd_vcol_count (some f.no) ++
    gpu_flat_vcol_make_vert E (cos next) vj (s.v_index + 1) cd_vcols cd_vcol_count (some f.no) ++
    gpu_flat_vcol_make_vert E (cos 6) vj (s.v_index + 2) cd_vcols cd_vcol_count (some f.no) ++
    gpu_flat_vcol_make_vert E vj.co vj (s.v_index + 3) cd_vcols cd_vcol_count (some f.no) ++
    gpu_flat_vcol_make_vert E (cos 6) vj (s.v_index + 4) cd_vcols cd_vcol_count (some f.no) ++
    gpu_flat_vcol_make_vert E (cos prev) vj (s.v_index + 5) cd_vcols cd_vcol_count (some f.no)
  let next := if j == 2 then v_start else s.v_index + 6
  { s with
    writes := s.writes ++ w
    elb_lines := GPU_indexbuf_add_line_verts s.elb_lines s.v_index next
    v_index := s.v_index + 6 }

/-- Body of the face loop (`TGSET_ITER`) of `GPU_pbvh_bmesh_buffers_update_flat_vcol`. -/
def flat_vcol_face (E : Deps) (show_face_sets : Bool) (cd_fset_offset : Int)
    (face_sets_color_seed face_sets_color_default : Int) (cd_vcols : List Int)
    (cd_vcol_count : Int) (mat_nr : Int) (s : BMeshFill) (f : BMFace) : BMeshFill :=
  if f.mat_nr != mat_nr then s
  else if !BM_elem_hidden f.hflag then
    let fs := bmesh_face_set_color E show_face_sets cd_fset_offset face_sets_color_seed
      face_sets_color_default f s.default_face_set
    let cent := E.add_v3_v3 (E.add_v3_v3 (E.add_v3_v3 ⟨E.float_of_int 0, E.float_of_int 0,
      E.float_of_int 0⟩ (f.v 0).co) (f.v 1).co) (f.v 2).co
    let cent := E.mul_v3_fl cent (E.fdiv (E.float_of_int 1) (E.float_of_int 3))
    let half := E.fdiv (E.float_of_int 1) (E.float_of_int 2)
    let cos : Nat → float3 := fun n =>
      match n with
      | 0 => (f.v 0).co
      | 1 => (f.v 1).co
      | 2 => (f.v 2).co
      | 3 => E.interp_v3_v3v3 (f.v 0).co (f.v 1).co half
      | 4 => E.interp_v3_v3v3 (f.v 1).co (f.v 2).co half
      | 5 => E.interp_v3_v3v3 (f.v 2).co (f.v 0).co half
      | _ => cent
    let s := { s with default_face_set := fs.2 }
    (List.range 3).foldl (flat_vcol_corner E f cos cd_vcols cd_vcol_count s.v_index) s
  else s

/-- The state in which the face loops of the dynamic-topology builders start. -/
def bmesh_fill_init (elb_lines : GPUIndexBufBuilder) : BMeshFill :=
  { v_index := 0, elb_lines := elb_lines, empty_mask := true, default_face_set := true
    writes := [] }

/-- Sets `clear_bmesh_on_flush` when the face table is empty and leaves it alone when the node is
just hidden; stores a triangle count of zero. -/
def bmesh_mark_empty (buffers : GPU_PBVH_Buffers) (bm_faces : TableGSet BMFace) :
    GPU_PBVH_Buffers :=
  let buffers :=
    if BLI_table_gset_len bm_faces != 0 then buffers
    else { buffers with clear_bmesh_on_flush := true }
  { buffers with tot_tri := 0 }

/-- Creates a vertex buffer (coordinate, normal, color) and, if smooth shading, an element index
buffer.  Threaded - do not call any functions that use OpenGL calls! -/
def GPU_pbvh_bmesh_buffers_update_flat_vcol (E : Deps) (alloc_ok : Bool)
    (buffers : GPU_PBVH_Buffers) (bm : BMesh) (bm_faces : TableGSet BMFace)
    (_bm_unique_verts _bm_other_verts : TableGSet BMVert) (update_flags : Nat)
    (_cd_vert_node_offset : Int) (face_sets_color_seed face_sets_color_default : Int)
    (active_vcol_only : Bool) (mat_nr : Int) : GPU_PBVH_Buffers :=
  let show_face_sets := E.CustomData_has_layer bm.pdata CD_SCULPT_FACE_SETS &&
    (update_flags &&& GPU_PBVH_BUFFERS_SHOW_SCULPT_FACE_SETS != 0)
  let empty_mask := true
  let cd_fset_offset := E.CustomData_get_offset bm.pdata CD_SCULPT_FACE_SETS
  let offs := gpu_pbvh_bmesh_make_vcol_offs E bm.vdata active_vcol_only
  let cd_vcols := offs.1
  let cd_vcol_count := offs.2.2
  let tottri := gpu_bmesh_face_visible_count bm_faces mat_nr * 6
  let totvert := tottri * 3
  if tottri == 0 then bmesh_mark_empty buffers bm_faces
  else
    let r := gpu_pbvh_vert_buf_data_set buffers totvert alloc_ok
    if !r.2 then r.1
    else
      let elb_lines := GPU_indexbuf_init GPU_PRIM_LINES (tottri * 3) (tottri * 3)
      let s := bm_faces.foldl
        (flat_vcol_face E show_face_sets cd_fset_offset face_sets_color_seed
          face_sets_color_default cd_vcols cd_vcol_count mat_nr) (bmesh_fill_init elb_lines)
      let buffers := vert_buf_write r.1 s.writes
      let ib := GPU_indexbuf_build buffers s.elb_lines
      let buffers := { ib.2 with
        index_lines_buf := some ib.1
        tot_tri := tottri
        material_index := mat_nr
        show_overlay := !empty_mask || !s.default_face_set }
      gpu_pbvh_batch_init buffers GPU_PRIM_TRIS

/-- State of the vertex loop of `GPU_pbvh_bmesh_buffers_update_indexed`. -/
structure IndexedVerts where
  empty_mask : Bool
  writes : List VertWrite
  deriving DecidableEq, Repr

/-- Body of the loop over `tribuf->verts` of `GPU_pbvh_bmesh_buffers_update_indexed`. -/
def indexed_vert (E : Deps) (tribuf : PBVHTriBuf) (cd_vert_mask_offset cd_vert_node_offset : Int)
    (show_mask show_vcol : Bool) (cd_vcols : List Int) (cd_vcol_count : Int)
    (s : IndexedVerts) (i : Nat) : IndexedVerts :=
  let v := tribuf.verts.getD i default
  let r := gpu_bmesh_vert_to_buffer_copy E v i none none cd_vert_mask_offset cd_vert_node_offset
    show_mask show_vcol s.empty_mask cd_vcols cd_vcol_count
  { empty_mask := r.2, writes := s.writes ++ r.1 }

/-- Body of the loop over `tribuf->tris` of `GPU_pbvh_bmesh_buffers_update_indexed`; the state is
the pair of builders `(elb, elb_lines)`. -/
def indexed_tri (tribuf : PBVHTriBuf) (s : GPUIndexBufBuilder × GPUIndexBufBuilder) (i : Nat) :
    GPUIndexBufBuilder × GPUIndexBufBuilder :=
  let tri := tribuf.tris.getD i default
  let elb := GPU_indexbuf_add_tri_verts s.1 tri.v0 tri.v1 tri.v2
  let elb_lines := GPU_indexbuf_add_line_verts s.2 tri.v0 tri.v1
  let elb_lines := GPU_indexbuf_add_line_verts elb_lines tri.v1 tri.v2
  let elb_lines := GPU_indexbuf_add_line_verts elb_lines tri.v2 tri.v0
  (elb, elb_lines)

def GPU_pbvh_bmesh_buffers_update_indexed (E : Deps) (alloc_ok : Bool)
    (buffers : GPU_PBVH_Buffers) (bm : BMesh) (bm_faces : TableGSet BMFace)
    (_bm_unique_verts _bm_other_verts : TableGSet BMVert) (tribuf : PBVHTriBuf)
    (update_flags : Nat) (cd_vert_node_offset : Int)
    (_face_sets_color_seed _face_sets_color_default : Int) (_flat_vcol : Bool)
    (active_vcol_only : Bool) (mat_nr : Int) : GPU_PBVH_Buffers :=
  let show_mask := update_flags &&& GPU_PBVH_BUFFERS_SHOW_MASK != 0
  let show_vcol := update_flags &&& GPU_PBVH_BUFFERS_SHOW_VCOL != 0
  let offs := gpu_pbvh_bmesh_make_vcol_offs E bm.vdata active_vcol_only
  let cd_vcols := offs.1
  let cd_vcol_count := offs.2.2
  let tottri := tribuf.tottri
  let totvert := tribuf.totvert
  if tottri == 0 then bmesh_mark_empty buffers bm_faces
  else
    let cd_vert_mask_offset := E.CustomData_get_offset bm.vdata CD_PAINT_MASK
    let default_face_set := true
    let r := gpu_pbvh_vert_buf_data_set buffers totvert alloc_ok
    if !r.2 then r.1
    else
      let elb := GPU_indexbuf_init GPU_PRIM_TRIS tottri totvert
      let elb_lines := GPU_indexbuf_init GPU_PRIM_LINES (tottri * 3) totvert
      let vs := (List.range tribuf.totvert).foldl
        (indexed_vert E tribuf cd_vert_mask_offset cd_vert_node_offset show_mask show_vcol
          cd_vcols cd_vcol_count) ⟨true, []⟩
      let buffers := vert_buf_write r.1 vs.writes
      let elbs := (List.range tribuf.tottri).foldl (indexed_tri tribuf) (elb, elb_lines)
      let buffers := { buffers with tot_tri := tottri }
      let buffers :=
        match buffers.index_buf with
        | none =>
          let ib := GPU_indexbuf_build buffers elbs.1
          { ib.2 with index_buf := some ib.1 }
        | some old => { buffers with index_buf := some (GPU_indexbuf_build_in_place elbs.1 old) }
      let ib := GPU_indexbuf_build buffers elbs.2
      let buffers := { ib.2 with
        index_lines_buf := some ib.1
        material_index := mat_nr
        show_overlay := !vs.empty_mask || !default_face_set }
      gpu_pbvh_batch_init buffers GPU_PRIM_TRIS

/-- The C value of `!x` for an integer `x`. -/
def c_not (x : Nat) : Nat := if x == 0 then 1 else 0

/-- Body of the per-corner loop of the non-indexed builder (the same in both variants of the
face loop): writes the vertex of loop `l` at slot `v_index`.  The state is
`(v_index, empty_mask, writes)` carried in a `BMeshFill`. -/
def bmesh_corner (E : Deps) (smooth : Bool) (have_uv show_mask : Bool)
    (cd_vert_mask_offset cd_vert_node_offset cd_mcol_offset cd_uv_offset : Int)
    (cd_vcols : List Int) (cd_vcol_count : Int) (f : BMFace) (l : Nat → BMLoop) (fmask : float)
    (face_set_color : uchar4) (s : BMeshFill) (i : Nat) : BMeshFill :=
  let v := (l i).v
  let no := if smooth then v.no else f.no
  let r := gpu_bmesh_vert_to_buffer_copy E v s.v_index (some no) (some fmask)
    cd_vert_mask_offset cd_vert_node_offset show_mask false s.empty_mask [] 0
  let w_col : List VertWrite :=
    if cd_vcol_count >= 0 then
      vcol_writes E (l i).v s.v_index cd_vcols cd_vcol_count.toNat
    else if cd_mcol_offset >= 0 then
      let ml := BM_ELEM_CD_GET_LOOPCOL (l i).cd cd_mcol_offset
      [⟨s.v_index, AttrData.col 0
        ⟨ml.r * 257 % 65536, ml.g * 257 % 65536, ml.b * 257 % 65536, ml.a * 257 % 65536⟩⟩]
    else []
  let w_uv : List VertWrite :=
    if have_uv then [⟨s.v_index, AttrData.uv (BM_ELEM_CD_GET_UV (l i).cd cd_uv_offset)⟩] else []
  { s with
    empty_mask := r.2
    writes := s.writes ++ r.1 ++ w_col ++ w_uv ++ [⟨s.v_index, AttrData.fset face_set_color.to3⟩]
    v_index := s.v_index + 1 }

/-- The averaged mask of the three corners (`fmask += ...; fmask /= 3.0f`). -/
def bmesh_face_mask (E : Deps) (cd_vert_mask_offset : Int) (l : Nat → BMLoop) : float :=
  E.fdiv
    (E.fadd (E.fadd (E.fadd (E.float_of_int 0)
      (BM_ELEM_CD_GET_FLOAT (l 0).v.cd cd_vert_mask_offset))
      (BM_ELEM_CD_GET_FLOAT (l 1).v.cd cd_vert_mask_offset))
      (BM_ELEM_CD_GET_FLOAT (l 2).v.cd cd_vert_mask_offset))
    (E.float_of_int 3)

/-- Body of the face loop (`TGSET_ITER`) of `GPU_pbvh_bmesh_buffers_update`, the variant compiled
without `DYNTOPO_DYNAMIC_TESS`. -/
def bmesh_face (E : Deps) (smooth : Bool) (have_uv show_mask show_face_sets : Bool)
    (cd_vert_mask_offset cd_vert_node_offset cd_mcol_offset cd_uv_offset cd_fset_offset : Int)
    (face_sets_color_seed face_sets_color_default : Int)
    (cd_vcols : List Int) (cd_vcol_count : Int) (mat_nr : Int) (s : BMeshFill) (f : BMFace) :
    BMeshFill :=
  if f.mat_nr != mat_nr then s
  else if !BM_elem_hidden f.hflag then
    let fmask := bmesh_face_mask E cd_vert_mask_offset f.l
    let elb := GPU_indexbuf_add_line_verts s.elb_lines (s.v_index + 0) (s.v_index + 1)
    let elb := GPU_indexbuf_add_line_verts elb (s.v_index + 1) (s.v_index + 2)
    let elb := GPU_indexbuf_add_line_verts elb (s.v_index + 2) (s.v_index + 0)
    let fs := bmesh_face_set_color E show_face_sets cd_fset_offset face_sets_color_seed
      face_sets_color_default f s.default_face_set
    let s := { s with elb_lines := elb, default_face_set := fs.2 }
    (List.range 3).foldl
      (bmesh_corner E smooth have_uv show_mask cd_vert_mask_offset cd_vert_node_offset
        cd_mcol_offset cd_uv_offset cd_vcols cd_vcol_count f f.l fmask fs.1) s
  else s

/-- Body of the triangle loop of `GPU_pbvh_bmesh_buffers_update`, the variant compiled with
`DYNTOPO_DYNAMIC_TESS`. -/
def bmesh_tess_tri (E : Deps) (smooth : Bool) (have_uv show_mask show_face_sets : Bool)
    (cd_vert_mask_offset cd_vert_node_offset cd_mcol_offset cd_uv_offset cd_fset_offset : Int)
    (face_sets_color_seed face_sets_color_default : Int)
    (cd_vcols : List Int) (cd_vcol_count : Int) (tribuf : PBVHTriBuf) (s : BMeshFill) (i : Nat) :
    BMeshFill :=
  let tri := tribuf.tris.getD i default
  let f := tri.f
  if BM_elem_hidden f.hflag then s
  else
    let fmask := bmesh_face_mask E cd_vert_mask_offset tri.l
    let elb := s.elb_lines
    let elb := if tri.eflag &&& 1 != 0 then
        GPU_indexbuf_add_line_verts elb (s.v_index + 0) (s.v_index + 1) else elb
    let elb := if tri.eflag &&& 2 != 0 then
        GPU_indexbuf_add_line_verts elb (s.v_index + 1) (s.v_index + 2) else elb
    let elb := if tri.eflag &&& 4 != 0 then
        GPU_indexbuf_add_line_verts elb (s.v_index + 2) (s.v_index + 0) else elb
    let fs := bmesh_face_set_color E show_face_sets cd_fset_offset face_sets_color_seed
      face_sets_color_default f s.default_face_set
    let s := { s with elb_lines := elb, default_face_set := fs.2 }
    (List.range 3).foldl
      (bmesh_corner E smooth have_uv show_mask cd_vert_mask_offset cd_vert_node_offset
        cd_mcol_offset cd_uv_offset cd_vcols cd_vcol_count f tri.l fmask fs.1) s

/-- The non-indexed part of `GPU_pbvh_bmesh_buffers_update` (the code after the two early
dispatches).  `DYNTOPO_DYNAMIC_TESS` says which of the two `ifdef` variants is compiled; the macro
is defined outside this file. -/
def GPU_pbvh_bmesh_buffers_update_nonindexed (E : Deps) (DYNTOPO_DYNAMIC_TESS : Bool)
    (alloc_ok : Bool) (buffers : GPU_PBVH_Buffers) (bm : BMesh) (bm_faces : TableGSet BMFace)
    (tribuf : PBVHTriBuf) (update_flags : Nat) (cd_vert_node_offset : Int)
    (face_sets_color_seed face_sets_color_default : Int) (active_vcol_only : Bool)
    (mat_nr : Int) : GPU_PBVH_Buffers :=
  let have_uv := E.CustomData_has_layer bm.ldata CD_MLOOPUV
  let show_mask := update_flags &&& GPU_PBVH_BUFFERS_SHOW_MASK != 0
  let show_face_sets := E.CustomData_has_layer bm.pdata CD_SCULPT_FACE_SETS &&
    (update_flags &&& GPU_PBVH_BUFFERS_SHOW_SCULPT_FACE_SETS != 0)
  let cd_fset_offset := E.CustomData_get_offset bm.pdata CD_SCULPT_FACE_SETS
  let offs := gpu_pbvh_bmesh_make_vcol_offs E bm.vdata active_vcol_only
  let cd_vcols := offs.1
  let cd_vcol_count := offs.2.2
  let cd_vert_mask_offset := E.CustomData_get_offset bm.vdata CD_PAINT_MASK
  let cd_mcol_offset := E.CustomData_get_offset bm.ldata CD_MLOOPCOL
  let cd_uv_offset := E.CustomData_get_offset bm.ldata CD_MLOOPUV
  let tottri := tribuf.tottri
  let totvert := tottri * 3
  if tottri == 0 then
    let buffers :=
      if c_not (BLI_table_gset_len bm_faces) != 0 then
        { buffers with clear_bmesh_on_flush := true }
      else buffers
    { buffers with tot_tri := 0 }
  else
    let r := gpu_pbvh_vert_buf_data_set buffers totvert alloc_ok
    if !r.2 then r.1
    else
      let elb_lines := GPU_indexbuf_init GPU_PRIM_LINES (tottri * 3) (tottri * 3)
      let s :=
        if DYNTOPO_DYNAMIC_TESS then
          (List.range tribuf.tottri).foldl
            (bmesh_tess_tri E r.1.smooth have_uv show_mask show_face_sets cd_vert_mask_offset
              cd_vert_node_offset cd_mcol_offset cd_uv_offset cd_fset_offset
              face_sets_color_seed face_sets_color_default cd_vcols cd_vcol_count tribuf)
            (bmesh_fill_init elb_lines)
        else
          bm_faces.foldl
            (bmesh_face E r.1.smooth have_uv show_mask show_face_sets cd_vert_mask_offset
              cd_vert_node_offset cd_mcol_offset cd_uv_offset cd_fset_offset
              face_sets_color_seed face_sets_color_default cd_vcols cd_vcol_count mat_nr)
            (bmesh_fill_init elb_lines)
      let buffers := vert_buf_write r.1 s.writes
      let ib := GPU_indexbuf_build buffers s.elb_lines
      let buffers := { ib.2 with
        index_lines_buf := some ib.1
        tot_tri := tottri
        material_index := mat_nr
        show_overlay := !s.empty_mask || !s.default_face_set }
      gpu_pbvh_batch_init buffers GPU_PRIM_TRIS

/-- Creates a vertex buffer (coordinate, normal, color) and, if smooth shading, an element index
buffer.  Threaded - do not call any functions that use OpenGL calls! -/
def GPU_pbvh_bmesh_buffers_update (E : Deps) (DYNTOPO_DYNAMIC_TESS : Bool) (alloc_ok : Bool)
    (buffers : GPU_PBVH_Buffers) (bm : BMesh) (bm_faces : TableGSet BMFace)
    (bm_unique_verts bm_other_verts : TableGSet BMVert) (tribuf : PBVHTriBuf)
    (update_flags : Nat) (cd_vert_node_offset : Int)
    (face_sets_color_seed face_sets_color_default : Int) (flat_vcol active_vcol_only : Bool)
    (mat_nr : Int) : GPU_PBVH_Buffers :=
  if flat_vcol && E.CustomData_has_layer bm.vdata CD_PROP_COLOR then
    GPU_pbvh_bmesh_buffers_update_flat_vcol E alloc_ok buffers bm bm_faces bm_unique_verts
      bm_other_verts update_flags cd_vert_node_offset face_sets_color_seed
      face_sets_color_default active_vcol_only mat_nr
  else
    let have_uv := E.CustomData_has_layer bm.ldata CD_MLOOPUV
    if buffers.smooth && !have_uv then
      GPU_pbvh_bmesh_buffers_update_indexed E alloc_ok buffers bm bm_faces bm_unique_verts
        bm_other_verts tribuf update_flags cd_vert_node_offset face_sets_color_seed
        face_sets_color_default flat_vcol active_vcol_only mat_nr
    else
      GPU_pbvh_bmesh_buffers_update_nonindexed E DYNTOPO_DYNAMIC_TESS alloc_ok buffers bm
        bm_faces tribuf update_flags cd_vert_node_offset face_sets_color_seed
        face_sets_color_default active_vcol_only mat_nr

/-! ## Generic -/

/-- Threaded - do not call any functions that use OpenGL calls! -/
def GPU_pbvh_bmesh_buffers_build (smooth_shading : Bool) : GPU_PBVH_Buffers :=
  { MEM_callocN with use_bmesh := true, smooth := smooth_shading, show_overlay := true }

def GPU_pbvh_buffers_batch_get (buffers : GPU_PBVH_Buffers) (fast wires : Bool) :
    Option GPUBatch :=
  if wires then
    if fast && buffers.lines_fast.isSome then buffers.lines_fast else buffers.lines
  else
    if fast && buffers.triangles_fast.isSome then buffers.triangles_fast else buffers.triangles

def GPU_pbvh_buffers_material_index_get (buffers : GPU_PBVH_Buffers) : Int :=
  buffers.material_index

def gpu_pbvh_buffers_clear (buffers : GPU_PBVH_Buffers) : GPU_PBVH_Buffers :=
  { buffers with
    lines := DISCARD_SAFE buffers.lines
    lines_fast := DISCARD_SAFE buffers.lines_fast
    triangles := DISCARD_SAFE buffers.triangles
    triangles_fast := DISCARD_SAFE buffers.triangles_fast
    index_lines_buf_fast := DISCARD_SAFE buffers.index_lines_buf_fast
    index_lines_buf := DISCARD_SAFE buffers.index_lines_buf
    index_buf_fast := DISCARD_SAFE buffers.index_buf_fast
    index_buf := DISCARD_SAFE buffers.index_buf
    vert_buf := DISCARD_SAFE buffers.vert_buf }

/-- The call `GPU_vertbuf_use` uploads the buffer and does not change the node buffer object, so
the forced flush at the end leaves the object as it is. -/
def GPU_pbvh_buffers_update_flush (buffers : GPU_PBVH_Buffers) : GPU_PBVH_Buffers :=
  if buffers.clear_bmesh_on_flush then
    { gpu_pbvh_buffers_clear buffers with clear_bmesh_on_flush := false }
  else buffers

/-- Frees the object; nothing of it remains (`none`). -/
def GPU_pbvh_buffers_free (buffers : Option GPU_PBVH_Buffers) : Option GPU_PBVH_Buffers :=
  match buffers with
  | some b => (fun _ => none) (gpu_pbvh_buffers_clear b)
  | none => none

/-! ## Reference descriptions for the dynamic-topology builders -/

/-- The three strategies of the dynamic-topology update. -/
inductive BMeshStrategy
  | flat_vcol
  | indexed
  | non_indexed
  deriving DecidableEq, Repr

/-- The strategy as the specification words it: flat vertex colour iff requested and the mesh has
a per-vertex colour layer; otherwise indexed iff shading is smooth and there is no UV layer;
otherwise non-indexed. -/
def bmesh_strategy (flat_vcol has_vcol smooth has_uv : Bool) : BMeshStrategy :=
  if flat_vcol && has_vcol then BMeshStrategy.flat_vcol
  else if smooth && !has_uv then BMeshStrategy.indexed
  else BMeshStrategy.non_indexed

/-- Runs one strategy on the arguments of `GPU_pbvh_bmesh_buffers_update`. -/
def bmesh_run_strategy (E : Deps) (DYNTOPO_DYNAMIC_TESS : Bool) (alloc_ok : Bool)
    (buffers : GPU_PBVH_Buffers) (bm : BMesh) (bm_faces : TableGSet BMFace)
    (bm_unique_verts bm_other_verts : TableGSet BMVert) (tribuf : PBVHTriBuf)
    (update_flags : Nat) (cd_vert_node_offset : Int)
    (face_sets_color_seed face_sets_color_default : Int) (flat_vcol active_vcol_only : Bool)
    (mat_nr : Int) : BMeshStrategy → GPU_PBVH_Buffers
  | BMeshStrategy.flat_vcol =>
    GPU_pbvh_bmesh_buffers_update_flat_vcol E alloc_ok buffers bm bm_faces bm_unique_verts
      bm_other_verts update_flags cd_vert_node_offset face_sets_color_seed
      face_sets_color_default active_vcol_only mat_nr
  | BMeshStrategy.indexed =>
    GPU_pbvh_bmesh_buffers_update_indexed E alloc_ok buffers bm bm_faces bm_unique_verts
      bm_other_verts tribuf update_flags cd_vert_node_offset face_sets_color_seed
      face_sets_color_default flat_vcol active_vcol_only mat_nr
  | BMeshStrategy.non_indexed =>
    GPU_pbvh_bmesh_buffers_update_nonindexed E DYNTOPO_DYNAMIC_TESS alloc_ok buffers bm
      bm_faces tribuf update_flags cd_vert_node_offset face_sets_color_seed
      face_sets_color_default active_vcol_only mat_nr

/-- A flattened triangle buffer with no triangle, and a hidden face of material 0. -/
def empty_tribuf : PBVHTriBuf := ⟨[], [], 0, 0⟩
def plain_bmesh : BMesh := ⟨⟨[], 0⟩, ⟨[], 0⟩, ⟨[], 0⟩⟩
def hidden_face : BMFace :=
  { l_first := default, l_next := default, l_prev := default, no := default, mat_nr := 0
    hflag := BM_ELEM_HIDDEN, len := 3, cd := [] }

/-- The three corner indices of triangle `i` of the flattened buffer. -/
def tribuf_tri_indices (tribuf : PBVHTriBuf) (i : Nat) : List Nat :=
  [(tribuf.tris.getD i default).v0, (tribuf.tris.getD i default).v1,
   (tribuf.tris.getD i default).v2]

/-- The three edges of triangle `i` of the flattened buffer as lines. -/
def tribuf_tri_lines (tribuf : PBVHTriBuf) (i : Nat) : List Nat :=
  [(tribuf.tris.getD i default).v0, (tribuf.tris.getD i default).v1,
   (tribuf.tris.getD i default).v1, (tribuf.tris.getD i default).v2,
   (tribuf.tris.getD i default).v2, (tribuf.tris.getD i default).v0]

/-- Do the face of a material and the material of the buffer agree. -/
def face_has_material (mat_nr : Int) (f : BMFace) : Bool := f.mat_nr == mat_nr

/-- Is a face not hidden. -/
def face_not_hidden (f : BMFace) : Bool := !BM_elem_hidden f.hflag

/-- The face-index subset of a mesh node with the hidden triangles removed. -/
def mesh_visible_indices (E : Deps) (mloop : List MLoop) (looptri : List MLoopTri)
    (mvert : List MVert) (face_indices : List Nat) (sculpt_face_sets : Option (List Int))
    (len : Nat) : List Nat :=
  ((List.range len).map (fun i => face_indices.getD i 0)).filter
    (fun idx => mesh_vis E mvert mloop sculpt_face_sets (looptri.getD idx default))

/-- A flattened triangle buffer of one triangle whose face has material 1. -/
def face_mat1 : BMFace :=
  { l_first := default, l_next := default, l_prev := default, no := default, mat_nr := 1
    hflag := 0, len := 3, cd := [] }
def tribuf_mat1 : PBVHTriBuf :=
  ⟨[⟨0, 1, 2, face_mat1, default, default, default, 7⟩], [default, default, default], 1, 3⟩

/-- Two grids of size 2, the first with every element hidden. -/
def two_grids : List (List CCGElem) := [one_grid.getD 0 [], one_grid.getD 0 []]
def two_grids_hidden : List (Option BLI_bitmap) := [some [true, true, true, true], none]
def two_grids_flag_mats : List DMFlagMat := [⟨0, 1⟩, ⟨0, 1⟩]

/-- The batch selection as the specification words it: the fast batch of the requested kind when
the fast variant is requested and present, the full-resolution batch of the requested kind in
every other case. -/
def batch_get_spec (buffers : GPU_PBVH_Buffers) (fast wires : Bool) : Option GPUBatch :=
  let fast_batch := if wires then buffers.lines_fast else buffers.triangles_fast
  let full_batch := if wires then buffers.lines else buffers.triangles
  if fast && fast_batch.isSome then fast_batch else full_batch

/-- The node buffer object of the one-triangle mesh as `GPU_pbvh_mesh_buffers_update` holds it
when it calls `gpu_pbvh_batch_init`: built, with storage for three vertices. -/
def tri_buffers_before_batch_init : GPU_PBVH_Buffers :=
  (gpu_pbvh_vert_buf_data_set
    (GPU_pbvh_mesh_buffers_build deps_plain tri_mpoly tri_mloop tri_looptri tri_mvert [0]
      (some [1]) 1 tri_mesh) 3 true).1

/-- A grid node buffer object with its four index buffers and no batch: one grid of size 2,
nothing hidden. -/
def one_grid_indexed : GPU_PBVH_Buffers :=
  gpu_pbvh_grid_fill_index_buffers deps_plain (GPU_pbvh_grid_buffers_build 1 [none]) [0] 1 1 2

/-- The node buffer object as `GPU_pbvh_grid_buffers_update` holds it when it asks for vertex
storage: the smooth flag is the one of the first grid, and the four index buffers have been
built if `index_buf` was absent. -/
def grid_update_indexed (E : Deps) (buffers : GPU_PBVH_Buffers) (grid_flag_mats : List DMFlagMat)
    (grid_indices : List Nat) (totgrid : Nat) (key : CCGKey) : GPU_PBVH_Buffers :=
  if buffers.index_buf.isNone then
    gpu_pbvh_grid_fill_index_buffers E
      { buffers with smooth := grid_smooth_flag grid_flag_mats grid_indices } grid_indices
      (BKE_pbvh_count_grid_quads E (buffers.grid_hidden.getD []) grid_indices totgrid
        key.grid_size) totgrid key.grid_size
  else { buffers with smooth := grid_smooth_flag grid_flag_mats grid_indices }

/-- The one-triangle mesh node (face-set id 1, visible) right after
`GPU_pbvh_mesh_buffers_build`: a line index buffer, no vertex buffer, no batch. -/
def tri_buffers_built : GPU_PBVH_Buffers :=
  GPU_pbvh_mesh_buffers_build deps_plain tri_mpoly tri_mloop tri_looptri tri_mvert [0]
    (some [1]) 1 tri_mesh

/-- Does the grid at position `i` of the node clear `default_face_set` in
`GPU_pbvh_grid_buffers_update`: a subdivision surface is given, face sets are shown and stored,
and the absolute value of the face-set id of the grid's face is not the default. -/
def grid_face_set_differs (E : Deps) (subdiv_ccg : Option SubdivCCG) (grid_indices : List Nat)
    (sculpt_face_sets : Option (List Int)) (face_sets_color_default : Int)
    (show_face_sets : Bool) (i : Nat) : Bool :=
  match subdiv_ccg with
  | some ccg =>
    show_face_sets && sculpt_face_sets.isSome &&
      (|deref sculpt_face_sets
          (E.BKE_subdiv_ccg_grid_to_face_index ccg (grid_indices.getD i 0))|
        != face_sets_color_default)
  | none => false

/-- Does a face clear `default_face_set` in the dynamic-topology face loops: face sets are shown,
the face-set layer exists, and the face-set id of the face is not the default. -/
def bmesh_face_set_differs (show_face_sets : Bool) (cd_fset_offset : Int)
    (face_sets_color_default : Int) (f : BMFace) : Bool :=
  show_face_sets && decide (cd_fset_offset >= 0) &&
    (BM_ELEM_CD_GET_INT f.cd cd_fset_offset != face_sets_color_default)

/-- The faces of the triangles of the flattened buffer, in order. -/
def tribuf_faces (tribuf : PBVHTriBuf) : List BMFace :=
  (List.range tribuf.tottri).map (fun i => (tribuf.tris.getD i default).f)

/-- The vertex loop of the non-indexed strategy of `GPU_pbvh_bmesh_buffers_update`, in the
variant `DYNTOPO_DYNAMIC_TESS` selects, run on a node whose shading mode is `smooth`. -/
def bmesh_nonindexed_fill (E : Deps) (DYNTOPO_DYNAMIC_TESS : Bool) (smooth : Bool) (bm : BMesh)
    (bm_faces : TableGSet BMFace) (tribuf : PBVHTriBuf) (update_flags : Nat)
    (cd_vert_node_offset : Int) (face_sets_color_seed face_sets_color_default : Int)
    (active_vcol_only : Bool) (mat_nr : Int) : BMeshFill :=
  let have_uv := E.CustomData_has_layer bm.ldata CD_MLOOPUV
  let show_mask := update_flags &&& GPU_PBVH_BUFFERS_SHOW_MASK != 0
  let show_face_sets := E.CustomData_has_layer bm.pdata CD_SCULPT_FACE_SETS &&
    (update_flags &&& GPU_PBVH_BUFFERS_SHOW_SCULPT_FACE_SETS != 0)
  let cd_fset_offset := E.CustomData_get_offset bm.pdata CD_SCULPT_FACE_SETS
  let offs := gpu_pbvh_bmesh_make_vcol_offs E bm.vdata active_vcol_only
  let cd_vert_mask_offset := E.CustomData_get_offset bm.vdata CD_PAINT_MASK
  let cd_mcol_offset := E.CustomData_get_offset bm.ldata CD_MLOOPCOL
  let cd_uv_offset := E.CustomData_get_offset bm.ldata CD_MLOOPUV
  let elb_lines := GPU_indexbuf_init GPU_PRIM_LINES (tribuf.tottri * 3) (tribuf.tottri * 3)
  if DYNTOPO_DYNAMIC_TESS then
    (List.range tribuf.tottri).foldl
      (bmesh_tess_tri E smooth have_uv show_mask show_face_sets cd_vert_mask_offset
        cd_vert_node_offset cd_mcol_offset cd_uv_offset cd_fset_offset
        face_sets_color_seed face_sets_color_default offs.1 offs.2.2 tribuf)
      (bmesh_fill_init elb_lines)
  else
    bm_faces.foldl
      (bmesh_face E smooth have_uv show_mask show_face_sets cd_vert_mask_offset
        cd_vert_node_offset cd_mcol_offset cd_uv_offset cd_fset_offset
        face_sets_color_seed face_sets_color_default offs.1 offs.2.2 mat_nr)
      (bmesh_fill_init elb_lines)

/-- The vertex loop of the indexed strategy, over the vertices of the flattened buffer. -/
def bmesh_indexed_verts (E : Deps) (bm : BMesh) (tribuf : PBVHTriBuf) (update_flags : Nat)
    (cd_vert_node_offset : Int) (active_vcol_only : Bool) : IndexedVerts :=
  (List.range tribuf.totvert).foldl
    (indexed_vert E tribuf (E.CustomData_get_offset bm.vdata CD_PAINT_MASK) cd_vert_node_offset
      (update_flags &&& GPU_PBVH_BUFFERS_SHOW_MASK != 0)
      (update_flags &&& GPU_PBVH_BUFFERS_SHOW_VCOL != 0)
      (gpu_pbvh_bmesh_make_vcol_offs E bm.vdata active_vcol_only).1
      (gpu_pbvh_bmesh_make_vcol_offs E bm.vdata active_vcol_only).2.2) ⟨true, []⟩

/-- The primitives whose face-set id the non-indexed strategy reads: the non-hidden triangles of
the flattened buffer in the variant `DYNTOPO_DYNAMIC_TESS`, the non-hidden faces of the material
otherwise. -/
def bmesh_nonindexed_faces (DYNTOPO_DYNAMIC_TESS : Bool) (bm_faces : TableGSet BMFace)
    (tribuf : PBVHTriBuf) (mat_nr : Int) : List BMFace :=
  if DYNTOPO_DYNAMIC_TESS then (tribuf_faces tribuf).filter face_not_hidden
  else bm_faces.filter (fun f => face_has_material mat_nr f && face_not_hidden f)

/-- A dynamic-topology mesh with a face-set layer at offset 0 and no other layer, a face with
face-set id 5, and the flattened buffer holding that face as its one triangle. -/
def fset_bmesh : BMesh := ⟨⟨[], 0⟩, ⟨[], 0⟩, ⟨[⟨CD_SCULPT_FACE_SETS, 0, 0, 0, 0⟩], 1⟩⟩
def face_fset5 : BMFace :=
  { l_first := default, l_next := default, l_prev := default, no := default, mat_nr := 0
    hflag := 0, len := 3, cd := [CDValue.cd_int 5] }
def tribuf_fset5 : PBVHTriBuf :=
  ⟨[⟨0, 1, 2, face_fset5, default, default, default, 7⟩], [default, default, default], 1, 3⟩

/-- Modelled from the spec: `BKE_mesh_looptri_get_real_edges` of BKE_mesh (not in src), entry `i`
of its result: side `i` of the triangle runs from corner `i` to the next corner; it is a real
edge when the edge of the loop at corner `i` joins the vertices of the two corners, and the
entry is then the index of that edge, otherwise -1. -/
def looptri_real_edge (mesh : Mesh) (lt : MLoopTri) (i : Nat) : Int :=
  let l1 := mesh.mloop.getD (lt.tri i) default
  let l2 := mesh.mloop.getD (lt.tri ((i + 1) % 3)) default
  let e := mesh.medge.getD l1.e default
  if (l1.v == e.v1 && l2.v == e.v2) || (l1.v == e.v2 && l2.v == e.v1) then (l1.e : Int) else -1

/-- The external functions of `deps_plain` with the real-edge query computed from the mesh. -/
def deps_mesh : Deps :=
  { deps_plain with BKE_mesh_looptri_get_real_edges := looptri_real_edge }

/-- Two triangular polygons over four vertices that share the edge between vertices 0 and 2:
the first has material 5 and is smooth, the second has material 7 and is flat. -/
def pair_mpoly : List MPoly := [⟨0, 3, 5, 1⟩, ⟨3, 3, 7, 0⟩]
def pair_mloop : List MLoop := [⟨0, 0⟩, ⟨1, 1⟩, ⟨2, 2⟩, ⟨0, 2⟩, ⟨2, 3⟩, ⟨3, 4⟩]
def pair_looptri : List MLoopTri := [⟨0, 1, 2, 0⟩, ⟨3, 4, 5, 1⟩]
def pair_mvert : List MVert :=
  [⟨⟨⟨0⟩, ⟨0⟩, ⟨0⟩⟩, default, 0⟩, ⟨⟨⟨1⟩, ⟨0⟩, ⟨0⟩⟩, default, 0⟩,
   ⟨⟨⟨1⟩, ⟨1⟩, ⟨0⟩⟩, default, 0⟩, ⟨⟨⟨0⟩, ⟨1⟩, ⟨0⟩⟩, default, 0⟩]
def pair_mesh : Mesh := ⟨pair_mloop, [⟨0, 1⟩, ⟨1, 2⟩, ⟨2, 0⟩, ⟨2, 3⟩, ⟨3, 0⟩]⟩

/-- A smooth dynamic-topology node after one update of the indexed strategy over the flattened
buffer of one triangle: it owns a triangle index buffer. -/
def indexed_once : GPU_PBVH_Buffers :=
  GPU_pbvh_bmesh_buffers_update_indexed deps_plain true (GPU_pbvh_bmesh_buffers_build true)
    plain_bmesh [face_mat1] [] [] tribuf_mat1 0 0 0 1 false false 1

/-- Is an attribute write a write into a colour slot. -/
def is_col_write (w : VertWrite) : Bool :=
  match w.data with
  | AttrData.col _ _ => true
  | _ => false

/-- A dynamic-topology mesh without per-vertex colour layer and with a per-corner colour layer
at offset 0, a face whose three corners carry the colour (10, 20, 30, 255), and the flattened
buffer holding that face as its one triangle. -/
def mcol_bmesh : BMesh := ⟨⟨[], 0⟩, ⟨[⟨CD_MLOOPCOL, 0, 0, 0, 0⟩], 1⟩, ⟨[], 0⟩⟩
def mcol_loop : BMLoop := ⟨default, [CDValue.cd_loopcol ⟨10, 20, 30, 255⟩]⟩
def mcol_face : BMFace :=
  { l_first := mcol_loop, l_next := mcol_loop, l_prev := mcol_loop, no := default, mat_nr := 0
    hflag := 0, len := 3, cd := [] }
def mcol_tribuf : PBVHTriBuf :=
  ⟨[⟨0, 1, 2, mcol_face, mcol_loop, mcol_loop, mcol_loop, 7⟩], [default, default, default], 1, 3⟩

/-- The seven positions `cos[0..6]` of a face in `GPU_pbvh_bmesh_buffers_update_flat_vcol`: the
three corners, the midpoints of the edges 0-1, 1-2 and 2-0, and the centroid. -/
def flat_vcol_cos (E : Deps) (f : BMFace) (n : Nat) : float3 :=
  match n with
  | 0 => (f.v 0).co
  | 1 => (f.v 1).co
  | 2 => (f.v 2).co
  | 3 => E.interp_v3_v3v3 (f.v 0).co (f.v 1).co (E.fdiv (E.float_of_int 1) (E.float_of_int 2))
  | 4 => E.interp_v3_v3v3 (f.v 1).co (f.v 2).co (E.fdiv (E.float_of_int 1) (E.float_of_int 2))
  | 5 => E.interp_v3_v3v3 (f.v 2).co (f.v 0).co (E.fdiv (E.float_of_int 1) (E.float_of_int 2))
  | _ =>
    E.mul_v3_fl
      (E.add_v3_v3 (E.add_v3_v3 (E.add_v3_v3 ⟨E.float_of_int 0, E.float_of_int 0,
        E.float_of_int 0⟩ (f.v 0).co) (f.v 1).co) (f.v 2).co)
      (E.fdiv (E.float_of_int 1) (E.float_of_int 3))

/-- The six positions written for corner `j` of a face, in slot order: the corner, the midpoint
of the edge to the next corner, the centroid, the corner again, the centroid, the midpoint of
the edge from the previous corner. -/
def flat_vcol_corner_cos (E : Deps) (f : BMFace) (j : Nat) : List float3 :=
  [(f.v j).co, flat_vcol_cos E f (3 + j % 3), flat_vcol_cos E f 6,
   (f.v j).co, flat_vcol_cos E f 6, flat_vcol_cos E f (3 + (j + 3 - 1) % 3)]

/-- The eighteen positions written for a face, in slot order. -/
def flat_vcol_face_cos (E : Deps) (f : BMFace) : List float3 :=
  flat_vcol_corner_cos E f 0 ++ flat_vcol_corner_cos E f 1 ++ flat_vcol_corner_cos E f 2

/-- The position records of a list of faces drawn by the flat-vertex-colour strategy, the first
face starting at slot `start`, each face taking eighteen slots. -/
def flat_vcol_records (E : Deps) : List BMFace → Nat → List (Nat × float3)
  | [], _ => []
  | f :: rest, start =>
    (flat_vcol_face_cos E f).enumFrom start ++ flat_vcol_records E rest (start + 18)

/-- The wireframe lines of `n` faces drawn by the flat-vertex-colour strategy, the first face
starting at slot `start`: per face the three lines joining the first slots of its three
corner fans. -/
def flat_vcol_lines : Nat → Nat → List Nat
  | 0, _ => []
  | n + 1, start =>
    [start, start + 6, start + 6, start + 12, start + 12, start] ++
      flat_vcol_lines n (start + 18)

/-- The faces the flat-vertex-colour strategy draws: the non-hidden faces of the material. -/
def bmesh_visible_faces (bm_faces : TableGSet BMFace) (mat_nr : Int) : List BMFace :=
  bm_faces.filter (fun f => face_has_material mat_nr f && face_not_hidden f)

/-- A batch that is present was created from the vertex buffer `vb` and the index buffer `ib`
(given by their handles); an absent batch refers to nothing. -/
def batch_current (vb ib : Option Nat) : Option GPUBatch → Bool
  | none => true
  | some b => vb.isSome && b.verts == vb && b.elem == ib

/-- Every batch of the node buffer object that is present was created from the vertex buffer and
from the index buffer of its kind that the object stores now. -/
def batches_current (b : GPU_PBVH_Buffers) : Bool :=
  batch_current (b.vert_buf.map (fun vb => vb.handle)) (b.index_buf.map (fun ib => ib.handle))
    b.triangles &&
  batch_current (b.vert_buf.map (fun vb => vb.handle))
    (b.index_buf_fast.map (fun ib => ib.handle)) b.triangles_fast &&
  batch_current (b.vert_buf.map (fun vb => vb.handle))
    (b.index_lines_buf.map (fun ib => ib.handle)) b.lines &&
  batch_current (b.vert_buf.map (fun vb => vb.handle))
    (b.index_lines_buf_fast.map (fun ib => ib.handle)) b.lines_fast

/-- An operation on the buffers of a mesh node after the build. -/
inductive MeshOp
  | update (alloc_ok : Bool) (mvert : List MVert) (vmask : Option (List float))
      (vcol : Option (List MLoopCol)) (sculpt_face_sets : Option (List Int))
      (face_sets_color_seed face_sets_color_default : Int) (vtcol : Option (List MPropCol))
      (update_flags : Nat)
  | flush

/-- An operation on the buffers of a grid node after the build. -/
inductive GridOp
  | update_free (grid_flag_mats : List DMFlagMat) (grid_indices : List Nat)
  | update (alloc_ok : Bool) (subdiv_ccg : Option SubdivCCG) (grids : List (List CCGElem))
      (grid_flag_mats : List DMFlagMat) (grid_indices : List Nat) (totgrid : Nat)
      (sculpt_face_sets : Option (List Int)) (face_sets_color_seed face_sets_color_default : Int)
      (key : CCGKey) (update_flags : Nat)
  | flush

/-- An operation on the buffers of a dynamic-topology node after the build. -/
inductive BMeshOp
  | update_free
  | update (DYNTOPO_DYNAMIC_TESS alloc_ok : Bool) (bm : BMesh) (bm_faces : TableGSet BMFace)
      (bm_unique_verts bm_other_verts : TableGSet BMVert) (tribuf : PBVHTriBuf)
      (update_flags : Nat) (cd_vert_node_offset : Int)
      (face_sets_color_seed face_sets_color_default : Int) (flat_vcol active_vcol_only : Bool)
      (mat_nr : Int)
  | flush

def MeshOp.run (E : Deps) (b : GPU_PBVH_Buffers) : MeshOp → GPU_PBVH_Buffers
  | MeshOp.update alloc_ok mvert vmask vcol sfs seed dflt vtcol update_flags =>
    GPU_pbvh_mesh_buffers_update E alloc_ok b mvert vmask vcol sfs seed dflt vtcol update_flags
  | MeshOp.flush => GPU_pbvh_buffers_update_flush b

def GridOp.run (E : Deps) (b : GPU_PBVH_Buffers) : GridOp → GPU_PBVH_Buffers
  | GridOp.update_free grid_flag_mats grid_indices =>
    GPU_pbvh_grid_buffers_update_free b grid_flag_mats grid_indices
  | GridOp.update alloc_ok subdiv_ccg grids grid_flag_mats grid_indices totgrid sfs seed dflt key
      update_flags =>
    GPU_pbvh_grid_buffers_update E alloc_ok b subdiv_ccg grids grid_flag_mats grid_indices
      totgrid sfs seed dflt key update_flags
  | GridOp.flush => GPU_pbvh_buffers_update_flush b

def BMeshOp.run (E : Deps) (b : GPU_PBVH_Buffers) : BMeshOp → GPU_PBVH_Buffers
  | BMeshOp.update_free => GPU_pbvh_bmesh_buffers_update_free b
  | BMeshOp.update dt alloc_ok bm bm_faces bm_unique_verts bm_other_verts tribuf update_flags
      cd_vert_node_offset seed dflt flat_vcol active_vcol_only mat_nr =>
    GPU_pbvh_bmesh_buffers_update E dt alloc_ok b bm bm_faces bm_unique_verts bm_other_verts
      tribuf update_flags cd_vert_node_offset seed dflt flat_vcol active_vcol_only mat_nr
  | BMeshOp.flush => GPU_pbvh_buffers_update_flush b

/-- Whether, in a sequence of operations on a dynamic-topology node, every update directly
follows the build or `GPU_pbvh_bmesh_buffers_update_free`; `ready` says whether the sequence
starts right after one of the two. -/
def bmesh_free_before_update (ready : Bool) : List BMeshOp → Bool
  | [] => true
  | BMeshOp.update_free :: rest => bmesh_free_before_update true rest
  | BMeshOp.update _ _ _ _ _ _ _ _ _ _ _ _ _ _ :: rest =>
    ready && bmesh_free_before_update false rest
  | BMeshOp.flush :: rest => bmesh_free_before_update false rest

/-- The update arguments of a node with the one triangle of `tribuf_mat1`. -/
def bmesh_update_mat1 : BMeshOp :=
  BMeshOp.update true true plain_bmesh [face_mat1] [] [] tribuf_mat1 0 0 0 1 false false 1

/-- The object holds no batch. -/
def no_batches (b : GPU_PBVH_Buffers) : Bool :=
  b.triangles.isNone && b.triangles_fast.isNone && b.lines.isNone && b.lines_fast.isNone

/-! ## Vertex format registry -/

inductive GPUVertCompType
  | GPU_COMP_I8
  | GPU_COMP_U8
  | GPU_COMP_I16
  | GPU_COMP_U16
  | GPU_COMP_I32
  | GPU_COMP_U32
  | GPU_COMP_F32
  | GPU_COMP_I10
  deriving DecidableEq, Repr

inductive GPUVertFetchMode
  | GPU_FETCH_FLOAT
  | GPU_FETCH_INT
  | GPU_FETCH_INT_TO_FLOAT_UNIT
  | GPU_FETCH_INT_TO_FLOAT
  deriving DecidableEq, Repr

open GPUVertCompType GPUVertFetchMode

/-- One attribute of a vertex format: its name, the aliases added to it, the component type,
the number of components and the fetch mode. -/
structure GPUVertAttr where
  name : String
  aliases : List String
  comp_type : GPUVertCompType
  comp_len : Nat
  fetch_mode : GPUVertFetchMode
  deriving DecidableEq, Repr

/-- A vertex format: its attributes in the order they were added. -/
structure GPUVertFormat where
  attrs : List GPUVertAttr
  deriving DecidableEq, Repr

def GPUVertFormat.attr_len (format : GPUVertFormat) : Nat := format.attrs.length

/-- Applies `f` to the last element of a list. -/
def modify_last {α : Type} (f : α → α) : List α → List α
  | [] => []
  | [a] => [f a]
  | a :: b :: l => a :: modify_last f (b :: l)

/-- Modelled from the spec: `GPU_vertformat_clear` empties the format (`attr_len` becomes 0). -/
def GPU_vertformat_clear (_format : GPUVertFormat) : GPUVertFormat := ⟨[]⟩

/-- Modelled from the spec: `GPU_vertformat_attr_add` appends an attribute and returns its slot
identifier, the number of attributes there before. -/
def GPU_vertformat_attr_add (format : GPUVertFormat) (name : String)
    (comp_type : GPUVertCompType) (comp_len : Nat) (fetch_mode : GPUVertFetchMode) :
    Nat × GPUVertFormat :=
  (format.attr_len, ⟨format.attrs ++ [⟨name, [], comp_type, comp_len, fetch_mode⟩]⟩)

/-- Modelled from the spec: `GPU_vertformat_alias_add` gives the attribute added last one more
name. -/
def GPU_vertformat_alias_add (format : GPUVertFormat) (name : String) : GPUVertFormat :=
  ⟨modify_last (fun a => { a with aliases := a.aliases ++ [name] }) format.attrs⟩

/-- Modelled from the spec: `DRW_make_cdlayer_attr_aliases` registers the named aliases of a
custom-data layer on the attribute added last; `alias_names` gives the aliases it derives from
the base name and the layer. -/
def DRW_make_cdlayer_attr_aliases
    (alias_names : String → CustomData → CustomDataLayer → List String)
    (format : GPUVertFormat) (base_name : String) (data : CustomData) (cl : CustomDataLayer) :
    GPUVertFormat :=
  (alias_names base_name data cl).foldl GPU_vertformat_alias_add format

/-- The type of the static `g_vbo_id`: the vertex format and the slot identifiers of its
attributes (`col` is the array `uint col[MAX_MCOL]`). -/
structure VboId where
  format : GPUVertFormat
  pos : Nat
  nor : Nat
  msk : Nat
  fset : Nat
  uv : Nat
  col : List Nat
  totcol : Nat
  deriving DecidableEq, Repr

/-- Loop-carried state of the colour-layer loop of `GPU_pbvh_update_attribute_names`. -/
structure AttrNamesLoop where
  g : VboId
  ci : Nat
  deriving DecidableEq, Repr

/-- Body of the colour-layer loop of `GPU_pbvh_update_attribute_names`. -/
def attribute_names_layer (alias_names : String → CustomData → CustomDataLayer → List String)
    (vdata : CustomData) (act : Int) (cd_vcol_layers : List Int) (s : AttrNamesLoop) (i : Nat) :
    AttrNamesLoop :=
  let idx := cd_vcol_layers.getD i 0
  let cl := vdata.layers.getD idx.toNat default
  if s.g.totcol < MAX_MCOL then
    let r := GPU_vertformat_attr_add s.g.format "c" GPU_COMP_U16 4 GPU_FETCH_INT_TO_FLOAT_UNIT
    let g := { s.g with col := s.g.col.set s.ci r.1, format := r.2 }
    let ci := s.ci + 1
    let g := { g with totcol := g.totcol + 1 }
    let g := { g with format := DRW_make_cdlayer_attr_aliases alias_names g.format "c" vdata cl }
    let g := if idx == act then { g with format := GPU_vertformat_alias_add g.format "ac" } else g
    ⟨g, ci⟩
  else s

/-- The block `if (vdata && CustomData_has_layer(vdata, CD_PROP_COLOR)) { ... }` of
`GPU_pbvh_update_attribute_names`: registers a colour slot for the colour layers. -/
def attribute_names_colours (E : Deps)
    (alias_names : String → CustomData → CustomDataLayer → List String) (g : VboId)
    (vdata : Option CustomData) (active_only : Bool) : VboId :=
  match vdata with
  | some vd =>
    if E.CustomData_has_layer vd CD_PROP_COLOR then
      let act := E.CustomData_get_active_layer_index vd CD_PROP_COLOR
      let offs := gpu_pbvh_bmesh_make_vcol_offs E vd active_only
      let cd_vcol_layers := offs.2.1
      let totlayer := offs.2.2
      ((List.range totlayer.toNat).foldl
        (attribute_names_layer alias_names vd act cd_vcol_layers) ⟨g, 0⟩).g
    else g
  | none => g

/-- The block `if (g_vbo_id.totcol == 0) { ... }` of `GPU_pbvh_update_attribute_names`: ensures
at least one vertex colour layer. -/
def attribute_names_ensure_colour (g : VboId) : VboId :=
  if g.totcol == 0 then
    let r := GPU_vertformat_attr_add g.format "c" GPU_COMP_U16 4 GPU_FETCH_INT_TO_FLOAT_UNIT
    let g := { g with col := g.col.set 0 r.1, format := r.2 }
    let g := { g with totcol := 1 }
    { g with format := GPU_vertformat_alias_add g.format "ac" }
  else g

/-- The block `if (ldata && CustomData_has_layer(ldata, CD_MLOOPUV)) { ... }` of
`GPU_pbvh_update_attribute_names`: registers the aliases of the active UV layer. -/
def attribute_names_uv_aliases (E : Deps)
    (alias_names : String → CustomData → CustomDataLayer → List String) (g : VboId)
    (ldata : Option CustomData) : VboId :=
  match ldata with
  | some ld =>
    if E.CustomData_has_layer ld CD_MLOOPUV then
      let cd_uv_index := E.CustomData_get_layer_index ld CD_MLOOPUV
      let cl0 := ld.layers.getD cd_uv_index.toNat default
      let cl := ld.layers.getD (cd_uv_index.toNat + cl0.active) default
      { g with format := DRW_make_cdlayer_attr_aliases alias_names g.format "u" ld cl }
    else g
  | none => g

/-- Rebuilds the vertex format of the static `g_vbo_id` (here passed in and returned) for the
given vertex and loop custom data; `none` stands for a `NULL` pointer. -/
def GPU_pbvh_update_attribute_names (E : Deps)
    (alias_names : String → CustomData → CustomDataLayer → List String) (g_vbo_id : VboId)
    (vdata ldata : Option CustomData) (active_only : Bool) : VboId :=
  let g := { g_vbo_id with format := GPU_vertformat_clear g_vbo_id.format }
  if g.format.attr_len == 0 then
    let r := GPU_vertformat_attr_add g.format "pos" GPU_COMP_F32 3 GPU_FETCH_FLOAT
    let g := { g with pos := r.1, format := r.2 }
    let r := GPU_vertformat_attr_add g.format "nor" GPU_COMP_I16 3 GPU_FETCH_INT_TO_FLOAT_UNIT
    let g := { g with nor := r.1, format := r.2 }
    let r := GPU_vertformat_attr_add g.format "msk" GPU_COMP_U8 1 GPU_FETCH_INT_TO_FLOAT_UNIT
    let g := { g with msk := r.1, format := r.2 }
    let g := { g with totcol := 0 }
    let g := attribute_names_colours E alias_names g vdata active_only
    let g := attribute_names_ensure_colour g
    let r := GPU_vertformat_attr_add g.format "fset" GPU_COMP_U8 3 GPU_FETCH_INT_TO_FLOAT_UNIT
    let g := { g with fset := r.1, format := r.2 }
    let r := GPU_vertformat_attr_add g.format "uvs" GPU_COMP_F32 2 GPU_FETCH_FLOAT
    let g := { g with uv := r.1, format := r.2 }
    let g := { g with format := GPU_vertformat_alias_add g.format "u" }
    attribute_names_uv_aliases E alias_names g ldata
  else g

/-- Initialises the vertex format when the module starts. -/
def gpu_pbvh_init (E : Deps) (alias_names : String → CustomData → CustomDataLayer → List String)
    (g_vbo_id : VboId) : VboId :=
  GPU_pbvh_update_attribute_names E alias_names g_vbo_id none none false

/-! ## Reference descriptions for the vertex format registry -/

/-- Name, component type, number of components and fetch mode of an attribute. -/
def GPUVertAttr.layout (a : GPUVertAttr) :
    String × GPUVertCompType × Nat × GPUVertFetchMode :=
  (a.name, a.comp_type, a.comp_len, a.fetch_mode)

/-- The colour attribute registered for entry `i` of the layer array: named `c`, with the
aliases of the layer and the alias `ac` when the layer is the active one. -/
def vcol_attr (alias_names : String → CustomData → CustomDataLayer → List String)
    (vdata : CustomData) (act : Int) (cd_vcol_layers : List Int) (i : Nat) : GPUVertAttr :=
  ⟨"c",
   alias_names "c" vdata (vdata.layers.getD (cd_vcol_layers.getD i 0).toNat default) ++
     (if cd_vcol_layers.getD i 0 == act then ["ac"] else []),
   GPU_COMP_U16, 4, GPU_FETCH_INT_TO_FLOAT_UNIT⟩

/-- The array `col` after the slots `start .. start + k - 1` were registered one after the other,
entry `i` getting the identifier `3 + i` (three attributes precede the colours). -/
def col_slots : Nat → Nat → List Nat → List Nat
  | _, 0, col => col
  | start, k + 1, col => col_slots (start + 1) k (col.set start (3 + start))

/-- The number of colour layers `GPU_pbvh_update_attribute_names` walks over: the count of
`gpu_pbvh_bmesh_make_vcol_offs` when vertex data with a colour layer is given, else none. -/
def vcol_layer_count (E : Deps) (vdata : Option CustomData) (active_only : Bool) : Nat :=
  match vdata with
  | some vd =>
    if E.CustomData_has_layer vd CD_PROP_COLOR then
      (gpu_pbvh_bmesh_make_vcol_offs E vd active_only).2.2.toNat
    else 0
  | none => 0

/-- A registry with nothing registered. -/
def vbo_id_zero : VboId := ⟨⟨[]⟩, 0, 0, 0, 0, 0, List.replicate MAX_MCOL 0, 0⟩

/-- Vertex data with two colour layers, the second one active. -/
def two_vcol_layers : CustomData :=
  ⟨[⟨CD_PROP_COLOR, 0, 0, 1, 1⟩, ⟨CD_PROP_COLOR, 0, 16, 1, 1⟩], 2⟩

/-- The colour attribute registered when no colour layer yields a slot: named `c`, with the
alias `ac`. -/
def placeholder_vcol_attr : GPUVertAttr :=
  ⟨"c", ["ac"], GPU_COMP_U16, 4, GPU_FETCH_INT_TO_FLOAT_UNIT⟩

/-- The colour attributes of the layers `GPU_pbvh_update_attribute_names` walks over, at most
`MAX_MCOL` of them. -/
def layer_vcol_attrs (E : Deps)
    (alias_names : String → CustomData → CustomDataLayer → List String)
    (vdata : Option CustomData) (active_only : Bool) : List GPUVertAttr :=
  match vdata with
  | some vd =>
    if E.CustomData_has_layer vd CD_PROP_COLOR then
      ((List.range (gpu_pbvh_bmesh_make_vcol_offs E vd active_only).2.2.toNat).take
        MAX_MCOL).map
        (vcol_attr alias_names vd (E.CustomData_get_active_layer_index vd CD_PROP_COLOR)
          (gpu_pbvh_bmesh_make_vcol_offs E vd active_only).2.1)
    else []
  | none => []

/-- The colour attributes of the rebuilt format: those of the layers, or the placeholder when
there is none. -/
def registered_vcol_attrs (E : Deps)
    (alias_names : String → CustomData → CustomDataLayer → List String)
    (vdata : Option CustomData) (active_only : Bool) : List GPUVertAttr :=
  if (layer_vcol_attrs E alias_names vdata active_only).length = 0 then [placeholder_vcol_attr]
  else layer_vcol_attrs E alias_names vdata active_only

/-- The aliases of the active UV layer, when loop data with a UV layer is given. -/
def uv_layer_aliases (E : Deps)
    (alias_names : String → CustomData → CustomDataLayer → List String)
    (ldata : Option CustomData) : List String :=
  match ldata with
  | some ld =>
    if E.CustomData_has_layer ld CD_MLOOPUV then
      alias_names "u" ld
        (ld.layers.getD
          ((E.CustomData_get_layer_index ld CD_MLOOPUV).toNat +
            (ld.layers.getD (E.CustomData_get_layer_index ld CD_MLOOPUV).toNat default).active)
          default)
    else []
  | none => []

/-! ## Weighted normal modifier -/

/-- There is one of those per vertex, or per smooth fan. -/
structure WeightedNormalDataAggregateItem where
  normal : float3
  /-- Count of loops using this item so far. -/
  loops_num : Int
  /-- Current max val for this item. -/
  curr_val : float
  /-- Current max strength encountered for this item. -/
  curr_strength : Int
  deriving DecidableEq, Repr

/-- The part of `WeightedNormalData` that `check_item_face_strength` reads: the per-face
strength array (`none` is the null pointer the function asserts against). -/
structure WeightedNormalData where
  face_strength : Option (List Int)
  deriving DecidableEq, Repr

/-- Modelled from the spec: `zero_v3` sets the three components of a vector to `0.0f`. -/
def zero_v3 (E : Deps) (_r : float3) : float3 :=
  ⟨E.float_of_int 0, E.float_of_int 0, E.float_of_int 0⟩

/-- Check strength of given face compared to those found so far for that given item (vertex or
smooth fan), and reset matching item_data in case we get a stronger new strength.  The result
is the returned flag and the item as the call leaves it. -/
def check_item_face_strength (E : Deps) (wn_data : WeightedNormalData)
    (item_data : WeightedNormalDataAggregateItem) (face_index : Nat) :
    Bool × WeightedNormalDataAggregateItem :=
  let mp_strength : Int := deref wn_data.face_strength face_index
  let item_data :=
    if mp_strength > item_data.curr_strength then
      { item_data with
        curr_strength := mp_strength
        curr_val := E.float_of_int 0
        loops_num := 0
        normal := zero_v3 E item_data.normal }
    else item_data
  (mp_strength == item_data.curr_strength, item_data)

/-! ## Reference descriptions for the colour-layer discovery -/

/-- Is the colour layer number `i` of the vertex data not flagged temporary. -/
def vcol_layer_kept (E : Deps) (vdata : CustomData) (i : Nat) : Bool :=
  !((vdata.layers.getD (E.CustomData_get_layer_index_n vdata CD_PROP_COLOR i).toNat default).flag
    &&& CD_FLAG_TEMPORARY != 0)

/-- The numbers of the per-vertex colour layers that are not flagged temporary, in layer
order. -/
def vcol_layer_numbers (E : Deps) (vdata : CustomData) : List Nat :=
  (List.range (E.CustomData_number_of_layers vdata CD_PROP_COLOR)).filter
    (vcol_layer_kept E vdata)

/-- Layer index and data offset of the non-temporary per-vertex colour layers, in layer
order. -/
def vcol_layer_pairs (E : Deps) (vdata : CustomData) : List (Int × Int) :=
  (vcol_layer_numbers E vdata).map (fun i =>
    (E.CustomData_get_layer_index_n vdata CD_PROP_COLOR i,
     E.CustomData_get_n_offset vdata CD_PROP_COLOR i))

/-- Vertex data with nine colour layers, none of them temporary. -/
def nine_vcol_layers : CustomData :=
  ⟨List.replicate 9 ⟨CD_PROP_COLOR, 0, 0, 0, 0⟩, 9⟩

/-- Vertex data with three colour layers at offsets 0, 16 and 32; the second is flagged
temporary, the first is the active and the render layer. -/
def three_vcol_layers : CustomData :=
  ⟨[⟨CD_PROP_COLOR, 0, 0, 0, 0⟩, ⟨CD_PROP_COLOR, CD_FLAG_TEMPORARY, 16, 0, 0⟩,
    ⟨CD_PROP_COLOR, 0, 32, 0, 0⟩], 3⟩

/-- Custom-data queries in which the lookup of the second colour layer fails. -/
def deps_corrupt : Deps :=
  { deps_plain with
    CustomData_get_layer_index_n := fun _ _ n => if n == 0 then 0 else -1 }

/-! ## Reference descriptions for the flat normals of a mesh node -/

/-- The normal of polygon `p` as `GPU_pbvh_mesh_buffers_update` computes it:
`BKE_mesh_calc_poly_normal` over the loops of the polygon, converted to shorts. -/
def mesh_poly_normal (E : Deps) (buffers : GPU_PBVH_Buffers) (mvert : List MVert) (p : Nat) :
    short3 :=
  E.normal_float_to_short_v3
    (E.BKE_mesh_calc_poly_normal (deref buffers.mpoly p)
      ((buffers.mloop.getD []).drop (deref buffers.mpoly p).loopstart) mvert)

/-- The triangle step of the mesh fill loop as the specification words the alternative to the
cache: the polygon normal is recomputed for every visible triangle of a flat node, whatever the
polygon of the previous one.  Everything else is as in `mesh_fill_tri`. -/
def mesh_fill_tri_recompute (E : Deps) (buffers : GPU_PBVH_Buffers)
    (show_mask show_face_sets show_vcol : Bool)
    (mvert : List MVert) (vmask : Option (List float)) (vcol : Option (List MLoopCol))
    (sculpt_face_sets : Option (List Int)) (face_sets_color_seed face_sets_color_default : Int)
    (vtcol : Option (List MPropCol)) (s : MeshFill) (i : Nat) : MeshFill :=
  let lt : MLoopTri := deref buffers.looptri (deref buffers.face_indices i)
  let vtri : Nat → Nat := fun j => (deref buffers.mloop (lt.tri j)).v
  if !gpu_pbvh_is_looptri_visible E lt mvert (buffers.mloop.getD []) sculpt_face_sets then s
  else
    let s :=
      if !buffers.smooth then
        { s with no := mesh_poly_normal E buffers mvert lt.poly, mpoly_prev := lt.poly }
      else s
    let white : uchar4 := ⟨UCHAR_MAX, UCHAR_MAX, UCHAR_MAX, UCHAR_MAX⟩
    let fs : uchar4 × Bool :=
      if show_face_sets then
        let fset : Int := |deref sculpt_face_sets lt.poly|
        if fset != face_sets_color_default then
          (E.BKE_paint_face_set_overlay_color_get fset face_sets_color_seed, false)
        else (white, s.default_face_set)
      else (white, s.default_face_set)
    let cmask :=
      if show_mask && !buffers.smooth then
        let fmask := E.fdiv
          (E.fadd (E.fadd (deref vmask (vtri 0)) (deref vmask (vtri 1))) (deref vmask (vtri 2)))
          (E.float_of_int 3)
        E.float_to_uchar (E.fmul fmask (E.float_of_int 255))
      else 0
    let s := { s with default_face_set := fs.2, cmask := cmask }
    (List.range 3).foldl
      (mesh_fill_vert E buffers.smooth show_mask show_vcol mvert vmask vcol vtcol lt vtri fs.1) s

/-- The fill loop with the normal recomputed for every visible triangle. -/
def mesh_fill_recompute (E : Deps) (buffers : GPU_PBVH_Buffers)
    (show_mask show_face_sets show_vcol : Bool)
    (mvert : List MVert) (vmask : Option (List float)) (vcol : Option (List MLoopCol))
    (sculpt_face_sets : Option (List Int)) (face_sets_color_seed face_sets_color_default : Int)
    (vtcol : Option (List MPropCol)) : MeshFill :=
  (List.range buffers.face_indices_len).foldl
    (mesh_fill_tri_recompute E buffers show_mask show_face_sets show_vcol mvert vmask vcol
      sculpt_face_sets face_sets_color_seed face_sets_color_default vtcol)
    mesh_fill_init

/-- The normal writes among a list of attribute writes, as (slot, normal) pairs. -/
def nor_writes (ws : List VertWrite) : List (Nat × short3) :=
  ws.filterMap (fun w => match w.data with
    | AttrData.nor no => some (w.v_index, no)
    | _ => none)

/-- Three normal records per triangle, the `r`-th triangle of the list at the slots `3r`,
`3r + 1`, `3r + 2`, each holding the normal of the polygon of that triangle. -/
def mesh_normal_records (E : Deps) (buffers : GPU_PBVH_Buffers) (mvert : List MVert) :
    List MLoopTri → Nat → List (Nat × short3)
  | [], _ => []
  | lt :: rest, r =>
    [(3 * r, mesh_poly_normal E buffers mvert lt.poly),
     (3 * r + 1, mesh_poly_normal E buffers mvert lt.poly),
     (3 * r + 2, mesh_poly_normal E buffers mvert lt.poly)] ++
    mesh_normal_records E buffers mvert rest (r + 1)

/-- Polygon normals that tell the polygons apart, for sample inputs. -/
def deps_normals : Deps :=
  { deps_mesh with
    BKE_mesh_calc_poly_normal := fun mp _ _ => ⟨⟨mp.loopstart⟩, ⟨0⟩, ⟨1⟩⟩
    normal_float_to_short_v3 := fun n => ⟨n.x.bits, n.y.bits, n.z.bits⟩ }

/-- The state of the face loop of the non-indexed strategy after `n` drawn faces stays within
three vertex records and three wireframe lines per drawn face: the write cursor is at `3n`,
`3n` position records have been written, every record written is in a slot below `3n`, and the
wireframe builder holds at most `3n` lines over slots below `3n`. -/
def BMeshFill.within (s : BMeshFill) (n : Nat) : Prop :=
  s.v_index = 3 * n ∧ (pos_writes s.writes).length = 3 * n ∧
  (∀ w ∈ s.writes, w.v_index < 3 * n) ∧
  s.elb_lines.data.length ≤ 2 * (3 * n) ∧ ∀ x ∈ s.elb_lines.data, x < 3 * n

/-- Every vertex index in the four builders of the fill state is below `B`, and so are the
corners `v1` and `v2` that the end of a row reads once a subface of the grid was visible. -/
def GridFill.below (s : GridFill) (B : Nat) : Prop :=
  (∀ x ∈ s.elb.data, x < B) ∧ (∀ x ∈ s.elb_fast.data, x < B) ∧
  (∀ x ∈ s.elb_lines.data, x < B) ∧ (∀ x ∈ s.elb_lines_fast.data, x < B) ∧
  (s.grid_visible = true → s.v1 < B ∧ s.v2 < B)

/-- The index buffers a node buffer object owns. -/
def node_index_bufs (b : GPU_PBVH_Buffers) : List GPUIndexBuf :=
  [b.index_buf, b.index_buf_fast, b.index_lines_buf, b.index_lines_buf_fast].filterMap id

/-! ## Reference description for the wireframe of a smooth grid -/

/-- A line between two vertex slots, the smaller slot first. -/
def slot_edge (a b : Nat) : Nat × Nat := (min a b, max a b)

/-- The lines an index list of a line buffer holds, two indices per line. -/
def index_lines : List Nat → List (Nat × Nat)
  | a :: b :: rest => slot_edge a b :: index_lines rest
  | _ => []

/-- The four edges of a subface over its corner slots `v0 .. v3`. -/
def quad_edges (v : Nat × Nat × Nat × Nat) : List (Nat × Nat) :=
  [slot_edge v.1 v.2.1, slot_edge v.2.1 v.2.2.1, slot_edge v.2.2.1 v.2.2.2,
   slot_edge v.2.2.2 v.1]

/-- The edges of the non-hidden subfaces of a smooth grid whose vertices start at `offset`, each
edge once (in a smooth grid neighbouring subfaces share the slots of their common edge). -/
def grid_visible_edges (E : Deps) (gh : Option BLI_bitmap) (gridsize offset : Nat) :
    List (Nat × Nat) :=
  ((List.range (gridsize - 1)).flatMap (fun j =>
    (row_visible E gh gridsize j (List.range (gridsize - 1))).flatMap (fun k =>
      quad_edges (grid_quad_verts true gridsize offset j k)))).dedup

/-! ## Properties -/

/-! ### Mesh mode -/

/-- C3: `gpu_pbvh_is_looptri_visible` is true exactly when the triangle is not paint-hidden and
the face-set array is present with an id for the triangle polygon strictly greater than
`SCULPT_FACE_SET_NONE`; with an absent face-set array it is false for every triangle. -/
theorem looptri_visible_iff (E : Deps) (lt : MLoopTri) (mvert : List MVert)
    (mloop : List MLoop) (sculpt_face_sets : Option (List Int)) :
    (gpu_pbvh_is_looptri_visible E lt mvert mloop sculpt_face_sets = true ↔
      (E.paint_is_face_hidden lt mvert mloop = false ∧
        ∃ fs, sculpt_face_sets = some fs ∧ fs.getD lt.poly 0 > SCULPT_FACE_SET_NONE)) ∧
    gpu_pbvh_is_looptri_visible E lt mvert mloop none = false := by
  constructor
  · cases sculpt_face_sets with
    | none => simp [gpu_pbvh_is_looptri_visible]
    | some fs => simp [gpu_pbvh_is_looptri_visible]
  · simp [gpu_pbvh_is_looptri_visible]

/-- Effect of writing one vertex in the mesh fill loop. -/
theorem mesh_fill_vert_effect (E : Deps) (smooth show_mask show_vcol : Bool) (mvert : List MVert)
    (vmask : Option (List float)) (vcol : Option (List MLoopCol))
    (vtcol : Option (List MPropCol)) (lt : MLoopTri) (vtri : Nat → Nat)
    (fsc : uchar4) (s : MeshFill) (j : Nat) :
    (mesh_fill_vert E smooth show_mask show_vcol mvert vmask vcol vtcol lt vtri fsc s j).pos_step
        = s.pos_step + 1 ∧
    (mesh_fill_vert E smooth show_mask show_vcol mvert vmask vcol vtcol lt vtri fsc s j).nor_step
        = s.nor_step + 1 ∧
    (mesh_fill_vert E smooth show_mask show_vcol mvert vmask vcol vtcol lt vtri fsc s j).msk_step
        = s.msk_step + 1 ∧
    (mesh_fill_vert E smooth show_mask show_vcol mvert vmask vcol vtcol lt vtri fsc s j).fset_step
        = s.fset_step + 1 ∧
    (mesh_fill_vert E smooth show_mask show_vcol mvert vmask vcol vtcol lt vtri fsc s j).col_step
        = (if show_vcol then s.col_step + 1 else s.col_step) ∧
    pos_writes
        (mesh_fill_vert E smooth show_mask show_vcol mvert vmask vcol vtcol lt vtri fsc s j).writes
        = pos_writes s.writes ++ [(s.pos_step, (mvert.getD (vtri j) default).co)] ∧
    nor_count
        (mesh_fill_vert E smooth show_mask show_vcol mvert vmask vcol vtcol lt vtri fsc s j).writes
        = nor_count s.writes + 1 ∧
    msk_count
        (mesh_fill_vert E smooth show_mask show_vcol mvert vmask vcol vtcol lt vtri fsc s j).writes
        = msk_count s.writes + 1 ∧
    fset_count
        (mesh_fill_vert E smooth show_mask show_vcol mvert vmask vcol vtcol lt vtri fsc s j).writes
        = fset_count s.writes + 1 := by
  refine ⟨rfl, rfl, rfl, rfl, rfl, ?_, ?_, ?_, ?_⟩
  all_goals
    simp only [mesh_fill_vert, pos_writes, nor_count, msk_count, fset_count]
    cases show_vcol <;> simp
    try (split_ifs <;> simp)

theorem MeshFillView.advance_advance (v : MeshFillView) (b : Bool) (n m : Nat)
    (r1 r2 : List (Nat × float3)) :
    (v.advance b n r1).advance b m r2 = v.advance b (n + m) (r1 ++ r2) := by
  cases b <;> simp [MeshFillView.advance, Nat.add_assoc]

theorem MeshFillView.advance_zero (v : MeshFillView) (b : Bool) :
    v.advance b 0 [] = v := by
  cases b <;> simp [MeshFillView.advance]

theorem mesh_fill_vert_view (E : Deps) (smooth show_mask show_vcol : Bool) (mvert : List MVert)
    (vmask : Option (List float)) (vcol : Option (List MLoopCol))
    (vtcol : Option (List MPropCol)) (lt : MLoopTri) (vtri : Nat → Nat)
    (fsc : uchar4) (s : MeshFill) (j : Nat) :
    (mesh_fill_vert E smooth show_mask show_vcol mvert vmask vcol vtcol lt vtri fsc s j).view
      = s.view.advance show_vcol 1 [(s.pos_step, (mvert.getD (vtri j) default).co)] := by
  obtain ⟨h1, h2, h3, h4, h5, h6, h7, h8, h9⟩ :=
    mesh_fill_vert_effect E smooth show_mask show_vcol mvert vmask vcol vtcol lt vtri fsc s j
  simp only [MeshFill.view, MeshFillView.advance, h1, h2, h3, h4, h5, h6, h7, h8, h9]

/-- The three corner writes of one triangle. -/
theorem mesh_fill_vert_fold3 (E : Deps) (smooth show_mask show_vcol : Bool) (mvert : List MVert)
    (vmask : Option (List float)) (vcol : Option (List MLoopCol))
    (vtcol : Option (List MPropCol)) (lt : MLoopTri) (vtri : Nat → Nat)
    (fsc : uchar4) (s : MeshFill) :
    ((List.range 3).foldl
      (mesh_fill_vert E smooth show_mask show_vcol mvert vmask vcol vtcol lt vtri fsc) s).view
      = s.view.advance show_vcol 3
        [(s.pos_step + 0, (mvert.getD (vtri 0) default).co),
         (s.pos_step + 1, (mvert.getD (vtri 1) default).co),
         (s.pos_step + 2, (mvert.getD (vtri 2) default).co)] := by
  have hr : List.range 3 = [0, 1, 2] := rfl
  simp only [hr, List.foldl_cons, List.foldl_nil, mesh_fill_vert_view,
    MeshFillView.advance_advance]
  simp only [(mesh_fill_vert_effect E smooth show_mask show_vcol mvert vmask vcol vtcol lt vtri
    fsc _ _).1]
  rfl

/-- A hidden triangle leaves the fill state as it is. -/
theorem mesh_fill_tri_hidden (E : Deps) (buffers : GPU_PBVH_Buffers)
    (show_mask show_face_sets show_vcol : Bool)
    (mvert : List MVert) (vmask : Option (List float)) (vcol : Option (List MLoopCol))
    (sfs : Option (List Int)) (seed dflt : Int)
    (vtcol : Option (List MPropCol)) (s : MeshFill) (i : Nat)
    (h : gpu_pbvh_is_looptri_visible E (deref buffers.looptri (deref buffers.face_indices i))
      mvert (buffers.mloop.getD []) sfs = false) :
    mesh_fill_tri E buffers show_mask show_face_sets show_vcol mvert vmask vcol sfs seed dflt
      vtcol s i = s := by
  simp [mesh_fill_tri, h]

/-- A visible triangle advances every cursor by three and appends its three corner records. -/
theorem mesh_fill_tri_visible (E : Deps) (buffers : GPU_PBVH_Buffers)
    (show_mask show_face_sets show_vcol : Bool)
    (mvert : List MVert) (vmask : Option (List float)) (vcol : Option (List MLoopCol))
    (sfs : Option (List Int)) (seed dflt : Int)
    (vtcol : Option (List MPropCol)) (s : MeshFill) (i : Nat)
    (h : gpu_pbvh_is_looptri_visible E (deref buffers.looptri (deref buffers.face_indices i))
      mvert (buffers.mloop.getD []) sfs = true) :
    (mesh_fill_tri E buffers show_mask show_face_sets show_vcol mvert vmask vcol sfs seed dflt
      vtcol s i).view =
    s.view.advance show_vcol 3
      [(s.pos_step + 0, (mvert.getD (deref buffers.mloop
          ((deref buffers.looptri (deref buffers.face_indices i)).tri 0)).v default).co),
       (s.pos_step + 1, (mvert.getD (deref buffers.mloop
          ((deref buffers.looptri (deref buffers.face_indices i)).tri 1)).v default).co),
       (s.pos_step + 2, (mvert.getD (deref buffers.mloop
          ((deref buffers.looptri (deref buffers.face_indices i)).tri 2)).v default).co)] := by
  simp only [mesh_fill_tri, h, Bool.not_true, Bool.false_eq_true, if_false]
  rw [mesh_fill_vert_fold3]
  congr 1 <;> (simp only [MeshFill.view]; split_ifs <;> rfl)

/-- The fill loop over any list of steps: every cursor advances by three per visible triangle
and the position records appended are the corner records of the visible triangles. -/
theorem mesh_fill_fold_view (E : Deps) (buffers : GPU_PBVH_Buffers)
    (show_mask show_face_sets show_vcol : Bool)
    (mvert : List MVert) (vmask : Option (List float)) (vcol : Option (List MLoopCol))
    (sfs : Option (List Int)) (seed dflt : Int) (vtcol : Option (List MPropCol))
    (steps : List Nat) (s : MeshFill) (r0 : Nat) (h0 : s.pos_step = 3 * r0) :
    (steps.foldl (mesh_fill_tri E buffers show_mask show_face_sets show_vcol mvert vmask vcol sfs
      seed dflt vtcol) s).view =
    s.view.advance show_vcol
      (3 * ((visited_tris (buffers.looptri.getD []) (buffers.face_indices.getD []) steps).filter
        (mesh_vis E mvert (buffers.mloop.getD []) sfs)).length)
      (mesh_corner_records mvert (buffers.mloop.getD [])
        ((visited_tris (buffers.looptri.getD []) (buffers.face_indices.getD []) steps).filter
          (mesh_vis E mvert (buffers.mloop.getD []) sfs)) r0) := by
  induction steps generalizing s r0 with
  | nil =>
    simp only [visited_tris, List.map_nil, List.filter_nil, List.length_nil, Nat.mul_zero,
      mesh_corner_records, MeshFillView.advance_zero, List.foldl_nil]
  | cons i rest ih =>
    have hd : (buffers.looptri.getD []).getD ((buffers.face_indices.getD []).getD i 0) default
        = deref buffers.looptri (deref buffers.face_indices i) := rfl
    rw [List.foldl_cons]
    simp only [visited_tris, List.map_cons] at ih ⊢
    rw [hd]
    by_cases hv : mesh_vis E mvert (buffers.mloop.getD []) sfs
        (deref buffers.looptri (deref buffers.face_indices i)) = true
    · have h1 := mesh_fill_tri_visible E buffers show_mask show_face_sets show_vcol mvert vmask
        vcol sfs seed dflt vtcol s i hv
      have hp : (mesh_fill_tri E buffers show_mask show_face_sets show_vcol mvert vmask vcol sfs
          seed dflt vtcol s i).pos_step = 3 * (r0 + 1) := by
        have := congrArg MeshFillView.pos_step h1
        simp only [MeshFill.view, MeshFillView.advance] at this
        omega
      rw [ih _ (r0 + 1) hp, h1, MeshFillView.advance_advance, List.filter_cons_of_pos hv,
        List.length_cons, Nat.mul_succ, Nat.add_comm 3, h0]
      rfl
    · have hv2 : gpu_pbvh_is_looptri_visible E
          (deref buffers.looptri (deref buffers.face_indices i)) mvert (buffers.mloop.getD []) sfs
          = false := by simpa [mesh_vis] using hv
      rw [mesh_fill_tri_hidden E buffers show_mask show_face_sets show_vcol mvert vmask vcol sfs
        seed dflt vtcol s i hv2, ih s r0 h0, List.filter_cons_of_neg hv]

/-- The counting loop of the build: visible triangles and their real edges. -/
theorem mesh_count_fold (E : Deps) (mloop : List MLoop) (looptri : List MLoopTri)
    (mvert : List MVert) (face_indices : List Nat) (sfs : Option (List Int)) (mesh : Mesh)
    (steps : List Nat) (c : MeshCount) :
    steps.foldl (mesh_count_tri E mloop looptri mvert face_indices sfs mesh) c =
      ⟨c.tottri + ((visited_tris looptri face_indices steps).filter
          (mesh_vis E mvert mloop sfs)).length,
       c.tot_real_edges + (((visited_tris looptri face_indices steps).filter
          (mesh_vis E mvert mloop sfs)).map (real_edge_count E mesh)).sum⟩ := by
  induction steps generalizing c with
  | nil => simp [visited_tris]
  | cons i rest ih =>
    rw [List.foldl_cons, ih]
    simp only [visited_tris, List.map_cons]
    by_cases hv : mesh_vis E mvert mloop sfs (looptri.getD (face_indices.getD i 0) default) = true
    · rw [List.filter_cons_of_pos hv]
      have hv2 : gpu_pbvh_is_looptri_visible E (looptri.getD (face_indices.getD i 0) default)
          mvert mloop sfs = true := hv
      have hr : List.range 3 = [0, 1, 2] := rfl
      simp only [mesh_count_tri, hv2, if_true, hr, List.foldl_cons, List.foldl_nil,
        List.length_cons, List.map_cons, List.sum_cons, real_edge_count, List.filter_cons,
        List.filter_nil, MeshCount.mk.injEq]
      constructor
      · omega
      · split_ifs <;> simp <;> omega
    · rw [List.filter_cons_of_neg hv]
      have hv2 : gpu_pbvh_is_looptri_visible E (looptri.getD (face_indices.getD i 0) default)
          mvert mloop sfs = false := by simpa [mesh_vis] using hv
      simp only [mesh_count_tri, hv2, Bool.false_eq_true, if_false]

/-- The line loop of the build: the lines appended are the real-edge lines of the visible
triangles, ranked in visiting order. -/
theorem mesh_lines_fold (E : Deps) (mloop : List MLoop) (looptri : List MLoopTri)
    (mvert : List MVert) (face_indices : List Nat) (sfs : Option (List Int)) (mesh : Mesh)
    (steps : List Nat) (s : MeshLines) :
    steps.foldl (mesh_lines_tri E mloop looptri mvert face_indices sfs mesh) s =
      ⟨{ s.elb_lines with data := (s.elb_lines.data ++ mesh_wire_lines E mesh
          ((visited_tris looptri face_indices steps).filter (mesh_vis E mvert mloop sfs))
          s.vert_idx) },
       s.vert_idx + ((visited_tris looptri face_indices steps).filter
          (mesh_vis E mvert mloop sfs)).length⟩ := by
  induction steps generalizing s with
  | nil => simp [visited_tris, mesh_wire_lines]
  | cons i rest ih =>
    rw [List.foldl_cons, ih]
    simp only [visited_tris, List.map_cons]
    by_cases hv : mesh_vis E mvert mloop sfs (looptri.getD (face_indices.getD i 0) default) = true
    · rw [List.filter_cons_of_pos hv]
      have hv2 : gpu_pbvh_is_looptri_visible E (looptri.getD (face_indices.getD i 0) default)
          mvert mloop sfs = true := hv
      simp only [mesh_lines_tri, hv2, Bool.not_true, Bool.false_eq_true, if_false,
        List.length_cons, mesh_wire_lines, real_edge_lines, List.filter_cons, List.filter_nil,
        GPU_indexbuf_add_line_verts, MeshLines.mk.injEq]
      constructor
      · split_ifs <;> simp <;> omega
      · omega
    · rw [List.filter_cons_of_neg hv]
      have hv2 : gpu_pbvh_is_looptri_visible E (looptri.getD (face_indices.getD i 0) default)
          mvert mloop sfs = false := by simpa [mesh_vis] using hv
      simp only [mesh_lines_tri, hv2, Bool.not_false, if_true]

/-- Each real edge gives one line of two indices. -/
theorem mesh_wire_lines_length (E : Deps) (mesh : Mesh) (tris : List MLoopTri) (r : Nat) :
    (mesh_wire_lines E mesh tris r).length = 2 * (tris.map (real_edge_count E mesh)).sum := by
  induction tris generalizing r with
  | nil => simp [mesh_wire_lines]
  | cons lt rest ih =>
    simp only [mesh_wire_lines, List.length_append, ih, List.map_cons, List.sum_cons,
      real_edge_lines, real_edge_count, List.filter_cons, List.filter_nil]
    split_ifs <;> simp <;> omega

/-- The node buffer object the build returns when the node has a visible triangle. -/
theorem mesh_build_eq_of_visible (E : Deps) (mpoly : List MPoly) (mloop : List MLoop)
    (looptri : List MLoopTri) (mvert : List MVert) (face_indices : List Nat)
    (sfs : Option (List Int)) (len : Nat) (mesh : Mesh)
    (h : 1 ≤ (mesh_visible_tris E mloop looptri mvert face_indices sfs len).length) :
    GPU_pbvh_mesh_buffers_build E mpoly mloop looptri mvert face_indices sfs len mesh =
      { MEM_callocN with
        smooth := (mpoly.getD (looptri.getD (face_indices.getD 0 0) default).poly default).flag
          &&& ME_SMOOTH != 0
        index_lines_buf := some ⟨0, GPU_PRIM_LINES,
          mesh_wire_lines E mesh (mesh_visible_tris E mloop looptri mvert face_indices sfs len) 0⟩
        tot_tri := (mesh_visible_tris E mloop looptri mvert face_indices sfs len).length
        mpoly := some mpoly
        mloop := some mloop
        looptri := some looptri
        face_indices := some face_indices
        face_indices_len := len
        next_handle := 1 } := by
  have hne : ¬ ((mesh_visible_tris E mloop looptri mvert face_indices sfs len).length = 0) := by
    omega
  simp only [mesh_visible_tris, node_looptris] at hne ⊢
  simp only [GPU_pbvh_mesh_buffers_build, mesh_count_fold, mesh_lines_fold, Nat.zero_add,
    beq_iff_eq, hne, if_false, GPU_indexbuf_build, GPU_indexbuf_init, List.nil_append, MEM_callocN]

/-- The node buffer object the build returns when the node has no visible triangle. -/
theorem mesh_build_eq_of_hidden (E : Deps) (mpoly : List MPoly) (mloop : List MLoop)
    (looptri : List MLoopTri) (mvert : List MVert) (face_indices : List Nat)
    (sfs : Option (List Int)) (len : Nat) (mesh : Mesh)
    (h : (mesh_visible_tris E mloop looptri mvert face_indices sfs len).length = 0) :
    GPU_pbvh_mesh_buffers_build E mpoly mloop looptri mvert face_indices sfs len mesh =
      { MEM_callocN with
        smooth := (mpoly.getD (looptri.getD (face_indices.getD 0 0) default).poly default).flag
          &&& ME_SMOOTH != 0
        mpoly := some mpoly
        mloop := some mloop
        looptri := some looptri
        face_indices := some face_indices } := by
  simp only [mesh_visible_tris, node_looptris] at h
  simp only [GPU_pbvh_mesh_buffers_build, mesh_count_fold, Nat.zero_add,
    beq_iff_eq, h, if_true, MEM_callocN]

/-- Creating batches does not touch the vertex buffer. -/
theorem gpu_pbvh_batch_init_vert_buf (buffers : GPU_PBVH_Buffers) (prim : GPUPrimType) :
    (gpu_pbvh_batch_init buffers prim).vert_buf = buffers.vert_buf := by
  simp only [gpu_pbvh_batch_init, GPU_batch_create]
  split_ifs <;> rfl

theorem mesh_corner_records_length (mvert : List MVert) (mloop : List MLoop)
    (tris : List MLoopTri) (r : Nat) :
    (mesh_corner_records mvert mloop tris r).length = 3 * tris.length := by
  induction tris generalizing r with
  | nil => simp [mesh_corner_records]
  | cons lt rest ih => simp [mesh_corner_records, ih]; omega

/-- The whole fill loop on a node buffer object that holds the given arrays. -/
theorem mesh_fill_view_eq (E : Deps) (buffers : GPU_PBVH_Buffers)
    (mloop : List MLoop) (looptri : List MLoopTri) (face_indices : List Nat) (len : Nat)
    (show_mask show_face_sets show_vcol : Bool)
    (mvert : List MVert) (vmask : Option (List float)) (vcol : Option (List MLoopCol))
    (sfs : Option (List Int)) (seed dflt : Int) (vtcol : Option (List MPropCol))
    (hl : buffers.looptri = some looptri) (hm : buffers.mloop = some mloop)
    (hf : buffers.face_indices = some face_indices) (hn : buffers.face_indices_len = len) :
    (mesh_fill E buffers show_mask show_face_sets show_vcol mvert vmask vcol sfs seed dflt
      vtcol).view =
    (⟨0, 0, 0, 0, 0, [], 0, 0, 0⟩ : MeshFillView).advance show_vcol
      (3 * (mesh_visible_tris E mloop looptri mvert face_indices sfs len).length)
      (mesh_corner_records mvert mloop
        (mesh_visible_tris E mloop looptri mvert face_indices sfs len) 0) := by
  have h0 : mesh_fill_init.pos_step = 3 * 0 := rfl
  have := mesh_fill_fold_view E buffers show_mask show_face_sets show_vcol mvert vmask vcol sfs
    seed dflt vtcol (List.range buffers.face_indices_len) mesh_fill_init 0 h0
  unfold mesh_fill
  rw [this, hl, hm, hf, hn]
  rfl

/-- C1: after `GPU_pbvh_mesh_buffers_build` found `N >= 1` visible triangles, a following
`GPU_pbvh_mesh_buffers_update` with the same vertex and face-set arrays sizes the vertex buffer
to exactly `3N` entries (whether or not storage could be mapped) and, when storage is mapped,
writes exactly `3N` vertex records into fresh storage: the position records are the three
corners of each visible triangle in face-index order at slots `3r`, `3r+1`, `3r+2`, there are
`3N` normal, mask and face-set records, and every sequential write cursor ends at `3N`, the end
of the allocation (the colour cursor only when colours are shown). -/
theorem mesh_update_writes_three_per_visible_triangle (E : Deps) (mpoly : List MPoly)
    (mloop : List MLoop) (looptri : List MLoopTri) (mvert : List MVert)
    (face_indices : List Nat) (sfs : Option (List Int)) (len : Nat) (mesh : Mesh)
    (vmask : Option (List float)) (vcol : Option (List MLoopCol)) (seed dflt : Int)
    (vtcol : Option (List MPropCol)) (update_flags : Nat)
    (h : 1 ≤ (mesh_visible_tris E mloop looptri mvert face_indices sfs len).length) :
    (GPU_pbvh_mesh_buffers_build E mpoly mloop looptri mvert face_indices sfs len mesh).tot_tri
      = (mesh_visible_tris E mloop looptri mvert face_indices sfs len).length ∧
    (∀ alloc_ok, ∃ vb,
      (GPU_pbvh_mesh_buffers_update E alloc_ok
        (GPU_pbvh_mesh_buffers_build E mpoly mloop looptri mvert face_indices sfs len mesh)
        mvert vmask vcol sfs seed dflt vtcol update_flags).vert_buf = some vb ∧
      vb.vertex_len = 3 * (mesh_visible_tris E mloop looptri mvert face_indices sfs len).length) ∧
    (∃ vb ws,
      (GPU_pbvh_mesh_buffers_update E true
        (GPU_pbvh_mesh_buffers_build E mpoly mloop looptri mvert face_indices sfs len mesh)
        mvert vmask vcol sfs seed dflt vtcol update_flags).vert_buf = some vb ∧
      vb.data = some ws ∧
      pos_writes ws = mesh_corner_records mvert mloop
        (mesh_visible_tris E mloop looptri mvert face_indices sfs len) 0 ∧
      (pos_writes ws).length = vb.vertex_len ∧
      nor_count ws = vb.vertex_len ∧ msk_count ws = vb.vertex_len ∧
      fset_count ws = vb.vertex_len) ∧
    (∀ show_mask show_face_sets show_vcol,
      (mesh_fill E
        (gpu_pbvh_vert_buf_data_set
          (GPU_pbvh_mesh_buffers_build E mpoly mloop looptri mvert face_indices sfs len mesh)
          (3 * (mesh_visible_tris E mloop looptri mvert face_indices sfs len).length) true).1
        show_mask show_face_sets show_vcol mvert vmask vcol sfs seed dflt vtcol).pos_step =
          3 * (mesh_visible_tris E mloop looptri mvert face_indices sfs len).length ∧
      (mesh_fill E
        (gpu_pbvh_vert_buf_data_set
          (GPU_pbvh_mesh_buffers_build E mpoly mloop looptri mvert face_indices sfs len mesh)
          (3 * (mesh_visible_tris E mloop looptri mvert face_indices sfs len).length) true).1
        show_mask show_face_sets show_vcol mvert vmask vcol sfs seed dflt vtcol).nor_step =
          3 * (mesh_visible_tris E mloop looptri mvert face_indices sfs len).length ∧
      (mesh_fill E
        (gpu_pbvh_vert_buf_data_set
          (GPU_pbvh_mesh_buffers_build E mpoly mloop looptri mvert face_indices sfs len mesh)
          (3 * (mesh_visible_tris E mloop looptri mvert face_indices sfs len).length) true).1
        show_mask show_face_sets show_vcol mvert vmask vcol sfs seed dflt vtcol).msk_step =
          3 * (mesh_visible_tris E mloop looptri mvert face_indices sfs len).length ∧
      (mesh_fill E
        (gpu_pbvh_vert_buf_data_set
          (GPU_pbvh_mesh_buffers_build E mpoly mloop looptri mvert face_indices sfs len mesh)
          (3 * (mesh_visible_tris E mloop looptri mvert face_indices sfs len).length) true).1
        show_mask show_face_sets show_vcol mvert vmask vcol sfs seed dflt vtcol).fset_step =
          3 * (mesh_visible_tris E mloop looptri mvert face_indices sfs len).length ∧
      (mesh_fill E
        (gpu_pbvh_vert_buf_data_set
          (GPU_pbvh_mesh_buffers_build E mpoly mloop looptri mvert face_indices sfs len mesh)
          (3 * (mesh_visible_tris E mloop looptri mvert face_indices sfs len).length) true).1
        show_mask show_face_sets show_vcol mvert vmask vcol sfs seed dflt vtcol).col_step =
          if show_vcol then
            3 * (mesh_visible_tris E mloop looptri mvert face_indices sfs len).length
          else 0) := by
  have hb := mesh_build_eq_of_visible E mpoly mloop looptri mvert face_indices sfs len mesh h
  have hlen := mesh_corner_records_length mvert mloop
    (mesh_visible_tris E mloop looptri mvert face_indices sfs len) 0
  refine ⟨by rw [hb], ?_, ?_, ?_⟩
  · intro alloc_ok
    rw [hb]
    simp only [GPU_pbvh_mesh_buffers_update, gpu_pbvh_batch_init_vert_buf]
    cases alloc_ok <;>
      simp [gpu_pbvh_vert_buf_data_set, MEM_callocN, GPU_vertbuf_data_alloc, vert_buf_write,
        Nat.mul_comm]
  · have hv := mesh_fill_view_eq E
      (gpu_pbvh_vert_buf_data_set
        (GPU_pbvh_mesh_buffers_build E mpoly mloop looptri mvert face_indices sfs len mesh)
        ((GPU_pbvh_mesh_buffers_build E mpoly mloop looptri mvert face_indices sfs len
          mesh).tot_tri * 3) true).1 mloop looptri face_indices len
      (vmask.isSome && (update_flags &&& GPU_PBVH_BUFFERS_SHOW_MASK != 0))
      (sfs.isSome && (update_flags &&& GPU_PBVH_BUFFERS_SHOW_SCULPT_FACE_SETS != 0))
      ((vcol.isSome || (vtcol.isSome && E.use_sculpt_vertex_colors)) &&
        (update_flags &&& GPU_PBVH_BUFFERS_SHOW_VCOL != 0))
      mvert vmask vcol sfs seed dflt vtcol
      (by rw [hb]; rfl) (by rw [hb]; rfl) (by rw [hb]; rfl) (by rw [hb]; rfl)
    simp only [MeshFill.view, MeshFillView.advance, MeshFillView.mk.injEq, List.nil_append,
      Nat.zero_add] at hv
    obtain ⟨-, -, -, -, -, h6, h7, h8, h9⟩ := hv
    simp only [GPU_pbvh_mesh_buffers_update, gpu_pbvh_batch_init_vert_buf]
    have hr : (gpu_pbvh_vert_buf_data_set
        (GPU_pbvh_mesh_buffers_build E mpoly mloop looptri mvert face_indices sfs len mesh)
        ((GPU_pbvh_mesh_buffers_build E mpoly mloop looptri mvert face_indices sfs len
          mesh).tot_tri * 3) true).2 = true := by
      rw [hb]; simp [gpu_pbvh_vert_buf_data_set, MEM_callocN, GPU_vertbuf_data_alloc]
    simp only [hr, if_true]
    refine ⟨⟨1, 3 * (mesh_visible_tris E mloop looptri mvert face_indices sfs len).length,
      some _⟩, _, ?_, rfl, h6, ?_, h7, h8, h9⟩
    · rw [hb]
      simp [gpu_pbvh_vert_buf_data_set, MEM_callocN, GPU_vertbuf_data_alloc, vert_buf_write,
        Nat.mul_comm]
    · rw [h6, hlen]
  · intro show_mask show_face_sets show_vcol
    have hv := mesh_fill_view_eq E
      (gpu_pbvh_vert_buf_data_set
        (GPU_pbvh_mesh_buffers_build E mpoly mloop looptri mvert face_indices sfs len mesh)
        (3 * (mesh_visible_tris E mloop looptri mvert face_indices sfs len).length) true).1
      mloop looptri face_indices len show_mask show_face_sets show_vcol
      mvert vmask vcol sfs seed dflt vtcol
      (by rw [hb]; rfl) (by rw [hb]; rfl) (by rw [hb]; rfl) (by rw [hb]; rfl)
    simp only [MeshFill.view, MeshFillView.advance, MeshFillView.mk.injEq, List.nil_append,
      Nat.zero_add] at hv
    obtain ⟨h1, h2, h3, h4, h5, -, -, -, -⟩ := hv
    exact ⟨h1, h2, h3, h4, h5⟩

/-- Instance of the statement on vertex records: a node of one visible triangle. -/
theorem mesh_update_writes_three_per_visible_triangle_witness :
    1 ≤ (mesh_visible_tris deps_plain tri_mloop tri_looptri tri_mvert [0] (some [1]) 1).length ∧
    (GPU_pbvh_mesh_buffers_build deps_plain tri_mpoly tri_mloop tri_looptri tri_mvert [0]
      (some [1]) 1 tri_mesh).tot_tri = 1 ∧
    ∃ vb, (GPU_pbvh_mesh_buffers_update deps_plain true
        (GPU_pbvh_mesh_buffers_build deps_plain tri_mpoly tri_mloop tri_looptri tri_mvert [0]
          (some [1]) 1 tri_mesh)
        tri_mvert none none (some [1]) 0 1 none 0).vert_buf = some vb ∧ vb.vertex_len = 3 :=
  ⟨by decide,
   (mesh_update_writes_three_per_visible_triangle deps_plain tri_mpoly tri_mloop tri_looptri
      tri_mvert [0] (some [1]) 1 tri_mesh none none 0 1 none 0 (by decide)).1,
   (mesh_update_writes_three_per_visible_triangle deps_plain tri_mpoly tri_mloop tri_looptri
      tri_mvert [0] (some [1]) 1 tri_mesh none none 0 1 none 0 (by decide)).2.1 true⟩

/-- C2: the wireframe index buffer built by `GPU_pbvh_mesh_buffers_build` is exactly the list of
lines obtained by taking the node visible triangles in face-index order and, for the triangle of
rank `r` and each edge slot `e` in 0, 1, 2 whose edge is real (`r_edges[e]` differs from `-1`),
the line joining slots `3r+e` and `3r+((e+1) mod 3)`; hidden triangles and non-real edges give
no line (a node without visible triangle gets no index buffer at all), and the number of lines
emitted equals the count `tot_real_edges` with which the builder was sized. -/
theorem mesh_build_wire_index_buffer (E : Deps) (mpoly : List MPoly) (mloop : List MLoop)
    (looptri : List MLoopTri) (mvert : List MVert) (face_indices : List Nat)
    (sfs : Option (List Int)) (len : Nat) (mesh : Mesh) :
    (GPU_pbvh_mesh_buffers_build E mpoly mloop looptri mvert face_indices sfs len
        mesh).index_lines_buf =
      (if (mesh_visible_tris E mloop looptri mvert face_indices sfs len).length = 0 then none
       else some ⟨0, GPU_PRIM_LINES,
        mesh_wire_lines E mesh (mesh_visible_tris E mloop looptri mvert face_indices sfs len) 0⟩) ∧
    (mesh_wire_lines E mesh
        (mesh_visible_tris E mloop looptri mvert face_indices sfs len) 0).length =
      2 * ((List.range len).foldl
        (mesh_count_tri E mloop looptri mvert face_indices sfs mesh) ⟨0, 0⟩).tot_real_edges ∧
    (GPU_indexbuf_init GPU_PRIM_LINES ((List.range len).foldl
        (mesh_count_tri E mloop looptri mvert face_indices sfs mesh) ⟨0, 0⟩).tot_real_edges
        INT_MAX).max_index_len =
      (mesh_wire_lines E mesh
        (mesh_visible_tris E mloop looptri mvert face_indices sfs len) 0).length := by
  have hcount : (mesh_wire_lines E mesh
        (mesh_visible_tris E mloop looptri mvert face_indices sfs len) 0).length =
      2 * ((List.range len).foldl
        (mesh_count_tri E mloop looptri mvert face_indices sfs mesh) ⟨0, 0⟩).tot_real_edges := by
    rw [mesh_wire_lines_length, mesh_count_fold]
    simp [mesh_visible_tris, node_looptris]
  refine ⟨?_, hcount, ?_⟩
  · by_cases h0 : (mesh_visible_tris E mloop looptri mvert face_indices sfs len).length = 0
    · rw [if_pos h0, mesh_build_eq_of_hidden E mpoly mloop looptri mvert face_indices sfs len
        mesh h0]
      rfl
    · rw [if_neg h0, mesh_build_eq_of_visible E mpoly mloop looptri mvert face_indices sfs len
        mesh (by omega)]
  · rw [hcount]
    simp [GPU_indexbuf_init, indices_per_primitive, Nat.mul_comm]

/-! ### Grid mode: index buffers -/

theorem GPUIndexBufBuilder.extend_nil (elb : GPUIndexBufBuilder) : elb.extend [] = elb := by
  simp [GPUIndexBufBuilder.extend]

theorem GPUIndexBufBuilder.extend_extend (elb : GPUIndexBufBuilder) (xs ys : List Nat) :
    (elb.extend xs).extend ys = elb.extend (xs ++ ys) := by
  simp [GPUIndexBufBuilder.extend]

/-- One subface step: a hidden subface changes nothing, a visible one appends its two
triangles. -/
theorem grid_fill_quad_core (E : Deps) (smooth : Bool) (gh : Option BLI_bitmap)
    (gridsize j : Nat) (s : GridFill) (k : Nat) :
    (grid_fill_quad E smooth gh gridsize j s k).core =
      if grid_face_hidden E gh gridsize k j then s.core
      else ⟨s.elb.extend (quad_tris (grid_quad_verts smooth gridsize s.offset j k)),
            s.elb_fast, s.elb_lines_fast, s.offset, true⟩ := by
  unfold grid_fill_quad
  by_cases h : grid_face_hidden E gh gridsize k j = true
  · simp only [h, if_true]
  · simp only [h, Bool.false_eq_true, if_false]
    simp [GridFill.core, GPUIndexBufBuilder.extend, GPU_indexbuf_add_tri_verts, quad_tris]

/-- One row of subfaces. -/
theorem grid_fill_quads_core (E : Deps) (smooth : Bool) (gh : Option BLI_bitmap)
    (gridsize j : Nat) (ks : List Nat) (s : GridFill) :
    (ks.foldl (grid_fill_quad E smooth gh gridsize j) s).core =
      ⟨s.elb.extend (row_tris E smooth gh gridsize s.offset j ks),
       s.elb_fast, s.elb_lines_fast, s.offset,
       s.grid_visible || ks.any (fun k => !grid_face_hidden E gh gridsize k j)⟩ := by
  induction ks generalizing s with
  | nil => simp [row_tris, row_visible, GridFill.core, GPUIndexBufBuilder.extend_nil]
  | cons k rest ih =>
    rw [List.foldl_cons, ih]
    have hq := grid_fill_quad_core E smooth gh gridsize j s k
    by_cases hh : grid_face_hidden E gh gridsize k j = true
    · rw [if_pos hh] at hq
      have e1 := congrArg GridFillCore.elb hq
      have e2 := congrArg GridFillCore.elb_fast hq
      have e3 := congrArg GridFillCore.elb_lines_fast hq
      have e4 := congrArg GridFillCore.offset hq
      have e5 := congrArg GridFillCore.grid_visible hq
      simp only [GridFill.core] at e1 e2 e3 e4 e5
      rw [e1, e2, e3, e4, e5]
      simp [row_tris, row_visible, hh]
    · rw [if_neg hh] at hq
      have e1 := congrArg GridFillCore.elb hq
      have e2 := congrArg GridFillCore.elb_fast hq
      have e3 := congrArg GridFillCore.elb_lines_fast hq
      have e4 := congrArg GridFillCore.offset hq
      have e5 := congrArg GridFillCore.grid_visible hq
      simp only [GridFill.core] at e1 e2 e3 e4 e5
      rw [e1, e2, e3, e4, e5]
      simp [row_tris, row_visible, hh, GPUIndexBufBuilder.extend_extend]

/-- One row step: the closing line of the row does not touch the triangle builder. -/
theorem grid_fill_row_core (E : Deps) (smooth : Bool) (gh : Option BLI_bitmap)
    (gridsize : Nat) (s : GridFill) (j : Nat) :
    (grid_fill_row E smooth gh gridsize s j).core =
      ⟨s.elb.extend (row_tris E smooth gh gridsize s.offset j (List.range (gridsize - 1))),
       s.elb_fast, s.elb_lines_fast, s.offset,
       s.grid_visible ||
        (List.range (gridsize - 1)).any (fun k => !grid_face_hidden E gh gridsize k j)⟩ := by
  unfold grid_fill_row
  rw [← grid_fill_quads_core]
  simp only []
  split_ifs <;> rfl

/-- All rows of one grid. -/
theorem grid_fill_rows_core (E : Deps) (smooth : Bool) (gh : Option BLI_bitmap)
    (gridsize : Nat) (js : List Nat) (s : GridFill) :
    (js.foldl (grid_fill_row E smooth gh gridsize) s).core =
      ⟨s.elb.extend (grid_tris E smooth gh gridsize s.offset js (List.range (gridsize - 1))),
       s.elb_fast, s.elb_lines_fast, s.offset,
       s.grid_visible || grid_has_visible E gh gridsize js (List.range (gridsize - 1))⟩ := by
  induction js generalizing s with
  | nil => simp [grid_tris, grid_has_visible, GridFill.core, GPUIndexBufBuilder.extend_nil]
  | cons j rest ih =>
    rw [List.foldl_cons, ih]
    have hq := grid_fill_row_core E smooth gh gridsize s j
    have e1 := congrArg GridFillCore.elb hq
    have e2 := congrArg GridFillCore.elb_fast hq
    have e3 := congrArg GridFillCore.elb_lines_fast hq
    have e4 := congrArg GridFillCore.offset hq
    have e5 := congrArg GridFillCore.grid_visible hq
    simp only [GridFill.core] at e1 e2 e3 e4 e5
    rw [e1, e2, e3, e4, e5]
    simp [grid_tris, grid_has_visible, GPUIndexBufBuilder.extend_extend, Bool.or_assoc]

/-- One grid: its triangles go to the full builder; its corner triangles and corner outline go
to the coarse builders exactly when it has a non-hidden subface; the offset advances by the
number of vertices of a grid. -/
theorem grid_fill_grid_core (E : Deps) (smooth : Bool) (grid_hidden : List (Option BLI_bitmap))
    (grid_indices : List Nat) (gridsize : Nat) (s : GridFill) (i : Nat) :
    (grid_fill_grid E smooth grid_hidden grid_indices gridsize s i).core =
      ⟨s.elb.extend (grid_tris E smooth (node_grid_hidden grid_hidden grid_indices i) gridsize
          s.offset (List.range (gridsize - 1)) (List.range (gridsize - 1))),
       if grid_has_visible E (node_grid_hidden grid_hidden grid_indices i) gridsize
          (List.range (gridsize - 1)) (List.range (gridsize - 1)) then
         s.elb_fast.extend (quad_tris (grid_corner_verts smooth gridsize s.offset))
       else s.elb_fast,
       if grid_has_visible E (node_grid_hidden grid_hidden grid_indices i) gridsize
          (List.range (gridsize - 1)) (List.range (gridsize - 1)) then
         s.elb_lines_fast.extend (quad_outline (grid_corner_verts smooth gridsize s.offset))
       else s.elb_lines_fast,
       s.offset + grid_vert_len smooth gridsize,
       grid_has_visible E (node_grid_hidden grid_hidden grid_indices i) gridsize
          (List.range (gridsize - 1)) (List.range (gridsize - 1))⟩ := by
  have hq := grid_fill_rows_core E smooth (node_grid_hidden grid_hidden grid_indices i) gridsize
    (List.range (gridsize - 1)) { s with grid_visible := false }
  have e1 := congrArg GridFillCore.elb hq
  have e2 := congrArg GridFillCore.elb_fast hq
  have e3 := congrArg GridFillCore.elb_lines_fast hq
  have e4 := congrArg GridFillCore.offset hq
  have e5 := congrArg GridFillCore.grid_visible hq
  simp only [GridFill.core, Bool.false_or] at e1 e2 e3 e4 e5
  unfold grid_fill_grid
  simp only [GridFill.core]
  rw [show grid_hidden.getD (grid_indices.getD i 0) none
    = node_grid_hidden grid_hidden grid_indices i from rfl]
  by_cases hv : grid_has_visible E (node_grid_hidden grid_hidden grid_indices i) gridsize
      (List.range (gridsize - 1)) (List.range (gridsize - 1)) = true
  · rw [hv] at e5
    simp only [e5, hv, if_true, e1, e2, e3, e4]
    simp [GPUIndexBufBuilder.extend, GPU_indexbuf_add_tri_verts, GPU_indexbuf_add_line_verts,
      quad_tris, quad_outline]
  · have hv2 : grid_has_visible E (node_grid_hidden grid_hidden grid_indices i) gridsize
      (List.range (gridsize - 1)) (List.range (gridsize - 1)) = false := by simpa using hv
    rw [hv2] at e5
    simp only [e5, hv2, Bool.false_eq_true, if_false, e1, e2, e3, e4]

/-- The loop over consecutive grid positions `a, a+1, ..., a+n-1`, entered with the offset of
position `a`. -/
theorem grid_fill_grids_core (E : Deps) (smooth : Bool) (grid_hidden : List (Option BLI_bitmap))
    (grid_indices : List Nat) (gridsize : Nat) (n a : Nat) (s : GridFill)
    (h : s.offset = a * grid_vert_len smooth gridsize) :
    ((List.range' a n).foldl (grid_fill_grid E smooth grid_hidden grid_indices gridsize) s).elb =
      s.elb.extend (node_tris E smooth grid_hidden grid_indices gridsize (List.range' a n)) ∧
    ((List.range' a n).foldl
        (grid_fill_grid E smooth grid_hidden grid_indices gridsize) s).elb_fast =
      s.elb_fast.extend
        (node_tris_fast E smooth grid_hidden grid_indices gridsize (List.range' a n)) ∧
    ((List.range' a n).foldl
        (grid_fill_grid E smooth grid_hidden grid_indices gridsize) s).elb_lines_fast =
      s.elb_lines_fast.extend
        (node_lines_fast E smooth grid_hidden grid_indices gridsize (List.range' a n)) ∧
    ((List.range' a n).foldl
        (grid_fill_grid E smooth grid_hidden grid_indices gridsize) s).offset =
      (a + n) * grid_vert_len smooth gridsize := by
  induction n generalizing a s with
  | zero =>
    simp [node_tris, node_tris_fast, node_lines_fast, node_visible_grids,
      GPUIndexBufBuilder.extend_nil, h]
  | succ n ih =>
    have hq := grid_fill_grid_core E smooth grid_hidden grid_indices gridsize s a
    have e1 := congrArg GridFillCore.elb hq
    have e2 := congrArg GridFillCore.elb_fast hq
    have e3 := congrArg GridFillCore.elb_lines_fast hq
    have e4 := congrArg GridFillCore.offset hq
    simp only [GridFill.core] at e1 e2 e3 e4
    have h1 : (grid_fill_grid E smooth grid_hidden grid_indices gridsize s a).offset =
        (a + 1) * grid_vert_len smooth gridsize := by
      rw [e4, h, Nat.add_mul, Nat.one_mul]
    obtain ⟨i1, i2, i3, i4⟩ := ih (a + 1) _ h1
    rw [List.range'_succ, List.foldl_cons]
    refine ⟨?_, ?_, ?_, ?_⟩
    · rw [i1, e1, GPUIndexBufBuilder.extend_extend, h]
      simp [node_tris]
    · rw [i2, e2]
      by_cases hv : grid_has_visible E (node_grid_hidden grid_hidden grid_indices a) gridsize
          (List.range (gridsize - 1)) (List.range (gridsize - 1)) = true
      · simp [node_tris_fast, node_visible_grids, hv, GPUIndexBufBuilder.extend_extend, h]
      · simp [node_tris_fast, node_visible_grids, hv]
    · rw [i3, e3]
      by_cases hv : grid_has_visible E (node_grid_hidden grid_hidden grid_indices a) gridsize
          (List.range (gridsize - 1)) (List.range (gridsize - 1)) = true
      · simp [node_lines_fast, node_visible_grids, hv, GPUIndexBufBuilder.extend_extend, h]
      · simp [node_lines_fast, node_visible_grids, hv]
    · rw [i4]
      congr 1
      omega

/-- Each non-hidden subface gives six triangle indices. -/
theorem row_tris_length (E : Deps) (smooth : Bool) (gh : Option BLI_bitmap)
    (gridsize offset j : Nat) (ks : List Nat) :
    (row_tris E smooth gh gridsize offset j ks).length
      = 6 * (row_visible E gh gridsize j ks).length := by
  unfold row_tris
  induction row_visible E gh gridsize j ks with
  | nil => simp
  | cons k rest ih =>
    rw [List.flatMap_cons, List.length_append, ih]
    simp only [quad_tris, List.length_cons, List.length_nil]
    omega

theorem grid_tris_length (E : Deps) (smooth : Bool) (gh : Option BLI_bitmap)
    (gridsize offset : Nat) (js ks : List Nat) :
    (grid_tris E smooth gh gridsize offset js ks).length
      = 6 * grid_visible_count E gh gridsize js ks := by
  induction js with
  | nil => simp [grid_tris, grid_visible_count]
  | cons j rest ih =>
    simp only [grid_tris, grid_visible_count, List.flatMap_cons, List.length_append,
      List.map_cons, List.sum_cons, row_tris_length] at ih ⊢
    rw [ih]; omega

theorem node_tris_length (E : Deps) (smooth : Bool) (grid_hidden : List (Option BLI_bitmap))
    (grid_indices : List Nat) (gridsize : Nat) (positions : List Nat) :
    (node_tris E smooth grid_hidden grid_indices gridsize positions).length
      = 6 * node_visible_count E grid_hidden grid_indices gridsize positions := by
  induction positions with
  | nil => simp [node_tris, node_visible_count]
  | cons i rest ih =>
    simp only [node_tris, node_visible_count, List.flatMap_cons, List.length_append,
      List.map_cons, List.sum_cons, grid_tris_length] at ih ⊢
    rw [ih]; omega

/-- Counting the non-hidden subfaces of one row. -/
theorem count_row_fold (E : Deps) (gh : BLI_bitmap) (gridsize y : Nat) (xs : List Nat)
    (t : Nat) :
    xs.foldl (fun totquad x =>
        if !E.paint_is_grid_face_hidden gh gridsize x y then totquad + 1 else totquad) t
      = t + (row_visible E (some gh) gridsize y xs).length := by
  induction xs generalizing t with
  | nil => simp [row_visible]
  | cons x rest ih =>
    rw [List.foldl_cons, ih]
    by_cases hh : E.paint_is_grid_face_hidden gh gridsize x y = true
    · simp [row_visible, grid_face_hidden, hh]
    · simp [row_visible, grid_face_hidden, hh]; omega

theorem count_rows_fold (E : Deps) (gh : BLI_bitmap) (gridsize : Nat) (ys xs : List Nat)
    (t : Nat) :
    ys.foldl (fun totquad y =>
        xs.foldl (fun totquad x =>
          if !E.paint_is_grid_face_hidden gh gridsize x y then totquad + 1 else totquad)
          totquad) t
      = t + grid_visible_count E (some gh) gridsize ys xs := by
  induction ys generalizing t with
  | nil => simp [grid_visible_count]
  | cons y rest ih =>
    rw [List.foldl_cons, ih, count_row_fold]
    simp [grid_visible_count]; omega

/-- Without a bitmap every subface counts. -/
theorem grid_visible_count_none (E : Deps) (gridsize : Nat) (js ks : List Nat) :
    grid_visible_count E none gridsize js ks = js.length * ks.length := by
  induction js with
  | nil => simp [grid_visible_count]
  | cons j rest ih =>
    simp only [grid_visible_count, List.map_cons, List.sum_cons, List.length_cons] at ih ⊢
    rw [ih]
    simp [row_visible, grid_face_hidden, Nat.succ_mul, Nat.add_comm]

theorem count_grids_fold (E : Deps) (grid_hidden : List (Option BLI_bitmap))
    (grid_indices : List Nat) (gridsize : Nat) (positions : List Nat) (t : Nat) :
    positions.foldl (fun totquad i =>
      match grid_hidden.getD (grid_indices.getD i 0) none with
      | some gh =>
        (List.range (gridsize - 1)).foldl (fun totquad y =>
          (List.range (gridsize - 1)).foldl (fun totquad x =>
            if !E.paint_is_grid_face_hidden gh gridsize x y then totquad + 1 else totquad)
            totquad) totquad
      | none => totquad + (gridsize - 1) * (gridsize - 1)) t
      = t + node_visible_count E grid_hidden grid_indices gridsize positions := by
  induction positions generalizing t with
  | nil => simp [node_visible_count]
  | cons i rest ih =>
    rw [List.foldl_cons, ih]
    simp only [node_visible_count, List.map_cons, List.sum_cons, node_grid_hidden]
    cases hg : grid_hidden.getD (grid_indices.getD i 0) none with
    | none =>
      simp only [grid_visible_count_none, List.length_range]
      rw [Nat.add_assoc]
    | some gh =>
      simp only [count_rows_fold]
      rw [Nat.add_assoc]

/-- The counting utility returns the number of non-hidden subfaces of the node. -/
theorem BKE_pbvh_count_grid_quads_eq (E : Deps) (grid_hidden : List (Option BLI_bitmap))
    (grid_indices : List Nat) (totgrid gridsize : Nat) :
    BKE_pbvh_count_grid_quads E grid_hidden grid_indices totgrid gridsize =
      node_visible_count E grid_hidden grid_indices gridsize (List.range totgrid) := by
  unfold BKE_pbvh_count_grid_quads
  rw [count_grids_fold, Nat.zero_add]

/-- The four index builders after the filling loops of `gpu_pbvh_grid_fill_index_buffers`. -/
theorem grid_fill_eq (E : Deps) (smooth : Bool) (grid_hidden : List (Option BLI_bitmap))
    (grid_indices : List Nat) (visible_quad_len totgrid gridsize : Nat) :
    (grid_fill E smooth grid_hidden grid_indices visible_quad_len totgrid gridsize).elb =
      (GPU_indexbuf_init GPU_PRIM_TRIS (2 * visible_quad_len) INT_MAX).extend
        (node_tris E smooth grid_hidden grid_indices gridsize (List.range totgrid)) ∧
    (grid_fill E smooth grid_hidden grid_indices visible_quad_len totgrid gridsize).elb_fast =
      (GPU_indexbuf_init GPU_PRIM_TRIS (2 * totgrid) INT_MAX).extend
        (node_tris_fast E smooth grid_hidden grid_indices gridsize (List.range totgrid)) ∧
    (grid_fill E smooth grid_hidden grid_indices visible_quad_len totgrid gridsize).elb_lines_fast
      = (GPU_indexbuf_init GPU_PRIM_LINES (4 * totgrid) INT_MAX).extend
        (node_lines_fast E smooth grid_hidden grid_indices gridsize (List.range totgrid)) := by
  have h := grid_fill_grids_core E smooth grid_hidden grid_indices gridsize totgrid 0
    (grid_fill_init visible_quad_len totgrid gridsize) (by simp [grid_fill_init])
  rw [← List.range_eq_range'] at h
  exact ⟨h.1, h.2.1, h.2.2.1⟩

/-- A quantity that no loop step changes is unchanged by the loop. -/
theorem foldl_preserves {σ α β : Type} (f : σ → α → σ) (g : σ → β)
    (h : ∀ s x, g (f s x) = g s) (l : List α) (s : σ) : g (l.foldl f s) = g s := by
  induction l generalizing s with
  | nil => rfl
  | cons x rest ih => rw [List.foldl_cons, ih, h]

theorem grid_fill_quad_lines_prim (E : Deps) (smooth : Bool) (gh : Option BLI_bitmap)
    (gridsize j : Nat) (s : GridFill) (k : Nat) :
    (grid_fill_quad E smooth gh gridsize j s k).elb_lines.prim_type = s.elb_lines.prim_type := by
  unfold grid_fill_quad
  simp only [GPU_indexbuf_add_line_verts]
  split_ifs <;> rfl

theorem grid_fill_row_lines_prim (E : Deps) (smooth : Bool) (gh : Option BLI_bitmap)
    (gridsize : Nat) (s : GridFill) (j : Nat) :
    (grid_fill_row E smooth gh gridsize s j).elb_lines.prim_type = s.elb_lines.prim_type := by
  unfold grid_fill_row
  simp only [GPU_indexbuf_add_line_verts]
  split_ifs
  · exact foldl_preserves _ (fun s => s.elb_lines.prim_type)
      (grid_fill_quad_lines_prim E smooth gh gridsize j) _ s
  · exact foldl_preserves _ (fun s => s.elb_lines.prim_type)
      (grid_fill_quad_lines_prim E smooth gh gridsize j) _ s

theorem grid_fill_grid_lines_prim (E : Deps) (smooth : Bool)
    (grid_hidden : List (Option BLI_bitmap)) (grid_indices : List Nat) (gridsize : Nat)
    (s : GridFill) (i : Nat) :
    (grid_fill_grid E smooth grid_hidden grid_indices gridsize s i).elb_lines.prim_type
      = s.elb_lines.prim_type := by
  unfold grid_fill_grid
  simp only []
  split_ifs
  · exact foldl_preserves _ (fun s => s.elb_lines.prim_type)
      (grid_fill_row_lines_prim E smooth _ gridsize) _ { s with grid_visible := false }
  · exact foldl_preserves _ (fun s => s.elb_lines.prim_type)
      (grid_fill_row_lines_prim E smooth _ gridsize) _ { s with grid_visible := false }

/-- The index buffers `gpu_pbvh_grid_fill_index_buffers` stores in the node buffer object. -/
theorem grid_fill_index_buffers_eq (E : Deps) (buffers : GPU_PBVH_Buffers)
    (grid_indices : List Nat) (visible_quad_len totgrid gridsize : Nat) :
    gpu_pbvh_grid_fill_index_buffers E buffers grid_indices visible_quad_len totgrid gridsize =
      { buffers with
        index_buf := some ⟨buffers.next_handle, GPU_PRIM_TRIS,
          node_tris E buffers.smooth (buffers.grid_hidden.getD []) grid_indices gridsize
            (List.range totgrid)⟩
        index_buf_fast := some ⟨buffers.next_handle + 1, GPU_PRIM_TRIS,
          node_tris_fast E buffers.smooth (buffers.grid_hidden.getD []) grid_indices gridsize
            (List.range totgrid)⟩
        index_lines_buf := some ⟨buffers.next_handle + 2, GPU_PRIM_LINES,
          (grid_fill E buffers.smooth (buffers.grid_hidden.getD []) grid_indices
            visible_quad_len totgrid gridsize).elb_lines.data⟩
        index_lines_buf_fast := some ⟨buffers.next_handle + 3, GPU_PRIM_LINES,
          node_lines_fast E buffers.smooth (buffers.grid_hidden.getD []) grid_indices gridsize
            (List.range totgrid)⟩
        next_handle := buffers.next_handle + 4 } := by
  obtain ⟨h1, h2, h3⟩ := grid_fill_eq E buffers.smooth (buffers.grid_hidden.getD [])
    grid_indices visible_quad_len totgrid gridsize
  have hl : (grid_fill E buffers.smooth (buffers.grid_hidden.getD []) grid_indices
      visible_quad_len totgrid gridsize).elb_lines.prim_type = GPU_PRIM_LINES :=
    foldl_preserves _ (fun s => s.elb_lines.prim_type)
      (grid_fill_grid_lines_prim E buffers.smooth _ grid_indices gridsize) _
      (grid_fill_init visible_quad_len totgrid gridsize)
  simp only [gpu_pbvh_grid_fill_index_buffers, GPU_indexbuf_build, h1, h2, h3, hl,
    GPUIndexBufBuilder.extend, GPU_indexbuf_init, List.nil_append]

/-- C5: `gpu_pbvh_grid_fill_index_buffers` puts into the full-resolution triangle buffer, for
the grids of the node in order and their rows and columns in order, exactly the two triangles
`(v0, v2, v1)` and `(v0, v3, v2)` of every non-hidden subface and nothing for a hidden one; a
grid without hidden bitmap contributes all its subfaces; the number of triangles is twice the
number of non-hidden subfaces, which is the size the builder was set up with when
`visible_quad_len` comes from the counting utility. -/
theorem grid_fill_triangles_two_per_visible_subface (E : Deps) (buffers : GPU_PBVH_Buffers)
    (grid_indices : List Nat) (visible_quad_len totgrid gridsize : Nat) :
    (gpu_pbvh_grid_fill_index_buffers E buffers grid_indices visible_quad_len totgrid
        gridsize).index_buf =
      some ⟨buffers.next_handle, GPU_PRIM_TRIS,
        node_tris E buffers.smooth (buffers.grid_hidden.getD []) grid_indices gridsize
          (List.range totgrid)⟩ ∧
    (∀ offset smooth js ks,
      grid_tris E smooth none gridsize offset js ks =
        js.flatMap (fun j => ks.flatMap (fun k =>
          quad_tris (grid_quad_verts smooth gridsize offset j k)))) ∧
    (node_tris E buffers.smooth (buffers.grid_hidden.getD []) grid_indices gridsize
        (List.range totgrid)).length =
      3 * (2 * node_visible_count E (buffers.grid_hidden.getD []) grid_indices gridsize
        (List.range totgrid)) ∧
    (grid_fill_init
        (BKE_pbvh_count_grid_quads E (buffers.grid_hidden.getD []) grid_indices totgrid gridsize)
        totgrid gridsize).elb.max_index_len =
      (node_tris E buffers.smooth (buffers.grid_hidden.getD []) grid_indices gridsize
        (List.range totgrid)).length := by
  refine ⟨?_, ?_, ?_, ?_⟩
  · rw [grid_fill_index_buffers_eq]
  · intro offset smooth js ks
    simp [grid_tris, row_tris, row_visible, grid_face_hidden]
  · rw [node_tris_length]; omega
  · rw [node_tris_length, BKE_pbvh_count_grid_quads_eq]
    simp only [grid_fill_init, GPU_indexbuf_init, indices_per_primitive]
    omega

/-! ### Grid mode: vertex buffer -/

theorem pos_writes_append (a b : List VertWrite) :
    pos_writes (a ++ b) = pos_writes a ++ pos_writes b := by
  simp [pos_writes, List.filterMap_append]

/-- One element of the smooth layout: one position record at the current slot. -/
theorem grid_vbo_smooth_elem_view (E : Deps) (key : CCGKey) (grid : List CCGElem)
    (show_mask show_vcol : Bool) (fsc : uchar4) (y : Nat) (s : GridVbo) (x : Nat) :
    (grid_vbo_smooth_elem E key grid show_mask show_vcol fsc y s x).view =
      ⟨s.vbo_index + 1, s.vbo_index_offset,
       pos_writes s.writes ++ [(s.vbo_index, (CCG_grid_elem key grid x y).co)]⟩ := by
  simp only [grid_vbo_smooth_elem, GridVbo.view, pos_writes_append, GridVboView.mk.injEq,
    true_and]
  congr 1
  cases show_vcol <;> cases (key.has_mask && show_mask) <;> simp [pos_writes]

/-- One row of the smooth layout. -/
theorem grid_vbo_smooth_row_view (E : Deps) (key : CCGKey) (grid : List CCGElem)
    (show_mask show_vcol : Bool) (fsc : uchar4) (y : Nat) (xs : List Nat) (s : GridVbo) :
    (xs.foldl (grid_vbo_smooth_elem E key grid show_mask show_vcol fsc y) s).view =
      ⟨s.vbo_index + xs.length, s.vbo_index_offset,
       pos_writes s.writes ++
        List.enumFrom s.vbo_index (xs.map (fun x => (CCG_grid_elem key grid x y).co))⟩ := by
  induction xs generalizing s with
  | nil => simp [GridVbo.view]
  | cons x rest ih =>
    rw [List.foldl_cons, ih]
    have hq := grid_vbo_smooth_elem_view E key grid show_mask show_vcol fsc y s x
    have e1 := congrArg GridVboView.vbo_index hq
    have e2 := congrArg GridVboView.vbo_index_offset hq
    have e3 := congrArg GridVboView.pos hq
    simp only [GridVbo.view] at e1 e2 e3
    rw [e1, e2, e3]
    simp only [List.length_cons, List.map_cons, List.enumFrom_cons, List.append_assoc,
      List.singleton_append, GridVboView.mk.injEq, and_true, true_and]
    omega

/-- All rows of the smooth layout of one grid. -/
theorem grid_vbo_smooth_rows_view (E : Deps) (key : CCGKey) (grid : List CCGElem)
    (show_mask show_vcol : Bool) (fsc : uchar4) (xs ys : List Nat) (s : GridVbo) :
    (ys.foldl (fun s y =>
        xs.foldl (grid_vbo_smooth_elem E key grid show_mask show_vcol fsc y) s) s).view =
      ⟨s.vbo_index + ys.length * xs.length, s.vbo_index_offset,
       pos_writes s.writes ++ List.enumFrom s.vbo_index (grid_smooth_cos key grid ys xs)⟩ := by
  induction ys generalizing s with
  | nil => simp [GridVbo.view, grid_smooth_cos]
  | cons y rest ih =>
    rw [List.foldl_cons, ih]
    have hq := grid_vbo_smooth_row_view E key grid show_mask show_vcol fsc y xs s
    have e1 := congrArg GridVboView.vbo_index hq
    have e2 := congrArg GridVboView.vbo_index_offset hq
    have e3 := congrArg GridVboView.pos hq
    simp only [GridVbo.view] at e1 e2 e3
    rw [e1, e2, e3]
    simp only [List.length_cons, grid_smooth_cos, List.flatMap_cons, List.enumFrom_append,
      List.length_map, List.append_assoc, GridVboView.mk.injEq, and_true, true_and, Nat.succ_mul]
    omega

/-- One subface of the flat layout: four position records at the next four slots. -/
theorem grid_vbo_flat_quad_view (E : Deps) (key : CCGKey) (grid : List CCGElem)
    (show_mask : Bool) (fsc : uchar4) (j : Nat) (s : GridVbo) (k : Nat) :
    (grid_vbo_flat_quad E key grid show_mask fsc j s k).view =
      ⟨s.vbo_index + 4, s.vbo_index_offset,
       pos_writes s.writes ++ List.enumFrom s.vbo_index (quad_corner_cos key grid j k)⟩ := by
  simp only [grid_vbo_flat_quad, GridVbo.view, pos_writes_append, GridVboView.mk.injEq,
    true_and, quad_corner_cos, List.enumFrom_cons, List.enumFrom_nil]
  congr 1
  cases (key.has_mask && show_mask) <;> simp [pos_writes, Nat.add_assoc]

/-- One row of subfaces of the flat layout. -/
theorem grid_vbo_flat_row_view (E : Deps) (key : CCGKey) (grid : List CCGElem)
    (show_mask : Bool) (fsc : uchar4) (j : Nat) (ks : List Nat) (s : GridVbo) :
    (ks.foldl (grid_vbo_flat_quad E key grid show_mask fsc j) s).view =
      ⟨s.vbo_index + 4 * ks.length, s.vbo_index_offset,
       pos_writes s.writes ++
        List.enumFrom s.vbo_index (ks.flatMap (fun k => quad_corner_cos key grid j k))⟩ := by
  induction ks generalizing s with
  | nil => simp [GridVbo.view]
  | cons k rest ih =>
    rw [List.foldl_cons, ih]
    have hq := grid_vbo_flat_quad_view E key grid show_mask fsc j s k
    have e1 := congrArg GridVboView.vbo_index hq
    have e2 := congrArg GridVboView.vbo_index_offset hq
    have e3 := congrArg GridVboView.pos hq
    simp only [GridVbo.view] at e1 e2 e3
    rw [e1, e2, e3]
    have hl : (quad_corner_cos key grid j k).length = 4 := rfl
    simp only [List.length_cons, List.flatMap_cons, List.enumFrom_append, hl,
      List.append_assoc, GridVboView.mk.injEq, and_true, true_and]
    omega

theorem quad_row_cos_length (key : CCGKey) (grid : List CCGElem) (j : Nat) (ks : List Nat) :
    (ks.flatMap (fun k => quad_corner_cos key grid j k)).length = 4 * ks.length := by
  induction ks with
  | nil => rfl
  | cons k r ih2 =>
    rw [List.flatMap_cons, List.length_append, ih2]
    simp only [quad_corner_cos, List.length_cons, List.length_nil]
    omega

/-- All rows of the flat layout of one grid. -/
theorem grid_vbo_flat_rows_view (E : Deps) (key : CCGKey) (grid : List CCGElem)
    (show_mask : Bool) (fsc : uchar4) (ks js : List Nat) (s : GridVbo) :
    (js.foldl (fun s j =>
        ks.foldl (grid_vbo_flat_quad E key grid show_mask fsc j) s) s).view =
      ⟨s.vbo_index + js.length * ks.length * 4, s.vbo_index_offset,
       pos_writes s.writes ++ List.enumFrom s.vbo_index (grid_flat_cos key grid js ks)⟩ := by
  induction js generalizing s with
  | nil => simp [GridVbo.view, grid_flat_cos]
  | cons j rest ih =>
    rw [List.foldl_cons, ih]
    have hq := grid_vbo_flat_row_view E key grid show_mask fsc j ks s
    have e1 := congrArg GridVboView.vbo_index hq
    have e2 := congrArg GridVboView.vbo_index_offset hq
    have e3 := congrArg GridVboView.pos hq
    simp only [GridVbo.view] at e1 e2 e3
    rw [e1, e2, e3]
    have hl := quad_row_cos_length key grid j ks
    simp only [List.length_cons, grid_flat_cos, List.flatMap_cons, List.enumFrom_append, hl,
      List.append_assoc, GridVboView.mk.injEq, and_true, true_and, Nat.succ_mul, Nat.add_mul]
    omega

theorem grid_smooth_cos_length (key : CCGKey) (grid : List CCGElem) (ys xs : List Nat) :
    (grid_smooth_cos key grid ys xs).length = ys.length * xs.length := by
  induction ys with
  | nil => simp [grid_smooth_cos]
  | cons y rest ih =>
    simp only [grid_smooth_cos, List.flatMap_cons, List.length_append, List.length_map,
      List.length_cons, Nat.succ_mul] at ih ⊢
    rw [ih]; omega

theorem grid_flat_cos_length (key : CCGKey) (grid : List CCGElem) (js ks : List Nat) :
    (grid_flat_cos key grid js ks).length = js.length * ks.length * 4 := by
  have hl := fun j => quad_row_cos_length key grid j ks
  induction js with
  | nil => simp [grid_flat_cos]
  | cons j rest ih =>
    simp only [grid_flat_cos, List.flatMap_cons, List.length_append, hl,
      List.length_cons, Nat.succ_mul, Nat.add_mul] at ih ⊢
    rw [ih]; omega

/-- Number of coordinates one grid contributes. -/
theorem grid_cos_length (smooth : Bool) (key : CCGKey) (grid : List CCGElem)
    (hA : key.grid_area = key.grid_size * key.grid_size) :
    (grid_cos smooth key grid).length = grid_vert_per_grid smooth key := by
  cases smooth
  · simp [grid_cos, grid_vert_per_grid, grid_flat_cos_length]
  · simp [grid_cos, grid_vert_per_grid, grid_smooth_cos_length, hA]

/-- One grid of the vertex loops: its coordinates are written at consecutive slots starting at
the grid offset, and the offset advances by the number of vertices per grid. -/
theorem grid_vbo_grid_view (E : Deps) (smooth : Bool) (subdiv_ccg : Option SubdivCCG)
    (grids : List (List CCGElem)) (grid_indices : List Nat) (sfs : Option (List Int))
    (seed dflt : Int) (key : CCGKey) (show_mask show_vcol show_face_sets : Bool)
    (s : GridVbo) (i : Nat) :
    (grid_vbo_grid E smooth subdiv_ccg grids grid_indices sfs seed dflt key show_mask show_vcol
        show_face_sets s i).view =
      ⟨s.vbo_index_offset + (grid_cos smooth key (node_grid grids grid_indices i)).length,
       s.vbo_index_offset + grid_vert_per_grid smooth key,
       pos_writes s.writes ++
        List.enumFrom s.vbo_index_offset (grid_cos smooth key (node_grid grids grid_indices i))⟩
    := by
  unfold grid_vbo_grid
  cases smooth
  · have e1 := fun fsc s0 => congrArg GridVboView.vbo_index
      (grid_vbo_flat_rows_view E key (grids.getD (grid_indices.getD i 0) []) show_mask fsc
        (List.range (key.grid_size - 1)) (List.range (key.grid_size - 1)) s0)
    have e2 := fun fsc s0 => congrArg GridVboView.vbo_index_offset
      (grid_vbo_flat_rows_view E key (grids.getD (grid_indices.getD i 0) []) show_mask fsc
        (List.range (key.grid_size - 1)) (List.range (key.grid_size - 1)) s0)
    have e3 := fun fsc s0 => congrArg GridVboView.pos
      (grid_vbo_flat_rows_view E key (grids.getD (grid_indices.getD i 0) []) show_mask fsc
        (List.range (key.grid_size - 1)) (List.range (key.grid_size - 1)) s0)
    simp only [GridVbo.view] at e1 e2 e3
    simp only [Bool.false_eq_true, if_false, GridVbo.view, e1, e2, e3, grid_cos,
      grid_vert_per_grid, node_grid, grid_flat_cos_length, List.length_range]
  · have e1 := fun fsc s0 => congrArg GridVboView.vbo_index
      (grid_vbo_smooth_rows_view E key (grids.getD (grid_indices.getD i 0) []) show_mask
        show_vcol fsc (List.range key.grid_size) (List.range key.grid_size) s0)
    have e2 := fun fsc s0 => congrArg GridVboView.vbo_index_offset
      (grid_vbo_smooth_rows_view E key (grids.getD (grid_indices.getD i 0) []) show_mask
        show_vcol fsc (List.range key.grid_size) (List.range key.grid_size) s0)
    have e3 := fun fsc s0 => congrArg GridVboView.pos
      (grid_vbo_smooth_rows_view E key (grids.getD (grid_indices.getD i 0) []) show_mask
        show_vcol fsc (List.range key.grid_size) (List.range key.grid_size) s0)
    simp only [GridVbo.view] at e1 e2 e3
    simp only [if_true, GridVbo.view, e1, e2, e3, grid_cos, grid_vert_per_grid, node_grid,
      grid_smooth_cos_length, List.length_range]

/-- The vertex loops over any list of grid positions: the coordinates of the grids are written
at consecutive slots starting at the entry offset. -/
theorem grid_vbo_grids_view (E : Deps) (smooth : Bool) (subdiv_ccg : Option SubdivCCG)
    (grids : List (List CCGElem)) (grid_indices : List Nat) (sfs : Option (List Int))
    (seed dflt : Int) (key : CCGKey) (show_mask show_vcol show_face_sets : Bool)
    (hA : key.grid_area = key.grid_size * key.grid_size)
    (steps : List Nat) (s : GridVbo) :
    (steps.foldl (grid_vbo_grid E smooth subdiv_ccg grids grid_indices sfs seed dflt key
        show_mask show_vcol show_face_sets) s).vbo_index_offset =
      s.vbo_index_offset + steps.length * grid_vert_per_grid smooth key ∧
    pos_writes (steps.foldl (grid_vbo_grid E smooth subdiv_ccg grids grid_indices sfs seed dflt
        key show_mask show_vcol show_face_sets) s).writes =
      pos_writes s.writes ++
        List.enumFrom s.vbo_index_offset (node_cos smooth key grids grid_indices steps) := by
  induction steps generalizing s with
  | nil => simp [node_cos]
  | cons i rest ih =>
    have hq := grid_vbo_grid_view E smooth subdiv_ccg grids grid_indices sfs seed dflt key
      show_mask show_vcol show_face_sets s i
    have e2 := congrArg GridVboView.vbo_index_offset hq
    have e3 := congrArg GridVboView.pos hq
    simp only [GridVbo.view] at e2 e3
    rw [List.foldl_cons]
    obtain ⟨i1, i2⟩ := ih (grid_vbo_grid E smooth subdiv_ccg grids grid_indices sfs seed dflt key
      show_mask show_vcol show_face_sets s i)
    refine ⟨?_, ?_⟩
    · rw [i1, e2, List.length_cons, Nat.succ_mul]; omega
    · rw [i2, e2, e3]
      simp only [node_cos, List.flatMap_cons, List.enumFrom_append, List.append_assoc,
        grid_cos_length smooth key _ hA]

theorem node_cos_length (smooth : Bool) (key : CCGKey) (grids : List (List CCGElem))
    (grid_indices : List Nat) (hA : key.grid_area = key.grid_size * key.grid_size)
    (positions : List Nat) :
    (node_cos smooth key grids grid_indices positions).length
      = positions.length * grid_vert_per_grid smooth key := by
  induction positions with
  | nil => simp [node_cos]
  | cons i rest ih =>
    simp only [node_cos, List.flatMap_cons, List.length_append, List.length_cons,
      grid_cos_length smooth key _ hA, Nat.succ_mul] at ih ⊢
    rw [ih]; omega

/-- Entry `i * m + j` of the concatenation of `n` blocks of length `m` is entry `j` of block
`i`. -/
theorem flatMap_range_getElem? {α : Type} (F : Nat → List α) (m : Nat)
    (hF : ∀ i, (F i).length = m) (n i j : Nat) (hi : i < n) (hj : j < m) :
    ((List.range n).flatMap F)[i * m + j]? = (F i)[j]? := by
  have hlen : ∀ n, ((List.range n).flatMap F).length = n * m := by
    intro n
    induction n with
    | zero => simp
    | succ n ih =>
      rw [List.range_succ, List.flatMap_append, List.length_append, ih]
      simp [hF, Nat.succ_mul]
  induction n with
  | zero => omega
  | succ n ih =>
    rw [List.range_succ, List.flatMap_append]
    by_cases hin : i < n
    · have hlt : i * m + j < ((List.range n).flatMap F).length := by
        rw [hlen]
        calc i * m + j < i * m + m := by omega
          _ = (i + 1) * m := by rw [Nat.succ_mul]
          _ ≤ n * m := Nat.mul_le_mul_right m hin
      rw [List.getElem?_append_left hlt, ih hin]
    · have hieq : i = n := by omega
      subst hieq
      have hge : ((List.range i).flatMap F).length ≤ i * m + j := by rw [hlen]; omega
      rw [List.getElem?_append_right hge, hlen]
      simp

/-- When the allocator provides storage, `gpu_pbvh_vert_buf_data_set` succeeds. -/
theorem vert_buf_data_set_ok (buffers : GPU_PBVH_Buffers) (n : Nat) :
    (gpu_pbvh_vert_buf_data_set buffers n true).2 = true := by
  unfold gpu_pbvh_vert_buf_data_set
  cases hvb : buffers.vert_buf with
  | none => simp [GPU_vertbuf_data_alloc]
  | some vb =>
    obtain ⟨h, len, data⟩ := vb
    cases data with
    | none => simp [hvb, GPU_vertbuf_data_alloc]
    | some d =>
      by_cases hl : len = n
      · subst hl
        simp [hvb]
      · simp [hvb, hl, GPU_vertbuf_data_alloc]

/-- When the allocator provides storage, `gpu_pbvh_vert_buf_data_set` leaves a vertex buffer of
the requested length with storage. -/
theorem vert_buf_data_set_vert_buf (buffers : GPU_PBVH_Buffers) (n : Nat) :
    (gpu_pbvh_vert_buf_data_set buffers n true).1.vert_buf =
      some ⟨vert_buf_handle_after buffers, n, some (vert_buf_kept buffers n)⟩ := by
  unfold gpu_pbvh_vert_buf_data_set vert_buf_handle_after vert_buf_kept
  cases hvb : buffers.vert_buf with
  | none => simp [GPU_vertbuf_data_alloc]
  | some vb =>
    obtain ⟨h, len, data⟩ := vb
    cases data with
    | none => simp [hvb, GPU_vertbuf_data_alloc]
    | some d =>
      by_cases hl : len = n
      · subst hl
        simp [hvb]
      · simp [hvb, hl, GPU_vertbuf_data_alloc]

/-- `gpu_pbvh_vert_buf_data_set` changes only the vertex buffer and the handle counter. -/
theorem vert_buf_data_set_frame (buffers : GPU_PBVH_Buffers) (n : Nat) (alloc_ok : Bool) :
    (gpu_pbvh_vert_buf_data_set buffers n alloc_ok).1 =
      { buffers with
        vert_buf := (gpu_pbvh_vert_buf_data_set buffers n alloc_ok).1.vert_buf
        next_handle := (gpu_pbvh_vert_buf_data_set buffers n alloc_ok).1.next_handle } := by
  unfold gpu_pbvh_vert_buf_data_set
  cases hvb : buffers.vert_buf with
  | none => rfl
  | some vb => simp [hvb]

theorem vert_buf_data_set_smooth (buffers : GPU_PBVH_Buffers) (n : Nat) (alloc_ok : Bool) :
    (gpu_pbvh_vert_buf_data_set buffers n alloc_ok).1.smooth = buffers.smooth := by
  rw [vert_buf_data_set_frame]

theorem grid_fill_index_buffers_smooth (E : Deps) (buffers : GPU_PBVH_Buffers)
    (grid_indices : List Nat) (visible_quad_len totgrid gridsize : Nat) :
    (gpu_pbvh_grid_fill_index_buffers E buffers grid_indices visible_quad_len totgrid
      gridsize).smooth = buffers.smooth := by
  rw [grid_fill_index_buffers_eq]

/-- The vertex buffer of the node after a grid update that is given storage: the requested
length, and the writes of the vertex loops appended to the storage. -/
theorem grid_update_vert_buf (E : Deps) (buffers : GPU_PBVH_Buffers)
    (subdiv_ccg : Option SubdivCCG) (grids : List (List CCGElem))
    (grid_flag_mats : List DMFlagMat) (grid_indices : List Nat) (totgrid : Nat)
    (sfs : Option (List Int)) (seed dflt : Int) (key : CCGKey) (update_flags : Nat)
    (hvis : 1 ≤ BKE_pbvh_count_grid_quads E (buffers.grid_hidden.getD []) grid_indices totgrid
      key.grid_size) :
    ∃ h prev,
      (GPU_pbvh_grid_buffers_update E true buffers subdiv_ccg grids grid_flag_mats grid_indices
        totgrid sfs seed dflt key update_flags).vert_buf =
      some ⟨h, totgrid * grid_vert_per_grid (grid_smooth_flag grid_flag_mats grid_indices) key,
        some (prev ++ (grid_vbo E (grid_smooth_flag grid_flag_mats grid_indices) subdiv_ccg grids
          grid_indices totgrid sfs seed dflt key
          (update_flags &&& GPU_PBVH_BUFFERS_SHOW_MASK != 0)
          (update_flags &&& GPU_PBVH_BUFFERS_SHOW_VCOL != 0)
          (sfs.isSome && (update_flags &&& GPU_PBVH_BUFFERS_SHOW_SCULPT_FACE_SETS != 0))).writes)⟩
    := by
  have hne : (BKE_pbvh_count_grid_quads E (buffers.grid_hidden.getD []) grid_indices totgrid
      key.grid_size == 0) = false := by
    simp only [beq_eq_false_iff_ne, ne_eq]; omega
  unfold GPU_pbvh_grid_buffers_update
  simp only [hne, Bool.and_false, Bool.false_eq_true, if_false, vert_buf_data_set_ok, if_true,
    gpu_pbvh_batch_init_vert_buf, vert_buf_write, vert_buf_data_set_vert_buf, Option.map_some',
    vert_buf_data_set_smooth, apply_ite GPU_PBVH_Buffers.smooth, grid_fill_index_buffers_smooth,
    ite_self, grid_smooth_flag]
  exact ⟨_, _, rfl⟩

/-- The position records of the whole vertex loops: the coordinates of the node grids at the
consecutive slots `0, 1, 2, ...`. -/
theorem grid_vbo_pos_writes (E : Deps) (smooth : Bool) (subdiv_ccg : Option SubdivCCG)
    (grids : List (List CCGElem)) (grid_indices : List Nat) (totgrid : Nat)
    (sfs : Option (List Int)) (seed dflt : Int) (key : CCGKey)
    (show_mask show_vcol show_face_sets : Bool)
    (hA : key.grid_area = key.grid_size * key.grid_size) :
    pos_writes (grid_vbo E smooth subdiv_ccg grids grid_indices totgrid sfs seed dflt key
        show_mask show_vcol show_face_sets).writes =
      List.enumFrom 0 (node_cos smooth key grids grid_indices (List.range totgrid)) := by
  have h := (grid_vbo_grids_view E smooth subdiv_ccg grids grid_indices sfs seed dflt key
    show_mask show_vcol show_face_sets hA (List.range totgrid) grid_vbo_init).2
  rw [grid_vbo, h]
  rfl

/-- Slot `i * g * g + y * g + x` of the smooth layout holds element `(x, y)` of grid `i`. -/
theorem node_cos_smooth_getElem? (key : CCGKey) (grids : List (List CCGElem))
    (grid_indices : List Nat) (totgrid i y x : Nat)
    (hA : key.grid_area = key.grid_size * key.grid_size)
    (hi : i < totgrid) (hy : y < key.grid_size) (hx : x < key.grid_size) :
    (node_cos true key grids grid_indices (List.range totgrid))[
        i * (key.grid_size * key.grid_size) + y * key.grid_size + x]? =
      some (CCG_grid_elem key (node_grid grids grid_indices i) x y).co := by
  have hxy : y * key.grid_size + x < key.grid_size * key.grid_size := by
    calc y * key.grid_size + x < y * key.grid_size + key.grid_size := by omega
      _ = (y + 1) * key.grid_size := by rw [Nat.succ_mul]
      _ ≤ key.grid_size * key.grid_size := Nat.mul_le_mul_right _ hy
  unfold node_cos
  rw [Nat.add_assoc, flatMap_range_getElem? _ (key.grid_size * key.grid_size)
    (fun i => by rw [grid_cos_length true key _ hA]; simp [grid_vert_per_grid, hA])
    totgrid i _ hi hxy]
  simp only [grid_cos, if_true, grid_smooth_cos]
  rw [flatMap_range_getElem? _ key.grid_size (fun y => by simp) key.grid_size y x hy hx]
  simp [List.getElem?_range hx]

/-- Slot `i * 4 (g-1)^2 + 4 (j (g-1) + k) + c` of the flat layout holds corner `c` of subface
`(k, j)` of grid `i`. -/
theorem node_cos_flat_getElem? (key : CCGKey) (grids : List (List CCGElem))
    (grid_indices : List Nat) (totgrid i j k c : Nat)
    (hA : key.grid_area = key.grid_size * key.grid_size)
    (hi : i < totgrid) (hj : j < key.grid_size - 1) (hk : k < key.grid_size - 1) (hc : c < 4) :
    (node_cos false key grids grid_indices (List.range totgrid))[
        i * (4 * ((key.grid_size - 1) * (key.grid_size - 1))) +
          4 * (j * (key.grid_size - 1) + k) + c]? =
      (quad_corner_cos key (node_grid grids grid_indices i) j k)[c]? := by
  generalize hg : key.grid_size - 1 = g1 at hj hk ⊢
  have hkc : k * 4 + c < 4 * g1 := by omega
  have hrow : j * (4 * g1) + (k * 4 + c) < g1 * g1 * 4 := by
    calc j * (4 * g1) + (k * 4 + c) < j * (4 * g1) + 4 * g1 := by omega
      _ = (j + 1) * (4 * g1) := by ring
      _ ≤ g1 * (4 * g1) := Nat.mul_le_mul_right _ hj
      _ = g1 * g1 * 4 := by ring
  have hidx : i * (4 * (g1 * g1)) + 4 * (j * g1 + k) + c
      = i * (g1 * g1 * 4) + (j * (4 * g1) + (k * 4 + c)) := by ring
  unfold node_cos
  rw [hidx, flatMap_range_getElem? _ (g1 * g1 * 4)
    (fun i => by rw [grid_cos_length false key _ hA]; simp [grid_vert_per_grid, hg])
    totgrid i _ hi hrow]
  simp only [grid_cos, Bool.false_eq_true, if_false, grid_flat_cos, hg]
  rw [flatMap_range_getElem? _ (4 * g1) (fun j => by rw [quad_row_cos_length]; simp)
    g1 j _ hj hkc]
  rw [flatMap_range_getElem? (fun k => quad_corner_cos key (node_grid grids grid_indices i) j k)
    4 (fun k => rfl) g1 k c hk hc]

/-- C6: for a node of `totgrid` grids of size `g` (with `grid_area = g * g`) that has at least
one visible subface, `GPU_pbvh_grid_buffers_update`, when given storage, leaves a vertex buffer
of `totgrid * g * g` vertices in smooth mode and `totgrid * 4 * (g-1) * (g-1)` in flat mode and
appends to its storage writes whose position records hit every slot of `[0, vert_count)`
exactly once, in increasing order; in smooth mode slot `i*g*g + y*g + x` receives element
`(x, y)` of the grid at position `i`, in flat mode slot `i*4*(g-1)*(g-1) + 4*(j*(g-1)+k) + c`
receives corner `c` of subface `(k, j)`, the corners taken in the order `(k, j)`, `(k+1, j)`,
`(k+1, j+1)`, `(k, j+1)`. -/
theorem grid_update_vertex_layout (E : Deps) (buffers : GPU_PBVH_Buffers)
    (subdiv_ccg : Option SubdivCCG) (grids : List (List CCGElem))
    (grid_flag_mats : List DMFlagMat) (grid_indices : List Nat) (totgrid : Nat)
    (sfs : Option (List Int)) (seed dflt : Int) (key : CCGKey) (update_flags : Nat)
    (hA : key.grid_area = key.grid_size * key.grid_size)
    (hvis : 1 ≤ BKE_pbvh_count_grid_quads E (buffers.grid_hidden.getD []) grid_indices totgrid
      key.grid_size) :
    ∃ h prev ws,
      (GPU_pbvh_grid_buffers_update E true buffers subdiv_ccg grids grid_flag_mats grid_indices
        totgrid sfs seed dflt key update_flags).vert_buf =
        some ⟨h,
          (if grid_smooth_flag grid_flag_mats grid_indices then
            totgrid * (key.grid_size * key.grid_size)
           else totgrid * (4 * ((key.grid_size - 1) * (key.grid_size - 1)))),
          some (prev ++ ws)⟩ ∧
      (pos_writes ws).map Prod.fst =
        List.range (if grid_smooth_flag grid_flag_mats grid_indices then
            totgrid * (key.grid_size * key.grid_size)
           else totgrid * (4 * ((key.grid_size - 1) * (key.grid_size - 1)))) ∧
      (grid_smooth_flag grid_flag_mats grid_indices = true →
        ∀ i y x, i < totgrid → y < key.grid_size → x < key.grid_size →
          (pos_writes ws)[i * (key.grid_size * key.grid_size) + y * key.grid_size + x]? =
            some (i * (key.grid_size * key.grid_size) + y * key.grid_size + x,
              (CCG_grid_elem key (node_grid grids grid_indices i) x y).co)) ∧
      (grid_smooth_flag grid_flag_mats grid_indices = false →
        ∀ i j k, i < totgrid → j < key.grid_size - 1 → k < key.grid_size - 1 →
          (pos_writes ws)[i * (4 * ((key.grid_size - 1) * (key.grid_size - 1))) +
              4 * (j * (key.grid_size - 1) + k) + 0]? =
            some (i * (4 * ((key.grid_size - 1) * (key.grid_size - 1))) +
              4 * (j * (key.grid_size - 1) + k) + 0,
              (CCG_grid_elem key (node_grid grids grid_indices i) k j).co) ∧
          (pos_writes ws)[i * (4 * ((key.grid_size - 1) * (key.grid_size - 1))) +
              4 * (j * (key.grid_size - 1) + k) + 1]? =
            some (i * (4 * ((key.grid_size - 1) * (key.grid_size - 1))) +
              4 * (j * (key.grid_size - 1) + k) + 1,
              (CCG_grid_elem key (node_grid grids grid_indices i) (k + 1) j).co) ∧
          (pos_writes ws)[i * (4 * ((key.grid_size - 1) * (key.grid_size - 1))) +
              4 * (j * (key.grid_size - 1) + k) + 2]? =
            some (i * (4 * ((key.grid_size - 1) * (key.grid_size - 1))) +
              4 * (j * (key.grid_size - 1) + k) + 2,
              (CCG_grid_elem key (node_grid grids grid_indices i) (k + 1) (j + 1)).co) ∧
          (pos_writes ws)[i * (4 * ((key.grid_size - 1) * (key.grid_size - 1))) +
              4 * (j * (key.grid_size - 1) + k) + 3]? =
            some (i * (4 * ((key.grid_size - 1) * (key.grid_size - 1))) +
              4 * (j * (key.grid_size - 1) + k) + 3,
              (CCG_grid_elem key (node_grid grids grid_indices i) k (j + 1)).co)) := by
  obtain ⟨h, prev, hvb⟩ := grid_update_vert_buf E buffers subdiv_ccg grids grid_flag_mats
    grid_indices totgrid sfs seed dflt key update_flags hvis
  have hpos := grid_vbo_pos_writes E (grid_smooth_flag grid_flag_mats grid_indices) subdiv_ccg
    grids grid_indices totgrid sfs seed dflt key
    (update_flags &&& GPU_PBVH_BUFFERS_SHOW_MASK != 0)
    (update_flags &&& GPU_PBVH_BUFFERS_SHOW_VCOL != 0)
    (sfs.isSome && (update_flags &&& GPU_PBVH_BUFFERS_SHOW_SCULPT_FACE_SETS != 0)) hA
  have hcount : totgrid * grid_vert_per_grid (grid_smooth_flag grid_flag_mats grid_indices) key =
      (if grid_smooth_flag grid_flag_mats grid_indices then
        totgrid * (key.grid_size * key.grid_size)
       else totgrid * (4 * ((key.grid_size - 1) * (key.grid_size - 1)))) := by
    cases grid_smooth_flag grid_flag_mats grid_indices
    · simp only [grid_vert_per_grid, Bool.false_eq_true, if_false]; ring
    · simp only [grid_vert_per_grid, if_true, hA]
  refine ⟨h, prev, (grid_vbo E (grid_smooth_flag grid_flag_mats grid_indices) subdiv_ccg
    grids grid_indices totgrid sfs seed dflt key
    (update_flags &&& GPU_PBVH_BUFFERS_SHOW_MASK != 0)
    (update_flags &&& GPU_PBVH_BUFFERS_SHOW_VCOL != 0)
    (sfs.isSome && (update_flags &&& GPU_PBVH_BUFFERS_SHOW_SCULPT_FACE_SETS != 0))).writes,
    ?_, ?_, ?_, ?_⟩
  · rw [hvb, hcount]
  · rw [hpos, List.enumFrom_map_fst, node_cos_length _ _ _ _ hA, List.length_range,
      ← List.range_eq_range', hcount]
  · intro hs i y x hi hy hx
    rw [hpos, List.getElem?_enumFrom, hs,
      node_cos_smooth_getElem? key grids grid_indices totgrid i y x hA hi hy hx]
    simp
  · intro hs i j k hi hj hk
    rw [hpos, hs]
    simp only [List.getElem?_enumFrom]
    rw [node_cos_flat_getElem? key grids grid_indices totgrid i j k 0 hA hi hj hk (by omega),
      node_cos_flat_getElem? key grids grid_indices totgrid i j k 1 hA hi hj hk (by omega),
      node_cos_flat_getElem? key grids grid_indices totgrid i j k 2 hA hi hj hk (by omega),
      node_cos_flat_getElem? key grids grid_indices totgrid i j k 3 hA hi hj hk (by omega)]
    simp [quad_corner_cos]

/-- Instance of the statement on the grid vertex layout: one smooth grid of size 2. -/
theorem grid_update_vertex_layout_witness :
    one_grid_key.grid_area = one_grid_key.grid_size * one_grid_key.grid_size ∧
    1 ≤ BKE_pbvh_count_grid_quads deps_plain
      ((GPU_pbvh_grid_buffers_build 1 [none]).grid_hidden.getD []) [0] 1 one_grid_key.grid_size ∧
    ∃ h prev ws,
      (GPU_pbvh_grid_buffers_update deps_plain true (GPU_pbvh_grid_buffers_build 1 [none]) none
        one_grid one_grid_flag_mats [0] 1 none 0 1 one_grid_key 0).vert_buf =
        some ⟨h, 4, some (prev ++ ws)⟩ ∧
      (pos_writes ws).map Prod.fst = List.range 4 :=
  ⟨by decide, by decide,
   (grid_update_vertex_layout deps_plain (GPU_pbvh_grid_buffers_build 1 [none]) none
      one_grid one_grid_flag_mats [0] 1 none 0 1 one_grid_key 0 (by decide) (by decide)).imp
     fun _ hh => hh.imp fun _ hp => hp.imp fun _ hw => ⟨hw.1, hw.2.1⟩⟩

/-! ### Grid mode: coarse buffers -/

/-- The four corner slots of the grid at position `i` in terms of the slot formulas of the two
vertex layouts. -/
theorem grid_corner_verts_slots (g i : Nat) (hg : 2 ≤ g) :
    grid_corner_verts true g (i * grid_vert_len true g) =
      (i * (g * g) + 0 * g + 0, i * (g * g) + 0 * g + (g - 1),
       i * (g * g) + (g - 1) * g + (g - 1), i * (g * g) + (g - 1) * g + 0) ∧
    grid_corner_verts false g (i * grid_vert_len false g) =
      (i * (4 * ((g - 1) * (g - 1))) + 4 * (0 * (g - 1) + 0) + 0,
       i * (4 * ((g - 1) * (g - 1))) + 4 * (0 * (g - 1) + (g - 2)) + 1,
       i * (4 * ((g - 1) * (g - 1))) + 4 * ((g - 2) * (g - 1) + (g - 2)) + 2,
       i * (4 * ((g - 1) * (g - 1))) + 4 * ((g - 2) * (g - 1) + 0) + 3) := by
  obtain ⟨m, rfl⟩ : ∃ m, g = m + 2 := ⟨g - 2, by omega⟩
  have e1 : m + 2 - 1 = m + 1 := by omega
  have e2 : m + 2 - 2 = m := by omega
  have s1 : (m + 2) * (m + 2) = (m + 1) * (m + 2) + (m + 1) + 1 := by ring
  have f1 : (m + 1) * (m + 1) * 4 = 4 * (m * (m + 1) + m) + 2 + 2 := by ring
  have f2 : (m + 1) * (m + 1) * 4 = 4 * (m * (m + 1) + 0) + (m + 1) * 4 := by ring
  have f3 : i * ((m + 1) * (m + 1) * 4) = i * (4 * ((m + 1) * (m + 1))) := by ring
  constructor
  · simp only [grid_corner_verts, grid_vert_len, if_true, e1, Prod.mk.injEq]
    refine ⟨by omega, by omega, ?_, ?_⟩
    · rw [s1]; omega
    · rw [s1]; omega
  · simp only [grid_corner_verts, grid_vert_len, Bool.false_eq_true, if_false, e1, e2,
      Prod.mk.injEq]
    refine ⟨by rw [f3]; omega, by rw [f3]; omega, ?_, ?_⟩
    · rw [f3, f1]; omega
    · rw [f3, f2]; omega

theorem node_tris_fast_length (E : Deps) (smooth : Bool) (grid_hidden : List (Option BLI_bitmap))
    (grid_indices : List Nat) (gridsize : Nat) (positions : List Nat) :
    (node_tris_fast E smooth grid_hidden grid_indices gridsize positions).length =
      3 * (2 * (node_visible_grids E grid_hidden grid_indices gridsize positions).length) := by
  unfold node_tris_fast
  induction node_visible_grids E grid_hidden grid_indices gridsize positions with
  | nil => rfl
  | cons i rest ih =>
    rw [List.flatMap_cons, List.length_append, ih]
    simp only [quad_tris, List.length_cons, List.length_nil]
    omega

theorem node_lines_fast_length (E : Deps) (smooth : Bool)
    (grid_hidden : List (Option BLI_bitmap)) (grid_indices : List Nat) (gridsize : Nat)
    (positions : List Nat) :
    (node_lines_fast E smooth grid_hidden grid_indices gridsize positions).length =
      2 * (4 * (node_visible_grids E grid_hidden grid_indices gridsize positions).length) := by
  unfold node_lines_fast
  induction node_visible_grids E grid_hidden grid_indices gridsize positions with
  | nil => rfl
  | cons i rest ih =>
    rw [List.flatMap_cons, List.length_append, ih]
    simp only [quad_outline, List.length_cons, List.length_nil]
    omega

/-- The position record at a slot of the vertex loops, read from the coordinate list. -/
theorem grid_vbo_pos_at (E : Deps) (smooth : Bool) (subdiv_ccg : Option SubdivCCG)
    (grids : List (List CCGElem)) (grid_indices : List Nat) (totgrid : Nat)
    (sfs : Option (List Int)) (seed dflt : Int) (key : CCGKey)
    (show_mask show_vcol show_face_sets : Bool)
    (hA : key.grid_area = key.grid_size * key.grid_size) (slot : Nat) (co : float3)
    (h : (node_cos smooth key grids grid_indices (List.range totgrid))[slot]? = some co) :
    (pos_writes (grid_vbo E smooth subdiv_ccg grids grid_indices totgrid sfs seed dflt key
        show_mask show_vcol show_face_sets).writes)[slot]? = some (slot, co) := by
  rw [grid_vbo_pos_writes E smooth subdiv_ccg grids grid_indices totgrid sfs seed dflt key
    show_mask show_vcol show_face_sets hA, List.getElem?_enumFrom, h]
  simp

/-- C7: the coarse triangle buffer gets exactly two triangles `(v0, v2, v1)`, `(v0, v3, v2)` and
the coarse wireframe exactly four lines `v0-v1, v1-v2, v2-v3, v3-v0` for every grid of the node
that has a non-hidden subface, and nothing for the other grids; `v0 .. v3` are given by
`grid_corner_verts` from the smoothing mode, the grid size and the position `i` of the grid in
the node alone (no hidden bitmap enters), and in either vertex layout they are the slots into
which the vertex loops write the corner elements `(0, 0)`, `(g-1, 0)`, `(g-1, g-1)`,
`(0, g-1)` of that grid. -/
theorem grid_fast_buffers_use_corner_slots (E : Deps) (buffers : GPU_PBVH_Buffers)
    (subdiv_ccg : Option SubdivCCG) (grids : List (List CCGElem)) (grid_indices : List Nat)
    (totgrid visible_quad_len : Nat) (sfs : Option (List Int)) (seed dflt : Int) (key : CCGKey)
    (show_mask show_vcol show_face_sets : Bool)
    (hA : key.grid_area = key.grid_size * key.grid_size) (hg : 2 ≤ key.grid_size) :
    (gpu_pbvh_grid_fill_index_buffers E buffers grid_indices visible_quad_len totgrid
        key.grid_size).index_buf_fast =
      some ⟨buffers.next_handle + 1, GPU_PRIM_TRIS,
        (node_visible_grids E (buffers.grid_hidden.getD []) grid_indices key.grid_size
          (List.range totgrid)).flatMap (fun i =>
            quad_tris (grid_corner_verts buffers.smooth key.grid_size
              (i * grid_vert_len buffers.smooth key.grid_size)))⟩ ∧
    (gpu_pbvh_grid_fill_index_buffers E buffers grid_indices visible_quad_len totgrid
        key.grid_size).index_lines_buf_fast =
      some ⟨buffers.next_handle + 3, GPU_PRIM_LINES,
        (node_visible_grids E (buffers.grid_hidden.getD []) grid_indices key.grid_size
          (List.range totgrid)).flatMap (fun i =>
            quad_outline (grid_corner_verts buffers.smooth key.grid_size
              (i * grid_vert_len buffers.smooth key.grid_size)))⟩ ∧
    (node_tris_fast E buffers.smooth (buffers.grid_hidden.getD []) grid_indices key.grid_size
        (List.range totgrid)).length =
      3 * (2 * (node_visible_grids E (buffers.grid_hidden.getD []) grid_indices key.grid_size
        (List.range totgrid)).length) ∧
    (node_lines_fast E buffers.smooth (buffers.grid_hidden.getD []) grid_indices key.grid_size
        (List.range totgrid)).length =
      2 * (4 * (node_visible_grids E (buffers.grid_hidden.getD []) grid_indices key.grid_size
        (List.range totgrid)).length) ∧
    ∀ smooth i, i < totgrid →
      (pos_writes (grid_vbo E smooth subdiv_ccg grids grid_indices totgrid sfs seed dflt key
          show_mask show_vcol show_face_sets).writes)[
          (grid_corner_verts smooth key.grid_size (i * grid_vert_len smooth key.grid_size)).1]? =
        some ((grid_corner_verts smooth key.grid_size
            (i * grid_vert_len smooth key.grid_size)).1,
          (CCG_grid_elem key (node_grid grids grid_indices i) 0 0).co) ∧
      (pos_writes (grid_vbo E smooth subdiv_ccg grids grid_indices totgrid sfs seed dflt key
          show_mask show_vcol show_face_sets).writes)[
          (grid_corner_verts smooth key.grid_size (i * grid_vert_len smooth key.grid_size)).2.1]? =
        some ((grid_corner_verts smooth key.grid_size
            (i * grid_vert_len smooth key.grid_size)).2.1,
          (CCG_grid_elem key (node_grid grids grid_indices i) (key.grid_size - 1) 0).co) ∧
      (pos_writes (grid_vbo E smooth subdiv_ccg grids grid_indices totgrid sfs seed dflt key
          show_mask show_vcol show_face_sets).writes)[
          (grid_corner_verts smooth key.grid_size
            (i * grid_vert_len smooth key.grid_size)).2.2.1]? =
        some ((grid_corner_verts smooth key.grid_size
            (i * grid_vert_len smooth key.grid_size)).2.2.1,
          (CCG_grid_elem key (node_grid grids grid_indices i) (key.grid_size - 1)
            (key.grid_size - 1)).co) ∧
      (pos_writes (grid_vbo E smooth subdiv_ccg grids grid_indices totgrid sfs seed dflt key
          show_mask show_vcol show_face_sets).writes)[
          (grid_corner_verts smooth key.grid_size
            (i * grid_vert_len smooth key.grid_size)).2.2.2]? =
        some ((grid_corner_verts smooth key.grid_size
            (i * grid_vert_len smooth key.grid_size)).2.2.2,
          (CCG_grid_elem key (node_grid grids grid_indices i) 0 (key.grid_size - 1)).co) := by
  refine ⟨?_, ?_, node_tris_fast_length _ _ _ _ _ _, node_lines_fast_length _ _ _ _ _ _, ?_⟩
  · rw [grid_fill_index_buffers_eq]; rfl
  · rw [grid_fill_index_buffers_eq]; rfl
  · intro smooth i hi
    have h21 : key.grid_size - 2 + 1 = key.grid_size - 1 := by omega
    cases smooth
    · rw [(grid_corner_verts_slots key.grid_size i hg).2]
      refine ⟨?_, ?_, ?_, ?_⟩ <;>
        apply grid_vbo_pos_at E false subdiv_ccg grids grid_indices totgrid sfs seed dflt key
          show_mask show_vcol show_face_sets hA
      · rw [node_cos_flat_getElem? key grids grid_indices totgrid i 0 0 0 hA hi (by omega)
          (by omega) (by omega)]
        rfl
      · rw [node_cos_flat_getElem? key grids grid_indices totgrid i 0 (key.grid_size - 2) 1 hA hi
          (by omega) (by omega) (by omega)]
        simp [quad_corner_cos, h21]
      · rw [node_cos_flat_getElem? key grids grid_indices totgrid i (key.grid_size - 2)
          (key.grid_size - 2) 2 hA hi (by omega) (by omega) (by omega)]
        simp [quad_corner_cos, h21]
      · rw [node_cos_flat_getElem? key grids grid_indices totgrid i (key.grid_size - 2) 0 3 hA hi
          (by omega) (by omega) (by omega)]
        simp [quad_corner_cos, h21]
    · rw [(grid_corner_verts_slots key.grid_size i hg).1]
      refine ⟨?_, ?_, ?_, ?_⟩ <;>
        apply grid_vbo_pos_at E true subdiv_ccg grids grid_indices totgrid sfs seed dflt key
          show_mask show_vcol show_face_sets hA
      · exact node_cos_smooth_getElem? key grids grid_indices totgrid i 0 0 hA hi (by omega)
          (by omega)
      · exact node_cos_smooth_getElem? key grids grid_indices totgrid i 0 (key.grid_size - 1) hA
          hi (by omega) (by omega)
      · exact node_cos_smooth_getElem? key grids grid_indices totgrid i (key.grid_size - 1)
          (key.grid_size - 1) hA hi (by omega) (by omega)
      · exact node_cos_smooth_getElem? key grids grid_indices totgrid i (key.grid_size - 1) 0 hA
          hi (by omega) (by omega)

/-- Instance of the statement on the coarse buffers: one smooth grid of size 2. -/
theorem grid_fast_buffers_use_corner_slots_witness :
    one_grid_key.grid_area = one_grid_key.grid_size * one_grid_key.grid_size ∧
    2 ≤ one_grid_key.grid_size ∧
    (gpu_pbvh_grid_fill_index_buffers deps_plain
        { GPU_pbvh_grid_buffers_build 1 [none] with smooth := true } [0] 1 1
        one_grid_key.grid_size).index_buf_fast = some ⟨1, GPU_PRIM_TRIS, [0, 3, 1, 0, 2, 3]⟩ :=
  ⟨by decide, by decide,
   (grid_fast_buffers_use_corner_slots deps_plain
      { GPU_pbvh_grid_buffers_build 1 [none] with smooth := true } none one_grid [0] 1 1 none 0 1
      one_grid_key false false false (by decide) (by decide)).1⟩

/-! ### Dynamic-topology mode -/

/-- The vertex buffer after the non-indexed strategy was given storage: three vertices per
triangle of the flattened buffer. -/
theorem bmesh_nonindexed_vertex_len (E : Deps) (dt : Bool)
    (buffers : GPU_PBVH_Buffers) (bm : BMesh) (bm_faces : TableGSet BMFace)
    (tribuf : PBVHTriBuf) (update_flags : Nat) (cd_vert_node_offset : Int)
    (seed dflt : Int) (active_vcol_only : Bool) (mat_nr : Int) :
    (GPU_pbvh_bmesh_buffers_update_nonindexed E dt true buffers bm bm_faces tribuf update_flags
        cd_vert_node_offset seed dflt active_vcol_only mat_nr).vert_buf.map
          (fun vb => vb.vertex_len) =
      if tribuf.tottri = 0 then buffers.vert_buf.map (fun vb => vb.vertex_len)
      else some (tribuf.tottri * 3) := by
  unfold GPU_pbvh_bmesh_buffers_update_nonindexed
  by_cases h0 : tribuf.tottri = 0
  · simp only [h0, beq_self_eq_true, if_true]
    split_ifs <;> rfl
  · have hne : (tribuf.tottri == 0) = false := by simpa using h0
    simp only [hne, Bool.false_eq_true, if_false, h0, vert_buf_data_set_ok, Bool.not_true,
      gpu_pbvh_batch_init_vert_buf, GPU_indexbuf_build, vert_buf_write,
      vert_buf_data_set_vert_buf, Option.map_some']

/-- C8: `GPU_pbvh_bmesh_buffers_update` runs the flat-vertex-colour strategy iff `flat_vcol` is
requested and the mesh has a per-vertex colour layer, otherwise the indexed strategy iff the
shading of the buffer is smooth and the mesh has no UV layer, otherwise the non-indexed
strategy, which sizes the vertex buffer to three vertices per triangle. -/
theorem bmesh_update_strategy (E : Deps) (dt alloc_ok : Bool)
    (buffers : GPU_PBVH_Buffers) (bm : BMesh) (bm_faces : TableGSet BMFace)
    (bm_unique_verts bm_other_verts : TableGSet BMVert) (tribuf : PBVHTriBuf)
    (update_flags : Nat) (cd_vert_node_offset : Int) (seed dflt : Int)
    (flat_vcol active_vcol_only : Bool) (mat_nr : Int) :
    GPU_pbvh_bmesh_buffers_update E dt alloc_ok buffers bm bm_faces bm_unique_verts
        bm_other_verts tribuf update_flags cd_vert_node_offset seed dflt flat_vcol
        active_vcol_only mat_nr =
      bmesh_run_strategy E dt alloc_ok buffers bm bm_faces bm_unique_verts bm_other_verts tribuf
        update_flags cd_vert_node_offset seed dflt flat_vcol active_vcol_only mat_nr
        (bmesh_strategy flat_vcol (E.CustomData_has_layer bm.vdata CD_PROP_COLOR)
          buffers.smooth (E.CustomData_has_layer bm.ldata CD_MLOOPUV)) ∧
    (bmesh_strategy flat_vcol (E.CustomData_has_layer bm.vdata CD_PROP_COLOR)
        buffers.smooth (E.CustomData_has_layer bm.ldata CD_MLOOPUV) = BMeshStrategy.flat_vcol ↔
      (flat_vcol = true ∧ E.CustomData_has_layer bm.vdata CD_PROP_COLOR = true)) ∧
    (bmesh_strategy flat_vcol (E.CustomData_has_layer bm.vdata CD_PROP_COLOR)
        buffers.smooth (E.CustomData_has_layer bm.ldata CD_MLOOPUV) = BMeshStrategy.indexed ↔
      (¬ (flat_vcol = true ∧ E.CustomData_has_layer bm.vdata CD_PROP_COLOR = true) ∧
        buffers.smooth = true ∧ E.CustomData_has_layer bm.ldata CD_MLOOPUV = false)) ∧
    (GPU_pbvh_bmesh_buffers_update_nonindexed E dt true buffers bm bm_faces tribuf update_flags
        cd_vert_node_offset seed dflt active_vcol_only mat_nr).vert_buf.map
          (fun vb => vb.vertex_len) =
      if tribuf.tottri = 0 then buffers.vert_buf.map (fun vb => vb.vertex_len)
      else some (tribuf.tottri * 3) := by
  refine ⟨?_, ?_, ?_, bmesh_nonindexed_vertex_len E dt buffers bm bm_faces tribuf update_flags
    cd_vert_node_offset seed dflt active_vcol_only mat_nr⟩
  · unfold GPU_pbvh_bmesh_buffers_update bmesh_strategy
    cases flat_vcol <;> cases E.CustomData_has_layer bm.vdata CD_PROP_COLOR <;>
      cases buffers.smooth <;> cases E.CustomData_has_layer bm.ldata CD_MLOOPUV <;> rfl
  · unfold bmesh_strategy
    cases flat_vcol <;> cases E.CustomData_has_layer bm.vdata CD_PROP_COLOR <;>
      cases buffers.smooth <;> cases E.CustomData_has_layer bm.ldata CD_MLOOPUV <;> simp
  · unfold bmesh_strategy
    cases flat_vcol <;> cases E.CustomData_has_layer bm.vdata CD_PROP_COLOR <;>
      cases buffers.smooth <;> cases E.CustomData_has_layer bm.ldata CD_MLOOPUV <;> simp

/-- C10: in each dynamic-topology strategy, when the triangle count found for the node is zero
(no visible face of the material for the flat-vertex-colour strategy, an empty flattened
triangle buffer for the other two), the update stores a triangle count of zero, sets
`clear_bmesh_on_flush` when the face table is empty and leaves the flag as it was otherwise, and
changes nothing else: vertex buffer, index buffers and batches are those from before. -/
theorem bmesh_update_empty (E : Deps) (dt alloc_ok : Bool)
    (buffers : GPU_PBVH_Buffers) (bm : BMesh) (bm_faces : TableGSet BMFace)
    (bm_unique_verts bm_other_verts : TableGSet BMVert) (tribuf : PBVHTriBuf)
    (update_flags : Nat) (cd_vert_node_offset : Int) (seed dflt : Int)
    (flat_vcol active_vcol_only : Bool) (mat_nr : Int) :
    (gpu_bmesh_face_visible_count bm_faces mat_nr = 0 →
      GPU_pbvh_bmesh_buffers_update_flat_vcol E alloc_ok buffers bm bm_faces bm_unique_verts
        bm_other_verts update_flags cd_vert_node_offset seed dflt active_vcol_only mat_nr =
      { buffers with
        tot_tri := 0
        clear_bmesh_on_flush :=
          if bm_faces.length = 0 then true else buffers.clear_bmesh_on_flush }) ∧
    (tribuf.tottri = 0 →
      GPU_pbvh_bmesh_buffers_update_indexed E alloc_ok buffers bm bm_faces bm_unique_verts
        bm_other_verts tribuf update_flags cd_vert_node_offset seed dflt flat_vcol
        active_vcol_only mat_nr =
      { buffers with
        tot_tri := 0
        clear_bmesh_on_flush :=
          if bm_faces.length = 0 then true else buffers.clear_bmesh_on_flush }) ∧
    (tribuf.tottri = 0 →
      GPU_pbvh_bmesh_buffers_update_nonindexed E dt alloc_ok buffers bm bm_faces tribuf
        update_flags cd_vert_node_offset seed dflt active_vcol_only mat_nr =
      { buffers with
        tot_tri := 0
        clear_bmesh_on_flush :=
          if bm_faces.length = 0 then true else buffers.clear_bmesh_on_flush }) := by
  refine ⟨?_, ?_, ?_⟩
  · intro h
    unfold GPU_pbvh_bmesh_buffers_update_flat_vcol bmesh_mark_empty BLI_table_gset_len
    simp only [h, Nat.zero_mul, beq_self_eq_true, if_true]
    by_cases hl : bm_faces.length = 0 <;> simp [hl]
  · intro h
    unfold GPU_pbvh_bmesh_buffers_update_indexed bmesh_mark_empty BLI_table_gset_len
    simp only [h, beq_self_eq_true, if_true]
    by_cases hl : bm_faces.length = 0 <;> simp [hl]
  · intro h
    unfold GPU_pbvh_bmesh_buffers_update_nonindexed BLI_table_gset_len c_not
    simp only [h, beq_self_eq_true, if_true]
    by_cases hl : bm_faces.length = 0 <;> simp [hl]

/-- Instance of the statement on empty nodes: a face table holding one hidden face (the flag
stays as it was) and an empty flattened triangle buffer. -/
theorem bmesh_update_empty_witness :
    gpu_bmesh_face_visible_count [hidden_face] 0 = 0 ∧ empty_tribuf.tottri = 0 ∧
    (GPU_pbvh_bmesh_buffers_update_flat_vcol deps_plain true (GPU_pbvh_bmesh_buffers_build true)
      plain_bmesh [hidden_face] [] [] 0 0 0 1 false 0).clear_bmesh_on_flush = false ∧
    (GPU_pbvh_bmesh_buffers_update_indexed deps_plain true (GPU_pbvh_bmesh_buffers_build true)
      plain_bmesh [] [] [] empty_tribuf 0 0 0 1 false false 0).clear_bmesh_on_flush = true ∧
    (GPU_pbvh_bmesh_buffers_update_nonindexed deps_plain false true
      (GPU_pbvh_bmesh_buffers_build false) plain_bmesh [] empty_tribuf 0 0 0 1 false
      0).vert_buf = none :=
  ⟨by decide, rfl,
   congrArg GPU_PBVH_Buffers.clear_bmesh_on_flush
     ((bmesh_update_empty deps_plain false true (GPU_pbvh_bmesh_buffers_build true) plain_bmesh
       [hidden_face] [] [] empty_tribuf 0 0 0 1 false false 0).1 (by decide)),
   congrArg GPU_PBVH_Buffers.clear_bmesh_on_flush
     ((bmesh_update_empty deps_plain false true (GPU_pbvh_bmesh_buffers_build true) plain_bmesh
       [] [] [] empty_tribuf 0 0 0 1 false false 0).2.1 rfl),
   congrArg GPU_PBVH_Buffers.vert_buf
     ((bmesh_update_empty deps_plain false true (GPU_pbvh_bmesh_buffers_build false) plain_bmesh
       [] [] [] empty_tribuf 0 0 0 1 false false 0).2.2 rfl)⟩

/-- A loop in which the steps on elements outside `p` change nothing can skip them. -/
theorem foldl_filter_noop {σ α : Type} (f : σ → α → σ) (p : α → Bool)
    (h : ∀ s x, p x = false → f s x = s) (l : List α) (s : σ) :
    l.foldl f s = (l.filter p).foldl f s := by
  induction l generalizing s with
  | nil => rfl
  | cons x rest ih =>
    rw [List.foldl_cons, List.filter_cons]
    cases hp : p x
    · rw [h s x hp, ih]; simp
    · rw [ih]; simp

/-- Reading a list back through its indices. -/
theorem map_getD_range {α : Type} (l : List α) (d : α) :
    (List.range l.length).map (fun i => l.getD i d) = l := by
  apply List.ext_getElem
  · simp
  · intro n h1 h2
    simp [List.getD_eq_getElem?_getD, List.getElem?_eq_getElem h2]

/-- The number of visible faces of a material is the length of the filtered face table. -/
theorem face_visible_count_eq (bm_faces : TableGSet BMFace) (mat_nr : Int) :
    gpu_bmesh_face_visible_count bm_faces mat_nr =
      (bm_faces.filter (fun f => !BM_elem_hidden f.hflag && f.mat_nr == mat_nr)).length := by
  unfold gpu_bmesh_face_visible_count
  have h : ∀ (l : List BMFace) (n : Nat),
      l.foldl (fun totface f =>
        if !BM_elem_hidden f.hflag && f.mat_nr == mat_nr then totface + 1 else totface) n =
      n + (l.filter (fun f => !BM_elem_hidden f.hflag && f.mat_nr == mat_nr)).length := by
    intro l
    induction l with
    | nil => intro n; rfl
    | cons f rest ih =>
      intro n
      rw [List.foldl_cons, ih, List.filter_cons]
      split_ifs
      · rw [List.length_cons]; omega
      · rfl
  rw [h, Nat.zero_add]

/-- Restricting the face table to a set that contains every visible face of the material does
not change the count. -/
theorem face_visible_count_filter (bm_faces : TableGSet BMFace) (mat_nr : Int)
    (p : BMFace → Bool)
    (hp : ∀ f, (!BM_elem_hidden f.hflag && f.mat_nr == mat_nr) = true → p f = true) :
    gpu_bmesh_face_visible_count (bm_faces.filter p) mat_nr =
      gpu_bmesh_face_visible_count bm_faces mat_nr := by
  rw [face_visible_count_eq, face_visible_count_eq, List.filter_filter]
  congr 1
  apply List.filter_congr
  intro f _
  cases hq : (!BM_elem_hidden f.hflag && f.mat_nr == mat_nr)
  · simp
  · simp [hp f hq]

theorem gpu_pbvh_batch_init_index_buf (buffers : GPU_PBVH_Buffers) (prim : GPUPrimType) :
    (gpu_pbvh_batch_init buffers prim).index_buf = buffers.index_buf := by
  simp only [gpu_pbvh_batch_init, GPU_batch_create]
  split_ifs <;> rfl

theorem gpu_pbvh_batch_init_index_lines_buf (buffers : GPU_PBVH_Buffers) (prim : GPUPrimType) :
    (gpu_pbvh_batch_init buffers prim).index_lines_buf = buffers.index_lines_buf := by
  simp only [gpu_pbvh_batch_init, GPU_batch_create]
  split_ifs <;> rfl

theorem vert_buf_data_set_index_buf (buffers : GPU_PBVH_Buffers) (n : Nat) (alloc_ok : Bool) :
    (gpu_pbvh_vert_buf_data_set buffers n alloc_ok).1.index_buf = buffers.index_buf := by
  rw [vert_buf_data_set_frame]

theorem vert_buf_data_set_index_lines_buf (buffers : GPU_PBVH_Buffers) (n : Nat)
    (alloc_ok : Bool) :
    (gpu_pbvh_vert_buf_data_set buffers n alloc_ok).1.index_lines_buf
      = buffers.index_lines_buf := by
  rw [vert_buf_data_set_frame]

/-- The triangle loop of the indexed strategy appends every triangle of the flattened buffer and
its three edges. -/
theorem indexed_tri_fold (tribuf : PBVHTriBuf) (steps : List Nat)
    (s : GPUIndexBufBuilder × GPUIndexBufBuilder) :
    steps.foldl (indexed_tri tribuf) s =
      (s.1.extend (steps.flatMap (tribuf_tri_indices tribuf)),
       s.2.extend (steps.flatMap (tribuf_tri_lines tribuf))) := by
  induction steps generalizing s with
  | nil => simp [GPUIndexBufBuilder.extend_nil]
  | cons i rest ih =>
    rw [List.foldl_cons, ih]
    simp [indexed_tri, GPUIndexBufBuilder.extend, GPU_indexbuf_add_tri_verts,
      GPU_indexbuf_add_line_verts, tribuf_tri_indices, tribuf_tri_lines]

/-- The index buffers the indexed strategy leaves when it is given storage: every triangle of the
flattened buffer, whatever its face. -/
theorem bmesh_indexed_index_buffers (E : Deps) (buffers : GPU_PBVH_Buffers) (bm : BMesh)
    (bm_faces : TableGSet BMFace) (bm_unique_verts bm_other_verts : TableGSet BMVert)
    (tribuf : PBVHTriBuf) (update_flags : Nat) (cd_vert_node_offset : Int) (seed dflt : Int)
    (flat_vcol active_vcol_only : Bool) (mat_nr : Int) :
    (GPU_pbvh_bmesh_buffers_update_indexed E true buffers bm bm_faces bm_unique_verts
        bm_other_verts tribuf update_flags cd_vert_node_offset seed dflt flat_vcol
        active_vcol_only mat_nr).index_buf.map (fun ib => ib.index) =
      (if tribuf.tottri = 0 then buffers.index_buf.map (fun ib => ib.index)
       else some ((List.range tribuf.tottri).flatMap (tribuf_tri_indices tribuf))) ∧
    (GPU_pbvh_bmesh_buffers_update_indexed E true buffers bm bm_faces bm_unique_verts
        bm_other_verts tribuf update_flags cd_vert_node_offset seed dflt flat_vcol
        active_vcol_only mat_nr).index_lines_buf.map (fun ib => ib.index) =
      (if tribuf.tottri = 0 then buffers.index_lines_buf.map (fun ib => ib.index)
       else some ((List.range tribuf.tottri).flatMap (tribuf_tri_lines tribuf))) := by
  unfold GPU_pbvh_bmesh_buffers_update_indexed
  by_cases h0 : tribuf.tottri = 0
  · simp only [h0, beq_self_eq_true, if_true, bmesh_mark_empty]
    constructor <;> split_ifs <;> rfl
  · have hne : (tribuf.tottri == 0) = false := by simpa using h0
    simp only [hne, Bool.false_eq_true, if_false, h0, vert_buf_data_set_ok, Bool.not_true,
      gpu_pbvh_batch_init_index_buf, gpu_pbvh_batch_init_index_lines_buf, indexed_tri_fold,
      GPU_indexbuf_build, vert_buf_write, vert_buf_data_set_index_buf]
    cases hib : buffers.index_buf <;>
      simp [GPUIndexBufBuilder.extend, GPU_indexbuf_init, GPU_indexbuf_build_in_place]

/-- The flat-vertex-colour face step does nothing on a face of another material or on a hidden
face. -/
theorem flat_vcol_face_noop (E : Deps) (show_face_sets : Bool) (cd_fset_offset : Int)
    (seed dflt : Int) (cd_vcols : List Int) (cd_vcol_count : Int) (mat_nr : Int)
    (s : BMeshFill) (f : BMFace)
    (h : face_has_material mat_nr f = false ∨ face_not_hidden f = false) :
    flat_vcol_face E show_face_sets cd_fset_offset seed dflt cd_vcols cd_vcol_count mat_nr s f
      = s := by
  unfold flat_vcol_face
  rcases h with h | h
  · have : (f.mat_nr != mat_nr) = true := by
      simpa [face_has_material, bne, Bool.not_eq_true'] using h
    simp only [this, if_true]
  · have : (!BM_elem_hidden f.hflag) = false := h
    simp only [this, Bool.false_eq_true, if_false, ite_self]

/-- The non-indexed face step does nothing on a face of another material or on a hidden face. -/
theorem bmesh_face_noop (E : Deps) (smooth have_uv show_mask show_face_sets : Bool)
    (o1 o2 o3 o4 o5 : Int) (seed dflt : Int) (cd_vcols : List Int) (cd_vcol_count : Int)
    (mat_nr : Int) (s : BMeshFill) (f : BMFace)
    (h : face_has_material mat_nr f = false ∨ face_not_hidden f = false) :
    bmesh_face E smooth have_uv show_mask show_face_sets o1 o2 o3 o4 o5 seed dflt cd_vcols
      cd_vcol_count mat_nr s f = s := by
  unfold bmesh_face
  rcases h with h | h
  · have : (f.mat_nr != mat_nr) = true := by
      simpa [face_has_material, bne, Bool.not_eq_true'] using h
    simp only [this, if_true]
  · have : (!BM_elem_hidden f.hflag) = false := h
    simp only [this, Bool.false_eq_true, if_false, ite_self]

/-- The triangle step of the `DYNTOPO_DYNAMIC_TESS` variant does nothing on a triangle of a
hidden face. -/
theorem bmesh_tess_tri_noop (E : Deps) (smooth have_uv show_mask show_face_sets : Bool)
    (o1 o2 o3 o4 o5 : Int) (seed dflt : Int) (cd_vcols : List Int) (cd_vcol_count : Int)
    (tribuf : PBVHTriBuf) (s : BMeshFill) (i : Nat)
    (h : face_not_hidden (tribuf.tris.getD i default).f = false) :
    bmesh_tess_tri E smooth have_uv show_mask show_face_sets o1 o2 o3 o4 o5 seed dflt cd_vcols
      cd_vcol_count tribuf s i = s := by
  unfold bmesh_tess_tri
  have : BM_elem_hidden (tribuf.tris.getD i default).f.hflag = true := by
    simpa [face_not_hidden] using h
  simp only [this, if_true]

/-- The flat-vertex-colour strategy produces the same vertex buffer and wireframe buffer when
the face table is restricted to a set of faces that keeps every non-hidden face of the
material. -/
theorem flat_vcol_filter_faces (E : Deps) (alloc_ok : Bool) (buffers : GPU_PBVH_Buffers)
    (bm : BMesh) (bm_faces : TableGSet BMFace) (uv ov : TableGSet BMVert) (update_flags : Nat)
    (cd_vert_node_offset : Int) (seed dflt : Int) (active_vcol_only : Bool) (mat_nr : Int)
    (p : BMFace → Bool)
    (hp : ∀ f, p f = false → face_has_material mat_nr f = false ∨ face_not_hidden f = false) :
    (GPU_pbvh_bmesh_buffers_update_flat_vcol E alloc_ok buffers bm (bm_faces.filter p) uv ov
        update_flags cd_vert_node_offset seed dflt active_vcol_only mat_nr).vert_buf =
      (GPU_pbvh_bmesh_buffers_update_flat_vcol E alloc_ok buffers bm bm_faces uv ov
        update_flags cd_vert_node_offset seed dflt active_vcol_only mat_nr).vert_buf ∧
    (GPU_pbvh_bmesh_buffers_update_flat_vcol E alloc_ok buffers bm (bm_faces.filter p) uv ov
        update_flags cd_vert_node_offset seed dflt active_vcol_only mat_nr).index_lines_buf =
      (GPU_pbvh_bmesh_buffers_update_flat_vcol E alloc_ok buffers bm bm_faces uv ov
        update_flags cd_vert_node_offset seed dflt active_vcol_only mat_nr).index_lines_buf := by
  have hc : gpu_bmesh_face_visible_count (bm_faces.filter p) mat_nr =
      gpu_bmesh_face_visible_count bm_faces mat_nr := by
    apply face_visible_count_filter
    intro f hf
    by_contra hpf
    have hpf2 : p f = false := by simpa using hpf
    rcases hp f hpf2 with h | h
    · simp [face_has_material] at h; simp [h] at hf
    · simp [face_not_hidden] at h; simp [h] at hf
  have hfold := fun a b c d e g s => (foldl_filter_noop
    (flat_vcol_face E a b c d e g mat_nr) p
    (fun s f hf => flat_vcol_face_noop E a b c d e g mat_nr s f (hp f hf)) bm_faces s).symm
  unfold GPU_pbvh_bmesh_buffers_update_flat_vcol
  simp only [hc, hfold]
  by_cases h0 : (gpu_bmesh_face_visible_count bm_faces mat_nr * 6 == 0) = true
  · simp only [h0, if_true, bmesh_mark_empty]
    constructor <;> (split_ifs <;> rfl)
  · simp only [h0, Bool.false_eq_true, if_false, and_self]

/-- The non-indexed strategy (face-table variant) produces the same vertex buffer and wireframe
buffer when the face table is restricted to a set of faces that keeps every non-hidden face of
the material. -/
theorem bmesh_nonindexed_filter_faces (E : Deps) (alloc_ok : Bool) (buffers : GPU_PBVH_Buffers)
    (bm : BMesh) (bm_faces : TableGSet BMFace) (tribuf : PBVHTriBuf) (update_flags : Nat)
    (cd_vert_node_offset : Int) (seed dflt : Int) (active_vcol_only : Bool) (mat_nr : Int)
    (p : BMFace → Bool)
    (hp : ∀ f, p f = false → face_has_material mat_nr f = false ∨ face_not_hidden f = false) :
    (GPU_pbvh_bmesh_buffers_update_nonindexed E false alloc_ok buffers bm (bm_faces.filter p)
        tribuf update_flags cd_vert_node_offset seed dflt active_vcol_only mat_nr).vert_buf =
      (GPU_pbvh_bmesh_buffers_update_nonindexed E false alloc_ok buffers bm bm_faces
        tribuf update_flags cd_vert_node_offset seed dflt active_vcol_only mat_nr).vert_buf ∧
    (GPU_pbvh_bmesh_buffers_update_nonindexed E false alloc_ok buffers bm (bm_faces.filter p)
        tribuf update_flags cd_vert_node_offset seed dflt active_vcol_only
        mat_nr).index_lines_buf =
      (GPU_pbvh_bmesh_buffers_update_nonindexed E false alloc_ok buffers bm bm_faces
        tribuf update_flags cd_vert_node_offset seed dflt active_vcol_only
        mat_nr).index_lines_buf := by
  have hfold := fun a b c d o1 o2 o3 o4 o5 e g h i s => (foldl_filter_noop
    (bmesh_face E a b c d o1 o2 o3 o4 o5 e g h i mat_nr) p
    (fun s f hf => bmesh_face_noop E a b c d o1 o2 o3 o4 o5 e g h i mat_nr s f (hp f hf))
    bm_faces s).symm
  unfold GPU_pbvh_bmesh_buffers_update_nonindexed
  simp only [hfold, Bool.false_eq_true, if_false]
  by_cases h0 : (tribuf.tottri == 0) = true
  · simp only [h0, if_true]
    constructor <;> (split_ifs <;> rfl)
  · simp only [h0, Bool.false_eq_true, if_false, and_self]

/-- The visible triangles of the node are those of the face-index subset with the hidden
triangles removed. -/
theorem mesh_visible_tris_of_visible_indices (E : Deps) (mloop : List MLoop)
    (looptri : List MLoopTri) (mvert : List MVert) (face_indices : List Nat)
    (sfs : Option (List Int)) (len : Nat) :
    mesh_visible_tris E mloop looptri mvert
        (mesh_visible_indices E mloop looptri mvert face_indices sfs len) sfs
        (mesh_visible_indices E mloop looptri mvert face_indices sfs len).length =
      mesh_visible_tris E mloop looptri mvert face_indices sfs len := by
  unfold mesh_visible_tris node_looptris visited_tris
  have h1 : (List.range (mesh_visible_indices E mloop looptri mvert face_indices sfs len).length).map
      (fun i => looptri.getD
        ((mesh_visible_indices E mloop looptri mvert face_indices sfs len).getD i 0) default) =
      (mesh_visible_indices E mloop looptri mvert face_indices sfs len).map
        (fun idx => looptri.getD idx default) := by
    conv_rhs => rw [← map_getD_range
      (mesh_visible_indices E mloop looptri mvert face_indices sfs len) 0]
    rw [List.map_map]
    rfl
  rw [h1]
  unfold mesh_visible_indices
  rw [List.filter_map, List.filter_filter, List.filter_map, List.map_map, List.filter_map]
  congr 1
  apply List.filter_congr
  intro x _
  simp

/-- The vertex count after a mesh update of a freshly built node buffer object. -/
theorem mesh_update_vertex_len (E : Deps) (alloc_ok : Bool) (buffers : GPU_PBVH_Buffers)
    (mvert : List MVert) (vmask : Option (List float)) (vcol : Option (List MLoopCol))
    (sfs : Option (List Int)) (seed dflt : Int) (vtcol : Option (List MPropCol))
    (update_flags : Nat) (h : buffers.vert_buf = none) :
    (GPU_pbvh_mesh_buffers_update E alloc_ok buffers mvert vmask vcol sfs seed dflt vtcol
      update_flags).vert_buf.map (fun vb => vb.vertex_len) = some (buffers.tot_tri * 3) := by
  simp only [GPU_pbvh_mesh_buffers_update, gpu_pbvh_batch_init_vert_buf]
  cases alloc_ok <;>
    simp [gpu_pbvh_vert_buf_data_set, h, GPU_vertbuf_data_alloc, vert_buf_write]

theorem mesh_build_vert_buf (E : Deps) (mpoly : List MPoly) (mloop : List MLoop)
    (looptri : List MLoopTri) (mvert : List MVert) (face_indices : List Nat)
    (sfs : Option (List Int)) (len : Nat) (mesh : Mesh) :
    (GPU_pbvh_mesh_buffers_build E mpoly mloop looptri mvert face_indices sfs len mesh).vert_buf
      = none ∧
    (GPU_pbvh_mesh_buffers_build E mpoly mloop looptri mvert face_indices sfs len mesh).tot_tri
      = (mesh_visible_tris E mloop looptri mvert face_indices sfs len).length ∧
    (GPU_pbvh_mesh_buffers_build E mpoly mloop looptri mvert face_indices sfs len
        mesh).index_lines_buf =
      (if (mesh_visible_tris E mloop looptri mvert face_indices sfs len).length = 0 then none
       else some ⟨0, GPU_PRIM_LINES,
        mesh_wire_lines E mesh (mesh_visible_tris E mloop looptri mvert face_indices sfs len) 0⟩)
    := by
  by_cases h0 : (mesh_visible_tris E mloop looptri mvert face_indices sfs len).length = 0
  · rw [mesh_build_eq_of_hidden E mpoly mloop looptri mvert face_indices sfs len mesh h0, if_pos h0]
    exact ⟨rfl, h0.symm ▸ rfl, rfl⟩
  · rw [mesh_build_eq_of_visible E mpoly mloop looptri mvert face_indices sfs len mesh
      (by omega), if_neg h0]
    exact ⟨rfl, rfl, rfl⟩

/-- The vertex count after a grid update that is given storage: `totgrid * vert_per_grid`
whatever the hidden bitmaps say, unless the update returns early on a node without index
buffer and without visible subface. -/
theorem grid_update_vertex_len (E : Deps) (buffers : GPU_PBVH_Buffers)
    (subdiv_ccg : Option SubdivCCG) (grids : List (List CCGElem))
    (grid_flag_mats : List DMFlagMat) (grid_indices : List Nat) (totgrid : Nat)
    (sfs : Option (List Int)) (seed dflt : Int) (key : CCGKey) (update_flags : Nat) :
    (GPU_pbvh_grid_buffers_update E true buffers subdiv_ccg grids grid_flag_mats grid_indices
        totgrid sfs seed dflt key update_flags).vert_buf.map (fun vb => vb.vertex_len) =
      if (buffers.index_buf.isNone &&
          BKE_pbvh_count_grid_quads E (buffers.grid_hidden.getD []) grid_indices totgrid
            key.grid_size == 0) = true then
        buffers.vert_buf.map (fun vb => vb.vertex_len)
      else some (totgrid * grid_vert_per_grid (grid_smooth_flag grid_flag_mats grid_indices) key)
    := by
  unfold GPU_pbvh_grid_buffers_update
  by_cases hc : (buffers.index_buf.isNone &&
      BKE_pbvh_count_grid_quads E (buffers.grid_hidden.getD []) grid_indices totgrid
        key.grid_size == 0) = true
  · simp only [hc, if_true]
  · simp only [hc, Bool.false_eq_true, if_false, vert_buf_data_set_ok, if_true,
      gpu_pbvh_batch_init_vert_buf, vert_buf_write, vert_buf_data_set_vert_buf,
      Option.map_some', vert_buf_data_set_smooth, apply_ite GPU_PBVH_Buffers.smooth,
      grid_fill_index_buffers_smooth, ite_self, grid_smooth_flag]

/-- C9 (as the code has it): in the flat-vertex-colour strategy and in the face-table loop of
the non-indexed strategy (the variant compiled without `DYNTOPO_DYNAMIC_TESS`) a face whose
material differs from `mat_nr` contributes no vertex and no wireframe line: vertex buffer and
wireframe buffer are those produced for the face table restricted to the faces of material
`mat_nr`.  The indexed strategy applies no material test: given storage, it emits one triangle
and three lines for every triangle of the flattened triangle buffer, whatever the material of
its face. -/
theorem bmesh_material_filter (E : Deps) (alloc_ok : Bool) (buffers : GPU_PBVH_Buffers)
    (bm : BMesh) (bm_faces : TableGSet BMFace) (uv ov : TableGSet BMVert) (tribuf : PBVHTriBuf)
    (update_flags : Nat) (cd_vert_node_offset : Int) (seed dflt : Int)
    (flat_vcol active_vcol_only : Bool) (mat_nr : Int) :
    ((GPU_pbvh_bmesh_buffers_update_flat_vcol E alloc_ok buffers bm
        (bm_faces.filter (face_has_material mat_nr)) uv ov
        update_flags cd_vert_node_offset seed dflt active_vcol_only mat_nr).vert_buf =
      (GPU_pbvh_bmesh_buffers_update_flat_vcol E alloc_ok buffers bm bm_faces uv ov
        update_flags cd_vert_node_offset seed dflt active_vcol_only mat_nr).vert_buf ∧
     (GPU_pbvh_bmesh_buffers_update_flat_vcol E alloc_ok buffers bm
        (bm_faces.filter (face_has_material mat_nr)) uv ov
        update_flags cd_vert_node_offset seed dflt active_vcol_only mat_nr).index_lines_buf =
      (GPU_pbvh_bmesh_buffers_update_flat_vcol E alloc_ok buffers bm bm_faces uv ov
        update_flags cd_vert_node_offset seed dflt active_vcol_only mat_nr).index_lines_buf) ∧
    ((GPU_pbvh_bmesh_buffers_update_nonindexed E false alloc_ok buffers bm
        (bm_faces.filter (face_has_material mat_nr))
        tribuf update_flags cd_vert_node_offset seed dflt active_vcol_only mat_nr).vert_buf =
      (GPU_pbvh_bmesh_buffers_update_nonindexed E false alloc_ok buffers bm bm_faces
        tribuf update_flags cd_vert_node_offset seed dflt active_vcol_only mat_nr).vert_buf ∧
     (GPU_pbvh_bmesh_buffers_update_nonindexed E false alloc_ok buffers bm
        (bm_faces.filter (face_has_material mat_nr))
        tribuf update_flags cd_vert_node_offset seed dflt active_vcol_only
        mat_nr).index_lines_buf =
      (GPU_pbvh_bmesh_buffers_update_nonindexed E false alloc_ok buffers bm bm_faces
        tribuf update_flags cd_vert_node_offset seed dflt active_vcol_only
        mat_nr).index_lines_buf) ∧
    ((GPU_pbvh_bmesh_buffers_update_indexed E true buffers bm bm_faces uv ov tribuf
        update_flags cd_vert_node_offset seed dflt flat_vcol active_vcol_only
        mat_nr).index_buf.map (fun ib => ib.index) =
      (if tribuf.tottri = 0 then buffers.index_buf.map (fun ib => ib.index)
       else some ((List.range tribuf.tottri).flatMap (tribuf_tri_indices tribuf))) ∧
     (GPU_pbvh_bmesh_buffers_update_indexed E true buffers bm bm_faces uv ov tribuf
        update_flags cd_vert_node_offset seed dflt flat_vcol active_vcol_only
        mat_nr).index_lines_buf.map (fun ib => ib.index) =
      (if tribuf.tottri = 0 then buffers.index_lines_buf.map (fun ib => ib.index)
       else some ((List.range tribuf.tottri).flatMap (tribuf_tri_lines tribuf)))) :=
  ⟨flat_vcol_filter_faces E alloc_ok buffers bm bm_faces uv ov update_flags cd_vert_node_offset
      seed dflt active_vcol_only mat_nr (face_has_material mat_nr) (fun _ h => Or.inl h),
   bmesh_nonindexed_filter_faces E alloc_ok buffers bm bm_faces tribuf update_flags
      cd_vert_node_offset seed dflt active_vcol_only mat_nr (face_has_material mat_nr)
      (fun _ h => Or.inl h),
   bmesh_indexed_index_buffers E buffers bm bm_faces uv ov tribuf update_flags
      cd_vert_node_offset seed dflt flat_vcol active_vcol_only mat_nr⟩

/-- C9 fails as stated for the indexed strategy: on a smooth buffer of material 0, for a mesh
without UV layer and a flattened triangle buffer whose only triangle belongs to a face of
material 1, the update emits that triangle, its three edges and three vertices. -/
theorem bmesh_material_filter_counterexample :
    (tribuf_mat1.tris.getD 0 default).f.mat_nr ≠ 0 ∧
    (GPU_pbvh_bmesh_buffers_update deps_plain false true (GPU_pbvh_bmesh_buffers_build true)
      plain_bmesh [face_mat1] [] [] tribuf_mat1 0 0 0 1 false false 0).index_buf.map
        (fun ib => ib.index) = some [0, 1, 2] ∧
    (GPU_pbvh_bmesh_buffers_update deps_plain false true (GPU_pbvh_bmesh_buffers_build true)
      plain_bmesh [face_mat1] [] [] tribuf_mat1 0 0 0 1 false false 0).index_lines_buf.map
        (fun ib => ib.index) = some [0, 1, 1, 2, 2, 0] ∧
    (GPU_pbvh_bmesh_buffers_update deps_plain false true (GPU_pbvh_bmesh_buffers_build true)
      plain_bmesh [face_mat1] [] [] tribuf_mat1 0 0 0 1 false false 0).vert_buf.map
        (fun vb => (vb.vertex_len, (pos_writes (vb.data.getD [])).length)) = some (3, 3) := by
  decide

/-- C4 (as the code has it).  Mesh builder: hidden triangles contribute no vertex and no
wireframe index; triangle count, vertex count and wireframe index buffer equal those obtained
from the face-index subset with the hidden triangles removed.  Grid builder: the
full-resolution triangle buffer holds two triangles per non-hidden subface and nothing for a
hidden one, while the vertex buffer always has `totgrid * vert_per_grid` vertices, hidden
subfaces included.  Dynamic topology: the flat-vertex-colour strategy and the face-table loop of
the non-indexed strategy give the same vertex buffer and wireframe buffer as for the face table
with the hidden faces removed, and the triangle loop of the `DYNTOPO_DYNAMIC_TESS` variant skips
the triangles of hidden faces; the indexed strategy applies no hidden test and emits every
triangle of the flattened triangle buffer. -/
theorem hidden_primitives_contribution (E : Deps) (alloc_ok : Bool)
    (mpoly : List MPoly) (mloop : List MLoop) (looptri : List MLoopTri) (mvert : List MVert)
    (face_indices : List Nat) (sfs : Option (List Int)) (len : Nat) (mesh : Mesh)
    (vmask : Option (List float)) (vcol : Option (List MLoopCol)) (seed dflt : Int)
    (vtcol : Option (List MPropCol)) (update_flags : Nat)
    (buffers : GPU_PBVH_Buffers) (subdiv_ccg : Option SubdivCCG) (grids : List (List CCGElem))
    (grid_flag_mats : List DMFlagMat) (grid_indices : List Nat) (totgrid visible_quad_len : Nat)
    (key : CCGKey)
    (bm : BMesh) (bm_faces : TableGSet BMFace) (uv ov : TableGSet BMVert) (tribuf : PBVHTriBuf)
    (cd_vert_node_offset : Int) (flat_vcol active_vcol_only : Bool) (mat_nr : Int) :
    -- mesh
    ((GPU_pbvh_mesh_buffers_build E mpoly mloop looptri mvert
        (mesh_visible_indices E mloop looptri mvert face_indices sfs len) sfs
        (mesh_visible_indices E mloop looptri mvert face_indices sfs len).length mesh).tot_tri =
      (GPU_pbvh_mesh_buffers_build E mpoly mloop looptri mvert face_indices sfs len
        mesh).tot_tri ∧
     (GPU_pbvh_mesh_buffers_build E mpoly mloop looptri mvert
        (mesh_visible_indices E mloop looptri mvert face_indices sfs len) sfs
        (mesh_visible_indices E mloop looptri mvert face_indices sfs len).length
        mesh).index_lines_buf =
      (GPU_pbvh_mesh_buffers_build E mpoly mloop looptri mvert face_indices sfs len
        mesh).index_lines_buf ∧
     (GPU_pbvh_mesh_buffers_update E alloc_ok
        (GPU_pbvh_mesh_buffers_build E mpoly mloop looptri mvert
          (mesh_visible_indices E mloop looptri mvert face_indices sfs len) sfs
          (mesh_visible_indices E mloop looptri mvert face_indices sfs len).length mesh)
        mvert vmask vcol sfs seed dflt vtcol update_flags).vert_buf.map
          (fun vb => vb.vertex_len) =
      (GPU_pbvh_mesh_buffers_update E alloc_ok
        (GPU_pbvh_mesh_buffers_build E mpoly mloop looptri mvert face_indices sfs len mesh)
        mvert vmask vcol sfs seed dflt vtcol update_flags).vert_buf.map
          (fun vb => vb.vertex_len)) ∧
    -- grid
    ((gpu_pbvh_grid_fill_index_buffers E buffers grid_indices visible_quad_len totgrid
        key.grid_size).index_buf =
      some ⟨buffers.next_handle, GPU_PRIM_TRIS,
        node_tris E buffers.smooth (buffers.grid_hidden.getD []) grid_indices key.grid_size
          (List.range totgrid)⟩ ∧
     (node_tris E buffers.smooth (buffers.grid_hidden.getD []) grid_indices key.grid_size
        (List.range totgrid)).length =
      3 * (2 * node_visible_count E (buffers.grid_hidden.getD []) grid_indices key.grid_size
        (List.range totgrid)) ∧
     (GPU_pbvh_grid_buffers_update E true buffers subdiv_ccg grids grid_flag_mats grid_indices
        totgrid sfs seed dflt key update_flags).vert_buf.map (fun vb => vb.vertex_len) =
      if (buffers.index_buf.isNone &&
          BKE_pbvh_count_grid_quads E (buffers.grid_hidden.getD []) grid_indices totgrid
            key.grid_size == 0) = true then
        buffers.vert_buf.map (fun vb => vb.vertex_len)
      else some (totgrid * grid_vert_per_grid (grid_smooth_flag grid_flag_mats grid_indices)
        key)) ∧
    -- dynamic topology
    ((GPU_pbvh_bmesh_buffers_update_flat_vcol E alloc_ok buffers bm
        (bm_faces.filter face_not_hidden) uv ov
        update_flags cd_vert_node_offset seed dflt active_vcol_only mat_nr).vert_buf =
      (GPU_pbvh_bmesh_buffers_update_flat_vcol E alloc_ok buffers bm bm_faces uv ov
        update_flags cd_vert_node_offset seed dflt active_vcol_only mat_nr).vert_buf ∧
     (GPU_pbvh_bmesh_buffers_update_flat_vcol E alloc_ok buffers bm
        (bm_faces.filter face_not_hidden) uv ov
        update_flags cd_vert_node_offset seed dflt active_vcol_only mat_nr).index_lines_buf =
      (GPU_pbvh_bmesh_buffers_update_flat_vcol E alloc_ok buffers bm bm_faces uv ov
        update_flags cd_vert_node_offset seed dflt active_vcol_only mat_nr).index_lines_buf) ∧
    ((GPU_pbvh_bmesh_buffers_update_nonindexed E false alloc_ok buffers bm
        (bm_faces.filter face_not_hidden)
        tribuf update_flags cd_vert_node_offset seed dflt active_vcol_only mat_nr).vert_buf =
      (GPU_pbvh_bmesh_buffers_update_nonindexed E false alloc_ok buffers bm bm_faces
        tribuf update_flags cd_vert_node_offset seed dflt active_vcol_only mat_nr).vert_buf ∧
     (GPU_pbvh_bmesh_buffers_update_nonindexed E false alloc_ok buffers bm
        (bm_faces.filter face_not_hidden)
        tribuf update_flags cd_vert_node_offset seed dflt active_vcol_only
        mat_nr).index_lines_buf =
      (GPU_pbvh_bmesh_buffers_update_nonindexed E false alloc_ok buffers bm bm_faces
        tribuf update_flags cd_vert_node_offset seed dflt active_vcol_only
        mat_nr).index_lines_buf) ∧
    (∀ smooth have_uv show_mask show_face_sets o1 o2 o3 o4 o5 cd_vcols cd_vcol_count s,
      (List.range tribuf.tottri).foldl
        (bmesh_tess_tri E smooth have_uv show_mask show_face_sets o1 o2 o3 o4 o5 seed dflt
          cd_vcols cd_vcol_count tribuf) s =
      ((List.range tribuf.tottri).filter
          (fun i => face_not_hidden (tribuf.tris.getD i default).f)).foldl
        (bmesh_tess_tri E smooth have_uv show_mask show_face_sets o1 o2 o3 o4 o5 seed dflt
          cd_vcols cd_vcol_count tribuf) s) ∧
    ((GPU_pbvh_bmesh_buffers_update_indexed E true buffers bm bm_faces uv ov tribuf
        update_flags cd_vert_node_offset seed dflt flat_vcol active_vcol_only
        mat_nr).index_buf.map (fun ib => ib.index) =
      (if tribuf.tottri = 0 then buffers.index_buf.map (fun ib => ib.index)
       else some ((List.range tribuf.tottri).flatMap (tribuf_tri_indices tribuf)))) := by
  obtain ⟨hv, ht, hl⟩ := mesh_build_vert_buf E mpoly mloop looptri mvert face_indices sfs len
    mesh
  obtain ⟨hv2, ht2, hl2⟩ := mesh_build_vert_buf E mpoly mloop looptri mvert
    (mesh_visible_indices E mloop looptri mvert face_indices sfs len) sfs
    (mesh_visible_indices E mloop looptri mvert face_indices sfs len).length mesh
  rw [mesh_visible_tris_of_visible_indices] at ht2 hl2
  refine ⟨⟨by rw [ht, ht2], by rw [hl, hl2], ?_⟩, ⟨?_, ?_, ?_⟩, ?_, ?_, ?_, ?_⟩
  · rw [mesh_update_vertex_len E alloc_ok _ mvert vmask vcol sfs seed dflt vtcol update_flags hv,
      mesh_update_vertex_len E alloc_ok _ mvert vmask vcol sfs seed dflt vtcol update_flags hv2,
      ht, ht2]
  · rw [grid_fill_index_buffers_eq]
  · rw [node_tris_length]; omega
  · exact grid_update_vertex_len E buffers subdiv_ccg grids grid_flag_mats grid_indices totgrid
      sfs seed dflt key update_flags
  · exact flat_vcol_filter_faces E alloc_ok buffers bm bm_faces uv ov update_flags
      cd_vert_node_offset seed dflt active_vcol_only mat_nr face_not_hidden
      (fun _ h => Or.inr h)
  · exact bmesh_nonindexed_filter_faces E alloc_ok buffers bm bm_faces tribuf update_flags
      cd_vert_node_offset seed dflt active_vcol_only mat_nr face_not_hidden
      (fun _ h => Or.inr h)
  · intro smooth have_uv show_mask show_face_sets o1 o2 o3 o4 o5 cd_vcols cd_vcol_count s
    exact foldl_filter_noop _ (fun i => face_not_hidden (tribuf.tris.getD i default).f)
      (fun s i h => bmesh_tess_tri_noop E smooth have_uv show_mask show_face_sets o1 o2 o3 o4 o5
        seed dflt cd_vcols cd_vcol_count tribuf s i h) _ s
  · exact (bmesh_indexed_index_buffers E buffers bm bm_faces uv ov tribuf update_flags
      cd_vert_node_offset seed dflt flat_vcol active_vcol_only mat_nr).1

/-- C4 fails as stated for the grid builder: a node of two grids of size 2 whose first grid is
entirely hidden gets 8 vertices, while the same node with the hidden grid removed gets 4. -/
theorem hidden_primitives_contribution_counterexample :
    grid_has_visible deps_plain (two_grids_hidden.getD 0 none) 2 [0] [0] = false ∧
    (GPU_pbvh_grid_buffers_update deps_plain true (GPU_pbvh_grid_buffers_build 2 two_grids_hidden)
      none two_grids two_grids_flag_mats [0, 1] 2 none 0 1 one_grid_key 0).vert_buf.map
        (fun vb => (vb.vertex_len, (pos_writes (vb.data.getD [])).length)) = some (8, 8) ∧
    (GPU_pbvh_grid_buffers_update deps_plain true (GPU_pbvh_grid_buffers_build 1 two_grids_hidden)
      none two_grids two_grids_flag_mats [1] 1 none 0 1 one_grid_key 0).vert_buf.map
        (fun vb => (vb.vertex_len, (pos_writes (vb.data.getD [])).length)) = some (4, 4) := by
  decide

/-! ### Lifecycle and failure handling -/

/-- Creating batches changes only the four batch fields and the handle counter. -/
theorem gpu_pbvh_batch_init_frame (buffers : GPU_PBVH_Buffers) (prim : GPUPrimType) :
    gpu_pbvh_batch_init buffers prim =
      { buffers with
        triangles := (gpu_pbvh_batch_init buffers prim).triangles
        triangles_fast := (gpu_pbvh_batch_init buffers prim).triangles_fast
        lines := (gpu_pbvh_batch_init buffers prim).lines
        lines_fast := (gpu_pbvh_batch_init buffers prim).lines_fast
        next_handle := (gpu_pbvh_batch_init buffers prim).next_handle } := by
  simp only [gpu_pbvh_batch_init, GPU_batch_create]
  split_ifs <;> rfl

/-- The full-resolution triangle batch after `gpu_pbvh_batch_init`: an absent one is created
from the vertex buffer and `index_buf` as they are, an existing one is kept. -/
theorem gpu_pbvh_batch_init_triangles (buffers : GPU_PBVH_Buffers) (prim : GPUPrimType) :
    (gpu_pbvh_batch_init buffers prim).triangles =
      (if buffers.triangles.isNone then
        some ⟨buffers.next_handle, prim, buffers.vert_buf.map (fun vb => vb.handle),
          buffers.index_buf.map (fun ib => ib.handle)⟩
       else buffers.triangles) := by
  simp only [gpu_pbvh_batch_init, GPU_batch_create]
  split_ifs <;> rfl

/-- A batch that exists is kept by `gpu_pbvh_batch_init`. -/
theorem gpu_pbvh_batch_init_keeps (buffers : GPU_PBVH_Buffers) (prim : GPUPrimType) :
    (buffers.triangles.isSome →
      (gpu_pbvh_batch_init buffers prim).triangles = buffers.triangles) ∧
    (buffers.triangles_fast.isSome →
      (gpu_pbvh_batch_init buffers prim).triangles_fast = buffers.triangles_fast) ∧
    (buffers.lines.isSome → (gpu_pbvh_batch_init buffers prim).lines = buffers.lines) ∧
    (buffers.lines_fast.isSome →
      (gpu_pbvh_batch_init buffers prim).lines_fast = buffers.lines_fast) := by
  simp only [gpu_pbvh_batch_init, GPU_batch_create]
  refine ⟨fun h => ?_, fun h => ?_, fun h => ?_, fun h => ?_⟩ <;>
    split_ifs <;> (try dsimp only at *) <;> simp_all

/-- The fast triangle batch after `gpu_pbvh_batch_init`: an absent one is created exactly when
the coarse triangle index buffer exists. -/
theorem gpu_pbvh_batch_init_triangles_fast (buffers : GPU_PBVH_Buffers) (prim : GPUPrimType) :
    (gpu_pbvh_batch_init buffers prim).triangles_fast.isSome =
      (buffers.triangles_fast.isSome || buffers.index_buf_fast.isSome) := by
  simp only [gpu_pbvh_batch_init, GPU_batch_create]
  split_ifs <;> (try dsimp only at *) <;>
    cases h2 : buffers.triangles_fast <;> cases h3 : buffers.index_buf_fast <;> simp_all

/-- The fast line batch after `gpu_pbvh_batch_init`: an absent one is created exactly when the
coarse line index buffer exists. -/
theorem gpu_pbvh_batch_init_lines_fast (buffers : GPU_PBVH_Buffers) (prim : GPUPrimType) :
    (gpu_pbvh_batch_init buffers prim).lines_fast.isSome =
      (buffers.lines_fast.isSome || buffers.index_lines_buf_fast.isSome) := by
  simp only [gpu_pbvh_batch_init, GPU_batch_create]
  split_ifs <;> (try dsimp only at *) <;>
    cases h2 : buffers.lines_fast <;> cases h3 : buffers.index_lines_buf_fast <;> simp_all

/-- After `gpu_pbvh_batch_init` the full-resolution line batch exists. -/
theorem gpu_pbvh_batch_init_lines (buffers : GPU_PBVH_Buffers) (prim : GPUPrimType) :
    (gpu_pbvh_batch_init buffers prim).lines.isSome = true := by
  simp only [gpu_pbvh_batch_init, GPU_batch_create]
  split_ifs <;> (try dsimp only at *) <;> cases h2 : buffers.lines <;> simp_all

/-- C13: when no triangle of the node's face-index subset is visible,
`GPU_pbvh_mesh_buffers_build` returns an object with `tot_tri = 0` that holds the polygon, loop,
loop-triangle and face-index pointers passed in, and that has no vertex buffer, no index buffer
and no batch; no GPU object was created. -/
theorem mesh_build_no_visible_triangle (E : Deps) (mpoly : List MPoly) (mloop : List MLoop)
    (looptri : List MLoopTri) (mvert : List MVert) (face_indices : List Nat)
    (sfs : Option (List Int)) (len : Nat) (mesh : Mesh)
    (h : mesh_visible_tris E mloop looptri mvert face_indices sfs len = []) :
    (GPU_pbvh_mesh_buffers_build E mpoly mloop looptri mvert face_indices sfs len mesh).tot_tri
      = 0 ∧
    (GPU_pbvh_mesh_buffers_build E mpoly mloop looptri mvert face_indices sfs len mesh).mpoly
      = some mpoly ∧
    (GPU_pbvh_mesh_buffers_build E mpoly mloop looptri mvert face_indices sfs len mesh).mloop
      = some mloop ∧
    (GPU_pbvh_mesh_buffers_build E mpoly mloop looptri mvert face_indices sfs len mesh).looptri
      = some looptri ∧
    (GPU_pbvh_mesh_buffers_build E mpoly mloop looptri mvert face_indices sfs len
      mesh).face_indices = some face_indices ∧
    (GPU_pbvh_mesh_buffers_build E mpoly mloop looptri mvert face_indices sfs len mesh).vert_buf
      = none ∧
    (GPU_pbvh_mesh_buffers_build E mpoly mloop looptri mvert face_indices sfs len mesh).index_buf
      = none ∧
    (GPU_pbvh_mesh_buffers_build E mpoly mloop looptri mvert face_indices sfs len
      mesh).index_buf_fast = none ∧
    (GPU_pbvh_mesh_buffers_build E mpoly mloop looptri mvert face_indices sfs len
      mesh).index_lines_buf = none ∧
    (GPU_pbvh_mesh_buffers_build E mpoly mloop looptri mvert face_indices sfs len
      mesh).index_lines_buf_fast = none ∧
    (GPU_pbvh_mesh_buffers_build E mpoly mloop looptri mvert face_indices sfs len mesh).triangles
      = none ∧
    (GPU_pbvh_mesh_buffers_build E mpoly mloop looptri mvert face_indices sfs len
      mesh).triangles_fast = none ∧
    (GPU_pbvh_mesh_buffers_build E mpoly mloop looptri mvert face_indices sfs len mesh).lines
      = none ∧
    (GPU_pbvh_mesh_buffers_build E mpoly mloop looptri mvert face_indices sfs len mesh).lines_fast
      = none ∧
    (GPU_pbvh_mesh_buffers_build E mpoly mloop looptri mvert face_indices sfs len
      mesh).next_handle = 0 := by
  rw [mesh_build_eq_of_hidden E mpoly mloop looptri mvert face_indices sfs len mesh
    (by rw [h]; rfl)]
  exact ⟨rfl, rfl, rfl, rfl, rfl, rfl, rfl, rfl, rfl, rfl, rfl, rfl, rfl, rfl, rfl⟩

/-- Instance of C13: the one-triangle mesh whose polygon has face-set id -1 (hidden). -/
theorem mesh_build_no_visible_triangle_witness :
    mesh_visible_tris deps_plain tri_mloop tri_looptri tri_mvert [0] (some [-1]) 1 = [] ∧
    (GPU_pbvh_mesh_buffers_build deps_plain tri_mpoly tri_mloop tri_looptri tri_mvert [0]
      (some [-1]) 1 tri_mesh).looptri = some tri_looptri ∧
    (GPU_pbvh_mesh_buffers_build deps_plain tri_mpoly tri_mloop tri_looptri tri_mvert [0]
      (some [-1]) 1 tri_mesh).index_lines_buf = none :=
  ⟨by decide,
   (mesh_build_no_visible_triangle deps_plain tri_mpoly tri_mloop tri_looptri tri_mvert [0]
     (some [-1]) 1 tri_mesh (by decide)).2.2.2.1,
   (mesh_build_no_visible_triangle deps_plain tri_mpoly tri_mloop tri_looptri tri_mvert [0]
     (some [-1]) 1 tri_mesh (by decide)).2.2.2.2.2.2.2.2.1⟩

/-- C15: `GPU_pbvh_grid_buffers_update_free` compares the stored smooth flag with the one derived
from the node's first grid.  When they differ, the stored flag becomes the new value and the four
batches and the four index buffers are absent afterwards; when they are equal, the object is
unchanged. -/
theorem grid_update_free_effect (buffers : GPU_PBVH_Buffers) (grid_flag_mats : List DMFlagMat)
    (grid_indices : List Nat) :
    (buffers.smooth ≠ grid_smooth_flag grid_flag_mats grid_indices →
      (GPU_pbvh_grid_buffers_update_free buffers grid_flag_mats grid_indices).smooth =
        grid_smooth_flag grid_flag_mats grid_indices ∧
      (GPU_pbvh_grid_buffers_update_free buffers grid_flag_mats grid_indices).triangles = none ∧
      (GPU_pbvh_grid_buffers_update_free buffers grid_flag_mats grid_indices).triangles_fast
        = none ∧
      (GPU_pbvh_grid_buffers_update_free buffers grid_flag_mats grid_indices).lines = none ∧
      (GPU_pbvh_grid_buffers_update_free buffers grid_flag_mats grid_indices).lines_fast = none ∧
      (GPU_pbvh_grid_buffers_update_free buffers grid_flag_mats grid_indices).index_buf = none ∧
      (GPU_pbvh_grid_buffers_update_free buffers grid_flag_mats grid_indices).index_buf_fast
        = none ∧
      (GPU_pbvh_grid_buffers_update_free buffers grid_flag_mats grid_indices).index_lines_buf
        = none ∧
      (GPU_pbvh_grid_buffers_update_free buffers grid_flag_mats grid_indices).index_lines_buf_fast
        = none) ∧
    (buffers.smooth = grid_smooth_flag grid_flag_mats grid_indices →
      GPU_pbvh_grid_buffers_update_free buffers grid_flag_mats grid_indices = buffers) := by
  constructor
  · intro h
    unfold grid_smooth_flag at h ⊢
    unfold GPU_pbvh_grid_buffers_update_free
    dsimp only
    rw [if_pos (bne_iff_ne.mpr h)]
    exact ⟨rfl, rfl, rfl, rfl, rfl, rfl, rfl, rfl, rfl⟩
  · intro h
    unfold grid_smooth_flag at h
    unfold GPU_pbvh_grid_buffers_update_free
    dsimp only
    rw [if_neg (by rw [h]; simp)]

/-- Instance of C15: a flat node with index buffers whose first grid turns smooth loses them; the
same node with a flat first grid is returned as it is. -/
theorem grid_update_free_effect_witness :
    one_grid_indexed.smooth ≠ grid_smooth_flag [⟨0, 1⟩] [0] ∧
    one_grid_indexed.index_buf.isSome = true ∧
    (GPU_pbvh_grid_buffers_update_free one_grid_indexed [⟨0, 1⟩] [0]).index_buf = none ∧
    one_grid_indexed.smooth = grid_smooth_flag [⟨0, 0⟩] [0] ∧
    GPU_pbvh_grid_buffers_update_free one_grid_indexed [⟨0, 0⟩] [0] = one_grid_indexed :=
  ⟨by decide, by decide,
   ((grid_update_free_effect one_grid_indexed [⟨0, 1⟩] [0]).1 (by decide)).2.2.2.2.2.1,
   by decide,
   (grid_update_free_effect one_grid_indexed [⟨0, 0⟩] [0]).2 (by decide)⟩

/-- C18: `GPU_pbvh_buffers_update_flush` with `clear_bmesh_on_flush` set on entry leaves the four
batches, the four index buffers and the vertex buffer absent and the flag false; with the flag
not set on entry it returns the object as it is, so nothing is discarded and the flag stays
false. -/
theorem update_flush_effect (buffers : GPU_PBVH_Buffers) :
    (buffers.clear_bmesh_on_flush = true →
      (GPU_pbvh_buffers_update_flush buffers).lines = none ∧
      (GPU_pbvh_buffers_update_flush buffers).lines_fast = none ∧
      (GPU_pbvh_buffers_update_flush buffers).triangles = none ∧
      (GPU_pbvh_buffers_update_flush buffers).triangles_fast = none ∧
      (GPU_pbvh_buffers_update_flush buffers).index_lines_buf_fast = none ∧
      (GPU_pbvh_buffers_update_flush buffers).index_lines_buf = none ∧
      (GPU_pbvh_buffers_update_flush buffers).index_buf_fast = none ∧
      (GPU_pbvh_buffers_update_flush buffers).index_buf = none ∧
      (GPU_pbvh_buffers_update_flush buffers).vert_buf = none ∧
      (GPU_pbvh_buffers_update_flush buffers).clear_bmesh_on_flush = false) ∧
    (buffers.clear_bmesh_on_flush = false →
      GPU_pbvh_buffers_update_flush buffers = buffers ∧
      (GPU_pbvh_buffers_update_flush buffers).clear_bmesh_on_flush = false) := by
  constructor
  · intro h
    unfold GPU_pbvh_buffers_update_flush
    rw [if_pos h]
    exact ⟨rfl, rfl, rfl, rfl, rfl, rfl, rfl, rfl, rfl, rfl⟩
  · intro h
    unfold GPU_pbvh_buffers_update_flush
    rw [if_neg (by rw [h]; simp)]
    exact ⟨rfl, h⟩

/-- Instance of C18: a grid node with index buffers, once with the flag set and once without. -/
theorem update_flush_effect_witness :
    ({ one_grid_indexed with clear_bmesh_on_flush := true }).index_buf.isSome = true ∧
    (GPU_pbvh_buffers_update_flush
      { one_grid_indexed with clear_bmesh_on_flush := true }).index_buf = none ∧
    one_grid_indexed.clear_bmesh_on_flush = false ∧
    GPU_pbvh_buffers_update_flush one_grid_indexed = one_grid_indexed :=
  ⟨by decide,
   ((update_flush_effect { one_grid_indexed with clear_bmesh_on_flush := true }).1
     rfl).2.2.2.2.2.2.2.1,
   by decide,
   ((update_flush_effect one_grid_indexed).2 (by decide)).1⟩

/-- C19: `GPU_pbvh_buffers_batch_get` is the selection the specification words; with `wires` set
the result is the `lines_fast` or the `lines` field, without it the `triangles_fast` or the
`triangles` field; and when `fast` is not requested the result is the full-resolution batch of
the requested kind. -/
theorem batch_get_selection (buffers : GPU_PBVH_Buffers) (fast wires : Bool) :
    GPU_pbvh_buffers_batch_get buffers fast wires = batch_get_spec buffers fast wires ∧
    (GPU_pbvh_buffers_batch_get buffers fast true = buffers.lines_fast ∨
      GPU_pbvh_buffers_batch_get buffers fast true = buffers.lines) ∧
    (GPU_pbvh_buffers_batch_get buffers fast false = buffers.triangles_fast ∨
      GPU_pbvh_buffers_batch_get buffers fast false = buffers.triangles) ∧
    GPU_pbvh_buffers_batch_get buffers false true = buffers.lines ∧
    GPU_pbvh_buffers_batch_get buffers false false = buffers.triangles ∧
    GPU_pbvh_buffers_batch_get buffers true true =
      (if buffers.lines_fast.isSome then buffers.lines_fast else buffers.lines) ∧
    GPU_pbvh_buffers_batch_get buffers true false =
      (if buffers.triangles_fast.isSome then buffers.triangles_fast else buffers.triangles) := by
  refine ⟨?_, ?_, ?_, ?_, ?_, ?_, ?_⟩
  · cases fast <;> cases wires <;> simp [GPU_pbvh_buffers_batch_get, batch_get_spec]
  · simp only [GPU_pbvh_buffers_batch_get, if_true]
    split_ifs
    · exact Or.inl rfl
    · exact Or.inr rfl
  · simp only [GPU_pbvh_buffers_batch_get, Bool.false_eq_true, if_false]
    split_ifs
    · exact Or.inl rfl
    · exact Or.inr rfl
  · simp [GPU_pbvh_buffers_batch_get]
  · simp [GPU_pbvh_buffers_batch_get]
  · simp [GPU_pbvh_buffers_batch_get]
  · simp [GPU_pbvh_buffers_batch_get]

/-- C20 as amended: after `gpu_pbvh_batch_init` the triangle batch and the line batch exist,
whatever index buffers and vertex buffer the object holds; an absent triangle batch is created
referring to the vertex buffer and to `index_buf`, each possibly absent.  A fast batch that
exists afterwards either existed before or has its coarse index buffer present.  Index buffers
and vertex buffer are left as they were. -/
theorem batch_init_created_batches (buffers : GPU_PBVH_Buffers) (prim : GPUPrimType) :
    (gpu_pbvh_batch_init buffers prim).triangles.isSome = true ∧
    (gpu_pbvh_batch_init buffers prim).lines.isSome = true ∧
    (buffers.triangles = none →
      (gpu_pbvh_batch_init buffers prim).triangles =
        some ⟨buffers.next_handle, prim, buffers.vert_buf.map (fun vb => vb.handle),
          buffers.index_buf.map (fun ib => ib.handle)⟩) ∧
    ((gpu_pbvh_batch_init buffers prim).triangles_fast.isSome = true →
      buffers.triangles_fast.isSome = true ∨
      (gpu_pbvh_batch_init buffers prim).index_buf_fast.isSome = true) ∧
    ((gpu_pbvh_batch_init buffers prim).lines_fast.isSome = true →
      buffers.lines_fast.isSome = true ∨
      (gpu_pbvh_batch_init buffers prim).index_lines_buf_fast.isSome = true) ∧
    (gpu_pbvh_batch_init buffers prim).index_buf = buffers.index_buf ∧
    (gpu_pbvh_batch_init buffers prim).index_buf_fast = buffers.index_buf_fast ∧
    (gpu_pbvh_batch_init buffers prim).index_lines_buf = buffers.index_lines_buf ∧
    (gpu_pbvh_batch_init buffers prim).index_lines_buf_fast = buffers.index_lines_buf_fast ∧
    (gpu_pbvh_batch_init buffers prim).vert_buf = buffers.vert_buf := by
  have hf := gpu_pbvh_batch_init_frame buffers prim
  have h0 : (gpu_pbvh_batch_init buffers prim).index_buf = buffers.index_buf := by
    have := congrArg GPU_PBVH_Buffers.index_buf hf
    exact this
  have h1 : (gpu_pbvh_batch_init buffers prim).index_buf_fast = buffers.index_buf_fast := by
    have := congrArg GPU_PBVH_Buffers.index_buf_fast hf
    exact this
  have h2 : (gpu_pbvh_batch_init buffers prim).index_lines_buf_fast =
      buffers.index_lines_buf_fast := by
    have := congrArg GPU_PBVH_Buffers.index_lines_buf_fast hf
    exact this
  have h3 : (gpu_pbvh_batch_init buffers prim).index_lines_buf = buffers.index_lines_buf := by
    have := congrArg GPU_PBVH_Buffers.index_lines_buf hf
    exact this
  refine ⟨?_, gpu_pbvh_batch_init_lines buffers prim, ?_, ?_, ?_, h0, h1, h3, h2,
    gpu_pbvh_batch_init_vert_buf buffers prim⟩
  · rw [gpu_pbvh_batch_init_triangles]
    cases h : buffers.triangles <;> simp
  · intro h
    rw [gpu_pbvh_batch_init_triangles, h]
    rfl
  · intro h
    rw [gpu_pbvh_batch_init_triangles_fast] at h
    rw [h1]
    simpa using h
  · intro h
    rw [gpu_pbvh_batch_init_lines_fast] at h
    rw [h2]
    simpa using h

/-- Instance of C20 as amended: a grid node with its four index buffers and no batch gets all
four batches, the fast triangle batch because `index_buf_fast` exists. -/
theorem batch_init_created_batches_witness :
    one_grid_indexed.triangles = none ∧
    (gpu_pbvh_batch_init one_grid_indexed GPU_PRIM_TRIS).triangles_fast.isSome = true ∧
    one_grid_indexed.triangles_fast.isSome = false ∧
    (gpu_pbvh_batch_init one_grid_indexed GPU_PRIM_TRIS).index_buf_fast.isSome = true ∧
    (gpu_pbvh_batch_init one_grid_indexed GPU_PRIM_TRIS).triangles =
      some ⟨4, GPU_PRIM_TRIS, none, some 0⟩ :=
  ⟨by decide, by decide, by decide,
   ((batch_init_created_batches one_grid_indexed GPU_PRIM_TRIS).2.2.2.1 (by decide)).resolve_left
     (by decide),
   (batch_init_created_batches one_grid_indexed GPU_PRIM_TRIS).2.2.1 (by decide)⟩

/-- C20 fails as stated: in the state in which `GPU_pbvh_mesh_buffers_update` calls
`gpu_pbvh_batch_init` for the one-triangle mesh (built, vertex storage allocated, no triangle
index buffer since mesh nodes draw unindexed), the call creates the triangle batch although
`index_buf` is absent. -/
theorem batch_init_created_batches_counterexample :
    tri_buffers_before_batch_init.triangles = none ∧
    tri_buffers_before_batch_init.index_buf = none ∧
    (gpu_pbvh_batch_init tri_buffers_before_batch_init GPU_PRIM_TRIS).triangles.isSome = true ∧
    (gpu_pbvh_batch_init tri_buffers_before_batch_init GPU_PRIM_TRIS).index_buf = none ∧
    ¬ ((gpu_pbvh_batch_init tri_buffers_before_batch_init GPU_PRIM_TRIS).triangles.isSome = true →
        (gpu_pbvh_batch_init tri_buffers_before_batch_init GPU_PRIM_TRIS).index_buf.isSome = true ∧
        (gpu_pbvh_batch_init tri_buffers_before_batch_init GPU_PRIM_TRIS).vert_buf.isSome = true) := by
  decide

/-- The early return of `GPU_pbvh_grid_buffers_update`: without an index buffer and without a
visible subface only the smooth flag is stored. -/
theorem grid_update_early (E : Deps) (alloc_ok : Bool) (buffers : GPU_PBVH_Buffers)
    (subdiv_ccg : Option SubdivCCG) (grids : List (List CCGElem))
    (grid_flag_mats : List DMFlagMat) (grid_indices : List Nat) (totgrid : Nat)
    (sfs : Option (List Int)) (seed dflt : Int) (key : CCGKey) (update_flags : Nat)
    (hib : buffers.index_buf = none)
    (hvis : BKE_pbvh_count_grid_quads E (buffers.grid_hidden.getD []) grid_indices totgrid
      key.grid_size = 0) :
    GPU_pbvh_grid_buffers_update E alloc_ok buffers subdiv_ccg grids grid_flag_mats grid_indices
      totgrid sfs seed dflt key update_flags =
      { buffers with smooth := grid_smooth_flag grid_flag_mats grid_indices } := by
  unfold GPU_pbvh_grid_buffers_update
  simp only [hib, hvis, Option.isNone_none, beq_self_eq_true, Bool.and_self, if_true,
    grid_smooth_flag]

/-- Whatever does not depend on the vertex buffer and the handle counter is the same after
`gpu_pbvh_vert_buf_data_set`. -/
theorem vert_buf_data_set_keeps {β : Type} (F : GPU_PBVH_Buffers → β)
    (hF : ∀ (b : GPU_PBVH_Buffers) vb nh, F { b with vert_buf := vb, next_handle := nh } = F b)
    (buffers : GPU_PBVH_Buffers) (n : Nat) (alloc_ok : Bool) :
    F (gpu_pbvh_vert_buf_data_set buffers n alloc_ok).1 = F buffers :=
  (congrArg F (vert_buf_data_set_frame buffers n alloc_ok)).trans (hF buffers _ _)

/-- Whatever does not depend on the four batches and the handle counter is the same after
`gpu_pbvh_batch_init`. -/
theorem gpu_pbvh_batch_init_keeps_field {β : Type} (F : GPU_PBVH_Buffers → β)
    (hF : ∀ (b : GPU_PBVH_Buffers) t tf l lf nh,
      F { b with triangles := t, triangles_fast := tf, lines := l, lines_fast := lf,
                 next_handle := nh } = F b)
    (buffers : GPU_PBVH_Buffers) (prim : GPUPrimType) :
    F (gpu_pbvh_batch_init buffers prim) = F buffers :=
  (congrArg F (gpu_pbvh_batch_init_frame buffers prim)).trans (hF buffers _ _ _ _ _)

/-- Whatever does not depend on the vertex buffer is the same after writing vertex data. -/
theorem vert_buf_write_keeps {β : Type} (F : GPU_PBVH_Buffers → β)
    (hF : ∀ (b : GPU_PBVH_Buffers) vb, F { b with vert_buf := vb } = F b)
    (buffers : GPU_PBVH_Buffers) (ws : List VertWrite) :
    F (vert_buf_write buffers ws) = F buffers :=
  hF buffers _

/-- Past its early return, `GPU_pbvh_grid_buffers_update` changes, of the object that holds the
index buffers, at most the vertex buffer, the batches, the handle counter, the material index,
the grid pointers and key, and the overlay flag. -/
theorem grid_update_late_keeps {β : Type} (F : GPU_PBVH_Buffers → β)
    (hF : ∀ (b : GPU_PBVH_Buffers) vb t tf l lf nh mi g gi tg gfm gk so,
      F { b with vert_buf := vb, triangles := t, triangles_fast := tf, lines := l,
                 lines_fast := lf, next_handle := nh, material_index := mi, grids := g,
                 grid_indices := gi, totgrid := tg, grid_flag_mats := gfm, gridkey := gk,
                 show_overlay := so } = F b)
    (E : Deps) (alloc_ok : Bool) (buffers : GPU_PBVH_Buffers)
    (subdiv_ccg : Option SubdivCCG) (grids : List (List CCGElem))
    (grid_flag_mats : List DMFlagMat) (grid_indices : List Nat) (totgrid : Nat)
    (sfs : Option (List Int)) (seed dflt : Int) (key : CCGKey) (update_flags : Nat)
    (hc : (buffers.index_buf.isNone &&
      BKE_pbvh_count_grid_quads E (buffers.grid_hidden.getD []) grid_indices totgrid
        key.grid_size == 0) = false) :
    F (GPU_pbvh_grid_buffers_update E alloc_ok buffers subdiv_ccg grids grid_flag_mats
      grid_indices totgrid sfs seed dflt key update_flags) =
    F (grid_update_indexed E buffers grid_flag_mats grid_indices totgrid key) := by
  have h1 : ∀ (b : GPU_PBVH_Buffers) vb nh,
      F { b with vert_buf := vb, next_handle := nh } = F b := fun b vb nh =>
    hF b vb b.triangles b.triangles_fast b.lines b.lines_fast nh b.material_index b.grids
      b.grid_indices b.totgrid b.grid_flag_mats b.gridkey b.show_overlay
  have h2 : ∀ (b : GPU_PBVH_Buffers) t tf l lf nh,
      F { b with triangles := t, triangles_fast := tf, lines := l, lines_fast := lf,
                 next_handle := nh } = F b := fun b t tf l lf nh =>
    hF b b.vert_buf t tf l lf nh b.material_index b.grids
      b.grid_indices b.totgrid b.grid_flag_mats b.gridkey b.show_overlay
  have h3 : ∀ (b : GPU_PBVH_Buffers) vb, F { b with vert_buf := vb } = F b := fun b vb =>
    hF b vb b.triangles b.triangles_fast b.lines b.lines_fast b.next_handle b.material_index
      b.grids b.grid_indices b.totgrid b.grid_flag_mats b.gridkey b.show_overlay
  have h4 : ∀ (b : GPU_PBVH_Buffers) mi g gi tg gfm gk so,
      F { b with material_index := mi, grids := g, grid_indices := gi, totgrid := tg,
                 grid_flag_mats := gfm, gridkey := gk, show_overlay := so } = F b :=
    fun b mi g gi tg gfm gk so =>
    hF b b.vert_buf b.triangles b.triangles_fast b.lines b.lines_fast b.next_handle mi g gi tg
      gfm gk so
  unfold GPU_pbvh_grid_buffers_update grid_update_indexed
  simp only [hc, Bool.false_eq_true, if_false]
  rw [h4]
  split_ifs <;>
    first
    | (rw [gpu_pbvh_batch_init_keeps_field F h2, vert_buf_write_keeps F h3,
        vert_buf_data_set_keeps F h1]; rfl)
    | (rw [vert_buf_data_set_keeps F h1]; rfl)
/-- The object that `GPU_pbvh_grid_buffers_update` holds when it asks for vertex storage has a
triangle index buffer. -/
theorem grid_update_indexed_index_buf (E : Deps) (buffers : GPU_PBVH_Buffers)
    (grid_flag_mats : List DMFlagMat) (grid_indices : List Nat) (totgrid : Nat) (key : CCGKey) :
    (grid_update_indexed E buffers grid_flag_mats grid_indices totgrid key).index_buf.isSome
      = true := by
  unfold grid_update_indexed
  split_ifs with h
  · rw [grid_fill_index_buffers_eq]
    rfl
  · cases hb : buffers.index_buf
    · rw [hb] at h; exact absurd rfl h
    · rfl

/-- With a triangle index buffer present, the object that `GPU_pbvh_grid_buffers_update` holds
when it asks for vertex storage is the one passed in, with the smooth flag stored. -/
theorem grid_update_indexed_of_some (E : Deps) (buffers : GPU_PBVH_Buffers)
    (grid_flag_mats : List DMFlagMat) (grid_indices : List Nat) (totgrid : Nat) (key : CCGKey)
    (h : buffers.index_buf.isSome = true) :
    grid_update_indexed E buffers grid_flag_mats grid_indices totgrid key =
      { buffers with smooth := grid_smooth_flag grid_flag_mats grid_indices } := by
  unfold grid_update_indexed
  rw [if_neg]
  cases hb : buffers.index_buf
  · rw [hb] at h; exact absurd h (by decide)
  · simp

/-- The smooth flag stored by `GPU_pbvh_grid_buffers_update` is the one of the first grid. -/
theorem grid_update_smooth (E : Deps) (alloc_ok : Bool) (buffers : GPU_PBVH_Buffers)
    (subdiv_ccg : Option SubdivCCG) (grids : List (List CCGElem))
    (grid_flag_mats : List DMFlagMat) (grid_indices : List Nat) (totgrid : Nat)
    (sfs : Option (List Int)) (seed dflt : Int) (key : CCGKey) (update_flags : Nat) :
    (GPU_pbvh_grid_buffers_update E alloc_ok buffers subdiv_ccg grids grid_flag_mats grid_indices
      totgrid sfs seed dflt key update_flags).smooth =
      grid_smooth_flag grid_flag_mats grid_indices := by
  cases hc : (buffers.index_buf.isNone &&
      BKE_pbvh_count_grid_quads E (buffers.grid_hidden.getD []) grid_indices totgrid
        key.grid_size == 0)
  · rw [grid_update_late_keeps GPU_PBVH_Buffers.smooth
      (fun _ _ _ _ _ _ _ _ _ _ _ _ _ _ => rfl) E alloc_ok buffers subdiv_ccg grids grid_flag_mats
      grid_indices totgrid sfs seed dflt key update_flags hc]
    unfold grid_update_indexed
    split_ifs
    · rw [grid_fill_index_buffers_smooth]
    · rfl
  · simp only [Bool.and_eq_true, Option.isNone_iff_eq_none, beq_iff_eq] at hc
    rw [grid_update_early E alloc_ok buffers subdiv_ccg grids grid_flag_mats grid_indices
      totgrid sfs seed dflt key update_flags hc.1 hc.2]

/-- C14: for a grid node buffer object without triangle index buffer whose grids have no visible
subface, `GPU_pbvh_grid_buffers_update` builds no index buffer, allocates no vertex buffer and
creates no batch: `index_buf` is still absent, the other three index buffers, the vertex buffer
and the four batches are the ones from before the call (absent if they were absent, as after
`GPU_pbvh_grid_buffers_build`), and no GPU object was created. -/
theorem grid_update_nothing_visible (E : Deps) (alloc_ok : Bool) (buffers : GPU_PBVH_Buffers)
    (subdiv_ccg : Option SubdivCCG) (grids : List (List CCGElem))
    (grid_flag_mats : List DMFlagMat) (grid_indices : List Nat) (totgrid : Nat)
    (sfs : Option (List Int)) (seed dflt : Int) (key : CCGKey) (update_flags : Nat)
    (hib : buffers.index_buf = none)
    (hvis : node_visible_count E (buffers.grid_hidden.getD []) grid_indices key.grid_size
      (List.range totgrid) = 0) :
    (GPU_pbvh_grid_buffers_update E alloc_ok buffers subdiv_ccg grids grid_flag_mats grid_indices
      totgrid sfs seed dflt key update_flags).index_buf = none ∧
    (GPU_pbvh_grid_buffers_update E alloc_ok buffers subdiv_ccg grids grid_flag_mats grid_indices
      totgrid sfs seed dflt key update_flags).index_buf_fast = buffers.index_buf_fast ∧
    (GPU_pbvh_grid_buffers_update E alloc_ok buffers subdiv_ccg grids grid_flag_mats grid_indices
      totgrid sfs seed dflt key update_flags).index_lines_buf = buffers.index_lines_buf ∧
    (GPU_pbvh_grid_buffers_update E alloc_ok buffers subdiv_ccg grids grid_flag_mats grid_indices
      totgrid sfs seed dflt key update_flags).index_lines_buf_fast
        = buffers.index_lines_buf_fast ∧
    (GPU_pbvh_grid_buffers_update E alloc_ok buffers subdiv_ccg grids grid_flag_mats grid_indices
      totgrid sfs seed dflt key update_flags).vert_buf = buffers.vert_buf ∧
    (GPU_pbvh_grid_buffers_update E alloc_ok buffers subdiv_ccg grids grid_flag_mats grid_indices
      totgrid sfs seed dflt key update_flags).triangles = buffers.triangles ∧
    (GPU_pbvh_grid_buffers_update E alloc_ok buffers subdiv_ccg grids grid_flag_mats grid_indices
      totgrid sfs seed dflt key update_flags).triangles_fast = buffers.triangles_fast ∧
    (GPU_pbvh_grid_buffers_update E alloc_ok buffers subdiv_ccg grids grid_flag_mats grid_indices
      totgrid sfs seed dflt key update_flags).lines = buffers.lines ∧
    (GPU_pbvh_grid_buffers_update E alloc_ok buffers subdiv_ccg grids grid_flag_mats grid_indices
      totgrid sfs seed dflt key update_flags).lines_fast = buffers.lines_fast ∧
    (GPU_pbvh_grid_buffers_update E alloc_ok buffers subdiv_ccg grids grid_flag_mats grid_indices
      totgrid sfs seed dflt key update_flags).next_handle = buffers.next_handle := by
  rw [← BKE_pbvh_count_grid_quads_eq] at hvis
  rw [grid_update_early E alloc_ok buffers subdiv_ccg grids grid_flag_mats grid_indices
    totgrid sfs seed dflt key update_flags hib hvis]
  exact ⟨hib, rfl, rfl, rfl, rfl, rfl, rfl, rfl, rfl, rfl⟩

/-- Instance of C14: a freshly built node of one grid of size 2 whose hidden bitmap is all-true;
after the update every index buffer, the vertex buffer and every batch is absent. -/
theorem grid_update_nothing_visible_witness :
    (GPU_pbvh_grid_buffers_build 1 [some [true, true, true, true]]).index_buf = none ∧
    node_visible_count deps_plain
      ((GPU_pbvh_grid_buffers_build 1 [some [true, true, true, true]]).grid_hidden.getD []) [0]
      one_grid_key.grid_size (List.range 1) = 0 ∧
    (GPU_pbvh_grid_buffers_update deps_plain true
      (GPU_pbvh_grid_buffers_build 1 [some [true, true, true, true]]) none one_grid
      one_grid_flag_mats [0] 1 none 0 1 one_grid_key 0).index_buf = none ∧
    (GPU_pbvh_grid_buffers_update deps_plain true
      (GPU_pbvh_grid_buffers_build 1 [some [true, true, true, true]]) none one_grid
      one_grid_flag_mats [0] 1 none 0 1 one_grid_key 0).index_lines_buf = none ∧
    (GPU_pbvh_grid_buffers_update deps_plain true
      (GPU_pbvh_grid_buffers_build 1 [some [true, true, true, true]]) none one_grid
      one_grid_flag_mats [0] 1 none 0 1 one_grid_key 0).vert_buf = none ∧
    (GPU_pbvh_grid_buffers_update deps_plain true
      (GPU_pbvh_grid_buffers_build 1 [some [true, true, true, true]]) none one_grid
      one_grid_flag_mats [0] 1 none 0 1 one_grid_key 0).triangles = none :=
  ⟨rfl, by decide,
   (grid_update_nothing_visible deps_plain true
     (GPU_pbvh_grid_buffers_build 1 [some [true, true, true, true]]) none one_grid
     one_grid_flag_mats [0] 1 none 0 1 one_grid_key 0 rfl (by decide)).1,
   (grid_update_nothing_visible deps_plain true
     (GPU_pbvh_grid_buffers_build 1 [some [true, true, true, true]]) none one_grid
     one_grid_flag_mats [0] 1 none 0 1 one_grid_key 0 rfl (by decide)).2.2.1,
   (grid_update_nothing_visible deps_plain true
     (GPU_pbvh_grid_buffers_build 1 [some [true, true, true, true]]) none one_grid
     one_grid_flag_mats [0] 1 none 0 1 one_grid_key 0 rfl (by decide)).2.2.2.2.1,
   (grid_update_nothing_visible deps_plain true
     (GPU_pbvh_grid_buffers_build 1 [some [true, true, true, true]]) none one_grid
     one_grid_flag_mats [0] 1 none 0 1 one_grid_key 0 rfl (by decide)).2.2.2.2.2.1⟩

/-- C16: after one `GPU_pbvh_grid_buffers_update`, the smooth flag is the one of the first grid,
so `GPU_pbvh_grid_buffers_update_free` with the same grids changes nothing, and a second update
with the same inputs leaves the four index buffers equal to those after the first: same objects,
same indices, nothing appended. -/
theorem grid_update_twice_index_buffers (E : Deps) (alloc_ok alloc_ok2 : Bool)
    (buffers : GPU_PBVH_Buffers)
    (subdiv_ccg : Option SubdivCCG) (grids : List (List CCGElem))
    (grid_flag_mats : List DMFlagMat) (grid_indices : List Nat) (totgrid : Nat)
    (sfs : Option (List Int)) (seed dflt : Int) (key : CCGKey) (update_flags : Nat) :
    GPU_pbvh_grid_buffers_update_free
      (GPU_pbvh_grid_buffers_update E alloc_ok buffers subdiv_ccg grids grid_flag_mats
        grid_indices totgrid sfs seed dflt key update_flags) grid_flag_mats grid_indices =
      GPU_pbvh_grid_buffers_update E alloc_ok buffers subdiv_ccg grids grid_flag_mats
        grid_indices totgrid sfs seed dflt key update_flags ∧
    (GPU_pbvh_grid_buffers_update E alloc_ok2
      (GPU_pbvh_grid_buffers_update E alloc_ok buffers subdiv_ccg grids grid_flag_mats
        grid_indices totgrid sfs seed dflt key update_flags)
      subdiv_ccg grids grid_flag_mats grid_indices totgrid sfs seed dflt key
      update_flags).index_buf =
      (GPU_pbvh_grid_buffers_update E alloc_ok buffers subdiv_ccg grids grid_flag_mats
        grid_indices totgrid sfs seed dflt key update_flags).index_buf ∧
    (GPU_pbvh_grid_buffers_update E alloc_ok2
      (GPU_pbvh_grid_buffers_update E alloc_ok buffers subdiv_ccg grids grid_flag_mats
        grid_indices totgrid sfs seed dflt key update_flags)
      subdiv_ccg grids grid_flag_mats grid_indices totgrid sfs seed dflt key
      update_flags).index_buf_fast =
      (GPU_pbvh_grid_buffers_update E alloc_ok buffers subdiv_ccg grids grid_flag_mats
        grid_indices totgrid sfs seed dflt key update_flags).index_buf_fast ∧
    (GPU_pbvh_grid_buffers_update E alloc_ok2
      (GPU_pbvh_grid_buffers_update E alloc_ok buffers subdiv_ccg grids grid_flag_mats
        grid_indices totgrid sfs seed dflt key update_flags)
      subdiv_ccg grids grid_flag_mats grid_indices totgrid sfs seed dflt key
      update_flags).index_lines_buf =
      (GPU_pbvh_grid_buffers_update E alloc_ok buffers subdiv_ccg grids grid_flag_mats
        grid_indices totgrid sfs seed dflt key update_flags).index_lines_buf ∧
    (GPU_pbvh_grid_buffers_update E alloc_ok2
      (GPU_pbvh_grid_buffers_update E alloc_ok buffers subdiv_ccg grids grid_flag_mats
        grid_indices totgrid sfs seed dflt key update_flags)
      subdiv_ccg grids grid_flag_mats grid_indices totgrid sfs seed dflt key
      update_flags).index_lines_buf_fast =
      (GPU_pbvh_grid_buffers_update E alloc_ok buffers subdiv_ccg grids grid_flag_mats
        grid_indices totgrid sfs seed dflt key update_flags).index_lines_buf_fast := by
  constructor
  · have hs := grid_update_smooth E alloc_ok buffers subdiv_ccg grids grid_flag_mats
      grid_indices totgrid sfs seed dflt key update_flags
    unfold GPU_pbvh_grid_buffers_update_free
    dsimp only
    rw [if_neg]
    rw [hs]
    simp [grid_smooth_flag]
  · cases hc : (buffers.index_buf.isNone &&
        BKE_pbvh_count_grid_quads E (buffers.grid_hidden.getD []) grid_indices totgrid
          key.grid_size == 0)
    · have hsome : (GPU_pbvh_grid_buffers_update E alloc_ok buffers subdiv_ccg grids
          grid_flag_mats grid_indices totgrid sfs seed dflt key update_flags).index_buf.isSome
            = true := by
        rw [grid_update_late_keeps GPU_PBVH_Buffers.index_buf
          (fun _ _ _ _ _ _ _ _ _ _ _ _ _ _ => rfl) E alloc_ok buffers subdiv_ccg grids
          grid_flag_mats grid_indices totgrid sfs seed dflt key update_flags hc]
        exact grid_update_indexed_index_buf E buffers grid_flag_mats grid_indices totgrid key
      have hc2 : ((GPU_pbvh_grid_buffers_update E alloc_ok buffers subdiv_ccg grids
          grid_flag_mats grid_indices totgrid sfs seed dflt key update_flags).index_buf.isNone &&
          BKE_pbvh_count_grid_quads E
            ((GPU_pbvh_grid_buffers_update E alloc_ok buffers subdiv_ccg grids
              grid_flag_mats grid_indices totgrid sfs seed dflt key
              update_flags).grid_hidden.getD []) grid_indices totgrid key.grid_size == 0)
            = false := by
        cases hb : (GPU_pbvh_grid_buffers_update E alloc_ok buffers subdiv_ccg grids
          grid_flag_mats grid_indices totgrid sfs seed dflt key update_flags).index_buf
        · rw [hb] at hsome; exact absurd hsome (by decide)
        · rfl
      rw [grid_update_late_keeps GPU_PBVH_Buffers.index_buf
          (fun _ _ _ _ _ _ _ _ _ _ _ _ _ _ => rfl) E alloc_ok2 _ subdiv_ccg grids
          grid_flag_mats grid_indices totgrid sfs seed dflt key update_flags hc2,
        grid_update_late_keeps GPU_PBVH_Buffers.index_buf_fast
          (fun _ _ _ _ _ _ _ _ _ _ _ _ _ _ => rfl) E alloc_ok2 _ subdiv_ccg grids
          grid_flag_mats grid_indices totgrid sfs seed dflt key update_flags hc2,
        grid_update_late_keeps GPU_PBVH_Buffers.index_lines_buf
          (fun _ _ _ _ _ _ _ _ _ _ _ _ _ _ => rfl) E alloc_ok2 _ subdiv_ccg grids
          grid_flag_mats grid_indices totgrid sfs seed dflt key update_flags hc2,
        grid_update_late_keeps GPU_PBVH_Buffers.index_lines_buf_fast
          (fun _ _ _ _ _ _ _ _ _ _ _ _ _ _ => rfl) E alloc_ok2 _ subdiv_ccg grids
          grid_flag_mats grid_indices totgrid sfs seed dflt key update_flags hc2,
        grid_update_indexed_of_some E _ grid_flag_mats grid_indices totgrid key hsome]
      exact ⟨rfl, rfl, rfl, rfl⟩
    · simp only [Bool.and_eq_true, Option.isNone_iff_eq_none, beq_iff_eq] at hc
      have h1 := grid_update_early E alloc_ok buffers subdiv_ccg grids grid_flag_mats
        grid_indices totgrid sfs seed dflt key update_flags hc.1 hc.2
      have h2 := grid_update_early E alloc_ok2
        { buffers with smooth := grid_smooth_flag grid_flag_mats grid_indices }
        subdiv_ccg grids grid_flag_mats
        grid_indices totgrid sfs seed dflt key update_flags hc.1 hc.2
      rw [h1, h2]
      exact ⟨rfl, rfl, rfl, rfl⟩

/-- Whatever does not depend on the vertex buffer, the batches, the handle counter, the material
index, the overlay flag and the vertex pointer is the same after `GPU_pbvh_mesh_buffers_update`. -/
theorem mesh_update_keeps {β : Type} (F : GPU_PBVH_Buffers → β)
    (hF : ∀ (b : GPU_PBVH_Buffers) vb t tf l lf nh mi so mv,
      F { b with vert_buf := vb, triangles := t, triangles_fast := tf, lines := l,
                 lines_fast := lf, next_handle := nh, material_index := mi, show_overlay := so,
                 mvert := mv } = F b)
    (E : Deps) (alloc_ok : Bool) (buffers : GPU_PBVH_Buffers)
    (mvert : List MVert) (vmask : Option (List float)) (vcol : Option (List MLoopCol))
    (sfs : Option (List Int)) (seed dflt : Int) (vtcol : Option (List MPropCol))
    (update_flags : Nat) :
    F (GPU_pbvh_mesh_buffers_update E alloc_ok buffers mvert vmask vcol sfs seed dflt vtcol
      update_flags) = F buffers := by
  have h1 : ∀ (b : GPU_PBVH_Buffers) vb nh,
      F { b with vert_buf := vb, next_handle := nh } = F b := fun b vb nh =>
    hF b vb b.triangles b.triangles_fast b.lines b.lines_fast nh b.material_index
      b.show_overlay b.mvert
  have h2 : ∀ (b : GPU_PBVH_Buffers) t tf l lf nh,
      F { b with triangles := t, triangles_fast := tf, lines := l, lines_fast := lf,
                 next_handle := nh } = F b := fun b t tf l lf nh =>
    hF b b.vert_buf t tf l lf nh b.material_index b.show_overlay b.mvert
  have h3 : ∀ (b : GPU_PBVH_Buffers) vb, F { b with vert_buf := vb } = F b := fun b vb =>
    hF b vb b.triangles b.triangles_fast b.lines b.lines_fast b.next_handle b.material_index
      b.show_overlay b.mvert
  have h4 : ∀ (b : GPU_PBVH_Buffers) mi so mv,
      F { b with material_index := mi, show_overlay := so, mvert := mv } = F b :=
    fun b mi so mv =>
    hF b b.vert_buf b.triangles b.triangles_fast b.lines b.lines_fast b.next_handle mi so mv
  unfold GPU_pbvh_mesh_buffers_update
  simp only []
  rw [h4, gpu_pbvh_batch_init_keeps_field F h2]
  split_ifs
  · rw [vert_buf_write_keeps F h3, vert_buf_data_set_keeps F h1]
  · rw [vert_buf_data_set_keeps F h1]

/-- The material index stored by `GPU_pbvh_mesh_buffers_update` is the one of the polygon of the
node's first triangle. -/
theorem mesh_update_material_index (E : Deps) (alloc_ok : Bool) (buffers : GPU_PBVH_Buffers)
    (mvert : List MVert) (vmask : Option (List float)) (vcol : Option (List MLoopCol))
    (sfs : Option (List Int)) (seed dflt : Int) (vtcol : Option (List MPropCol))
    (update_flags : Nat) :
    (GPU_pbvh_mesh_buffers_update E alloc_ok buffers mvert vmask vcol sfs seed dflt vtcol
      update_flags).material_index =
    (deref buffers.mpoly (deref buffers.looptri (deref buffers.face_indices 0)).poly).mat_nr := by
  have key : ∀ X : GPU_PBVH_Buffers,
      X.mpoly = buffers.mpoly → X.looptri = buffers.looptri →
      X.face_indices = buffers.face_indices →
      (deref X.mpoly (deref X.looptri (deref X.face_indices 0)).poly).mat_nr =
      (deref buffers.mpoly (deref buffers.looptri (deref buffers.face_indices 0)).poly).mat_nr :=
    fun X a b c => by rw [a, b, c]
  unfold GPU_pbvh_mesh_buffers_update
  simp only []
  apply key
  · rw [gpu_pbvh_batch_init_keeps_field GPU_PBVH_Buffers.mpoly (fun _ _ _ _ _ _ => rfl)]
    split_ifs
    · rw [vert_buf_write_keeps GPU_PBVH_Buffers.mpoly (fun _ _ => rfl),
        vert_buf_data_set_keeps GPU_PBVH_Buffers.mpoly (fun _ _ _ => rfl)]
    · rw [vert_buf_data_set_keeps GPU_PBVH_Buffers.mpoly (fun _ _ _ => rfl)]
  · rw [gpu_pbvh_batch_init_keeps_field GPU_PBVH_Buffers.looptri (fun _ _ _ _ _ _ => rfl)]
    split_ifs
    · rw [vert_buf_write_keeps GPU_PBVH_Buffers.looptri (fun _ _ => rfl),
        vert_buf_data_set_keeps GPU_PBVH_Buffers.looptri (fun _ _ _ => rfl)]
    · rw [vert_buf_data_set_keeps GPU_PBVH_Buffers.looptri (fun _ _ _ => rfl)]
  · rw [gpu_pbvh_batch_init_keeps_field GPU_PBVH_Buffers.face_indices (fun _ _ _ _ _ _ => rfl)]
    split_ifs
    · rw [vert_buf_write_keeps GPU_PBVH_Buffers.face_indices (fun _ _ => rfl),
        vert_buf_data_set_keeps GPU_PBVH_Buffers.face_indices (fun _ _ _ => rfl)]
    · rw [vert_buf_data_set_keeps GPU_PBVH_Buffers.face_indices (fun _ _ _ => rfl)]
/-- Past its early return, `GPU_pbvh_grid_buffers_update` asks for vertex storage on the object
that holds the index buffers, fills it and creates the batches when storage is provided, and
stores material index, grid pointers, key and overlay flag in either case. -/
theorem grid_update_late_eq (E : Deps) (alloc_ok : Bool) (buffers : GPU_PBVH_Buffers)
    (subdiv_ccg : Option SubdivCCG) (grids : List (List CCGElem))
    (grid_flag_mats : List DMFlagMat) (grid_indices : List Nat) (totgrid : Nat)
    (sfs : Option (List Int)) (seed dflt : Int) (key : CCGKey) (update_flags : Nat)
    (hc : (buffers.index_buf.isNone &&
      BKE_pbvh_count_grid_quads E (buffers.grid_hidden.getD []) grid_indices totgrid
        key.grid_size == 0) = false) :
    GPU_pbvh_grid_buffers_update E alloc_ok buffers subdiv_ccg grids grid_flag_mats grid_indices
      totgrid sfs seed dflt key update_flags =
    { (if (gpu_pbvh_vert_buf_data_set
            (grid_update_indexed E buffers grid_flag_mats grid_indices totgrid key)
            (totgrid * grid_vert_per_grid (grid_smooth_flag grid_flag_mats grid_indices) key)
            alloc_ok).2 = true then
        gpu_pbvh_batch_init
          (vert_buf_write
            (gpu_pbvh_vert_buf_data_set
              (grid_update_indexed E buffers grid_flag_mats grid_indices totgrid key)
              (totgrid * grid_vert_per_grid (grid_smooth_flag grid_flag_mats grid_indices) key)
              alloc_ok).1
            (grid_vbo E (grid_smooth_flag grid_flag_mats grid_indices) subdiv_ccg grids
              grid_indices totgrid sfs seed dflt key
              (update_flags &&& GPU_PBVH_BUFFERS_SHOW_MASK != 0)
              (update_flags &&& GPU_PBVH_BUFFERS_SHOW_VCOL != 0)
              (sfs.isSome &&
                (update_flags &&& GPU_PBVH_BUFFERS_SHOW_SCULPT_FACE_SETS != 0))).writes)
          GPU_PRIM_TRIS
       else
        (gpu_pbvh_vert_buf_data_set
          (grid_update_indexed E buffers grid_flag_mats grid_indices totgrid key)
          (totgrid * grid_vert_per_grid (grid_smooth_flag grid_flag_mats grid_indices) key)
          alloc_ok).1) with
      material_index := (grid_flag_mats.getD (grid_indices.getD 0 0) default).mat_nr
      grids := some grids
      grid_indices := some grid_indices
      totgrid := totgrid
      grid_flag_mats := some grid_flag_mats
      gridkey := key
      show_overlay :=
        if (gpu_pbvh_vert_buf_data_set
            (grid_update_indexed E buffers grid_flag_mats grid_indices totgrid key)
            (totgrid * grid_vert_per_grid (grid_smooth_flag grid_flag_mats grid_indices) key)
            alloc_ok).2 = true then
          (!(grid_vbo E (grid_smooth_flag grid_flag_mats grid_indices) subdiv_ccg grids
              grid_indices totgrid sfs seed dflt key
              (update_flags &&& GPU_PBVH_BUFFERS_SHOW_MASK != 0)
              (update_flags &&& GPU_PBVH_BUFFERS_SHOW_VCOL != 0)
              (sfs.isSome &&
                (update_flags &&& GPU_PBVH_BUFFERS_SHOW_SCULPT_FACE_SETS != 0))).empty_mask ||
            !(grid_vbo E (grid_smooth_flag grid_flag_mats grid_indices) subdiv_ccg grids
              grid_indices totgrid sfs seed dflt key
              (update_flags &&& GPU_PBVH_BUFFERS_SHOW_MASK != 0)
              (update_flags &&& GPU_PBVH_BUFFERS_SHOW_VCOL != 0)
              (sfs.isSome &&
                (update_flags &&&
                  GPU_PBVH_BUFFERS_SHOW_SCULPT_FACE_SETS != 0))).default_face_set)
        else false } := by
  have hs : (grid_update_indexed E buffers grid_flag_mats grid_indices totgrid key).smooth =
      grid_smooth_flag grid_flag_mats grid_indices := by
    unfold grid_update_indexed
    split_ifs
    · rw [grid_fill_index_buffers_smooth]
    · rfl
  have hu : GPU_pbvh_grid_buffers_update E alloc_ok buffers subdiv_ccg grids grid_flag_mats
      grid_indices totgrid sfs seed dflt key update_flags =
      (let r := gpu_pbvh_vert_buf_data_set
          (grid_update_indexed E buffers grid_flag_mats grid_indices totgrid key)
          (totgrid * grid_vert_per_grid (grid_smooth_flag grid_flag_mats grid_indices) key)
          alloc_ok
       let fill : GridVbo :=
        if r.2 then
          grid_vbo E r.1.smooth subdiv_ccg grids grid_indices totgrid sfs seed dflt key
            (update_flags &&& GPU_PBVH_BUFFERS_SHOW_MASK != 0)
            (update_flags &&& GPU_PBVH_BUFFERS_SHOW_VCOL != 0)
            (sfs.isSome && (update_flags &&& GPU_PBVH_BUFFERS_SHOW_SCULPT_FACE_SETS != 0))
        else grid_vbo_init
       let b :=
        if r.2 then gpu_pbvh_batch_init (vert_buf_write r.1 fill.writes) GPU_PRIM_TRIS else r.1
       { b with
          material_index := (grid_flag_mats.getD (grid_indices.getD 0 0) default).mat_nr
          grids := some grids
          grid_indices := some grid_indices
          totgrid := totgrid
          grid_flag_mats := some grid_flag_mats
          gridkey := key
          show_overlay := !fill.empty_mask || !fill.default_face_set }) := by
    unfold GPU_pbvh_grid_buffers_update grid_update_indexed
    simp only [hc, Bool.false_eq_true, if_false]
    by_cases hn : buffers.index_buf.isNone = true
    · simp only [hn, if_true]; rfl
    · simp only [hn, if_false]; rfl
  rw [hu]
  simp only [vert_buf_data_set_smooth, hs]
  cases hr : (gpu_pbvh_vert_buf_data_set
      (grid_update_indexed E buffers grid_flag_mats grid_indices totgrid key)
      (totgrid * grid_vert_per_grid (grid_smooth_flag grid_flag_mats grid_indices) key)
      alloc_ok).2
  · simp only [Bool.false_eq_true, if_false]
    rfl
  · simp only [if_true]

/-- Whatever does not depend on the index buffers, the handle counter and the smooth flag is the
same on the object that `GPU_pbvh_grid_buffers_update` holds when it asks for vertex storage. -/
theorem grid_update_indexed_keeps {β : Type} (F : GPU_PBVH_Buffers → β)
    (hF : ∀ (b : GPU_PBVH_Buffers) ib ibf il ilf nh s,
      F { b with index_buf := ib, index_buf_fast := ibf, index_lines_buf := il,
                 index_lines_buf_fast := ilf, next_handle := nh, smooth := s } = F b)
    (E : Deps) (buffers : GPU_PBVH_Buffers)
    (grid_flag_mats : List DMFlagMat) (grid_indices : List Nat) (totgrid : Nat) (key : CCGKey) :
    F (grid_update_indexed E buffers grid_flag_mats grid_indices totgrid key) = F buffers := by
  unfold grid_update_indexed
  split_ifs
  · rw [grid_fill_index_buffers_eq]
    exact hF buffers _ _ _ _ _ _
  · exact hF buffers buffers.index_buf buffers.index_buf_fast buffers.index_lines_buf
      buffers.index_lines_buf_fast buffers.next_handle _

/-- When `gpu_pbvh_vert_buf_data_set` reports failure, the vertex buffer has no storage. -/
theorem vert_buf_data_set_failed (buffers : GPU_PBVH_Buffers) (n : Nat) (alloc_ok : Bool)
    (h : (gpu_pbvh_vert_buf_data_set buffers n alloc_ok).2 = false) :
    (gpu_pbvh_vert_buf_data_set buffers n alloc_ok).1.vert_buf.bind (fun vb => vb.data)
      = none := by
  unfold gpu_pbvh_vert_buf_data_set at h ⊢
  cases hvb : buffers.vert_buf with
  | none =>
    simp only [hvb] at h ⊢
    simpa using h
  | some vb =>
    simp only [hvb] at h ⊢
    simpa using h

/-- After `gpu_pbvh_batch_init` the full-resolution triangle batch exists. -/
theorem gpu_pbvh_batch_init_triangles_isSome (buffers : GPU_PBVH_Buffers) (prim : GPUPrimType) :
    (gpu_pbvh_batch_init buffers prim).triangles.isSome = true := by
  rw [gpu_pbvh_batch_init_triangles]
  cases h : buffers.triangles <;> simp

/-- The batches and the overlay flag after `GPU_pbvh_mesh_buffers_update`: triangle and line
batch exist; without vertex storage the overlay flag is false. -/
theorem mesh_update_batches (E : Deps) (alloc_ok : Bool) (buffers : GPU_PBVH_Buffers)
    (mvert : List MVert) (vmask : Option (List float)) (vcol : Option (List MLoopCol))
    (sfs : Option (List Int)) (seed dflt : Int) (vtcol : Option (List MPropCol))
    (update_flags : Nat) :
    (GPU_pbvh_mesh_buffers_update E alloc_ok buffers mvert vmask vcol sfs seed dflt vtcol
      update_flags).triangles.isSome = true ∧
    (GPU_pbvh_mesh_buffers_update E alloc_ok buffers mvert vmask vcol sfs seed dflt vtcol
      update_flags).lines.isSome = true ∧
    (GPU_pbvh_mesh_buffers_update E alloc_ok buffers mvert vmask vcol sfs seed dflt vtcol
      update_flags).mvert = some mvert ∧
    ((gpu_pbvh_vert_buf_data_set buffers (buffers.tot_tri * 3) alloc_ok).2 = false →
      (GPU_pbvh_mesh_buffers_update E alloc_ok buffers mvert vmask vcol sfs seed dflt vtcol
        update_flags).show_overlay = false ∧
      (GPU_pbvh_mesh_buffers_update E alloc_ok buffers mvert vmask vcol sfs seed dflt vtcol
        update_flags).vert_buf.bind (fun vb => vb.data) = none) := by
  refine ⟨?_, ?_, ?_, ?_⟩
  · unfold GPU_pbvh_mesh_buffers_update
    simp only []
    exact gpu_pbvh_batch_init_triangles_isSome _ _
  · unfold GPU_pbvh_mesh_buffers_update
    simp only []
    exact gpu_pbvh_batch_init_lines _ _
  · unfold GPU_pbvh_mesh_buffers_update
    simp only []
  · intro h
    have hd := vert_buf_data_set_failed buffers (buffers.tot_tri * 3) alloc_ok h
    unfold GPU_pbvh_mesh_buffers_update
    simp only [h, Bool.false_eq_true, if_false, gpu_pbvh_batch_init_vert_buf]
    exact ⟨rfl, hd⟩

/-- C17 as amended: what each update does when `gpu_pbvh_vert_buf_data_set` reports failure.
The mesh update goes on: triangle count, index buffers and the polygon, loop, loop-triangle and
face-index pointers stay, but the triangle and line batches exist afterwards, the vertex pointer
and the material index of the first face are stored and the overlay flag is false.  The grid
update goes on as well: the batches and the triangle count stay, the vertex buffer has no
data, the four index buffers are the ones `gpu_pbvh_grid_fill_index_buffers` builds (triangles,
coarse triangles, wireframe, coarse wireframe, with fresh handles) when `index_buf` was absent
and the ones from before when it was present, smooth flag, material index, grid pointers, grid
count and key are stored and the overlay flag is false.  Each dynamic-topology strategy returns
at once: the object is as before apart from the vertex buffer object, which has no storage, and
the handle counter. -/
theorem update_on_allocation_failure (E : Deps) (dt alloc_ok : Bool)
    (buffers : GPU_PBVH_Buffers)
    (mvert : List MVert) (vmask : Option (List float)) (vcol : Option (List MLoopCol))
    (sfs : Option (List Int)) (seed dflt : Int) (vtcol : Option (List MPropCol))
    (update_flags : Nat)
    (subdiv_ccg : Option SubdivCCG) (grids : List (List CCGElem))
    (grid_flag_mats : List DMFlagMat) (grid_indices : List Nat) (totgrid : Nat) (key : CCGKey)
    (bm : BMesh) (bm_faces : TableGSet BMFace)
    (bm_unique_verts bm_other_verts : TableGSet BMVert) (tribuf : PBVHTriBuf)
    (cd_vert_node_offset : Int) (flat_vcol active_vcol_only : Bool) (mat_nr : Int) :
    ((gpu_pbvh_vert_buf_data_set buffers (buffers.tot_tri * 3) alloc_ok).2 = false →
      (GPU_pbvh_mesh_buffers_update E alloc_ok buffers mvert vmask vcol sfs seed dflt vtcol
        update_flags).tot_tri = buffers.tot_tri ∧
      (GPU_pbvh_mesh_buffers_update E alloc_ok buffers mvert vmask vcol sfs seed dflt vtcol
        update_flags).index_buf = buffers.index_buf ∧
      (GPU_pbvh_mesh_buffers_update E alloc_ok buffers mvert vmask vcol sfs seed dflt vtcol
        update_flags).index_buf_fast = buffers.index_buf_fast ∧
      (GPU_pbvh_mesh_buffers_update E alloc_ok buffers mvert vmask vcol sfs seed dflt vtcol
        update_flags).index_lines_buf = buffers.index_lines_buf ∧
      (GPU_pbvh_mesh_buffers_update E alloc_ok buffers mvert vmask vcol sfs seed dflt vtcol
        update_flags).index_lines_buf_fast = buffers.index_lines_buf_fast ∧
      (GPU_pbvh_mesh_buffers_update E alloc_ok buffers mvert vmask vcol sfs seed dflt vtcol
        update_flags).mpoly = buffers.mpoly ∧
      (GPU_pbvh_mesh_buffers_update E alloc_ok buffers mvert vmask vcol sfs seed dflt vtcol
        update_flags).mloop = buffers.mloop ∧
      (GPU_pbvh_mesh_buffers_update E alloc_ok buffers mvert vmask vcol sfs seed dflt vtcol
        update_flags).looptri = buffers.looptri ∧
      (GPU_pbvh_mesh_buffers_update E alloc_ok buffers mvert vmask vcol sfs seed dflt vtcol
        update_flags).face_indices = buffers.face_indices ∧
      (GPU_pbvh_mesh_buffers_update E alloc_ok buffers mvert vmask vcol sfs seed dflt vtcol
        update_flags).triangles.isSome = true ∧
      (GPU_pbvh_mesh_buffers_update E alloc_ok buffers mvert vmask vcol sfs seed dflt vtcol
        update_flags).lines.isSome = true ∧
      (GPU_pbvh_mesh_buffers_update E alloc_ok buffers mvert vmask vcol sfs seed dflt vtcol
        update_flags).mvert = some mvert ∧
      (GPU_pbvh_mesh_buffers_update E alloc_ok buffers mvert vmask vcol sfs seed dflt vtcol
        update_flags).material_index =
        (deref buffers.mpoly
          (deref buffers.looptri (deref buffers.face_indices 0)).poly).mat_nr ∧
      (GPU_pbvh_mesh_buffers_update E alloc_ok buffers mvert vmask vcol sfs seed dflt vtcol
        update_flags).show_overlay = false ∧
      (GPU_pbvh_mesh_buffers_update E alloc_ok buffers mvert vmask vcol sfs seed dflt vtcol
        update_flags).vert_buf.bind (fun vb => vb.data) = none) ∧
    ((buffers.index_buf.isNone &&
        BKE_pbvh_count_grid_quads E (buffers.grid_hidden.getD []) grid_indices totgrid
          key.grid_size == 0) = false →
      (gpu_pbvh_vert_buf_data_set
        (grid_update_indexed E buffers grid_flag_mats grid_indices totgrid key)
        (totgrid * grid_vert_per_grid (grid_smooth_flag grid_flag_mats grid_indices) key)
        alloc_ok).2 = false →
      (GPU_pbvh_grid_buffers_update E alloc_ok buffers subdiv_ccg grids grid_flag_mats
        grid_indices totgrid sfs seed dflt key update_flags).triangles = buffers.triangles ∧
      (GPU_pbvh_grid_buffers_update E alloc_ok buffers subdiv_ccg grids grid_flag_mats
        grid_indices totgrid sfs seed dflt key update_flags).triangles_fast
          = buffers.triangles_fast ∧
      (GPU_pbvh_grid_buffers_update E alloc_ok buffers subdiv_ccg grids grid_flag_mats
        grid_indices totgrid sfs seed dflt key update_flags).lines = buffers.lines ∧
      (GPU_pbvh_grid_buffers_update E alloc_ok buffers subdiv_ccg grids grid_flag_mats
        grid_indices totgrid sfs seed dflt key update_flags).lines_fast = buffers.lines_fast ∧
      (GPU_pbvh_grid_buffers_update E alloc_ok buffers subdiv_ccg grids grid_flag_mats
        grid_indices totgrid sfs seed dflt key update_flags).tot_tri = buffers.tot_tri ∧
      (GPU_pbvh_grid_buffers_update E alloc_ok buffers subdiv_ccg grids grid_flag_mats
        grid_indices totgrid sfs seed dflt key update_flags).index_buf.isSome = true ∧
      (buffers.index_buf.isSome = true →
        (GPU_pbvh_grid_buffers_update E alloc_ok buffers subdiv_ccg grids grid_flag_mats
          grid_indices totgrid sfs seed dflt key update_flags).index_buf = buffers.index_buf ∧
        (GPU_pbvh_grid_buffers_update E alloc_ok buffers subdiv_ccg grids grid_flag_mats
          grid_indices totgrid sfs seed dflt key update_flags).index_buf_fast
            = buffers.index_buf_fast ∧
        (GPU_pbvh_grid_buffers_update E alloc_ok buffers subdiv_ccg grids grid_flag_mats
          grid_indices totgrid sfs seed dflt key update_flags).index_lines_buf
            = buffers.index_lines_buf ∧
        (GPU_pbvh_grid_buffers_update E alloc_ok buffers subdiv_ccg grids grid_flag_mats
          grid_indices totgrid sfs seed dflt key update_flags).index_lines_buf_fast
            = buffers.index_lines_buf_fast) ∧
      (GPU_pbvh_grid_buffers_update E alloc_ok buffers subdiv_ccg grids grid_flag_mats
        grid_indices totgrid sfs seed dflt key update_flags).smooth =
          grid_smooth_flag grid_flag_mats grid_indices ∧
      (GPU_pbvh_grid_buffers_update E alloc_ok buffers subdiv_ccg grids grid_flag_mats
        grid_indices totgrid sfs seed dflt key update_flags).material_index =
          (grid_flag_mats.getD (grid_indices.getD 0 0) default).mat_nr ∧
      (GPU_pbvh_grid_buffers_update E alloc_ok buffers subdiv_ccg grids grid_flag_mats
        grid_indices totgrid sfs seed dflt key update_flags).grids = some grids ∧
      (GPU_pbvh_grid_buffers_update E alloc_ok buffers subdiv_ccg grids grid_flag_mats
        grid_indices totgrid sfs seed dflt key update_flags).grid_indices = some grid_indices ∧
      (GPU_pbvh_grid_buffers_update E alloc_ok buffers subdiv_ccg grids grid_flag_mats
        grid_indices totgrid sfs seed dflt key update_flags).grid_flag_mats
          = some grid_flag_mats ∧
      (GPU_pbvh_grid_buffers_update E alloc_ok buffers subdiv_ccg grids grid_flag_mats
        grid_indices totgrid sfs seed dflt key update_flags).show_overlay = false ∧
      (GPU_pbvh_grid_buffers_update E alloc_ok buffers subdiv_ccg grids grid_flag_mats
        grid_indices totgrid sfs seed dflt key update_flags).gridkey = key ∧
      (GPU_pbvh_grid_buffers_update E alloc_ok buffers subdiv_ccg grids grid_flag_mats
        grid_indices totgrid sfs seed dflt key update_flags).totgrid = totgrid ∧
      (GPU_pbvh_grid_buffers_update E alloc_ok buffers subdiv_ccg grids grid_flag_mats
        grid_indices totgrid sfs seed dflt key update_flags).vert_buf.bind (fun vb => vb.data) = none ∧
      (buffers.index_buf = none →
        (GPU_pbvh_grid_buffers_update E alloc_ok buffers subdiv_ccg grids grid_flag_mats
          grid_indices totgrid sfs seed dflt key update_flags).index_buf =
          some ⟨buffers.next_handle, GPU_PRIM_TRIS,
            node_tris E (grid_smooth_flag grid_flag_mats grid_indices)
              (buffers.grid_hidden.getD []) grid_indices key.grid_size (List.range totgrid)⟩ ∧
        (GPU_pbvh_grid_buffers_update E alloc_ok buffers subdiv_ccg grids grid_flag_mats
          grid_indices totgrid sfs seed dflt key update_flags).index_buf_fast =
          some ⟨buffers.next_handle + 1, GPU_PRIM_TRIS,
            node_tris_fast E (grid_smooth_flag grid_flag_mats grid_indices)
              (buffers.grid_hidden.getD []) grid_indices key.grid_size (List.range totgrid)⟩ ∧
        (GPU_pbvh_grid_buffers_update E alloc_ok buffers subdiv_ccg grids grid_flag_mats
          grid_indices totgrid sfs seed dflt key update_flags).index_lines_buf =
          some ⟨buffers.next_handle + 2, GPU_PRIM_LINES,
            (grid_fill E (grid_smooth_flag grid_flag_mats grid_indices)
              (buffers.grid_hidden.getD []) grid_indices
              (BKE_pbvh_count_grid_quads E (buffers.grid_hidden.getD []) grid_indices totgrid
                key.grid_size) totgrid key.grid_size).elb_lines.data⟩ ∧
        (GPU_pbvh_grid_buffers_update E alloc_ok buffers subdiv_ccg grids grid_flag_mats
          grid_indices totgrid sfs seed dflt key update_flags).index_lines_buf_fast =
          some ⟨buffers.next_handle + 3, GPU_PRIM_LINES,
            node_lines_fast E (grid_smooth_flag grid_flag_mats grid_indices)
              (buffers.grid_hidden.getD []) grid_indices key.grid_size
              (List.range totgrid)⟩)) ∧
    (gpu_bmesh_face_visible_count bm_faces mat_nr ≠ 0 →
      (gpu_pbvh_vert_buf_data_set buffers (gpu_bmesh_face_visible_count bm_faces mat_nr * 6 * 3)
        alloc_ok).2 = false →
      GPU_pbvh_bmesh_buffers_update_flat_vcol E alloc_ok buffers bm bm_faces bm_unique_verts
        bm_other_verts update_flags cd_vert_node_offset seed dflt active_vcol_only mat_nr =
      { buffers with
        vert_buf := (gpu_pbvh_vert_buf_data_set buffers
          (gpu_bmesh_face_visible_count bm_faces mat_nr * 6 * 3) alloc_ok).1.vert_buf
        next_handle := (gpu_pbvh_vert_buf_data_set buffers
          (gpu_bmesh_face_visible_count bm_faces mat_nr * 6 * 3) alloc_ok).1.next_handle } ∧
      (gpu_pbvh_vert_buf_data_set buffers
        (gpu_bmesh_face_visible_count bm_faces mat_nr * 6 * 3) alloc_ok).1.vert_buf.bind
          (fun vb => vb.data) = none) ∧
    (tribuf.tottri ≠ 0 →
      (gpu_pbvh_vert_buf_data_set buffers tribuf.totvert alloc_ok).2 = false →
      GPU_pbvh_bmesh_buffers_update_indexed E alloc_ok buffers bm bm_faces bm_unique_verts
        bm_other_verts tribuf update_flags cd_vert_node_offset seed dflt flat_vcol
        active_vcol_only mat_nr =
      { buffers with
        vert_buf := (gpu_pbvh_vert_buf_data_set buffers tribuf.totvert alloc_ok).1.vert_buf
        next_handle :=
          (gpu_pbvh_vert_buf_data_set buffers tribuf.totvert alloc_ok).1.next_handle } ∧
      (gpu_pbvh_vert_buf_data_set buffers tribuf.totvert alloc_ok).1.vert_buf.bind
        (fun vb => vb.data) = none) ∧
    (tribuf.tottri ≠ 0 →
      (gpu_pbvh_vert_buf_data_set buffers (tribuf.tottri * 3) alloc_ok).2 = false →
      GPU_pbvh_bmesh_buffers_update_nonindexed E dt alloc_ok buffers bm bm_faces tribuf
        update_flags cd_vert_node_offset seed dflt active_vcol_only mat_nr =
      { buffers with
        vert_buf := (gpu_pbvh_vert_buf_data_set buffers (tribuf.tottri * 3) alloc_ok).1.vert_buf
        next_handle :=
          (gpu_pbvh_vert_buf_data_set buffers (tribuf.tottri * 3) alloc_ok).1.next_handle } ∧
      (gpu_pbvh_vert_buf_data_set buffers (tribuf.tottri * 3) alloc_ok).1.vert_buf.bind
        (fun vb => vb.data) = none) := by
  refine ⟨?_, ?_, ?_, ?_, ?_⟩
  · intro h
    obtain ⟨b1, b2, b3, b4⟩ := mesh_update_batches E alloc_ok buffers mvert vmask vcol sfs seed
      dflt vtcol update_flags
    exact ⟨mesh_update_keeps GPU_PBVH_Buffers.tot_tri (fun _ _ _ _ _ _ _ _ _ _ => rfl) ..,
      mesh_update_keeps GPU_PBVH_Buffers.index_buf (fun _ _ _ _ _ _ _ _ _ _ => rfl) ..,
      mesh_update_keeps GPU_PBVH_Buffers.index_buf_fast (fun _ _ _ _ _ _ _ _ _ _ => rfl) ..,
      mesh_update_keeps GPU_PBVH_Buffers.index_lines_buf (fun _ _ _ _ _ _ _ _ _ _ => rfl) ..,
      mesh_update_keeps GPU_PBVH_Buffers.index_lines_buf_fast
        (fun _ _ _ _ _ _ _ _ _ _ => rfl) ..,
      mesh_update_keeps GPU_PBVH_Buffers.mpoly (fun _ _ _ _ _ _ _ _ _ _ => rfl) ..,
      mesh_update_keeps GPU_PBVH_Buffers.mloop (fun _ _ _ _ _ _ _ _ _ _ => rfl) ..,
      mesh_update_keeps GPU_PBVH_Buffers.looptri (fun _ _ _ _ _ _ _ _ _ _ => rfl) ..,
      mesh_update_keeps GPU_PBVH_Buffers.face_indices (fun _ _ _ _ _ _ _ _ _ _ => rfl) ..,
      b1, b2, b3, mesh_update_material_index .., (b4 h).1, (b4 h).2⟩
  · intro hc h
    have hu := grid_update_late_eq E alloc_ok buffers subdiv_ccg grids grid_flag_mats
      grid_indices totgrid sfs seed dflt key update_flags hc
    simp only [h, Bool.false_eq_true, if_false] at hu
    have hi : (GPU_pbvh_grid_buffers_update E alloc_ok buffers subdiv_ccg grids grid_flag_mats
        grid_indices totgrid sfs seed dflt key update_flags).index_buf =
        (grid_update_indexed E buffers grid_flag_mats grid_indices totgrid key).index_buf :=
      grid_update_late_keeps GPU_PBVH_Buffers.index_buf
        (fun _ _ _ _ _ _ _ _ _ _ _ _ _ _ => rfl) E alloc_ok buffers subdiv_ccg grids
        grid_flag_mats grid_indices totgrid sfs seed dflt key update_flags hc
    refine ⟨?_, ?_, ?_, ?_, ?_, ?_, ?_, ?_, ?_, ?_, ?_, ?_, ?_, ?_, ?_, ?_, ?_⟩
    · rw [hu]
      exact (vert_buf_data_set_keeps GPU_PBVH_Buffers.triangles (fun _ _ _ => rfl) _ _ _).trans
        (grid_update_indexed_keeps GPU_PBVH_Buffers.triangles (fun _ _ _ _ _ _ _ => rfl) ..)
    · rw [hu]
      exact (vert_buf_data_set_keeps GPU_PBVH_Buffers.triangles_fast
        (fun _ _ _ => rfl) _ _ _).trans
        (grid_update_indexed_keeps GPU_PBVH_Buffers.triangles_fast
          (fun _ _ _ _ _ _ _ => rfl) ..)
    · rw [hu]
      exact (vert_buf_data_set_keeps GPU_PBVH_Buffers.lines (fun _ _ _ => rfl) _ _ _).trans
        (grid_update_indexed_keeps GPU_PBVH_Buffers.lines (fun _ _ _ _ _ _ _ => rfl) ..)
    · rw [hu]
      exact (vert_buf_data_set_keeps GPU_PBVH_Buffers.lines_fast (fun _ _ _ => rfl) _ _ _).trans
        (grid_update_indexed_keeps GPU_PBVH_Buffers.lines_fast (fun _ _ _ _ _ _ _ => rfl) ..)
    · rw [hu]
      exact (vert_buf_data_set_keeps GPU_PBVH_Buffers.tot_tri (fun _ _ _ => rfl) _ _ _).trans
        (grid_update_indexed_keeps GPU_PBVH_Buffers.tot_tri (fun _ _ _ _ _ _ _ => rfl) ..)
    · rw [hi]
      exact grid_update_indexed_index_buf ..
    · intro hs
      have e := grid_update_indexed_of_some E buffers grid_flag_mats grid_indices totgrid key hs
      rw [grid_update_late_keeps GPU_PBVH_Buffers.index_buf
          (fun _ _ _ _ _ _ _ _ _ _ _ _ _ _ => rfl) E alloc_ok buffers subdiv_ccg grids
          grid_flag_mats grid_indices totgrid sfs seed dflt key update_flags hc,
        grid_update_late_keeps GPU_PBVH_Buffers.index_buf_fast
          (fun _ _ _ _ _ _ _ _ _ _ _ _ _ _ => rfl) E alloc_ok buffers subdiv_ccg grids
          grid_flag_mats grid_indices totgrid sfs seed dflt key update_flags hc,
        grid_update_late_keeps GPU_PBVH_Buffers.index_lines_buf
          (fun _ _ _ _ _ _ _ _ _ _ _ _ _ _ => rfl) E alloc_ok buffers subdiv_ccg grids
          grid_flag_mats grid_indices totgrid sfs seed dflt key update_flags hc,
        grid_update_late_keeps GPU_PBVH_Buffers.index_lines_buf_fast
          (fun _ _ _ _ _ _ _ _ _ _ _ _ _ _ => rfl) E alloc_ok buffers subdiv_ccg grids
          grid_flag_mats grid_indices totgrid sfs seed dflt key update_flags hc, e]
      exact ⟨rfl, rfl, rfl, rfl⟩
    · exact grid_update_smooth ..
    · rw [hu]
    · rw [hu]
    · rw [hu]
    · rw [hu]
    · rw [hu]
    · rw [hu]
    · rw [hu]
    · rw [hu]
      exact vert_buf_data_set_failed _ _ _ h
    · intro hnone
      have e : grid_update_indexed E buffers grid_flag_mats grid_indices totgrid key =
          gpu_pbvh_grid_fill_index_buffers E
            { buffers with smooth := grid_smooth_flag grid_flag_mats grid_indices } grid_indices
            (BKE_pbvh_count_grid_quads E (buffers.grid_hidden.getD []) grid_indices totgrid
              key.grid_size) totgrid key.grid_size := by
        unfold grid_update_indexed
        rw [hnone]
        rfl
      rw [grid_update_late_keeps GPU_PBVH_Buffers.index_buf
          (fun _ _ _ _ _ _ _ _ _ _ _ _ _ _ => rfl) E alloc_ok buffers subdiv_ccg grids
          grid_flag_mats grid_indices totgrid sfs seed dflt key update_flags hc,
        grid_update_late_keeps GPU_PBVH_Buffers.index_buf_fast
          (fun _ _ _ _ _ _ _ _ _ _ _ _ _ _ => rfl) E alloc_ok buffers subdiv_ccg grids
          grid_flag_mats grid_indices totgrid sfs seed dflt key update_flags hc,
        grid_update_late_keeps GPU_PBVH_Buffers.index_lines_buf
          (fun _ _ _ _ _ _ _ _ _ _ _ _ _ _ => rfl) E alloc_ok buffers subdiv_ccg grids
          grid_flag_mats grid_indices totgrid sfs seed dflt key update_flags hc,
        grid_update_late_keeps GPU_PBVH_Buffers.index_lines_buf_fast
          (fun _ _ _ _ _ _ _ _ _ _ _ _ _ _ => rfl) E alloc_ok buffers subdiv_ccg grids
          grid_flag_mats grid_indices totgrid sfs seed dflt key update_flags hc, e,
        grid_fill_index_buffers_eq]
      exact ⟨rfl, rfl, rfl, rfl⟩
  · intro hne h
    have hd := vert_buf_data_set_failed _ _ _ h
    refine ⟨?_, hd⟩
    unfold GPU_pbvh_bmesh_buffers_update_flat_vcol
    have h0 : (gpu_bmesh_face_visible_count bm_faces mat_nr * 6 == 0) = false := by
      simp only [beq_eq_false_iff_ne, ne_eq]; omega
    simp only [h0, Bool.false_eq_true, if_false, h, Bool.not_false, if_true]
    exact vert_buf_data_set_frame _ _ _
  · intro hne h
    have hd := vert_buf_data_set_failed _ _ _ h
    refine ⟨?_, hd⟩
    unfold GPU_pbvh_bmesh_buffers_update_indexed
    have h0 : (tribuf.tottri == 0) = false := by
      simp only [beq_eq_false_iff_ne, ne_eq]; exact hne
    simp only [h0, Bool.false_eq_true, if_false, h, Bool.not_false, if_true]
    exact vert_buf_data_set_frame _ _ _
  · intro hne h
    have hd := vert_buf_data_set_failed _ _ _ h
    refine ⟨?_, hd⟩
    unfold GPU_pbvh_bmesh_buffers_update_nonindexed
    have h0 : (tribuf.tottri == 0) = false := by
      simp only [beq_eq_false_iff_ne, ne_eq]; exact hne
    simp only [h0, Bool.false_eq_true, if_false, h, Bool.not_false, if_true]
    exact vert_buf_data_set_frame _ _ _
/-- Instance of C17 as amended, with an allocator that fails and no vertex storage yet: the
one-triangle mesh node, a node of one grid of size 2, and a dynamic-topology node with one
triangle. -/
theorem update_on_allocation_failure_witness :
    (gpu_pbvh_vert_buf_data_set tri_buffers_built (tri_buffers_built.tot_tri * 3) false).2
      = false ∧
    (GPU_pbvh_mesh_buffers_update deps_plain false tri_buffers_built tri_mvert none none
      (some [1]) 0 1 none 0).lines.isSome = true ∧
    (GPU_pbvh_mesh_buffers_update deps_plain false tri_buffers_built tri_mvert none none
      (some [1]) 0 1 none 0).show_overlay = false ∧
    ((GPU_pbvh_grid_buffers_build 1 [none]).index_buf.isNone &&
      BKE_pbvh_count_grid_quads deps_plain
        ((GPU_pbvh_grid_buffers_build 1 [none]).grid_hidden.getD []) [0] 1
        one_grid_key.grid_size == 0) = false ∧
    (gpu_pbvh_vert_buf_data_set
      (grid_update_indexed deps_plain (GPU_pbvh_grid_buffers_build 1 [none]) one_grid_flag_mats
        [0] 1 one_grid_key)
      (1 * grid_vert_per_grid (grid_smooth_flag one_grid_flag_mats [0]) one_grid_key)
      false).2 = false ∧
    (GPU_pbvh_grid_buffers_update deps_plain false (GPU_pbvh_grid_buffers_build 1 [none]) none
      one_grid one_grid_flag_mats [0] 1 (some [1]) 0 1 one_grid_key 0).index_buf.isSome
        = true ∧
    (GPU_pbvh_grid_buffers_update deps_plain false (GPU_pbvh_grid_buffers_build 1 [none]) none
      one_grid one_grid_flag_mats [0] 1 (some [1]) 0 1 one_grid_key 0).vert_buf.bind
        (fun vb => vb.data) = none ∧
    (GPU_pbvh_grid_buffers_update deps_plain false (GPU_pbvh_grid_buffers_build 1 [none]) none
      one_grid one_grid_flag_mats [0] 1 (some [1]) 0 1 one_grid_key 0).gridkey
        = one_grid_key ∧
    (GPU_pbvh_grid_buffers_update deps_plain false (GPU_pbvh_grid_buffers_build 1 [none]) none
      one_grid one_grid_flag_mats [0] 1 (some [1]) 0 1 one_grid_key 0).index_lines_buf_fast =
      some ⟨3, GPU_PRIM_LINES, [0, 1, 1, 3, 3, 2, 2, 0]⟩ ∧
    tribuf_mat1.tottri ≠ 0 ∧
    (gpu_pbvh_vert_buf_data_set (GPU_pbvh_bmesh_buffers_build true) tribuf_mat1.totvert
      false).2 = false ∧
    (gpu_pbvh_vert_buf_data_set (GPU_pbvh_bmesh_buffers_build true) tribuf_mat1.totvert
      false).1.vert_buf.bind (fun vb => vb.data) = none ∧
    gpu_bmesh_face_visible_count [face_mat1] 1 ≠ 0 ∧
    (gpu_pbvh_vert_buf_data_set (GPU_pbvh_bmesh_buffers_build true)
      (gpu_bmesh_face_visible_count [face_mat1] 1 * 6 * 3) false).1.vert_buf.bind
        (fun vb => vb.data) = none ∧
    (gpu_pbvh_vert_buf_data_set (GPU_pbvh_bmesh_buffers_build true) (tribuf_mat1.tottri * 3)
      false).1.vert_buf.bind (fun vb => vb.data) = none :=
  ⟨by decide,
   ((update_on_allocation_failure deps_plain false false tri_buffers_built tri_mvert none none
      (some [1]) 0 1 none 0 none one_grid one_grid_flag_mats [0] 1 one_grid_key plain_bmesh
      [face_mat1] [] [] tribuf_mat1 0 false false 1).1 (by decide)).2.2.2.2.2.2.2.2.2.2.1,
   ((update_on_allocation_failure deps_plain false false tri_buffers_built tri_mvert none none
      (some [1]) 0 1 none 0 none one_grid one_grid_flag_mats [0] 1 one_grid_key plain_bmesh
      [face_mat1] [] [] tribuf_mat1 0 false false 1).1 (by decide)).2.2.2.2.2.2.2.2.2.2.2.2.2.1,
   by decide, by decide,
   ((update_on_allocation_failure deps_plain false false (GPU_pbvh_grid_buffers_build 1 [none])
      tri_mvert none none (some [1]) 0 1 none 0 none one_grid one_grid_flag_mats [0] 1
      one_grid_key plain_bmesh [face_mat1] [] [] tribuf_mat1 0 false false 1).2.1
      (by decide) (by decide)).2.2.2.2.2.1,
   ((update_on_allocation_failure deps_plain false false (GPU_pbvh_grid_buffers_build 1 [none])
      tri_mvert none none (some [1]) 0 1 none 0 none one_grid one_grid_flag_mats [0] 1
      one_grid_key plain_bmesh [face_mat1] [] [] tribuf_mat1 0 false false 1).2.1
      (by decide) (by decide)).2.2.2.2.2.2.2.2.2.2.2.2.2.2.2.1,
   ((update_on_allocation_failure deps_plain false false (GPU_pbvh_grid_buffers_build 1 [none])
      tri_mvert none none (some [1]) 0 1 none 0 none one_grid one_grid_flag_mats [0] 1
      one_grid_key plain_bmesh [face_mat1] [] [] tribuf_mat1 0 false false 1).2.1
      (by decide) (by decide)).2.2.2.2.2.2.2.2.2.2.2.2.2.1,
   (((((update_on_allocation_failure deps_plain false false (GPU_pbvh_grid_buffers_build 1 [none])
      tri_mvert none none (some [1]) 0 1 none 0 none one_grid one_grid_flag_mats [0] 1
      one_grid_key plain_bmesh [face_mat1] [] [] tribuf_mat1 0 false false 1).2.1
      (by decide) (by decide)).2.2.2.2.2.2.2.2.2.2.2.2.2.2.2.2) rfl).2.2.2).trans
     (by decide),
   by decide, by decide,
   ((update_on_allocation_failure deps_plain false false (GPU_pbvh_bmesh_buffers_build true)
      tri_mvert none none (some [1]) 0 1 none 0 none one_grid one_grid_flag_mats [0] 1
      one_grid_key plain_bmesh [face_mat1] [] [] tribuf_mat1 0 false false 1).2.2.2.1
      (by decide) (by decide)).2,
   by decide,
   ((update_on_allocation_failure deps_plain false false (GPU_pbvh_bmesh_buffers_build true)
      tri_mvert none none (some [1]) 0 1 none 0 none one_grid one_grid_flag_mats [0] 1
      one_grid_key plain_bmesh [face_mat1] [] [] tribuf_mat1 0 false false 1).2.2.1
      (by decide) (by decide)).2,
   ((update_on_allocation_failure deps_plain false false (GPU_pbvh_bmesh_buffers_build true)
      tri_mvert none none (some [1]) 0 1 none 0 none one_grid one_grid_flag_mats [0] 1
      one_grid_key plain_bmesh [face_mat1] [] [] tribuf_mat1 0 false false 1).2.2.2.2
      (by decide) (by decide)).2⟩

/-- C17 fails as stated for the mesh update: on the built one-triangle node, with an allocator
that fails, `gpu_pbvh_vert_buf_data_set` reports failure, yet after the update the triangle and
line batches exist and the vertex pointer is stored, none of which was so before the call. -/
theorem update_on_allocation_failure_counterexample :
    (gpu_pbvh_vert_buf_data_set tri_buffers_built (tri_buffers_built.tot_tri * 3) false).2
      = false ∧
    tri_buffers_built.triangles = none ∧
    tri_buffers_built.lines = none ∧
    tri_buffers_built.mvert = none ∧
    (GPU_pbvh_mesh_buffers_update deps_plain false tri_buffers_built tri_mvert none none
      (some [1]) 0 1 none 0).triangles.isSome = true ∧
    (GPU_pbvh_mesh_buffers_update deps_plain false tri_buffers_built tri_mvert none none
      (some [1]) 0 1 none 0).lines.isSome = true ∧
    (GPU_pbvh_mesh_buffers_update deps_plain false tri_buffers_built tri_mvert none none
      (some [1]) 0 1 none 0).mvert = some tri_mvert := by
  decide

/-- A flag that each step of a loop clears exactly on the elements satisfying `t` is, after the
loop, set iff it was set before and no element satisfied `t`. -/
theorem foldl_flag {σ α : Type} (f : σ → α → σ) (g : σ → Bool) (t : α → Bool)
    (h : ∀ s x, g (f s x) = (g s && !t x)) (l : List α) (s : σ) :
    g (l.foldl f s) = (g s && !l.any t) := by
  induction l generalizing s with
  | nil => simp
  | cons x rest ih =>
    rw [List.foldl_cons, ih, h, List.any_cons]
    cases g s <;> cases t x <;> simp

/-- Testing the elements of a mapped and filtered list. -/
theorem any_filter_map {α β : Type} (l : List α) (f : α → β) (p q : β → Bool) :
    ((l.map f).filter p).any q = l.any (fun i => p (f i) && q (f i)) := by
  induction l with
  | nil => rfl
  | cons x rest ih =>
    rw [List.map_cons, List.filter_cons]
    cases hp : p (f x)
    · simp [ih, hp]
    · simp [ih, hp]

theorem mesh_fill_vert_default_face_set (E : Deps) (smooth show_mask show_vcol : Bool)
    (mvert : List MVert) (vmask : Option (List float)) (vcol : Option (List MLoopCol))
    (vtcol : Option (List MPropCol)) (lt : MLoopTri) (vtri : Nat → Nat)
    (fsc : uchar4) (s : MeshFill) (j : Nat) :
    (mesh_fill_vert E smooth show_mask show_vcol mvert vmask vcol vtcol lt vtri fsc s
      j).default_face_set = s.default_face_set := rfl

/-- One step of the fill loop of `GPU_pbvh_mesh_buffers_update` clears `default_face_set` exactly
when the triangle is visible, face sets are shown and the absolute value of its face-set id is
not the default. -/
theorem mesh_fill_tri_default_face_set (E : Deps) (buffers : GPU_PBVH_Buffers)
    (show_mask show_face_sets show_vcol : Bool)
    (mvert : List MVert) (vmask : Option (List float)) (vcol : Option (List MLoopCol))
    (sfs : Option (List Int)) (seed dflt : Int)
    (vtcol : Option (List MPropCol)) (s : MeshFill) (i : Nat) :
    (mesh_fill_tri E buffers show_mask show_face_sets show_vcol mvert vmask vcol sfs seed dflt
      vtcol s i).default_face_set =
    (s.default_face_set &&
      !(gpu_pbvh_is_looptri_visible E (deref buffers.looptri (deref buffers.face_indices i))
          mvert (buffers.mloop.getD []) sfs &&
        (show_face_sets &&
          (|deref sfs (deref buffers.looptri (deref buffers.face_indices i)).poly| != dflt))))
    := by
  unfold mesh_fill_tri
  dsimp only
  cases hv : gpu_pbvh_is_looptri_visible E (deref buffers.looptri (deref buffers.face_indices i))
      mvert (buffers.mloop.getD []) sfs
  · simp
  · simp only [Bool.not_true, Bool.false_eq_true, if_false, Bool.true_and]
    rw [foldl_preserves _ (fun s => s.default_face_set)
      (fun s j => mesh_fill_vert_default_face_set E _ _ _ _ _ _ _ _ _ _ s j)]
    have hs : (if ((deref buffers.looptri (deref buffers.face_indices i)).poly != s.mpoly_prev
          && !buffers.smooth) = true then
        { s with
          no := E.normal_float_to_short_v3
            (E.BKE_mesh_calc_poly_normal
              (deref buffers.mpoly (deref buffers.looptri (deref buffers.face_indices i)).poly)
              ((buffers.mloop.getD []).drop
                (deref buffers.mpoly
                  (deref buffers.looptri (deref buffers.face_indices i)).poly).loopstart)
              mvert)
          mpoly_prev := (deref buffers.looptri (deref buffers.face_indices i)).poly }
        else s).default_face_set = s.default_face_set := by
      split_ifs <;> rfl
    cases show_face_sets
    · simp only [Bool.false_eq_true, if_false, Bool.false_and, Bool.not_false, Bool.and_true]
      exact hs
    · cases hd : (|deref sfs (deref buffers.looptri (deref buffers.face_indices i)).poly|
        != dflt)
      · simp only [if_true, hd, Bool.false_eq_true, if_false, Bool.and_false, Bool.not_false,
          Bool.and_true]
        exact hs
      · simp only [if_true, hd, Bool.and_self, Bool.not_true, Bool.and_false]
/-- Pulling a constant guard out of a test over a list, and replacing the test by one that agrees
with it where the first condition holds. -/
theorem any_guard {α : Type} (l : List α) (c : Bool) (p q q' : α → Bool)
    (h : ∀ x, p x = true → q x = q' x) :
    l.any (fun x => p x && (c && q x)) = (c && l.any (fun x => p x && q' x)) := by
  induction l with
  | nil => simp
  | cons x rest ih =>
    rw [List.any_cons, List.any_cons, ih]
    cases hp : p x
    · cases c <;> simp
    · rw [h x hp]
      cases c <;> cases q' x <;> simp

/-- The face-set id of a visible triangle is positive, so taking its absolute value changes
nothing. -/
theorem visible_face_set_abs (E : Deps) (lt : MLoopTri) (mvert : List MVert)
    (mloop : List MLoop) (sfs : Option (List Int))
    (h : gpu_pbvh_is_looptri_visible E lt mvert mloop sfs = true) :
    |deref sfs lt.poly| = deref sfs lt.poly := by
  unfold gpu_pbvh_is_looptri_visible at h
  cases sfs with
  | none => simp at h
  | some fs =>
    simp only [Bool.and_eq_true, decide_eq_true_eq] at h
    have : (0 : Int) < fs.getD lt.poly 0 := h.2
    exact abs_of_pos this

/-- After the fill loop of `GPU_pbvh_mesh_buffers_update`, `default_face_set` has been cleared
exactly when face sets are shown and some visible triangle has a face-set id other than the
default. -/
theorem mesh_fill_default_face_set (E : Deps) (buffers : GPU_PBVH_Buffers)
    (show_mask show_face_sets show_vcol : Bool)
    (mvert : List MVert) (vmask : Option (List float)) (vcol : Option (List MLoopCol))
    (sfs : Option (List Int)) (seed dflt : Int) (vtcol : Option (List MPropCol)) :
    (mesh_fill E buffers show_mask show_face_sets show_vcol mvert vmask vcol sfs seed dflt
      vtcol).default_face_set =
    !(show_face_sets &&
      (mesh_visible_tris E (buffers.mloop.getD []) (buffers.looptri.getD []) mvert
        (buffers.face_indices.getD []) sfs buffers.face_indices_len).any
        (fun lt => deref sfs lt.poly != dflt)) := by
  unfold mesh_fill
  rw [foldl_flag
    (mesh_fill_tri E buffers show_mask show_face_sets show_vcol mvert vmask vcol sfs seed dflt
      vtcol) MeshFill.default_face_set
    (fun i => gpu_pbvh_is_looptri_visible E
        (deref buffers.looptri (deref buffers.face_indices i)) mvert (buffers.mloop.getD []) sfs &&
      (show_face_sets &&
        (|deref sfs (deref buffers.looptri (deref buffers.face_indices i)).poly| != dflt)))
    (mesh_fill_tri_default_face_set E buffers show_mask show_face_sets show_vcol mvert vmask
      vcol sfs seed dflt vtcol)]
  unfold mesh_visible_tris node_looptris visited_tris
  rw [any_filter_map]
  rw [any_guard (List.range buffers.face_indices_len) show_face_sets
    (fun i => gpu_pbvh_is_looptri_visible E
      (deref buffers.looptri (deref buffers.face_indices i)) mvert (buffers.mloop.getD []) sfs)
    (fun i => |deref sfs (deref buffers.looptri (deref buffers.face_indices i)).poly| != dflt)
    (fun i => deref sfs (deref buffers.looptri (deref buffers.face_indices i)).poly != dflt)
    (fun i hi => by
      show (|deref sfs (deref buffers.looptri (deref buffers.face_indices i)).poly| != dflt) = _
      rw [visible_face_set_abs E _ mvert (buffers.mloop.getD []) sfs hi])]
  rfl

/-- The fill loop of `GPU_pbvh_mesh_buffers_update` reads nothing that
`gpu_pbvh_vert_buf_data_set` changes. -/
theorem mesh_fill_data_set (E : Deps) (buffers : GPU_PBVH_Buffers) (n : Nat) (alloc_ok : Bool)
    (show_mask show_face_sets show_vcol : Bool)
    (mvert : List MVert) (vmask : Option (List float)) (vcol : Option (List MLoopCol))
    (sfs : Option (List Int)) (seed dflt : Int) (vtcol : Option (List MPropCol)) :
    mesh_fill E (gpu_pbvh_vert_buf_data_set buffers n alloc_ok).1 show_mask show_face_sets
      show_vcol mvert vmask vcol sfs seed dflt vtcol =
    mesh_fill E buffers show_mask show_face_sets show_vcol mvert vmask vcol sfs seed dflt
      vtcol := by
  rw [vert_buf_data_set_frame]
  rfl

/-- The overlay flag after a mesh update that is given vertex storage. -/
theorem mesh_update_show_overlay (E : Deps) (alloc_ok : Bool) (buffers : GPU_PBVH_Buffers)
    (mvert : List MVert) (vmask : Option (List float)) (vcol : Option (List MLoopCol))
    (sfs : Option (List Int)) (seed dflt : Int) (vtcol : Option (List MPropCol))
    (update_flags : Nat)
    (h : (gpu_pbvh_vert_buf_data_set buffers (buffers.tot_tri * 3) alloc_ok).2 = true) :
    (GPU_pbvh_mesh_buffers_update E alloc_ok buffers mvert vmask vcol sfs seed dflt vtcol
      update_flags).show_overlay =
    (!(mesh_fill E buffers
        (vmask.isSome && (update_flags &&& GPU_PBVH_BUFFERS_SHOW_MASK != 0))
        (sfs.isSome && (update_flags &&& GPU_PBVH_BUFFERS_SHOW_SCULPT_FACE_SETS != 0))
        ((vcol.isSome || (vtcol.isSome && E.use_sculpt_vertex_colors)) &&
          (update_flags &&& GPU_PBVH_BUFFERS_SHOW_VCOL != 0))
        mvert vmask vcol sfs seed dflt vtcol).empty_mask ||
      ((sfs.isSome && (update_flags &&& GPU_PBVH_BUFFERS_SHOW_SCULPT_FACE_SETS != 0)) &&
        (mesh_visible_tris E (buffers.mloop.getD []) (buffers.looptri.getD []) mvert
          (buffers.face_indices.getD []) sfs buffers.face_indices_len).any
          (fun lt => deref sfs lt.poly != dflt))) := by
  unfold GPU_pbvh_mesh_buffers_update
  simp only [h, if_true, mesh_fill_data_set, mesh_fill_default_face_set, Bool.not_not]

theorem grid_vbo_smooth_elem_default_face_set (E : Deps) (key : CCGKey) (grid : List CCGElem)
    (show_mask show_vcol : Bool) (fsc : uchar4) (y : Nat) (s : GridVbo) (x : Nat) :
    (grid_vbo_smooth_elem E key grid show_mask show_vcol fsc y s x).default_face_set =
      s.default_face_set := rfl

theorem grid_vbo_flat_quad_default_face_set (E : Deps) (key : CCGKey) (grid : List CCGElem)
    (show_mask : Bool) (fsc : uchar4) (j : Nat) (s : GridVbo) (k : Nat) :
    (grid_vbo_flat_quad E key grid show_mask fsc j s k).default_face_set =
      s.default_face_set := rfl

/-- One step of the grid loop of `GPU_pbvh_grid_buffers_update` clears `default_face_set` exactly
on a grid whose face-set id differs from the default. -/
theorem grid_vbo_grid_default_face_set (E : Deps) (smooth : Bool)
    (subdiv_ccg : Option SubdivCCG) (grids : List (List CCGElem)) (grid_indices : List Nat)
    (sfs : Option (List Int)) (seed dflt : Int) (key : CCGKey)
    (show_mask show_vcol show_face_sets : Bool) (s : GridVbo) (i : Nat) :
    (grid_vbo_grid E smooth subdiv_ccg grids grid_indices sfs seed dflt key show_mask show_vcol
      show_face_sets s i).default_face_set =
    (s.default_face_set &&
      !grid_face_set_differs E subdiv_ccg grid_indices sfs dflt show_face_sets i) := by
  unfold grid_vbo_grid grid_face_set_differs
  dsimp only
  cases smooth
  · simp only [Bool.false_eq_true, if_false]
    rw [foldl_preserves _ (fun s => s.default_face_set)
      (fun s j => foldl_preserves _ (fun s => s.default_face_set)
        (fun s k => grid_vbo_flat_quad_default_face_set E key _ show_mask _ j s k) _ s)]
    cases subdiv_ccg with
    | none => simp
    | some ccg =>
      dsimp only
      cases show_face_sets <;> cases hs : sfs.isSome <;>
        cases hd : (|deref sfs (E.BKE_subdiv_ccg_grid_to_face_index ccg
          (grid_indices.getD i 0))| != dflt) <;>
        simp only [hs, hd, Bool.and_self, Bool.and_true, Bool.and_false, Bool.true_and,
          Bool.false_and, Bool.false_eq_true, if_true, if_false, Bool.not_true, Bool.not_false]
  · simp only [if_true]
    rw [foldl_preserves _ (fun s => s.default_face_set)
      (fun s y => foldl_preserves _ (fun s => s.default_face_set)
        (fun s x => grid_vbo_smooth_elem_default_face_set E key _ show_mask show_vcol _ y s x)
        _ s)]
    cases subdiv_ccg with
    | none => simp
    | some ccg =>
      dsimp only
      cases show_face_sets <;> cases hs : sfs.isSome <;>
        cases hd : (|deref sfs (E.BKE_subdiv_ccg_grid_to_face_index ccg
          (grid_indices.getD i 0))| != dflt) <;>
        simp only [hs, hd, Bool.and_self, Bool.and_true, Bool.and_false, Bool.true_and,
          Bool.false_and, Bool.false_eq_true, if_true, if_false, Bool.not_true, Bool.not_false]

/-- After the grid loop of `GPU_pbvh_grid_buffers_update`, `default_face_set` has been cleared
exactly when some grid of the node has a face-set id that differs from the default. -/
theorem grid_vbo_default_face_set (E : Deps) (smooth : Bool)
    (subdiv_ccg : Option SubdivCCG) (grids : List (List CCGElem)) (grid_indices : List Nat)
    (totgrid : Nat) (sfs : Option (List Int)) (seed dflt : Int) (key : CCGKey)
    (show_mask show_vcol show_face_sets : Bool) :
    (grid_vbo E smooth subdiv_ccg grids grid_indices totgrid sfs seed dflt key show_mask
      show_vcol show_face_sets).default_face_set =
    !(List.range totgrid).any
      (grid_face_set_differs E subdiv_ccg grid_indices sfs dflt show_face_sets) := by
  unfold grid_vbo
  rw [foldl_flag
    (grid_vbo_grid E smooth subdiv_ccg grids grid_indices sfs seed dflt key show_mask show_vcol
      show_face_sets) GridVbo.default_face_set
    (grid_face_set_differs E subdiv_ccg grid_indices sfs dflt show_face_sets)
    (grid_vbo_grid_default_face_set E smooth subdiv_ccg grids grid_indices sfs seed dflt key
      show_mask show_vcol show_face_sets)]
  rfl

/-- The overlay flag after a grid update that passes the early return and is given vertex
storage. -/
theorem grid_update_show_overlay (E : Deps) (alloc_ok : Bool) (buffers : GPU_PBVH_Buffers)
    (subdiv_ccg : Option SubdivCCG) (grids : List (List CCGElem))
    (grid_flag_mats : List DMFlagMat) (grid_indices : List Nat) (totgrid : Nat)
    (sfs : Option (List Int)) (seed dflt : Int) (key : CCGKey) (update_flags : Nat)
    (hc : (buffers.index_buf.isNone &&
      BKE_pbvh_count_grid_quads E (buffers.grid_hidden.getD []) grid_indices totgrid
        key.grid_size == 0) = false)
    (h : (gpu_pbvh_vert_buf_data_set
        (grid_update_indexed E buffers grid_flag_mats grid_indices totgrid key)
        (totgrid * grid_vert_per_grid (grid_smooth_flag grid_flag_mats grid_indices) key)
        alloc_ok).2 = true) :
    (GPU_pbvh_grid_buffers_update E alloc_ok buffers subdiv_ccg grids grid_flag_mats grid_indices
      totgrid sfs seed dflt key update_flags).show_overlay =
    (!(grid_vbo E (grid_smooth_flag grid_flag_mats grid_indices) subdiv_ccg grids grid_indices
        totgrid sfs seed dflt key
        (update_flags &&& GPU_PBVH_BUFFERS_SHOW_MASK != 0)
        (update_flags &&& GPU_PBVH_BUFFERS_SHOW_VCOL != 0)
        (sfs.isSome &&
          (update_flags &&& GPU_PBVH_BUFFERS_SHOW_SCULPT_FACE_SETS != 0))).empty_mask ||
      (List.range totgrid).any
        (grid_face_set_differs E subdiv_ccg grid_indices sfs dflt
          (sfs.isSome && (update_flags &&& GPU_PBVH_BUFFERS_SHOW_SCULPT_FACE_SETS != 0)))) := by
  rw [grid_update_late_eq E alloc_ok buffers subdiv_ccg grids grid_flag_mats grid_indices
    totgrid sfs seed dflt key update_flags hc]
  simp only [h, if_true, grid_vbo_default_face_set, Bool.not_not]

/-- Testing the elements of a filtered list. -/
theorem any_filter_and {α : Type} (l : List α) (p q : α → Bool) :
    (l.filter p).any q = l.any (fun x => p x && q x) := by
  induction l with
  | nil => rfl
  | cons x rest ih =>
    rw [List.filter_cons]
    cases hp : p x
    · simp [ih, hp]
    · simp [ih, hp]

/-- The second component of `bmesh_face_set_color`: the flag stays unless the face clears it. -/
theorem bmesh_face_set_color_flag (E : Deps) (show_face_sets : Bool) (cd_fset_offset : Int)
    (seed dflt : Int) (f : BMFace) (d : Bool) :
    (bmesh_face_set_color E show_face_sets cd_fset_offset seed dflt f d).2 =
      (d && !bmesh_face_set_differs show_face_sets cd_fset_offset dflt f) := by
  unfold bmesh_face_set_color bmesh_face_set_differs
  dsimp only
  cases show_face_sets <;> cases ho : decide (cd_fset_offset >= 0) <;>
    cases hd : (BM_ELEM_CD_GET_INT f.cd cd_fset_offset != dflt) <;>
    simp only [ho, hd, Bool.and_self, Bool.and_true, Bool.and_false, Bool.true_and,
      Bool.false_and, Bool.false_eq_true, if_true, if_false, Bool.not_true, Bool.not_false]

theorem flat_vcol_corner_default_face_set (E : Deps) (f : BMFace) (cos : Nat → float3)
    (cd_vcols : List Int) (cd_vcol_count : Int) (v_start : Nat) (s : BMeshFill) (j : Nat) :
    (flat_vcol_corner E f cos cd_vcols cd_vcol_count v_start s j).default_face_set =
      s.default_face_set := rfl

/-- One step of the face loop of the flat-vertex-colour strategy clears `default_face_set`
exactly on a non-hidden face of the material whose face-set id differs from the default. -/
theorem flat_vcol_face_default_face_set (E : Deps) (show_face_sets : Bool)
    (cd_fset_offset : Int) (seed dflt : Int) (cd_vcols : List Int) (cd_vcol_count : Int)
    (mat_nr : Int) (s : BMeshFill) (f : BMFace) :
    (flat_vcol_face E show_face_sets cd_fset_offset seed dflt cd_vcols cd_vcol_count mat_nr s
      f).default_face_set =
    (s.default_face_set &&
      !((face_has_material mat_nr f && face_not_hidden f) &&
        bmesh_face_set_differs show_face_sets cd_fset_offset dflt f)) := by
  unfold flat_vcol_face face_has_material face_not_hidden
  cases hm : (f.mat_nr == mat_nr)
  · have : (f.mat_nr != mat_nr) = true := by simp [bne, hm]
    simp [this]
  · have : (f.mat_nr != mat_nr) = false := by simp [bne, hm]
    simp only [this, Bool.false_eq_true, if_false, Bool.true_and]
    cases hh : BM_elem_hidden f.hflag
    · simp only [Bool.not_false, if_true, Bool.true_and]
      rw [foldl_preserves _ (fun s => s.default_face_set)
        (fun s j => flat_vcol_corner_default_face_set E f _ cd_vcols cd_vcol_count _ s j)]
      exact bmesh_face_set_color_flag E show_face_sets cd_fset_offset seed dflt f _
    · simp

/-- The overlay flag after a flat-vertex-colour update that has faces to draw and is given
vertex storage. -/
theorem flat_vcol_update_show_overlay (E : Deps) (alloc_ok : Bool)
    (buffers : GPU_PBVH_Buffers) (bm : BMesh) (bm_faces : TableGSet BMFace)
    (bm_unique_verts bm_other_verts : TableGSet BMVert) (update_flags : Nat)
    (cd_vert_node_offset : Int) (seed dflt : Int) (active_vcol_only : Bool) (mat_nr : Int)
    (hne : gpu_bmesh_face_visible_count bm_faces mat_nr ≠ 0)
    (h : (gpu_pbvh_vert_buf_data_set buffers (gpu_bmesh_face_visible_count bm_faces mat_nr * 6 * 3)
      alloc_ok).2 = true) :
    (GPU_pbvh_bmesh_buffers_update_flat_vcol E alloc_ok buffers bm bm_faces bm_unique_verts
      bm_other_verts update_flags cd_vert_node_offset seed dflt active_vcol_only
      mat_nr).show_overlay =
    (bm_faces.filter (fun f => face_has_material mat_nr f && face_not_hidden f)).any
      (bmesh_face_set_differs
        (E.CustomData_has_layer bm.pdata CD_SCULPT_FACE_SETS &&
          (update_flags &&& GPU_PBVH_BUFFERS_SHOW_SCULPT_FACE_SETS != 0))
        (E.CustomData_get_offset bm.pdata CD_SCULPT_FACE_SETS) dflt) := by
  have h0 : (gpu_bmesh_face_visible_count bm_faces mat_nr * 6 == 0) = false := by
    simp only [beq_eq_false_iff_ne, ne_eq]; omega
  unfold GPU_pbvh_bmesh_buffers_update_flat_vcol
  simp only [h0, Bool.false_eq_true, if_false, h, Bool.not_true]
  rw [gpu_pbvh_batch_init_keeps_field GPU_PBVH_Buffers.show_overlay (fun _ _ _ _ _ _ => rfl)]
  simp only [GPU_indexbuf_build, Bool.not_true, Bool.false_or]
  rw [foldl_flag _ BMeshFill.default_face_set _
    (flat_vcol_face_default_face_set E _ _ seed dflt _ _ mat_nr), any_filter_and]
  simp [bmesh_fill_init]

theorem bmesh_corner_default_face_set (E : Deps) (smooth : Bool) (have_uv show_mask : Bool)
    (cd_vert_mask_offset cd_vert_node_offset cd_mcol_offset cd_uv_offset : Int)
    (cd_vcols : List Int) (cd_vcol_count : Int) (f : BMFace) (l : Nat → BMLoop) (fmask : float)
    (fsc : uchar4) (s : BMeshFill) (i : Nat) :
    (bmesh_corner E smooth have_uv show_mask cd_vert_mask_offset cd_vert_node_offset
      cd_mcol_offset cd_uv_offset cd_vcols cd_vcol_count f l fmask fsc s i).default_face_set =
      s.default_face_set := rfl

/-- One step of the face loop of the non-indexed strategy clears `default_face_set` exactly on a
non-hidden face of the material whose face-set id differs from the default. -/
theorem bmesh_face_default_face_set (E : Deps) (smooth : Bool)
    (have_uv show_mask show_face_sets : Bool)
    (cd_vert_mask_offset cd_vert_node_offset cd_mcol_offset cd_uv_offset cd_fset_offset : Int)
    (seed dflt : Int) (cd_vcols : List Int) (cd_vcol_count : Int) (mat_nr : Int)
    (s : BMeshFill) (f : BMFace) :
    (bmesh_face E smooth have_uv show_mask show_face_sets cd_vert_mask_offset
      cd_vert_node_offset cd_mcol_offset cd_uv_offset cd_fset_offset seed dflt cd_vcols
      cd_vcol_count mat_nr s f).default_face_set =
    (s.default_face_set &&
      !((face_has_material mat_nr f && face_not_hidden f) &&
        bmesh_face_set_differs show_face_sets cd_fset_offset dflt f)) := by
  unfold bmesh_face face_has_material face_not_hidden
  cases hm : (f.mat_nr == mat_nr)
  · have : (f.mat_nr != mat_nr) = true := by simp [bne, hm]
    simp [this]
  · have : (f.mat_nr != mat_nr) = false := by simp [bne, hm]
    simp only [this, Bool.false_eq_true, if_false, Bool.true_and]
    cases hh : BM_elem_hidden f.hflag
    · simp only [Bool.not_false, if_true, Bool.true_and]
      rw [foldl_preserves _ (fun s => s.default_face_set)
        (fun s j => bmesh_corner_default_face_set E smooth have_uv show_mask cd_vert_mask_offset
          cd_vert_node_offset cd_mcol_offset cd_uv_offset cd_vcols cd_vcol_count f _ _ _ s j)]
      exact bmesh_face_set_color_flag E show_face_sets cd_fset_offset seed dflt f _
    · simp

/-- One step of the triangle loop of the non-indexed strategy clears `default_face_set` exactly
on a triangle whose face is not hidden and has a face-set id that differs from the default. -/
theorem bmesh_tess_tri_default_face_set (E : Deps) (smooth : Bool)
    (have_uv show_mask show_face_sets : Bool)
    (cd_vert_mask_offset cd_vert_node_offset cd_mcol_offset cd_uv_offset cd_fset_offset : Int)
    (seed dflt : Int) (cd_vcols : List Int) (cd_vcol_count : Int) (tribuf : PBVHTriBuf)
    (s : BMeshFill) (i : Nat) :
    (bmesh_tess_tri E smooth have_uv show_mask show_face_sets cd_vert_mask_offset
      cd_vert_node_offset cd_mcol_offset cd_uv_offset cd_fset_offset seed dflt cd_vcols
      cd_vcol_count tribuf s i).default_face_set =
    (s.default_face_set &&
      !(face_not_hidden (tribuf.tris.getD i default).f &&
        bmesh_face_set_differs show_face_sets cd_fset_offset dflt
          (tribuf.tris.getD i default).f)) := by
  unfold bmesh_tess_tri face_not_hidden
  dsimp only
  cases hh : BM_elem_hidden (tribuf.tris.getD i default).f.hflag
  · simp only [Bool.false_eq_true, if_false, Bool.not_false, Bool.true_and]
    rw [foldl_preserves _ (fun s => s.default_face_set)
      (fun s j => bmesh_corner_default_face_set E smooth have_uv show_mask cd_vert_mask_offset
        cd_vert_node_offset cd_mcol_offset cd_uv_offset cd_vcols cd_vcol_count _ _ _ _ s j)]
    exact bmesh_face_set_color_flag E show_face_sets cd_fset_offset seed dflt _ _
  · simp

/-- After the vertex loop of the non-indexed strategy, `default_face_set` has been cleared
exactly when one of the primitives it reads has a face-set id that differs from the default. -/
theorem bmesh_nonindexed_fill_default_face_set (E : Deps) (dt smooth : Bool) (bm : BMesh)
    (bm_faces : TableGSet BMFace) (tribuf : PBVHTriBuf) (update_flags : Nat)
    (cd_vert_node_offset : Int) (seed dflt : Int) (active_vcol_only : Bool) (mat_nr : Int) :
    (bmesh_nonindexed_fill E dt smooth bm bm_faces tribuf update_flags cd_vert_node_offset seed
      dflt active_vcol_only mat_nr).default_face_set =
    !(bmesh_nonindexed_faces dt bm_faces tribuf mat_nr).any
      (bmesh_face_set_differs
        (E.CustomData_has_layer bm.pdata CD_SCULPT_FACE_SETS &&
          (update_flags &&& GPU_PBVH_BUFFERS_SHOW_SCULPT_FACE_SETS != 0))
        (E.CustomData_get_offset bm.pdata CD_SCULPT_FACE_SETS) dflt) := by
  unfold bmesh_nonindexed_fill bmesh_nonindexed_faces
  dsimp only
  cases dt
  · simp only [Bool.false_eq_true, if_false]
    rw [foldl_flag _ BMeshFill.default_face_set _
      (bmesh_face_default_face_set E smooth _ _ _ _ _ _ _ _ seed dflt _ _ mat_nr),
      any_filter_and]
    simp [bmesh_fill_init]
  · simp only [if_true]
    rw [foldl_flag _ BMeshFill.default_face_set _
      (bmesh_tess_tri_default_face_set E smooth _ _ _ _ _ _ _ _ seed dflt _ _ tribuf)]
    unfold tribuf_faces
    rw [any_filter_map]
    simp [bmesh_fill_init]

/-- The overlay flag after a non-indexed update that has triangles to draw and is given vertex
storage. -/
theorem bmesh_nonindexed_update_show_overlay (E : Deps) (dt alloc_ok : Bool)
    (buffers : GPU_PBVH_Buffers) (bm : BMesh) (bm_faces : TableGSet BMFace)
    (tribuf : PBVHTriBuf) (update_flags : Nat) (cd_vert_node_offset : Int) (seed dflt : Int)
    (active_vcol_only : Bool) (mat_nr : Int)
    (hne : tribuf.tottri ≠ 0)
    (h : (gpu_pbvh_vert_buf_data_set buffers (tribuf.tottri * 3) alloc_ok).2 = true) :
    (GPU_pbvh_bmesh_buffers_update_nonindexed E dt alloc_ok buffers bm bm_faces tribuf
      update_flags cd_vert_node_offset seed dflt active_vcol_only mat_nr).show_overlay =
    (!(bmesh_nonindexed_fill E dt buffers.smooth bm bm_faces tribuf update_flags
        cd_vert_node_offset seed dflt active_vcol_only mat_nr).empty_mask ||
      (bmesh_nonindexed_faces dt bm_faces tribuf mat_nr).any
        (bmesh_face_set_differs
          (E.CustomData_has_layer bm.pdata CD_SCULPT_FACE_SETS &&
            (update_flags &&& GPU_PBVH_BUFFERS_SHOW_SCULPT_FACE_SETS != 0))
          (E.CustomData_get_offset bm.pdata CD_SCULPT_FACE_SETS) dflt)) := by
  have h0 : (tribuf.tottri == 0) = false := by
    simp only [beq_eq_false_iff_ne, ne_eq]; exact hne
  rw [← Bool.not_not ((bmesh_nonindexed_faces dt bm_faces tribuf mat_nr).any _),
    ← bmesh_nonindexed_fill_default_face_set E dt buffers.smooth bm bm_faces tribuf update_flags
      cd_vert_node_offset seed dflt active_vcol_only mat_nr]
  unfold GPU_pbvh_bmesh_buffers_update_nonindexed
  simp only [h0, Bool.false_eq_true, if_false, h, Bool.not_true]
  rw [gpu_pbvh_batch_init_keeps_field GPU_PBVH_Buffers.show_overlay (fun _ _ _ _ _ _ => rfl)]
  simp only [GPU_indexbuf_build, vert_buf_data_set_smooth]
  rfl

/-- The overlay flag after an indexed update that has triangles to draw and is given vertex
storage: no face-set id is read. -/
theorem bmesh_indexed_update_show_overlay (E : Deps) (alloc_ok : Bool)
    (buffers : GPU_PBVH_Buffers) (bm : BMesh) (bm_faces : TableGSet BMFace)
    (bm_unique_verts bm_other_verts : TableGSet BMVert) (tribuf : PBVHTriBuf)
    (update_flags : Nat) (cd_vert_node_offset : Int) (seed dflt : Int)
    (flat_vcol active_vcol_only : Bool) (mat_nr : Int)
    (hne : tribuf.tottri ≠ 0)
    (h : (gpu_pbvh_vert_buf_data_set buffers tribuf.totvert alloc_ok).2 = true) :
    (GPU_pbvh_bmesh_buffers_update_indexed E alloc_ok buffers bm bm_faces bm_unique_verts
      bm_other_verts tribuf update_flags cd_vert_node_offset seed dflt flat_vcol
      active_vcol_only mat_nr).show_overlay =
    !(bmesh_indexed_verts E bm tribuf update_flags cd_vert_node_offset
      active_vcol_only).empty_mask := by
  have h0 : (tribuf.tottri == 0) = false := by
    simp only [beq_eq_false_iff_ne, ne_eq]; exact hne
  unfold GPU_pbvh_bmesh_buffers_update_indexed bmesh_indexed_verts
  simp only [h0, Bool.false_eq_true, if_false, h, Bool.not_true]
  rw [gpu_pbvh_batch_init_keeps_field GPU_PBVH_Buffers.show_overlay (fun _ _ _ _ _ _ => rfl)]
  simp only [GPU_indexbuf_build, Bool.not_true, Bool.or_false]

/-- C11 as amended: the overlay flag after an update that is given vertex storage is set iff a
non-zero mask value was written (`empty_mask` cleared) or `default_face_set` was cleared, and
the latter happens exactly as follows.  Mesh update: face sets are shown and a visible triangle
has a face-set id other than the default.  Grid update: a subdivision surface is given, face
sets are shown, and a grid of the node has a face-set id whose absolute value is not the
default.  Flat-vertex-colour and non-indexed dynamic-topology updates: face sets are shown, the
face-set layer exists, and a non-hidden face of the material (a non-hidden triangle of the
flattened buffer in the `DYNTOPO_DYNAMIC_TESS` variant) has a face-set id other than the
default.  The indexed dynamic-topology update reads no face-set id: its flag is set iff a
non-zero mask value was written. -/
theorem show_overlay_after_update (E : Deps) (dt alloc_ok : Bool)
    (buffers : GPU_PBVH_Buffers)
    (mvert : List MVert) (vmask : Option (List float)) (vcol : Option (List MLoopCol))
    (sfs : Option (List Int)) (seed dflt : Int) (vtcol : Option (List MPropCol))
    (update_flags : Nat)
    (subdiv_ccg : Option SubdivCCG) (grids : List (List CCGElem))
    (grid_flag_mats : List DMFlagMat) (grid_indices : List Nat) (totgrid : Nat) (key : CCGKey)
    (bm : BMesh) (bm_faces : TableGSet BMFace)
    (bm_unique_verts bm_other_verts : TableGSet BMVert) (tribuf : PBVHTriBuf)
    (cd_vert_node_offset : Int) (flat_vcol active_vcol_only : Bool) (mat_nr : Int) :
    ((gpu_pbvh_vert_buf_data_set buffers (buffers.tot_tri * 3) alloc_ok).2 = true →
      (GPU_pbvh_mesh_buffers_update E alloc_ok buffers mvert vmask vcol sfs seed dflt vtcol
        update_flags).show_overlay =
      (!(mesh_fill E buffers
          (vmask.isSome && (update_flags &&& GPU_PBVH_BUFFERS_SHOW_MASK != 0))
          (sfs.isSome && (update_flags &&& GPU_PBVH_BUFFERS_SHOW_SCULPT_FACE_SETS != 0))
          ((vcol.isSome || (vtcol.isSome && E.use_sculpt_vertex_colors)) &&
            (update_flags &&& GPU_PBVH_BUFFERS_SHOW_VCOL != 0))
          mvert vmask vcol sfs seed dflt vtcol).empty_mask ||
        ((sfs.isSome && (update_flags &&& GPU_PBVH_BUFFERS_SHOW_SCULPT_FACE_SETS != 0)) &&
          (mesh_visible_tris E (buffers.mloop.getD []) (buffers.looptri.getD []) mvert
            (buffers.face_indices.getD []) sfs buffers.face_indices_len).any
            (fun lt => deref sfs lt.poly != dflt)))) ∧
    ((buffers.index_buf.isNone &&
        BKE_pbvh_count_grid_quads E (buffers.grid_hidden.getD []) grid_indices totgrid
          key.grid_size == 0) = false →
      (gpu_pbvh_vert_buf_data_set
        (grid_update_indexed E buffers grid_flag_mats grid_indices totgrid key)
        (totgrid * grid_vert_per_grid (grid_smooth_flag grid_flag_mats grid_indices) key)
        alloc_ok).2 = true →
      (GPU_pbvh_grid_buffers_update E alloc_ok buffers subdiv_ccg grids grid_flag_mats
        grid_indices totgrid sfs seed dflt key update_flags).show_overlay =
      (!(grid_vbo E (grid_smooth_flag grid_flag_mats grid_indices) subdiv_ccg grids grid_indices
          totgrid sfs seed dflt key
          (update_flags &&& GPU_PBVH_BUFFERS_SHOW_MASK != 0)
          (update_flags &&& GPU_PBVH_BUFFERS_SHOW_VCOL != 0)
          (sfs.isSome &&
            (update_flags &&& GPU_PBVH_BUFFERS_SHOW_SCULPT_FACE_SETS != 0))).empty_mask ||
        (List.range totgrid).any
          (grid_face_set_differs E subdiv_ccg grid_indices sfs dflt
            (sfs.isSome &&
              (update_flags &&& GPU_PBVH_BUFFERS_SHOW_SCULPT_FACE_SETS != 0))))) ∧
    (gpu_bmesh_face_visible_count bm_faces mat_nr ≠ 0 →
      (gpu_pbvh_vert_buf_data_set buffers (gpu_bmesh_face_visible_count bm_faces mat_nr * 6 * 3)
        alloc_ok).2 = true →
      (GPU_pbvh_bmesh_buffers_update_flat_vcol E alloc_ok buffers bm bm_faces bm_unique_verts
        bm_other_verts update_flags cd_vert_node_offset seed dflt active_vcol_only
        mat_nr).show_overlay =
      (bm_faces.filter (fun f => face_has_material mat_nr f && face_not_hidden f)).any
        (bmesh_face_set_differs
          (E.CustomData_has_layer bm.pdata CD_SCULPT_FACE_SETS &&
            (update_flags &&& GPU_PBVH_BUFFERS_SHOW_SCULPT_FACE_SETS != 0))
          (E.CustomData_get_offset bm.pdata CD_SCULPT_FACE_SETS) dflt)) ∧
    (tribuf.tottri ≠ 0 →
      (gpu_pbvh_vert_buf_data_set buffers (tribuf.tottri * 3) alloc_ok).2 = true →
      (GPU_pbvh_bmesh_buffers_update_nonindexed E dt alloc_ok buffers bm bm_faces tribuf
        update_flags cd_vert_node_offset seed dflt active_vcol_only mat_nr).show_overlay =
      (!(bmesh_nonindexed_fill E dt buffers.smooth bm bm_faces tribuf update_flags
          cd_vert_node_offset seed dflt active_vcol_only mat_nr).empty_mask ||
        (bmesh_nonindexed_faces dt bm_faces tribuf mat_nr).any
          (bmesh_face_set_differs
            (E.CustomData_has_layer bm.pdata CD_SCULPT_FACE_SETS &&
              (update_flags &&& GPU_PBVH_BUFFERS_SHOW_SCULPT_FACE_SETS != 0))
            (E.CustomData_get_offset bm.pdata CD_SCULPT_FACE_SETS) dflt))) ∧
    (tribuf.tottri ≠ 0 →
      (gpu_pbvh_vert_buf_data_set buffers tribuf.totvert alloc_ok).2 = true →
      (GPU_pbvh_bmesh_buffers_update_indexed E alloc_ok buffers bm bm_faces bm_unique_verts
        bm_other_verts tribuf update_flags cd_vert_node_offset seed dflt flat_vcol
        active_vcol_only mat_nr).show_overlay =
      !(bmesh_indexed_verts E bm tribuf update_flags cd_vert_node_offset
        active_vcol_only).empty_mask) :=
  ⟨mesh_update_show_overlay E alloc_ok buffers mvert vmask vcol sfs seed dflt vtcol
      update_flags,
   grid_update_show_overlay E alloc_ok buffers subdiv_ccg grids grid_flag_mats grid_indices
      totgrid sfs seed dflt key update_flags,
   flat_vcol_update_show_overlay E alloc_ok buffers bm bm_faces bm_unique_verts bm_other_verts
      update_flags cd_vert_node_offset seed dflt active_vcol_only mat_nr,
   bmesh_nonindexed_update_show_overlay E dt alloc_ok buffers bm bm_faces tribuf update_flags
      cd_vert_node_offset seed dflt active_vcol_only mat_nr,
   bmesh_indexed_update_show_overlay E alloc_ok buffers bm bm_faces bm_unique_verts
      bm_other_verts tribuf update_flags cd_vert_node_offset seed dflt flat_vcol
      active_vcol_only mat_nr⟩

/-- Instance of C11 as amended, face sets shown (flag 8) and no mask shown, default id 1: the
one-triangle mesh with face-set id 1 keeps the flag false; one grid whose face has id -1 keeps
it false as well; the dynamic-topology face with id 5 sets it in the flat-vertex-colour and
non-indexed strategies and not in the indexed one. -/
theorem show_overlay_after_update_witness :
    (gpu_pbvh_vert_buf_data_set tri_buffers_built (tri_buffers_built.tot_tri * 3) true).2
      = true ∧
    (GPU_pbvh_mesh_buffers_update deps_plain true tri_buffers_built tri_mvert none none
      (some [1]) 0 1 none 8).show_overlay = false ∧
    (GPU_pbvh_grid_buffers_update deps_plain true (GPU_pbvh_grid_buffers_build 1 [none])
      (some default) one_grid one_grid_flag_mats [0] 1 (some [-1]) 0 1 one_grid_key
      8).show_overlay = false ∧
    gpu_bmesh_face_visible_count [face_fset5] 0 ≠ 0 ∧
    (GPU_pbvh_bmesh_buffers_update_flat_vcol deps_plain true (GPU_pbvh_bmesh_buffers_build true)
      fset_bmesh [face_fset5] [] [] 8 0 0 1 false 0).show_overlay = true ∧
    tribuf_fset5.tottri ≠ 0 ∧
    (GPU_pbvh_bmesh_buffers_update_nonindexed deps_plain true true
      (GPU_pbvh_bmesh_buffers_build false) fset_bmesh [face_fset5] tribuf_fset5 8 0 0 1 false
      0).show_overlay = true ∧
    (GPU_pbvh_bmesh_buffers_update_indexed deps_plain true (GPU_pbvh_bmesh_buffers_build true)
      fset_bmesh [face_fset5] [] [] tribuf_fset5 8 0 0 1 false false 0).show_overlay = false :=
  ⟨by decide,
   ((show_overlay_after_update deps_plain true true tri_buffers_built tri_mvert none none
      (some [1]) 0 1 none 8 (some default) one_grid one_grid_flag_mats [0] 1 one_grid_key
      fset_bmesh [face_fset5] [] [] tribuf_fset5 0 false false 0).1 (by decide)).trans
      (by decide),
   ((show_overlay_after_update deps_plain true true (GPU_pbvh_grid_buffers_build 1 [none])
      tri_mvert none none (some [-1]) 0 1 none 8 (some default) one_grid one_grid_flag_mats [0]
      1 one_grid_key fset_bmesh [face_fset5] [] [] tribuf_fset5 0 false false 0).2.1
      (by decide) (by decide)).trans (by decide),
   by decide,
   ((show_overlay_after_update deps_plain true true (GPU_pbvh_bmesh_buffers_build true)
      tri_mvert none none (some [1]) 0 1 none 8 (some default) one_grid one_grid_flag_mats [0]
      1 one_grid_key fset_bmesh [face_fset5] [] [] tribuf_fset5 0 false false 0).2.2.1
      (by decide) (by decide)).trans (by decide),
   by decide,
   ((show_overlay_after_update deps_plain true true (GPU_pbvh_bmesh_buffers_build false)
      tri_mvert none none (some [1]) 0 1 none 8 (some default) one_grid one_grid_flag_mats [0]
      1 one_grid_key fset_bmesh [face_fset5] [] [] tribuf_fset5 0 false false 0).2.2.2.1
      (by decide) (by decide)).trans (by decide),
   ((show_overlay_after_update deps_plain true true (GPU_pbvh_bmesh_buffers_build true)
      tri_mvert none none (some [1]) 0 1 none 8 (some default) one_grid one_grid_flag_mats [0]
      1 one_grid_key fset_bmesh [face_fset5] [] [] tribuf_fset5 0 false false 0).2.2.2.2
      (by decide) (by decide)).trans (by decide)⟩

/-- C11 fails as stated for the indexed dynamic-topology strategy: a smooth node without UV
layer whose one face has face-set id 5, updated with face sets shown (the layer exists, flag 8
is set), default id 1, vertex storage provided and no mask shown, has the overlay flag false
afterwards; the same node with flat shading, which takes the non-indexed strategy, has it
true. -/
theorem show_overlay_after_update_counterexample :
    (deps_plain.CustomData_has_layer fset_bmesh.pdata CD_SCULPT_FACE_SETS &&
      (8 &&& GPU_PBVH_BUFFERS_SHOW_SCULPT_FACE_SETS != 0)) = true ∧
    BM_ELEM_CD_GET_INT face_fset5.cd
      (deps_plain.CustomData_get_offset fset_bmesh.pdata CD_SCULPT_FACE_SETS) = 5 ∧
    ((GPU_pbvh_bmesh_buffers_update deps_plain true true (GPU_pbvh_bmesh_buffers_build true)
      fset_bmesh [face_fset5] [] [] tribuf_fset5 8 0 0 1 false false 0).vert_buf.bind
        (fun vb => vb.data)).isSome = true ∧
    (GPU_pbvh_bmesh_buffers_update deps_plain true true (GPU_pbvh_bmesh_buffers_build true)
      fset_bmesh [face_fset5] [] [] tribuf_fset5 8 0 0 1 false false 0).tot_tri = 1 ∧
    (GPU_pbvh_bmesh_buffers_update deps_plain true true (GPU_pbvh_bmesh_buffers_build true)
      fset_bmesh [face_fset5] [] [] tribuf_fset5 8 0 0 1 false false 0).show_overlay = false ∧
    (GPU_pbvh_bmesh_buffers_update deps_plain true true (GPU_pbvh_bmesh_buffers_build false)
      fset_bmesh [face_fset5] [] [] tribuf_fset5 8 0 0 1 false false 0).show_overlay = true := by
  decide

/-! ### Material, shading mode and wireframe of a mesh node -/

/-- C24 as amended: every visible triangle gets its own lines, one per real edge, between its
own three vertex slots, so an edge shared by two visible triangles is represented twice: a node
of two visible triangles whose edges are all real has the six lines 0-1, 1-2, 2-0, 3-4, 4-5,
5-3 in its wireframe index buffer. -/
theorem mesh_build_wire_lines_two_triangles (E : Deps) (mpoly : List MPoly)
    (mloop : List MLoop) (looptri : List MLoopTri) (mvert : List MVert)
    (face_indices : List Nat) (sfs : Option (List Int)) (len : Nat) (mesh : Mesh)
    (t1 t2 : MLoopTri)
    (hvis : mesh_visible_tris E mloop looptri mvert face_indices sfs len = [t1, t2])
    (hr1 : ∀ e, e < 3 → E.BKE_mesh_looptri_get_real_edges mesh t1 e ≠ -1)
    (hr2 : ∀ e, e < 3 → E.BKE_mesh_looptri_get_real_edges mesh t2 e ≠ -1) :
    (GPU_pbvh_mesh_buffers_build E mpoly mloop looptri mvert face_indices sfs len
      mesh).index_lines_buf =
      some ⟨0, GPU_PRIM_LINES, [0, 1, 1, 2, 2, 0, 3, 4, 4, 5, 5, 3]⟩ ∧
    (GPU_pbvh_mesh_buffers_build E mpoly mloop looptri mvert face_indices sfs len
      mesh).index_lines_buf.map GPUIndexBuf.prim_count = some 6 := by
  have hb := mesh_build_eq_of_visible E mpoly mloop looptri mvert face_indices sfs len mesh
    (by rw [hvis]; simp)
  have hl : mesh_wire_lines E mesh [t1, t2] 0 = [0, 1, 1, 2, 2, 0, 3, 4, 4, 5, 5, 3] := by
    have a0 := hr1 0 (by decide)
    have a1 := hr1 1 (by decide)
    have a2 := hr1 2 (by decide)
    have b0 := hr2 0 (by decide)
    have b1 := hr2 1 (by decide)
    have b2 := hr2 2 (by decide)
    simp [mesh_wire_lines, real_edge_lines, a0, a1, a2, b0, b1, b2]
  rw [hb, hvis, hl]
  exact ⟨rfl, rfl⟩

/-- Instance of C24 as amended: the pair of triangles sharing the real edge between vertices 0
and 2, both visible. -/
theorem mesh_build_wire_lines_two_triangles_witness :
    mesh_visible_tris deps_mesh pair_mloop pair_looptri pair_mvert [0, 1] (some [1, 1]) 2 =
      [⟨0, 1, 2, 0⟩, ⟨3, 4, 5, 1⟩] ∧
    deps_mesh.BKE_mesh_looptri_get_real_edges pair_mesh ⟨0, 1, 2, 0⟩ 2 = 2 ∧
    deps_mesh.BKE_mesh_looptri_get_real_edges pair_mesh ⟨3, 4, 5, 1⟩ 0 = 2 ∧
    (GPU_pbvh_mesh_buffers_build deps_mesh pair_mpoly pair_mloop pair_looptri pair_mvert [0, 1]
      (some [1, 1]) 2 pair_mesh).index_lines_buf.map GPUIndexBuf.prim_count = some 6 :=
  ⟨by decide, by decide, by decide,
   (mesh_build_wire_lines_two_triangles deps_mesh pair_mpoly pair_mloop pair_looptri pair_mvert
      [0, 1] (some [1, 1]) 2 pair_mesh ⟨0, 1, 2, 0⟩ ⟨3, 4, 5, 1⟩ (by decide) (by decide)
      (by decide)).2⟩

/-- C24 fails as stated: the pair of triangles, both visible, share the real edge 2 (side 2 of
the first, side 0 of the second), all six sides are real, and the wireframe index buffer of the
node holds 6 lines, not 5. -/
theorem mesh_build_wire_lines_two_triangles_counterexample :
    (mesh_visible_tris deps_mesh pair_mloop pair_looptri pair_mvert [0, 1] (some [1, 1])
      2).length = 2 ∧
    (List.range 3).map (deps_mesh.BKE_mesh_looptri_get_real_edges pair_mesh ⟨0, 1, 2, 0⟩) =
      [0, 1, 2] ∧
    (List.range 3).map (deps_mesh.BKE_mesh_looptri_get_real_edges pair_mesh ⟨3, 4, 5, 1⟩) =
      [2, 3, 4] ∧
    (GPU_pbvh_mesh_buffers_build deps_mesh pair_mpoly pair_mloop pair_looptri pair_mvert [0, 1]
      (some [1, 1]) 2 pair_mesh).index_lines_buf.map (fun ib => ib.index) =
      some [0, 1, 1, 2, 2, 0, 3, 4, 4, 5, 5, 3] ∧
    (GPU_pbvh_mesh_buffers_build deps_mesh pair_mpoly pair_mloop pair_looptri pair_mvert [0, 1]
      (some [1, 1]) 2 pair_mesh).index_lines_buf.map GPUIndexBuf.prim_count = some 6 := by
  decide

/-! ### Index buffer reuse, colours and the shape of the flat-vertex-colour fan -/

/-- C28: in the indexed dynamic-topology strategy, given triangles to draw and vertex storage,
a node buffer object that owns a triangle index buffer has that buffer filled in place: after
the update `index_buf` is the same object (same handle) holding the triangles of the flattened
buffer.  Only when the object owns none is a new index buffer built, with a fresh handle. -/
theorem bmesh_indexed_index_buf_in_place (E : Deps) (alloc_ok : Bool)
    (buffers : GPU_PBVH_Buffers) (bm : BMesh) (bm_faces : TableGSet BMFace)
    (bm_unique_verts bm_other_verts : TableGSet BMVert) (tribuf : PBVHTriBuf)
    (update_flags : Nat) (cd_vert_node_offset : Int) (seed dflt : Int)
    (flat_vcol active_vcol_only : Bool) (mat_nr : Int)
    (hne : tribuf.tottri ≠ 0)
    (h : (gpu_pbvh_vert_buf_data_set buffers tribuf.totvert alloc_ok).2 = true) :
    (∀ old, buffers.index_buf = some old →
      (GPU_pbvh_bmesh_buffers_update_indexed E alloc_ok buffers bm bm_faces bm_unique_verts
        bm_other_verts tribuf update_flags cd_vert_node_offset seed dflt flat_vcol
        active_vcol_only mat_nr).index_buf =
      some ⟨old.handle, GPU_PRIM_TRIS,
        (List.range tribuf.tottri).flatMap (tribuf_tri_indices tribuf)⟩) ∧
    (buffers.index_buf = none →
      (GPU_pbvh_bmesh_buffers_update_indexed E alloc_ok buffers bm bm_faces bm_unique_verts
        bm_other_verts tribuf update_flags cd_vert_node_offset seed dflt flat_vcol
        active_vcol_only mat_nr).index_buf =
      some ⟨(gpu_pbvh_vert_buf_data_set buffers tribuf.totvert alloc_ok).1.next_handle,
        GPU_PRIM_TRIS, (List.range tribuf.tottri).flatMap (tribuf_tri_indices tribuf)⟩ ∧
      buffers.next_handle ≤
        (gpu_pbvh_vert_buf_data_set buffers tribuf.totvert alloc_ok).1.next_handle) := by
  have h0 : (tribuf.tottri == 0) = false := by
    simp only [beq_eq_false_iff_ne, ne_eq]; exact hne
  constructor
  · intro old hold
    unfold GPU_pbvh_bmesh_buffers_update_indexed
    simp only [h0, Bool.false_eq_true, if_false, h, Bool.not_true,
      gpu_pbvh_batch_init_index_buf, indexed_tri_fold, GPU_indexbuf_build, vert_buf_write,
      vert_buf_data_set_index_buf, hold]
    simp [GPUIndexBufBuilder.extend, GPU_indexbuf_init, GPU_indexbuf_build_in_place]
  · intro hnone
    constructor
    · unfold GPU_pbvh_bmesh_buffers_update_indexed
      simp only [h0, Bool.false_eq_true, if_false, h, Bool.not_true,
        gpu_pbvh_batch_init_index_buf, indexed_tri_fold, GPU_indexbuf_build, vert_buf_write,
        vert_buf_data_set_index_buf, hnone]
      simp [GPUIndexBufBuilder.extend, GPU_indexbuf_init]
    · unfold gpu_pbvh_vert_buf_data_set
      cases hvb : buffers.vert_buf with
      | none => simp
      | some vb => simp [hvb]

/-- Instance of C28: the first update of a fresh smooth node builds the index buffer with handle
1; a second update of that node fills the same buffer in place. -/
theorem bmesh_indexed_index_buf_in_place_witness :
    tribuf_mat1.tottri ≠ 0 ∧
    (gpu_pbvh_vert_buf_data_set (GPU_pbvh_bmesh_buffers_build true) tribuf_mat1.totvert true).2
      = true ∧
    indexed_once.index_buf = some ⟨1, GPU_PRIM_TRIS, [0, 1, 2]⟩ ∧
    (gpu_pbvh_vert_buf_data_set indexed_once tribuf_mat1.totvert true).2 = true ∧
    (GPU_pbvh_bmesh_buffers_update_indexed deps_plain true indexed_once plain_bmesh [face_mat1]
      [] [] tribuf_mat1 0 0 0 1 false false 1).index_buf =
      some ⟨1, GPU_PRIM_TRIS, (List.range tribuf_mat1.tottri).flatMap
        (tribuf_tri_indices tribuf_mat1)⟩ :=
  ⟨by decide, by decide,
   ((bmesh_indexed_index_buf_in_place deps_plain true (GPU_pbvh_bmesh_buffers_build true)
      plain_bmesh [face_mat1] [] [] tribuf_mat1 0 0 0 1 false false 1 (by decide)
      (by decide)).2 rfl).1,
   by decide,
   (bmesh_indexed_index_buf_in_place deps_plain true indexed_once plain_bmesh [face_mat1] [] []
      tribuf_mat1 0 0 0 1 false false 1 (by decide) (by decide)).1 ⟨1, GPU_PRIM_TRIS, [0, 1, 2]⟩
      (by decide)⟩

/-- The count returned by `gpu_pbvh_bmesh_make_vcol_offs` is never negative. -/
theorem make_vcol_offs_count_nonneg (E : Deps) (vdata : CustomData) (active_only : Bool) :
    0 ≤ (gpu_pbvh_bmesh_make_vcol_offs E vdata active_only).2.2 := by
  unfold gpu_pbvh_bmesh_make_vcol_offs
  dsimp only
  split_ifs
  · show (0 : Int) ≤ 1
    decide
  · show (0 : Int) ≤ 0
    decide
  · exact Int.ofNat_nonneg _

/-- C27, what the code does: the colour count that the non-indexed strategy tests with
`cd_vcol_count >= 0` is the result of `gpu_pbvh_bmesh_make_vcol_offs`, which is never negative,
so the branch that reads the per-corner colour layer is never taken: the corner step gives the
same result as for a mesh without per-corner layer (offset -1), and when there is no per-vertex
colour layer (count 0) it writes no colour at all. -/
theorem bmesh_corner_colour_source (E : Deps) (smooth have_uv show_mask : Bool)
    (cd_vert_mask_offset cd_vert_node_offset cd_mcol_offset cd_uv_offset : Int)
    (vdata : CustomData) (active_only : Bool) (f : BMFace) (l : Nat → BMLoop) (fmask : float)
    (fsc : uchar4) (s : BMeshFill) (i : Nat) :
    0 ≤ (gpu_pbvh_bmesh_make_vcol_offs E vdata active_only).2.2 ∧
    bmesh_corner E smooth have_uv show_mask cd_vert_mask_offset cd_vert_node_offset
      cd_mcol_offset cd_uv_offset (gpu_pbvh_bmesh_make_vcol_offs E vdata active_only).1
      (gpu_pbvh_bmesh_make_vcol_offs E vdata active_only).2.2 f l fmask fsc s i =
    bmesh_corner E smooth have_uv show_mask cd_vert_mask_offset cd_vert_node_offset
      (-1) cd_uv_offset (gpu_pbvh_bmesh_make_vcol_offs E vdata active_only).1
      (gpu_pbvh_bmesh_make_vcol_offs E vdata active_only).2.2 f l fmask fsc s i ∧
    ((gpu_pbvh_bmesh_make_vcol_offs E vdata active_only).2.2 = 0 →
      ((bmesh_corner E smooth have_uv show_mask cd_vert_mask_offset cd_vert_node_offset
        cd_mcol_offset cd_uv_offset (gpu_pbvh_bmesh_make_vcol_offs E vdata active_only).1
        (gpu_pbvh_bmesh_make_vcol_offs E vdata active_only).2.2 f l fmask fsc s
        i).writes.filter is_col_write) = s.writes.filter is_col_write) := by
  have h0 := make_vcol_offs_count_nonneg E vdata active_only
  have hge : ((gpu_pbvh_bmesh_make_vcol_offs E vdata active_only).2.2 ≥ 0) = True := by
    simp only [ge_iff_le, eq_iff_iff, iff_true]; exact h0
  refine ⟨h0, ?_, ?_⟩
  · unfold bmesh_corner
    simp only [hge, if_true]
  · intro hz
    unfold bmesh_corner
    simp only [hz, ge_iff_le, le_refl, if_true, Int.toNat_zero, vcol_writes, List.range_zero,
      List.map_nil, List.append_nil, gpu_bmesh_vert_to_buffer_copy, Bool.false_and,
      Bool.false_eq_true, if_false, List.filter_append]
    cases show_mask <;> cases have_uv <;> simp [is_col_write]

/-- Instance of C27 on a mesh without per-vertex colour layer and with a per-corner colour layer
whose corners carry the colour (10, 20, 30, 255): the corner step writes no colour, and the
whole non-indexed update, colours shown, writes three vertices and no colour in either
variant. -/
theorem bmesh_corner_colour_source_witness :
    (gpu_pbvh_bmesh_make_vcol_offs deps_plain mcol_bmesh.vdata false).2.2 = 0 ∧
    deps_plain.CustomData_get_offset mcol_bmesh.ldata CD_MLOOPCOL = 0 ∧
    BM_ELEM_CD_GET_LOOPCOL (mcol_face.l 0).cd 0 = ⟨10, 20, 30, 255⟩ ∧
    ((bmesh_corner deps_plain false false false (-1) 0 0 (-1)
      (gpu_pbvh_bmesh_make_vcol_offs deps_plain mcol_bmesh.vdata false).1
      (gpu_pbvh_bmesh_make_vcol_offs deps_plain mcol_bmesh.vdata false).2.2 mcol_face
      mcol_face.l default default (bmesh_fill_init default) 0).writes.filter is_col_write) =
      (bmesh_fill_init default).writes.filter is_col_write ∧
    ((GPU_pbvh_bmesh_buffers_update deps_plain false true (GPU_pbvh_bmesh_buffers_build false)
      mcol_bmesh [mcol_face] [] [] mcol_tribuf 4 0 0 1 false false 0).vert_buf.bind
        (fun vb => vb.data)).map (fun d => ((pos_writes d).length, d.filter is_col_write)) =
      some (3, []) ∧
    ((GPU_pbvh_bmesh_buffers_update deps_plain true true (GPU_pbvh_bmesh_buffers_build false)
      mcol_bmesh [mcol_face] [] [] mcol_tribuf 4 0 0 1 false false 0).vert_buf.bind
        (fun vb => vb.data)).map (fun d => ((pos_writes d).length, d.filter is_col_write)) =
      some (3, []) :=
  ⟨by decide, by decide, by decide,
   (bmesh_corner_colour_source deps_plain false false false (-1) 0 0 (-1) mcol_bmesh.vdata false
      mcol_face mcol_face.l default default (bmesh_fill_init default) 0).2.2 (by decide),
   by decide, by decide⟩

theorem pos_writes_vcol_writes (E : Deps) (v : BMVert) (v_index : Nat) (offs : List Int)
    (n : Nat) : pos_writes (vcol_writes E v v_index offs n) = [] := by
  unfold pos_writes vcol_writes
  rw [List.filterMap_map]
  apply List.filterMap_eq_nil_iff.mpr
  intro a _
  rfl

theorem pos_writes_flat_vcol_make_vert (E : Deps) (co : float3) (v : BMVert) (v_index : Nat)
    (offs : List Int) (n : Int) (fno : Option float3) :
    pos_writes (gpu_flat_vcol_make_vert E co v v_index offs n fno) = [(v_index, co)] := by
  unfold gpu_flat_vcol_make_vert
  rw [pos_writes_append, pos_writes_vcol_writes]
  rfl

/-- One corner step of the flat-vertex-colour strategy: six position records at six consecutive
slots and the line from the first slot to `next`. -/
theorem flat_vcol_corner_effect (E : Deps) (f : BMFace) (cos : Nat → float3)
    (cd_vcols : List Int) (cd_vcol_count : Int) (v_start : Nat) (s : BMeshFill) (j : Nat) :
    (flat_vcol_corner E f cos cd_vcols cd_vcol_count v_start s j).v_index = s.v_index + 6 ∧
    (flat_vcol_corner E f cos cd_vcols cd_vcol_count v_start s j).elb_lines =
      s.elb_lines.extend [s.v_index, if j == 2 then v_start else s.v_index + 6] ∧
    pos_writes (flat_vcol_corner E f cos cd_vcols cd_vcol_count v_start s j).writes =
      pos_writes s.writes ++
        [(s.v_index, (f.v j).co), (s.v_index + 1, cos (3 + j % 3)), (s.v_index + 2, cos 6),
         (s.v_index + 3, (f.v j).co), (s.v_index + 4, cos 6),
         (s.v_index + 5, cos (3 + (j + 3 - 1) % 3))] := by
  refine ⟨rfl, rfl, ?_⟩
  unfold flat_vcol_corner
  simp only [pos_writes_append, pos_writes_flat_vcol_make_vert, List.append_assoc,
    List.singleton_append, List.cons_append, List.nil_append]

/-- One visible face in the flat-vertex-colour strategy: eighteen position records at eighteen
consecutive slots and three lines joining the first slots of the three corner fans. -/
theorem flat_vcol_face_effect (E : Deps) (show_face_sets : Bool) (cd_fset_offset : Int)
    (seed dflt : Int) (cd_vcols : List Int) (cd_vcol_count : Int) (mat_nr : Int)
    (s : BMeshFill) (f : BMFace)
    (hv : (face_has_material mat_nr f && face_not_hidden f) = true) :
    (flat_vcol_face E show_face_sets cd_fset_offset seed dflt cd_vcols cd_vcol_count mat_nr s
      f).v_index = s.v_index + 18 ∧
    (flat_vcol_face E show_face_sets cd_fset_offset seed dflt cd_vcols cd_vcol_count mat_nr s
      f).elb_lines =
      s.elb_lines.extend [s.v_index, s.v_index + 6, s.v_index + 6, s.v_index + 12,
        s.v_index + 12, s.v_index] ∧
    pos_writes (flat_vcol_face E show_face_sets cd_fset_offset seed dflt cd_vcols cd_vcol_count
      mat_nr s f).writes =
      pos_writes s.writes ++ (flat_vcol_face_cos E f).enumFrom s.v_index := by
  simp only [Bool.and_eq_true, face_has_material, face_not_hidden, beq_iff_eq,
    Bool.not_eq_true'] at hv
  have hm : (f.mat_nr != mat_nr) = false := by simp [bne, hv.1]
  have hr : List.range 3 = [0, 1, 2] := rfl
  unfold flat_vcol_face
  simp only [hm, Bool.false_eq_true, if_false, hv.2, Bool.not_false, if_true, hr,
    List.foldl_cons, List.foldl_nil]
  refine ⟨?_, ?_, ?_⟩
  · simp only [(flat_vcol_corner_effect E f _ cd_vcols cd_vcol_count _ _ _).1]
  · simp only [(flat_vcol_corner_effect E f _ cd_vcols cd_vcol_count _ _ _).2.1,
      (flat_vcol_corner_effect E f _ cd_vcols cd_vcol_count _ _ _).1,
      GPUIndexBufBuilder.extend_extend]
    simp [GPUIndexBufBuilder.extend]
  · simp only [(flat_vcol_corner_effect E f _ cd_vcols cd_vcol_count _ _ _).2.2,
      (flat_vcol_corner_effect E f _ cd_vcols cd_vcol_count _ _ _).1, List.append_assoc]
    simp [flat_vcol_face_cos, flat_vcol_corner_cos, flat_vcol_cos, List.enumFrom,
      Nat.add_assoc]
/-- The face loop of the flat-vertex-colour strategy over a list of faces that are all drawn:
eighteen slots, eighteen position records and three lines per face. -/
theorem flat_vcol_fold_effect (E : Deps) (show_face_sets : Bool) (cd_fset_offset : Int)
    (seed dflt : Int) (cd_vcols : List Int) (cd_vcol_count : Int) (mat_nr : Int)
    (vs : List BMFace)
    (hall : ∀ f ∈ vs, (face_has_material mat_nr f && face_not_hidden f) = true)
    (s : BMeshFill) :
    (vs.foldl (flat_vcol_face E show_face_sets cd_fset_offset seed dflt cd_vcols cd_vcol_count
      mat_nr) s).v_index = s.v_index + 18 * vs.length ∧
    (vs.foldl (flat_vcol_face E show_face_sets cd_fset_offset seed dflt cd_vcols cd_vcol_count
      mat_nr) s).elb_lines = s.elb_lines.extend (flat_vcol_lines vs.length s.v_index) ∧
    pos_writes (vs.foldl (flat_vcol_face E show_face_sets cd_fset_offset seed dflt cd_vcols
      cd_vcol_count mat_nr) s).writes =
      pos_writes s.writes ++ flat_vcol_records E vs s.v_index := by
  induction vs generalizing s with
  | nil =>
    refine ⟨rfl, ?_, ?_⟩
    · simp [flat_vcol_lines, GPUIndexBufBuilder.extend]
    · simp [flat_vcol_records]
  | cons f rest ih =>
    have hf := hall f (List.mem_cons_self _ _)
    have hrest : ∀ g ∈ rest, (face_has_material mat_nr g && face_not_hidden g) = true :=
      fun g hg => hall g (List.mem_cons_of_mem _ hg)
    obtain ⟨e1, e2, e3⟩ := flat_vcol_face_effect E show_face_sets cd_fset_offset seed dflt
      cd_vcols cd_vcol_count mat_nr s f hf
    obtain ⟨i1, i2, i3⟩ := ih hrest
      (flat_vcol_face E show_face_sets cd_fset_offset seed dflt cd_vcols cd_vcol_count mat_nr s
        f)
    rw [List.foldl_cons]
    refine ⟨?_, ?_, ?_⟩
    · rw [i1, e1, List.length_cons]; omega
    · rw [i2, e1, e2, GPUIndexBufBuilder.extend_extend, List.length_cons]
      rfl
    · rw [i3, e1, e3, List.append_assoc]
      rfl

theorem flat_vcol_records_length (E : Deps) (vs : List BMFace) (start : Nat) :
    (flat_vcol_records E vs start).length = 18 * vs.length := by
  induction vs generalizing start with
  | nil => rfl
  | cons f rest ih =>
    simp only [flat_vcol_records, List.length_append, List.enumFrom_length, ih,
      List.length_cons]
    simp [flat_vcol_face_cos, flat_vcol_corner_cos]
    omega

/-- The position records of the flat-vertex-colour strategy hit the slots from `start` on, each
once, in increasing order. -/
theorem flat_vcol_records_slots (E : Deps) (vs : List BMFace) (start : Nat) :
    (flat_vcol_records E vs start).map Prod.fst = List.range' start (18 * vs.length) := by
  induction vs generalizing start with
  | nil => rfl
  | cons f rest ih =>
    have h18 : 18 * (f :: rest).length = 18 * rest.length + 18 := by
      rw [List.length_cons]; omega
    have hsplit : List.range' start (18 * rest.length + 18) =
        List.range' start 18 ++ List.range' (start + 18) (18 * rest.length) :=
      (List.range'_append_1 start 18 (18 * rest.length)).symm
    rw [flat_vcol_records, List.map_append, ih, h18, hsplit]
    congr 1

theorem flat_vcol_lines_length (n start : Nat) : (flat_vcol_lines n start).length = 6 * n := by
  induction n generalizing start with
  | zero => rfl
  | succ n ih => simp [flat_vcol_lines, ih]; omega

/-- Slot `18k + 6j` of the records holds corner `j` of the `k`-th drawn face. -/
theorem flat_vcol_records_corner (E : Deps) (vs : List BMFace) (start k j : Nat)
    (hk : k < vs.length) (hj : j < 3) :
    (flat_vcol_records E vs start)[18 * k + 6 * j]? =
      some (start + 18 * k + 6 * j, ((vs.getD k default).v j).co) := by
  induction vs generalizing start k with
  | nil => simp at hk
  | cons f rest ih =>
    rw [flat_vcol_records]
    have hlen : ((flat_vcol_face_cos E f).enumFrom start).length = 18 := by
      simp [flat_vcol_face_cos, flat_vcol_corner_cos]
    cases k with
    | zero =>
      rw [List.getElem?_append_left (by rw [hlen]; omega)]
      interval_cases j <;> simp [flat_vcol_face_cos, flat_vcol_corner_cos, List.enumFrom]
    | succ k =>
      have hk2 : k < rest.length := by simpa using hk
      have hge : ((flat_vcol_face_cos E f).enumFrom start).length ≤ 18 * (k + 1) + 6 * j := by
        rw [hlen]; omega
      rw [List.getElem?_append_right hge, hlen]
      have e : 18 * (k + 1) + 6 * j - 18 = 18 * k + 6 * j := by omega
      rw [e, ih (start + 18) k hk2]
      simp only [List.getD_cons_succ]
      congr 2
      omega

/-- Every endpoint of a wireframe line of the flat-vertex-colour strategy is the first slot of a
corner fan of one of the faces. -/
theorem flat_vcol_lines_endpoints (n start : Nat) :
    ∀ e ∈ flat_vcol_lines n start, ∃ k j, k < n ∧ j < 3 ∧ e = start + 18 * k + 6 * j := by
  induction n generalizing start with
  | zero => intro e he; simp [flat_vcol_lines] at he
  | succ n ih =>
    intro e he
    rw [flat_vcol_lines, List.mem_append] at he
    rcases he with he | he
    · simp only [List.mem_cons, List.mem_singleton, List.not_mem_nil, or_false] at he
      rcases he with h | h | h | h | h | h
      · exact ⟨0, 0, by omega, by omega, by omega⟩
      · exact ⟨0, 1, by omega, by omega, by omega⟩
      · exact ⟨0, 1, by omega, by omega, by omega⟩
      · exact ⟨0, 2, by omega, by omega, by omega⟩
      · exact ⟨0, 2, by omega, by omega, by omega⟩
      · exact ⟨0, 0, by omega, by omega, by omega⟩
    · obtain ⟨k, j, hk, hj, rfl⟩ := ih (start + 18) e he
      exact ⟨k + 1, j, by omega, hj, by omega⟩

/-- The count of `gpu_bmesh_face_visible_count` is the number of faces the strategy draws. -/
theorem face_visible_count_visible_faces (bm_faces : TableGSet BMFace) (mat_nr : Int) :
    gpu_bmesh_face_visible_count bm_faces mat_nr =
      (bmesh_visible_faces bm_faces mat_nr).length := by
  rw [face_visible_count_eq]
  unfold bmesh_visible_faces
  congr 1
  apply List.filter_congr
  intro f _
  simp only [face_has_material, face_not_hidden, Bool.and_comm]

/-- Lines `3k`, `3k+1`, `3k+2` of the wireframe of the flat-vertex-colour strategy belong to the
`k`-th drawn face and join the first slots of its corner fans: 0-1, 1-2, 2-0. -/
theorem flat_vcol_lines_face (n start k : Nat) (hk : k < n) :
    ((flat_vcol_lines n start).drop (6 * k)).take 6 =
      [start + 18 * k, start + 18 * k + 6, start + 18 * k + 6, start + 18 * k + 12,
       start + 18 * k + 12, start + 18 * k] := by
  induction n generalizing start k with
  | zero => omega
  | succ n ih =>
    rw [flat_vcol_lines]
    cases k with
    | zero => simp
    | succ k =>
      have e : 6 * (k + 1) = 6 + 6 * k := by omega
      rw [e, ← List.drop_drop]
      simp only [List.drop_succ_cons, List.drop_zero, List.cons_append, List.nil_append]
      rw [ih (start + 18) k (by omega)]
      have e18 : start + 18 + 18 * k = start + 18 * (k + 1) := by omega
      rw [e18]

/-- The flat-vertex-colour update of a node with faces to draw, given vertex storage: the stored
triangle count, the vertex buffer, the wireframe index buffer and the position records of the
writes. -/
theorem flat_vcol_update_given_storage (E : Deps) (buffers : GPU_PBVH_Buffers) (bm : BMesh)
    (bm_faces : TableGSet BMFace) (bm_unique_verts bm_other_verts : TableGSet BMVert)
    (update_flags : Nat) (cd_vert_node_offset : Int) (seed dflt : Int)
    (active_vcol_only : Bool) (mat_nr : Int)
    (hne : gpu_bmesh_face_visible_count bm_faces mat_nr ≠ 0) :
    ∃ ws hl,
      (GPU_pbvh_bmesh_buffers_update_flat_vcol E true buffers bm bm_faces bm_unique_verts
        bm_other_verts update_flags cd_vert_node_offset seed dflt active_vcol_only
        mat_nr).tot_tri = gpu_bmesh_face_visible_count bm_faces mat_nr * 6 ∧
      (GPU_pbvh_bmesh_buffers_update_flat_vcol E true buffers bm bm_faces bm_unique_verts
        bm_other_verts update_flags cd_vert_node_offset seed dflt active_vcol_only
        mat_nr).vert_buf =
        some ⟨vert_buf_handle_after buffers,
          gpu_bmesh_face_visible_count bm_faces mat_nr * 6 * 3,
          some (vert_buf_kept buffers (gpu_bmesh_face_visible_count bm_faces mat_nr * 6 * 3)
            ++ ws)⟩ ∧
      (GPU_pbvh_bmesh_buffers_update_flat_vcol E true buffers bm bm_faces bm_unique_verts
        bm_other_verts update_flags cd_vert_node_offset seed dflt active_vcol_only
        mat_nr).index_lines_buf =
        some ⟨hl, GPU_PRIM_LINES,
          flat_vcol_lines (gpu_bmesh_face_visible_count bm_faces mat_nr) 0⟩ ∧
      pos_writes ws = flat_vcol_records E (bmesh_visible_faces bm_faces mat_nr) 0 := by
  have h0 : (gpu_bmesh_face_visible_count bm_faces mat_nr * 6 == 0) = false := by
    simp only [beq_eq_false_iff_ne, ne_eq]; omega
  have hfold : ∀ a b c d e g s,
      bm_faces.foldl (flat_vcol_face E a b c d e g mat_nr) s =
        (bmesh_visible_faces bm_faces mat_nr).foldl (flat_vcol_face E a b c d e g mat_nr) s :=
    fun a b c d e g s => foldl_filter_noop
    (flat_vcol_face E a b c d e g mat_nr)
    (fun f => face_has_material mat_nr f && face_not_hidden f)
    (fun s f hf => flat_vcol_face_noop E a b c d e g mat_nr s f
      (by
        have hf2 : (face_has_material mat_nr f && face_not_hidden f) = false := hf
        cases h1 : face_has_material mat_nr f
        · exact Or.inl rfl
        · rw [h1] at hf2; exact Or.inr (by simpa using hf2))) bm_faces s
  have hall : ∀ f ∈ bmesh_visible_faces bm_faces mat_nr,
      (face_has_material mat_nr f && face_not_hidden f) = true := by
    intro f hf
    exact (List.mem_filter.mp hf).2
  refine ⟨((bmesh_visible_faces bm_faces mat_nr).foldl
      (flat_vcol_face E
        (E.CustomData_has_layer bm.pdata CD_SCULPT_FACE_SETS &&
          (update_flags &&& GPU_PBVH_BUFFERS_SHOW_SCULPT_FACE_SETS != 0))
        (E.CustomData_get_offset bm.pdata CD_SCULPT_FACE_SETS) seed dflt
        (gpu_pbvh_bmesh_make_vcol_offs E bm.vdata active_vcol_only).1
        (gpu_pbvh_bmesh_make_vcol_offs E bm.vdata active_vcol_only).2.2 mat_nr)
      (bmesh_fill_init (GPU_indexbuf_init GPU_PRIM_LINES
        (gpu_bmesh_face_visible_count bm_faces mat_nr * 6 * 3)
        (gpu_bmesh_face_visible_count bm_faces mat_nr * 6 * 3)))).writes,
    (vert_buf_write (gpu_pbvh_vert_buf_data_set buffers
      (gpu_bmesh_face_visible_count bm_faces mat_nr * 6 * 3) true).1 []).next_handle,
    ?g1, ?g2, ?g3, ?g4⟩
  case g2 =>
    unfold GPU_pbvh_bmesh_buffers_update_flat_vcol
    simp only [h0, Bool.false_eq_true, if_false, vert_buf_data_set_ok, Bool.not_true,
      gpu_pbvh_batch_init_vert_buf, GPU_indexbuf_build, vert_buf_write,
      vert_buf_data_set_vert_buf, Option.map_some', hfold]
  case g3 =>
    unfold GPU_pbvh_bmesh_buffers_update_flat_vcol
    simp only [h0, Bool.false_eq_true, if_false, vert_buf_data_set_ok, Bool.not_true,
      gpu_pbvh_batch_init_index_lines_buf, GPU_indexbuf_build, hfold]
    rw [(flat_vcol_fold_effect E _ _ seed dflt _ _ mat_nr
      (bmesh_visible_faces bm_faces mat_nr) hall _).2.1,
      ← face_visible_count_visible_faces]
    rfl
  case g1 =>
    unfold GPU_pbvh_bmesh_buffers_update_flat_vcol
    simp only [h0, Bool.false_eq_true, if_false, vert_buf_data_set_ok, Bool.not_true]
    rw [gpu_pbvh_batch_init_keeps_field GPU_PBVH_Buffers.tot_tri (fun _ _ _ _ _ _ => rfl)]
  case g4 =>
    exact (flat_vcol_fold_effect E
      (E.CustomData_has_layer bm.pdata CD_SCULPT_FACE_SETS &&
        (update_flags &&& GPU_PBVH_BUFFERS_SHOW_SCULPT_FACE_SETS != 0))
      (E.CustomData_get_offset bm.pdata CD_SCULPT_FACE_SETS) seed dflt
      (gpu_pbvh_bmesh_make_vcol_offs E bm.vdata active_vcol_only).1
      (gpu_pbvh_bmesh_make_vcol_offs E bm.vdata active_vcol_only).2.2 mat_nr
      (bmesh_visible_faces bm_faces mat_nr) hall
      (bmesh_fill_init (GPU_indexbuf_init GPU_PRIM_LINES
        (gpu_bmesh_face_visible_count bm_faces mat_nr * 6 * 3)
        (gpu_bmesh_face_visible_count bm_faces mat_nr * 6 * 3)))).2.2
/-- C25 (amended): for a node with `F > 0` visible faces of the buffer's material and vertex
storage given, `GPU_pbvh_bmesh_buffers_update_flat_vcol` stores the triangle count `6 * F`, and
the vertex buffer has length `18 * F` (three vertices per triangle); the writes carry exactly one
position record for each of the slots `0 .. 18 * F - 1`, in slot order. -/
theorem flat_vcol_triangle_and_vertex_counts (E : Deps) (buffers : GPU_PBVH_Buffers)
    (bm : BMesh) (bm_faces : TableGSet BMFace) (bm_unique_verts bm_other_verts : TableGSet BMVert)
    (update_flags : Nat) (cd_vert_node_offset : Int) (seed dflt : Int)
    (active_vcol_only : Bool) (mat_nr : Int)
    (hne : gpu_bmesh_face_visible_count bm_faces mat_nr ≠ 0) :
    ∃ ws,
      (GPU_pbvh_bmesh_buffers_update_flat_vcol E true buffers bm bm_faces bm_unique_verts
        bm_other_verts update_flags cd_vert_node_offset seed dflt active_vcol_only
        mat_nr).tot_tri = 6 * gpu_bmesh_face_visible_count bm_faces mat_nr ∧
      (GPU_pbvh_bmesh_buffers_update_flat_vcol E true buffers bm bm_faces bm_unique_verts
        bm_other_verts update_flags cd_vert_node_offset seed dflt active_vcol_only
        mat_nr).vert_buf =
        some ⟨vert_buf_handle_after buffers,
          18 * gpu_bmesh_face_visible_count bm_faces mat_nr,
          some (vert_buf_kept buffers (18 * gpu_bmesh_face_visible_count bm_faces mat_nr)
            ++ ws)⟩ ∧
      (pos_writes ws).length = 18 * gpu_bmesh_face_visible_count bm_faces mat_nr ∧
      (pos_writes ws).map Prod.fst =
        List.range (18 * gpu_bmesh_face_visible_count bm_faces mat_nr) := by
  obtain ⟨ws, hl, h1, h2, _, h4⟩ := flat_vcol_update_given_storage E buffers bm bm_faces
    bm_unique_verts bm_other_verts update_flags cd_vert_node_offset seed dflt active_vcol_only
    mat_nr hne
  have e18 : gpu_bmesh_face_visible_count bm_faces mat_nr * 6 * 3 =
      18 * gpu_bmesh_face_visible_count bm_faces mat_nr := by omega
  rw [e18] at h2
  refine ⟨ws, ?_, h2, ?_, ?_⟩
  · rw [h1]; omega
  · rw [h4, flat_vcol_records_length, face_visible_count_visible_faces]
  · rw [h4, flat_vcol_records_slots, face_visible_count_visible_faces, List.range_eq_range']

/-- Witness for C25: a node with one visible face of material 1. -/
theorem flat_vcol_triangle_and_vertex_counts_witness :
    gpu_bmesh_face_visible_count [face_mat1] 1 ≠ 0 ∧
    ∃ ws,
      (GPU_pbvh_bmesh_buffers_update_flat_vcol deps_plain true (GPU_pbvh_bmesh_buffers_build true)
        plain_bmesh [face_mat1] [] [] 0 0 0 1 false 1).tot_tri =
        6 * gpu_bmesh_face_visible_count [face_mat1] 1 ∧
      (GPU_pbvh_bmesh_buffers_update_flat_vcol deps_plain true (GPU_pbvh_bmesh_buffers_build true)
        plain_bmesh [face_mat1] [] [] 0 0 0 1 false 1).vert_buf =
        some ⟨vert_buf_handle_after (GPU_pbvh_bmesh_buffers_build true),
          18 * gpu_bmesh_face_visible_count [face_mat1] 1,
          some (vert_buf_kept (GPU_pbvh_bmesh_buffers_build true)
            (18 * gpu_bmesh_face_visible_count [face_mat1] 1) ++ ws)⟩ ∧
      (pos_writes ws).length = 18 * gpu_bmesh_face_visible_count [face_mat1] 1 ∧
      (pos_writes ws).map Prod.fst =
        List.range (18 * gpu_bmesh_face_visible_count [face_mat1] 1) :=
  ⟨by decide, flat_vcol_triangle_and_vertex_counts deps_plain (GPU_pbvh_bmesh_buffers_build true)
    plain_bmesh [face_mat1] [] [] 0 0 0 1 false 1 (by decide)⟩

/-- Counterexample for C25: with one visible face the strategy stores six triangles and a vertex
buffer of eighteen vertices, not six, and writes eighteen position records.  Without vertex
storage the stored triangle count stays 0, and a later update of the node with no visible face
leaves the vertex buffer at its eighteen vertices. -/
theorem flat_vcol_triangle_and_vertex_counts_counterexample :
    gpu_bmesh_face_visible_count [face_mat1] 1 = 1 ∧
    (GPU_pbvh_bmesh_buffers_update_flat_vcol deps_plain true (GPU_pbvh_bmesh_buffers_build true)
      plain_bmesh [face_mat1] [] [] 0 0 0 1 false 1).tot_tri = 6 ∧
    (GPU_pbvh_bmesh_buffers_update_flat_vcol deps_plain true (GPU_pbvh_bmesh_buffers_build true)
      plain_bmesh [face_mat1] [] [] 0 0 0 1 false 1).vert_buf.map GPUVertBuf.vertex_len =
      some 18 ∧
    ((GPU_pbvh_bmesh_buffers_update_flat_vcol deps_plain true (GPU_pbvh_bmesh_buffers_build true)
      plain_bmesh [face_mat1] [] [] 0 0 0 1 false 1).vert_buf.map
        (fun vb => (pos_writes (vb.data.getD [])).length)) = some 18 ∧
    (18 : Nat) ≠ 6 * gpu_bmesh_face_visible_count [face_mat1] 1 ∧
    (GPU_pbvh_bmesh_buffers_update_flat_vcol deps_plain false (GPU_pbvh_bmesh_buffers_build true)
      plain_bmesh [face_mat1] [] [] 0 0 0 1 false 1).tot_tri = 0 ∧
    gpu_bmesh_face_visible_count [hidden_face] 1 = 0 ∧
    (GPU_pbvh_bmesh_buffers_update_flat_vcol deps_plain true
      (GPU_pbvh_bmesh_buffers_update_flat_vcol deps_plain true
        (GPU_pbvh_bmesh_buffers_build true) plain_bmesh [face_mat1] [] [] 0 0 0 1 false 1)
      plain_bmesh [hidden_face] [] [] 0 0 0 1 false 1).vert_buf.map GPUVertBuf.vertex_len =
      some 18 := by
  decide

/-- C26: in the flat-vertex-colour strategy, for a node with `F > 0` visible faces of the
buffer's material and vertex storage given, the wireframe index buffer holds exactly three lines
per visible face; the lines of the `k`-th visible face join the slots `18k`, `18k + 6` and
`18k + 12` in the order 0-1, 1-2, 2-0, and the position written to slot `18k + 6j` is corner `j`
of that face, so every endpoint of a line is a slot holding an original corner. -/
theorem flat_vcol_wire_lines_join_corners (E : Deps) (buffers : GPU_PBVH_Buffers)
    (bm : BMesh) (bm_faces : TableGSet BMFace) (bm_unique_verts bm_other_verts : TableGSet BMVert)
    (update_flags : Nat) (cd_vert_node_offset : Int) (seed dflt : Int)
    (active_vcol_only : Bool) (mat_nr : Int)
    (hne : gpu_bmesh_face_visible_count bm_faces mat_nr ≠ 0) :
    ∃ ws hl lines,
      (GPU_pbvh_bmesh_buffers_update_flat_vcol E true buffers bm bm_faces bm_unique_verts
        bm_other_verts update_flags cd_vert_node_offset seed dflt active_vcol_only
        mat_nr).index_lines_buf = some ⟨hl, GPU_PRIM_LINES, lines⟩ ∧
      (GPU_pbvh_bmesh_buffers_update_flat_vcol E true buffers bm bm_faces bm_unique_verts
        bm_other_verts update_flags cd_vert_node_offset seed dflt active_vcol_only
        mat_nr).vert_buf =
        some ⟨vert_buf_handle_after buffers,
          18 * gpu_bmesh_face_visible_count bm_faces mat_nr,
          some (vert_buf_kept buffers (18 * gpu_bmesh_face_visible_count bm_faces mat_nr)
            ++ ws)⟩ ∧
      gpu_bmesh_face_visible_count bm_faces mat_nr =
        (bmesh_visible_faces bm_faces mat_nr).length ∧
      lines.length = 2 * (3 * gpu_bmesh_face_visible_count bm_faces mat_nr) ∧
      (∀ k, k < gpu_bmesh_face_visible_count bm_faces mat_nr →
        (lines.drop (6 * k)).take 6 =
          [18 * k, 18 * k + 6, 18 * k + 6, 18 * k + 12, 18 * k + 12, 18 * k]) ∧
      (∀ e ∈ lines, ∃ k j, k < gpu_bmesh_face_visible_count bm_faces mat_nr ∧ j < 3 ∧
        e = 18 * k + 6 * j) ∧
      (pos_writes ws).map Prod.fst =
        List.range (18 * gpu_bmesh_face_visible_count bm_faces mat_nr) ∧
      (∀ k j, k < gpu_bmesh_face_visible_count bm_faces mat_nr → j < 3 →
        (pos_writes ws)[18 * k + 6 * j]? =
          some (18 * k + 6 * j,
            (((bmesh_visible_faces bm_faces mat_nr).getD k default).v j).co)) := by
  obtain ⟨ws, hl, _, h2, h3, h4⟩ := flat_vcol_update_given_storage E buffers bm bm_faces
    bm_unique_verts bm_other_verts update_flags cd_vert_node_offset seed dflt active_vcol_only
    mat_nr hne
  have e18 : gpu_bmesh_face_visible_count bm_faces mat_nr * 6 * 3 =
      18 * gpu_bmesh_face_visible_count bm_faces mat_nr := by omega
  rw [e18] at h2
  refine ⟨ws, hl, _, h3, h2, face_visible_count_visible_faces bm_faces mat_nr, ?_, ?_, ?_, ?_,
    ?_⟩
  · rw [flat_vcol_lines_length]; omega
  · intro k hk
    have := flat_vcol_lines_face _ 0 k hk
    simpa using this
  · intro e he
    obtain ⟨k, j, hk, hj, he2⟩ := flat_vcol_lines_endpoints _ 0 e he
    exact ⟨k, j, hk, hj, by omega⟩
  · rw [h4, flat_vcol_records_slots, face_visible_count_visible_faces, List.range_eq_range']
  · intro k j hk hj
    rw [h4, flat_vcol_records_corner E _ 0 k j
      (by rw [← face_visible_count_visible_faces]; exact hk) hj]
    simp

/-- Witness for C26: a node with one visible face of material 1; its wireframe is the three
lines 0-6, 6-12, 12-0. -/
theorem flat_vcol_wire_lines_join_corners_witness :
    gpu_bmesh_face_visible_count [face_mat1] 1 ≠ 0 ∧
    (GPU_pbvh_bmesh_buffers_update_flat_vcol deps_plain true (GPU_pbvh_bmesh_buffers_build true)
      plain_bmesh [face_mat1] [] [] 0 0 0 1 false 1).index_lines_buf.map GPUIndexBuf.index =
      some [0, 6, 6, 12, 12, 0] ∧
    ∃ ws hl lines,
      (GPU_pbvh_bmesh_buffers_update_flat_vcol deps_plain true (GPU_pbvh_bmesh_buffers_build true)
        plain_bmesh [face_mat1] [] [] 0 0 0 1 false 1).index_lines_buf =
        some ⟨hl, GPU_PRIM_LINES, lines⟩ ∧
      (GPU_pbvh_bmesh_buffers_update_flat_vcol deps_plain true (GPU_pbvh_bmesh_buffers_build true)
        plain_bmesh [face_mat1] [] [] 0 0 0 1 false 1).vert_buf =
        some ⟨vert_buf_handle_after (GPU_pbvh_bmesh_buffers_build true),
          18 * gpu_bmesh_face_visible_count [face_mat1] 1,
          some (vert_buf_kept (GPU_pbvh_bmesh_buffers_build true)
            (18 * gpu_bmesh_face_visible_count [face_mat1] 1) ++ ws)⟩ ∧
      gpu_bmesh_face_visible_count [face_mat1] 1 = (bmesh_visible_faces [face_mat1] 1).length ∧
      lines.length = 2 * (3 * gpu_bmesh_face_visible_count [face_mat1] 1) ∧
      (∀ k, k < gpu_bmesh_face_visible_count [face_mat1] 1 →
        (lines.drop (6 * k)).take 6 =
          [18 * k, 18 * k + 6, 18 * k + 6, 18 * k + 12, 18 * k + 12, 18 * k]) ∧
      (∀ e ∈ lines, ∃ k j, k < gpu_bmesh_face_visible_count [face_mat1] 1 ∧ j < 3 ∧
        e = 18 * k + 6 * j) ∧
      (pos_writes ws).map Prod.fst =
        List.range (18 * gpu_bmesh_face_visible_count [face_mat1] 1) ∧
      (∀ k j, k < gpu_bmesh_face_visible_count [face_mat1] 1 → j < 3 →
        (pos_writes ws)[18 * k + 6 * j]? =
          some (18 * k + 6 * j,
            (((bmesh_visible_faces [face_mat1] 1).getD k default).v j).co)) :=
  ⟨by decide, by decide,
    flat_vcol_wire_lines_join_corners deps_plain (GPU_pbvh_bmesh_buffers_build true)
      plain_bmesh [face_mat1] [] [] 0 0 0 1 false 1 (by decide)⟩

/-! ### Batches and the buffers they were created from -/

theorem batch_current_none (vb ib : Option Nat) : batch_current vb ib none = true := rfl

/-- A batch created now from a vertex buffer that exists is current. -/
theorem batch_current_created (vb : Option GPUVertBuf) (ib : Option GPUIndexBuf) (h : Nat)
    (prim : GPUPrimType) (hvb : vb.isSome = true) :
    batch_current (vb.map (fun vb => vb.handle)) (ib.map (fun ib => ib.handle))
      (some ⟨h, prim, vb.map (fun vb => vb.handle), ib.map (fun ib => ib.handle)⟩) = true := by
  cases vb with
  | none => simp at hvb
  | some v => simp [batch_current]

/-- The four conditions of `batches_current`. -/
theorem batches_current_iff (b : GPU_PBVH_Buffers) :
    batches_current b = true ↔
      batch_current (b.vert_buf.map (fun vb => vb.handle))
        (b.index_buf.map (fun ib => ib.handle)) b.triangles = true ∧
      batch_current (b.vert_buf.map (fun vb => vb.handle))
        (b.index_buf_fast.map (fun ib => ib.handle)) b.triangles_fast = true ∧
      batch_current (b.vert_buf.map (fun vb => vb.handle))
        (b.index_lines_buf.map (fun ib => ib.handle)) b.lines = true ∧
      batch_current (b.vert_buf.map (fun vb => vb.handle))
        (b.index_lines_buf_fast.map (fun ib => ib.handle)) b.lines_fast = true := by
  unfold batches_current
  simp only [Bool.and_eq_true, and_assoc]

/-- The fast triangle batch after `gpu_pbvh_batch_init`. -/
theorem gpu_pbvh_batch_init_triangles_fast_form (buffers : GPU_PBVH_Buffers)
    (prim : GPUPrimType) :
    ∃ h, (gpu_pbvh_batch_init buffers prim).triangles_fast =
      (if buffers.triangles_fast.isNone && buffers.index_buf_fast.isSome then
        some ⟨h, prim, buffers.vert_buf.map (fun vb => vb.handle),
          buffers.index_buf_fast.map (fun ib => ib.handle)⟩
       else buffers.triangles_fast) := by
  simp only [gpu_pbvh_batch_init, GPU_batch_create]
  split_ifs <;> first | exact ⟨_, rfl⟩ | exact ⟨0, rfl⟩

/-- The line batch after `gpu_pbvh_batch_init`. -/
theorem gpu_pbvh_batch_init_lines_form (buffers : GPU_PBVH_Buffers) (prim : GPUPrimType) :
    ∃ h, (gpu_pbvh_batch_init buffers prim).lines =
      (if buffers.lines.isNone then
        some ⟨h, GPU_PRIM_LINES, buffers.vert_buf.map (fun vb => vb.handle),
          buffers.index_lines_buf.map (fun ib => ib.handle)⟩
       else buffers.lines) := by
  simp only [gpu_pbvh_batch_init, GPU_batch_create]
  split_ifs <;> first | exact ⟨_, rfl⟩ | exact ⟨0, rfl⟩

/-- The fast line batch after `gpu_pbvh_batch_init`. -/
theorem gpu_pbvh_batch_init_lines_fast_form (buffers : GPU_PBVH_Buffers) (prim : GPUPrimType) :
    ∃ h, (gpu_pbvh_batch_init buffers prim).lines_fast =
      (if buffers.lines_fast.isNone && buffers.index_lines_buf_fast.isSome then
        some ⟨h, GPU_PRIM_LINES, buffers.vert_buf.map (fun vb => vb.handle),
          buffers.index_lines_buf_fast.map (fun ib => ib.handle)⟩
       else buffers.lines_fast) := by
  simp only [gpu_pbvh_batch_init, GPU_batch_create]
  split_ifs <;> first | exact ⟨_, rfl⟩ | exact ⟨0, rfl⟩

/-- What `gpu_pbvh_batch_init` does to one batch keeps it current: a batch that is present and
current stays, an absent one is created from the buffers given or stays absent. -/
theorem batch_current_init_step (vb : Option GPUVertBuf) (ib : Option GPUIndexBuf)
    (old : Option GPUBatch) (c : Bool) (h : Nat) (prim : GPUPrimType)
    (hvb : vb.isSome = true) (hc : c = true → old = none)
    (hold : batch_current (vb.map (fun vb => vb.handle)) (ib.map (fun ib => ib.handle)) old
      = true) :
    batch_current (vb.map (fun vb => vb.handle)) (ib.map (fun ib => ib.handle))
      (if c then some ⟨h, prim, vb.map (fun vb => vb.handle), ib.map (fun ib => ib.handle)⟩
       else old) = true := by
  cases c with
  | true => exact batch_current_created vb ib h prim hvb
  | false => exact hold

/-- After `gpu_pbvh_batch_init` every batch is current when the vertex buffer exists and the
batches there before were current. -/
theorem gpu_pbvh_batch_init_current (buffers : GPU_PBVH_Buffers) (prim : GPUPrimType)
    (hvb : buffers.vert_buf.isSome = true) (h : batches_current buffers = true) :
    batches_current (gpu_pbvh_batch_init buffers prim) = true := by
  rw [batches_current_iff] at h ⊢
  obtain ⟨h1, h2, h3, h4⟩ := h
  obtain ⟨a2, e2⟩ := gpu_pbvh_batch_init_triangles_fast_form buffers prim
  obtain ⟨a3, e3⟩ := gpu_pbvh_batch_init_lines_form buffers prim
  obtain ⟨a4, e4⟩ := gpu_pbvh_batch_init_lines_fast_form buffers prim
  rw [gpu_pbvh_batch_init_vert_buf, gpu_pbvh_batch_init_index_buf,
    gpu_pbvh_batch_init_index_lines_buf,
    gpu_pbvh_batch_init_keeps_field GPU_PBVH_Buffers.index_buf_fast (fun _ _ _ _ _ _ => rfl),
    gpu_pbvh_batch_init_keeps_field GPU_PBVH_Buffers.index_lines_buf_fast
      (fun _ _ _ _ _ _ => rfl), gpu_pbvh_batch_init_triangles, e2, e3, e4]
  refine ⟨batch_current_init_step _ _ _ _ _ _ hvb ?_ h1,
    batch_current_init_step _ _ _ _ _ _ hvb ?_ h2,
    batch_current_init_step _ _ _ _ _ _ hvb ?_ h3,
    batch_current_init_step _ _ _ _ _ _ hvb ?_ h4⟩
  · intro hc; cases ht : buffers.triangles with
    | none => rfl
    | some t => rw [ht] at hc; simp at hc
  · intro hc; cases ht : buffers.triangles_fast with
    | none => rfl
    | some t => rw [ht] at hc; simp at hc
  · intro hc; cases ht : buffers.lines with
    | none => rfl
    | some t => rw [ht] at hc; simp at hc
  · intro hc; cases ht : buffers.lines_fast with
    | none => rfl
    | some t => rw [ht] at hc; simp at hc
/-- A current batch stays current when the vertex buffer, if there was one, keeps its
identity. -/
theorem batch_current_vert (vb vb2 ib : Option Nat) (x : Option GPUBatch)
    (h : batch_current vb ib x = true) (hv : vb.isSome = true → vb2 = vb) :
    batch_current vb2 ib x = true := by
  cases x with
  | none => rfl
  | some b =>
    have hs : vb.isSome = true := by
      simp only [batch_current, Bool.and_eq_true] at h
      exact h.1.1
    rw [hv hs]; exact h

/-- The vertex buffer object after `gpu_pbvh_vert_buf_data_set`: the one there before, or a new
one. -/
theorem vert_buf_data_set_handle (buffers : GPU_PBVH_Buffers) (n : Nat) (alloc_ok : Bool) :
    (gpu_pbvh_vert_buf_data_set buffers n alloc_ok).1.vert_buf.map (fun vb => vb.handle) =
      some (vert_buf_handle_after buffers) := by
  unfold gpu_pbvh_vert_buf_data_set vert_buf_handle_after
  cases hvb : buffers.vert_buf with
  | none => simp [GPU_vertbuf_data_alloc]
  | some vb =>
    simp only [hvb]
    split_ifs <;> simp [GPU_vertbuf_data_alloc]

theorem vert_buf_data_set_isSome (buffers : GPU_PBVH_Buffers) (n : Nat) (alloc_ok : Bool) :
    (gpu_pbvh_vert_buf_data_set buffers n alloc_ok).1.vert_buf.isSome = true := by
  have h := vert_buf_data_set_handle buffers n alloc_ok
  cases hv : (gpu_pbvh_vert_buf_data_set buffers n alloc_ok).1.vert_buf with
  | none => rw [hv] at h; simp at h
  | some v => rfl

/-- Asking for vertex storage keeps the batches current: an existing vertex buffer object keeps
its identity. -/
theorem vert_buf_data_set_current (buffers : GPU_PBVH_Buffers) (n : Nat) (alloc_ok : Bool)
    (h : batches_current buffers = true) :
    batches_current (gpu_pbvh_vert_buf_data_set buffers n alloc_ok).1 = true := by
  rw [batches_current_iff] at h ⊢
  obtain ⟨h1, h2, h3, h4⟩ := h
  have hv : (buffers.vert_buf.map (fun vb => vb.handle)).isSome = true →
      (gpu_pbvh_vert_buf_data_set buffers n alloc_ok).1.vert_buf.map (fun vb => vb.handle) =
        buffers.vert_buf.map (fun vb => vb.handle) := by
    intro hs
    rw [vert_buf_data_set_handle]
    unfold vert_buf_handle_after
    cases hvb : buffers.vert_buf with
    | none => rw [hvb] at hs; simp at hs
    | some vb => rfl
  rw [vert_buf_data_set_keeps GPU_PBVH_Buffers.index_buf (fun _ _ _ => rfl),
    vert_buf_data_set_keeps GPU_PBVH_Buffers.index_buf_fast (fun _ _ _ => rfl),
    vert_buf_data_set_keeps GPU_PBVH_Buffers.index_lines_buf (fun _ _ _ => rfl),
    vert_buf_data_set_keeps GPU_PBVH_Buffers.index_lines_buf_fast (fun _ _ _ => rfl),
    vert_buf_data_set_keeps GPU_PBVH_Buffers.triangles (fun _ _ _ => rfl),
    vert_buf_data_set_keeps GPU_PBVH_Buffers.triangles_fast (fun _ _ _ => rfl),
    vert_buf_data_set_keeps GPU_PBVH_Buffers.lines (fun _ _ _ => rfl),
    vert_buf_data_set_keeps GPU_PBVH_Buffers.lines_fast (fun _ _ _ => rfl)]
  exact ⟨batch_current_vert _ _ _ _ h1 hv, batch_current_vert _ _ _ _ h2 hv,
    batch_current_vert _ _ _ _ h3 hv, batch_current_vert _ _ _ _ h4 hv⟩

/-- Writing vertex data does not change which vertex buffer object is stored. -/
theorem vert_buf_write_handle (buffers : GPU_PBVH_Buffers) (ws : List VertWrite) :
    (vert_buf_write buffers ws).vert_buf.map (fun vb => vb.handle) =
      buffers.vert_buf.map (fun vb => vb.handle) := by
  unfold vert_buf_write
  cases buffers.vert_buf <;> rfl

theorem vert_buf_write_current (buffers : GPU_PBVH_Buffers) (ws : List VertWrite) :
    batches_current (vert_buf_write buffers ws) = batches_current buffers := by
  unfold batches_current
  rw [vert_buf_write_handle]
  rfl

theorem vert_buf_write_isSome (buffers : GPU_PBVH_Buffers) (ws : List VertWrite) :
    (vert_buf_write buffers ws).vert_buf.isSome = buffers.vert_buf.isSome := by
  unfold vert_buf_write
  cases buffers.vert_buf <;> rfl

/-- The common tail of the updates keeps the batches current: vertex storage is requested, the
vertex data are written, and `gpu_pbvh_batch_init` creates the batches that are absent. -/
theorem update_tail_current (buffers : GPU_PBVH_Buffers) (n : Nat) (alloc_ok : Bool)
    (ws : List VertWrite) (prim : GPUPrimType) (h : batches_current buffers = true) :
    batches_current (gpu_pbvh_batch_init
      (vert_buf_write (gpu_pbvh_vert_buf_data_set buffers n alloc_ok).1 ws) prim) = true := by
  apply gpu_pbvh_batch_init_current
  · rw [vert_buf_write_isSome, vert_buf_data_set_isSome]
  · rw [vert_buf_write_current]
    exact vert_buf_data_set_current buffers n alloc_ok h

/-- The object is current after `GPU_pbvh_buffers_update_flush`: a clear leaves no batch. -/
theorem update_flush_current (buffers : GPU_PBVH_Buffers) (h : batches_current buffers = true) :
    batches_current (GPU_pbvh_buffers_update_flush buffers) = true := by
  unfold GPU_pbvh_buffers_update_flush
  split_ifs
  · rfl
  · exact h

/-- A mesh update keeps the batches current. -/
theorem mesh_update_current (E : Deps) (alloc_ok : Bool) (buffers : GPU_PBVH_Buffers)
    (mvert : List MVert) (vmask : Option (List float)) (vcol : Option (List MLoopCol))
    (sfs : Option (List Int)) (seed dflt : Int) (vtcol : Option (List MPropCol))
    (update_flags : Nat) (h : batches_current buffers = true) :
    batches_current (GPU_pbvh_mesh_buffers_update E alloc_ok buffers mvert vmask vcol sfs seed
      dflt vtcol update_flags) = true := by
  have e : batches_current (GPU_pbvh_mesh_buffers_update E alloc_ok buffers mvert vmask vcol sfs
      seed dflt vtcol update_flags) =
    batches_current (gpu_pbvh_batch_init
      (if (gpu_pbvh_vert_buf_data_set buffers (buffers.tot_tri * 3) alloc_ok).2 = true then
        vert_buf_write (gpu_pbvh_vert_buf_data_set buffers (buffers.tot_tri * 3) alloc_ok).1
          (mesh_fill E (gpu_pbvh_vert_buf_data_set buffers (buffers.tot_tri * 3) alloc_ok).1
            (vmask.isSome && (update_flags &&& GPU_PBVH_BUFFERS_SHOW_MASK != 0))
            (sfs.isSome && (update_flags &&& GPU_PBVH_BUFFERS_SHOW_SCULPT_FACE_SETS != 0))
            ((vcol.isSome || (vtcol.isSome && E.use_sculpt_vertex_colors)) &&
              (update_flags &&& GPU_PBVH_BUFFERS_SHOW_VCOL != 0))
            mvert vmask vcol sfs seed dflt vtcol).writes
       else (gpu_pbvh_vert_buf_data_set buffers (buffers.tot_tri * 3) alloc_ok).1)
      GPU_PRIM_TRIS) := by
    unfold GPU_pbvh_mesh_buffers_update
    dsimp only
    split_ifs <;> rfl
  rw [e]
  split_ifs
  · exact update_tail_current buffers _ alloc_ok _ _ h
  · apply gpu_pbvh_batch_init_current
    · exact vert_buf_data_set_isSome buffers _ alloc_ok
    · exact vert_buf_data_set_current buffers _ alloc_ok h

/-- An object without batches is current, whatever its buffers. -/
theorem batches_current_of_no_batches (b : GPU_PBVH_Buffers) (h : no_batches b = true) :
    batches_current b = true := by
  unfold no_batches at h
  simp only [Bool.and_eq_true, Option.isNone_iff_eq_none] at h
  obtain ⟨⟨⟨h1, h2⟩, h3⟩, h4⟩ := h
  rw [batches_current_iff, h1, h2, h3, h4]
  exact ⟨rfl, rfl, rfl, rfl⟩

/-- Replacing the triangle and line index buffers keeps the batches current when the batch of a
replaced buffer is absent. -/
theorem batches_current_set_index (b : GPU_PBVH_Buffers) (ib il : Option GPUIndexBuf)
    (h : batches_current b = true)
    (ht : b.triangles = none ∨
      ib.map (fun ib => ib.handle) = b.index_buf.map (fun ib => ib.handle))
    (hl : b.lines = none) :
    batches_current { b with index_buf := ib, index_lines_buf := il } = true := by
  rw [batches_current_iff] at h ⊢
  obtain ⟨h1, h2, _, h4⟩ := h
  refine ⟨?_, h2, ?_, h4⟩
  · show batch_current _ (ib.map (fun ib => ib.handle)) b.triangles = true
    rcases ht with ht | ht
    · rw [ht]; rfl
    · rw [ht]; exact h1
  · show batch_current _ _ b.lines = true
    rw [hl]; rfl

/-- Freeing for a dynamic-topology update keeps the batches current and leaves no line batch,
and no triangle batch when shading is smooth. -/
theorem bmesh_update_free_current (b : GPU_PBVH_Buffers) (h : batches_current b = true) :
    batches_current (GPU_pbvh_bmesh_buffers_update_free b) = true ∧
    (GPU_pbvh_bmesh_buffers_update_free b).lines = none ∧
    ((GPU_pbvh_bmesh_buffers_update_free b).smooth = true →
      (GPU_pbvh_bmesh_buffers_update_free b).triangles = none) ∧
    (GPU_pbvh_bmesh_buffers_update_free b).smooth = b.smooth := by
  rw [batches_current_iff] at h
  obtain ⟨h1, h2, _, h4⟩ := h
  unfold GPU_pbvh_bmesh_buffers_update_free
  split_ifs with hs
  · refine ⟨?_, rfl, fun _ => rfl, rfl⟩
    rw [batches_current_iff]
    exact ⟨rfl, h2, rfl, h4⟩
  · refine ⟨?_, rfl, fun h => absurd h hs, rfl⟩
    rw [batches_current_iff]
    exact ⟨h1, h2, rfl, h4⟩

/-- Marking a node empty changes no GPU object. -/
theorem bmesh_mark_empty_current (b : GPU_PBVH_Buffers) (bm_faces : TableGSet BMFace) :
    batches_current (bmesh_mark_empty b bm_faces) = batches_current b := by
  unfold bmesh_mark_empty
  split_ifs <;> rfl

/-- The flat-vertex-colour strategy keeps the batches current when it starts without a line
batch. -/
theorem flat_vcol_update_current (E : Deps) (alloc_ok : Bool) (buffers : GPU_PBVH_Buffers)
    (bm : BMesh) (bm_faces : TableGSet BMFace) (bm_unique_verts bm_other_verts : TableGSet BMVert)
    (update_flags : Nat) (cd_vert_node_offset : Int) (seed dflt : Int)
    (active_vcol_only : Bool) (mat_nr : Int)
    (h : batches_current buffers = true) (hl : buffers.lines = none) :
    batches_current (GPU_pbvh_bmesh_buffers_update_flat_vcol E alloc_ok buffers bm bm_faces
      bm_unique_verts bm_other_verts update_flags cd_vert_node_offset seed dflt active_vcol_only
      mat_nr) = true := by
  unfold GPU_pbvh_bmesh_buffers_update_flat_vcol
  dsimp only
  split_ifs with h1 h2
  · rw [bmesh_mark_empty_current]; exact h
  · exact vert_buf_data_set_current buffers _ alloc_ok h
  · apply gpu_pbvh_batch_init_current
    · show (vert_buf_write (gpu_pbvh_vert_buf_data_set buffers _ alloc_ok).1 _).vert_buf.isSome
        = true
      rw [vert_buf_write_isSome, vert_buf_data_set_isSome]
    · refine batches_current_set_index
        (vert_buf_write (gpu_pbvh_vert_buf_data_set buffers _ alloc_ok).1 _) _ _ ?_
        (Or.inr rfl) ?_
      · rw [vert_buf_write_current]
        exact vert_buf_data_set_current buffers _ alloc_ok h
      · show (gpu_pbvh_vert_buf_data_set buffers _ alloc_ok).1.lines = none
        rw [vert_buf_data_set_keeps GPU_PBVH_Buffers.lines (fun _ _ _ => rfl)]
        exact hl
/-- The non-indexed strategy keeps the batches current when it starts without a line batch. -/
theorem nonindexed_update_current (E : Deps) (dt alloc_ok : Bool) (buffers : GPU_PBVH_Buffers)
    (bm : BMesh) (bm_faces : TableGSet BMFace) (tribuf : PBVHTriBuf)
    (update_flags : Nat) (cd_vert_node_offset : Int) (seed dflt : Int)
    (active_vcol_only : Bool) (mat_nr : Int)
    (h : batches_current buffers = true) (hl : buffers.lines = none) :
    batches_current (GPU_pbvh_bmesh_buffers_update_nonindexed E dt alloc_ok buffers bm bm_faces
      tribuf update_flags cd_vert_node_offset seed dflt active_vcol_only mat_nr) = true := by
  unfold GPU_pbvh_bmesh_buffers_update_nonindexed
  dsimp only
  split_ifs with h1 h2 h3 h4
  · exact h
  · exact h
  · exact vert_buf_data_set_current buffers _ alloc_ok h
  all_goals
    apply gpu_pbvh_batch_init_current
    · show (vert_buf_write (gpu_pbvh_vert_buf_data_set buffers _ alloc_ok).1 _).vert_buf.isSome
        = true
      rw [vert_buf_write_isSome, vert_buf_data_set_isSome]
    · refine batches_current_set_index
        (vert_buf_write (gpu_pbvh_vert_buf_data_set buffers _ alloc_ok).1 _) _ _ ?_
        (Or.inr rfl) ?_
      · rw [vert_buf_write_current]
        exact vert_buf_data_set_current buffers _ alloc_ok h
      · show (gpu_pbvh_vert_buf_data_set buffers _ alloc_ok).1.lines = none
        rw [vert_buf_data_set_keeps GPU_PBVH_Buffers.lines (fun _ _ _ => rfl)]
        exact hl

/-- The indexed strategy keeps the batches current when it starts without a line batch and
without a triangle batch. -/
theorem indexed_update_current (E : Deps) (alloc_ok : Bool) (buffers : GPU_PBVH_Buffers)
    (bm : BMesh) (bm_faces : TableGSet BMFace) (bm_unique_verts bm_other_verts : TableGSet BMVert)
    (tribuf : PBVHTriBuf) (update_flags : Nat) (cd_vert_node_offset : Int) (seed dflt : Int)
    (flat_vcol active_vcol_only : Bool) (mat_nr : Int)
    (h : batches_current buffers = true) (hl : buffers.lines = none)
    (ht : buffers.triangles = none) :
    batches_current (GPU_pbvh_bmesh_buffers_update_indexed E alloc_ok buffers bm bm_faces
      bm_unique_verts bm_other_verts tribuf update_flags cd_vert_node_offset seed dflt flat_vcol
      active_vcol_only mat_nr) = true := by
  unfold GPU_pbvh_bmesh_buffers_update_indexed
  dsimp only
  split_ifs with h1 h2
  · rw [bmesh_mark_empty_current]; exact h
  · exact vert_buf_data_set_current buffers _ alloc_ok h
  · have hX : batches_current
        (vert_buf_write (gpu_pbvh_vert_buf_data_set buffers tribuf.totvert alloc_ok).1
          ((List.range tribuf.totvert).foldl
            (indexed_vert E tribuf (E.CustomData_get_offset bm.vdata CD_PAINT_MASK)
              cd_vert_node_offset (update_flags &&& GPU_PBVH_BUFFERS_SHOW_MASK != 0)
              (update_flags &&& GPU_PBVH_BUFFERS_SHOW_VCOL != 0)
              (gpu_pbvh_bmesh_make_vcol_offs E bm.vdata active_vcol_only).1
              (gpu_pbvh_bmesh_make_vcol_offs E bm.vdata active_vcol_only).2.2)
            ⟨true, []⟩).writes) = true := by
      rw [vert_buf_write_current]
      exact vert_buf_data_set_current buffers _ alloc_ok h
    have hXl : (gpu_pbvh_vert_buf_data_set buffers tribuf.totvert alloc_ok).1.lines = none := by
      rw [vert_buf_data_set_keeps GPU_PBVH_Buffers.lines (fun _ _ _ => rfl)]
      exact hl
    have hXt : (gpu_pbvh_vert_buf_data_set buffers tribuf.totvert alloc_ok).1.triangles
        = none := by
      rw [vert_buf_data_set_keeps GPU_PBVH_Buffers.triangles (fun _ _ _ => rfl)]
      exact ht
    split
    all_goals
      apply gpu_pbvh_batch_init_current
      · show (vert_buf_write (gpu_pbvh_vert_buf_data_set buffers _ alloc_ok).1 _).vert_buf.isSome
          = true
        rw [vert_buf_write_isSome, vert_buf_data_set_isSome]
      · exact batches_current_set_index
          (vert_buf_write (gpu_pbvh_vert_buf_data_set buffers tribuf.totvert alloc_ok).1 _)
          _ _ hX (Or.inl hXt) hXl
/-- A dynamic-topology update keeps the batches current when it starts without a line batch and,
for smooth shading, without a triangle batch. -/
theorem bmesh_update_current (E : Deps) (dt alloc_ok : Bool)
    (buffers : GPU_PBVH_Buffers) (bm : BMesh) (bm_faces : TableGSet BMFace)
    (bm_unique_verts bm_other_verts : TableGSet BMVert) (tribuf : PBVHTriBuf)
    (update_flags : Nat) (cd_vert_node_offset : Int) (seed dflt : Int)
    (flat_vcol active_vcol_only : Bool) (mat_nr : Int)
    (h : batches_current buffers = true) (hl : buffers.lines = none)
    (ht : buffers.smooth = true → buffers.triangles = none) :
    batches_current (GPU_pbvh_bmesh_buffers_update E dt alloc_ok buffers bm bm_faces
      bm_unique_verts bm_other_verts tribuf update_flags cd_vert_node_offset seed dflt flat_vcol
      active_vcol_only mat_nr) = true := by
  unfold GPU_pbvh_bmesh_buffers_update
  dsimp only
  split_ifs with h1 h2
  · exact flat_vcol_update_current E alloc_ok buffers bm bm_faces bm_unique_verts bm_other_verts
      update_flags cd_vert_node_offset seed dflt active_vcol_only mat_nr h hl
  · have hs : buffers.smooth = true := by
      simp only [Bool.and_eq_true] at h2
      exact h2.1
    exact indexed_update_current E alloc_ok buffers bm bm_faces bm_unique_verts bm_other_verts
      tribuf update_flags cd_vert_node_offset seed dflt flat_vcol active_vcol_only mat_nr h hl
      (ht hs)
  · exact nonindexed_update_current E dt alloc_ok buffers bm bm_faces tribuf update_flags
      cd_vert_node_offset seed dflt active_vcol_only mat_nr h hl

/-- Under a sequence of operations on a dynamic-topology node in which every update directly
follows `GPU_pbvh_bmesh_buffers_update_free` (or finds no line batch and, for smooth shading, no
triangle batch at the start), the batches stay current. -/
theorem bmesh_ops_current (E : Deps) (ops : List BMeshOp) :
    ∀ (b : GPU_PBVH_Buffers) (ready : Bool), batches_current b = true →
      (ready = true → b.lines = none ∧ (b.smooth = true → b.triangles = none)) →
      bmesh_free_before_update ready ops = true →
      batches_current (ops.foldl (BMeshOp.run E) b) = true := by
  induction ops with
  | nil => intro b ready h _ _; exact h
  | cons op rest ih =>
    intro b ready h hr hs
    rw [List.foldl_cons]
    cases op with
    | update_free =>
      obtain ⟨c1, c2, c3, _⟩ := bmesh_update_free_current b h
      exact ih _ true c1 (fun _ => ⟨c2, c3⟩) hs
    | update dt alloc_ok bm bm_faces uv ov tribuf update_flags off seed dflt fv av mat_nr =>
      simp only [bmesh_free_before_update, Bool.and_eq_true] at hs
      obtain ⟨r1, r2⟩ := hr hs.1
      exact ih _ false
        (bmesh_update_current E dt alloc_ok b bm bm_faces uv ov tribuf update_flags off seed dflt
          fv av mat_nr h r1 r2)
        (fun hf => absurd hf (by decide)) hs.2
    | flush =>
      exact ih _ false (update_flush_current b h) (fun hf => absurd hf (by decide)) hs

/-- Under every sequence of updates and flushes of a mesh node the batches stay current. -/
theorem mesh_ops_current (E : Deps) (ops : List MeshOp) :
    ∀ (b : GPU_PBVH_Buffers), batches_current b = true →
      batches_current (ops.foldl (MeshOp.run E) b) = true := by
  induction ops with
  | nil => intro b h; exact h
  | cons op rest ih =>
    intro b h
    rw [List.foldl_cons]
    cases op with
    | update alloc_ok mvert vmask vcol sfs seed dflt vtcol update_flags =>
      exact ih _ (mesh_update_current E alloc_ok b mvert vmask vcol sfs seed dflt vtcol
        update_flags h)
    | flush => exact ih _ (update_flush_current b h)

/-- Freeing for a grid update keeps the batches current, and an object without triangle index
buffer without batches. -/
theorem grid_update_free_current (b : GPU_PBVH_Buffers) (grid_flag_mats : List DMFlagMat)
    (grid_indices : List Nat)
    (h : batches_current b = true) (hn : b.index_buf = none → no_batches b = true) :
    batches_current (GPU_pbvh_grid_buffers_update_free b grid_flag_mats grid_indices) = true ∧
    ((GPU_pbvh_grid_buffers_update_free b grid_flag_mats grid_indices).index_buf = none →
      no_batches (GPU_pbvh_grid_buffers_update_free b grid_flag_mats grid_indices) = true) := by
  unfold GPU_pbvh_grid_buffers_update_free
  dsimp only
  split_ifs
  · exact ⟨rfl, fun _ => rfl⟩
  · exact ⟨h, hn⟩

/-- The object of a grid update at the point where it asks for vertex storage is current and
has a triangle index buffer. -/
theorem grid_update_indexed_current (E : Deps) (b : GPU_PBVH_Buffers)
    (grid_flag_mats : List DMFlagMat) (grid_indices : List Nat) (totgrid : Nat) (key : CCGKey)
    (h : batches_current b = true) (hn : b.index_buf = none → no_batches b = true) :
    batches_current (grid_update_indexed E b grid_flag_mats grid_indices totgrid key) = true := by
  unfold grid_update_indexed
  split_ifs with hi
  · rw [grid_fill_index_buffers_eq]
    apply batches_current_of_no_batches
    exact hn (Option.isNone_iff_eq_none.mp hi)
  · exact h

/-- A grid update keeps the batches current, and an object without triangle index buffer
without batches. -/
theorem grid_update_current (E : Deps) (alloc_ok : Bool) (b : GPU_PBVH_Buffers)
    (subdiv_ccg : Option SubdivCCG) (grids : List (List CCGElem))
    (grid_flag_mats : List DMFlagMat) (grid_indices : List Nat) (totgrid : Nat)
    (sfs : Option (List Int)) (seed dflt : Int) (key : CCGKey) (update_flags : Nat)
    (h : batches_current b = true) (hn : b.index_buf = none → no_batches b = true) :
    batches_current (GPU_pbvh_grid_buffers_update E alloc_ok b subdiv_ccg grids grid_flag_mats
      grid_indices totgrid sfs seed dflt key update_flags) = true ∧
    ((GPU_pbvh_grid_buffers_update E alloc_ok b subdiv_ccg grids grid_flag_mats
      grid_indices totgrid sfs seed dflt key update_flags).index_buf = none →
      no_batches (GPU_pbvh_grid_buffers_update E alloc_ok b subdiv_ccg grids grid_flag_mats
        grid_indices totgrid sfs seed dflt key update_flags) = true) := by
  cases hc : (b.index_buf.isNone &&
      BKE_pbvh_count_grid_quads E (b.grid_hidden.getD []) grid_indices totgrid
        key.grid_size == 0) with
  | true =>
    simp only [Bool.and_eq_true, Option.isNone_iff_eq_none, beq_iff_eq] at hc
    rw [grid_update_early E alloc_ok b subdiv_ccg grids grid_flag_mats grid_indices totgrid sfs
      seed dflt key update_flags hc.1 hc.2]
    exact ⟨h, hn⟩
  | false =>
    have hI := grid_update_indexed_current E b grid_flag_mats grid_indices totgrid key h hn
    have hib := grid_update_indexed_index_buf E b grid_flag_mats grid_indices totgrid key
    have hib2 : (GPU_pbvh_grid_buffers_update E alloc_ok b subdiv_ccg grids grid_flag_mats
        grid_indices totgrid sfs seed dflt key update_flags).index_buf =
        (grid_update_indexed E b grid_flag_mats grid_indices totgrid key).index_buf := by
      rw [grid_update_late_keeps GPU_PBVH_Buffers.index_buf
        (fun _ _ _ _ _ _ _ _ _ _ _ _ _ _ => rfl) E alloc_ok b subdiv_ccg grids grid_flag_mats
        grid_indices totgrid sfs seed dflt key update_flags hc]
    refine ⟨?_, fun hnone => ?_⟩
    · rw [grid_update_late_eq E alloc_ok b subdiv_ccg grids grid_flag_mats grid_indices totgrid
        sfs seed dflt key update_flags hc]
      split_ifs
      · exact update_tail_current _ _ alloc_ok _ _ hI
      · exact vert_buf_data_set_current _ _ alloc_ok hI
    · rw [hib2] at hnone
      rw [hnone] at hib
      simp at hib

/-- Under every sequence of operations on a grid node the batches stay current. -/
theorem grid_ops_current (E : Deps) (ops : List GridOp) :
    ∀ (b : GPU_PBVH_Buffers), batches_current b = true →
      (b.index_buf = none → no_batches b = true) →
      batches_current (ops.foldl (GridOp.run E) b) = true := by
  induction ops with
  | nil => intro b h _; exact h
  | cons op rest ih =>
    intro b h hn
    rw [List.foldl_cons]
    cases op with
    | update_free grid_flag_mats grid_indices =>
      obtain ⟨c1, c2⟩ := grid_update_free_current b grid_flag_mats grid_indices h hn
      exact ih _ c1 c2
    | update alloc_ok subdiv_ccg grids grid_flag_mats grid_indices totgrid sfs seed dflt key
        update_flags =>
      obtain ⟨c1, c2⟩ := grid_update_current E alloc_ok b subdiv_ccg grids grid_flag_mats
        grid_indices totgrid sfs seed dflt key update_flags h hn
      exact ih _ c1 c2
    | flush =>
      refine ih _ (update_flush_current b h) ?_
      show (GPU_pbvh_buffers_update_flush b).index_buf = none →
        no_batches (GPU_pbvh_buffers_update_flush b) = true
      unfold GPU_pbvh_buffers_update_flush
      split_ifs
      · intro _; rfl
      · exact hn

/-- The object returned by `GPU_pbvh_mesh_buffers_build` holds no batch. -/
theorem mesh_build_no_batches (E : Deps) (mpoly : List MPoly) (mloop : List MLoop)
    (looptri : List MLoopTri) (mvert : List MVert) (face_indices : List Nat)
    (sfs : Option (List Int)) (face_indices_len : Nat) (mesh : Mesh) :
    no_batches (GPU_pbvh_mesh_buffers_build E mpoly mloop looptri mvert face_indices sfs
      face_indices_len mesh) = true := by
  unfold GPU_pbvh_mesh_buffers_build
  dsimp only
  split_ifs <;> rfl

/-- C21 (amended): under every sequence of updates and flushes of a mesh node, under every
sequence of `update_free`, updates and flushes of a grid node, and under every sequence of
`update_free`, updates and flushes of a dynamic-topology node in which each update comes first
after the build or directly after `GPU_pbvh_bmesh_buffers_update_free`, every batch that is
present in the node buffer object was created from the vertex buffer and the index buffer the
object stores now; so after an operation replaced a buffer, a batch that referred to the
replaced one is absent or was rebuilt. -/
theorem batches_current_under_operations (E : Deps) (mpoly : List MPoly) (mloop : List MLoop)
    (looptri : List MLoopTri) (mvert : List MVert) (face_indices : List Nat)
    (sfs : Option (List Int)) (face_indices_len : Nat) (mesh : Mesh) (mesh_ops : List MeshOp)
    (totgrid : Nat) (grid_hidden : List (Option BLI_bitmap)) (grid_ops : List GridOp)
    (smooth_shading : Bool) (bmesh_ops : List BMeshOp)
    (hfree : bmesh_free_before_update true bmesh_ops = true) :
    batches_current (mesh_ops.foldl (MeshOp.run E)
      (GPU_pbvh_mesh_buffers_build E mpoly mloop looptri mvert face_indices sfs face_indices_len
        mesh)) = true ∧
    batches_current (grid_ops.foldl (GridOp.run E)
      (GPU_pbvh_grid_buffers_build totgrid grid_hidden)) = true ∧
    batches_current (bmesh_ops.foldl (BMeshOp.run E)
      (GPU_pbvh_bmesh_buffers_build smooth_shading)) = true :=
  ⟨mesh_ops_current E mesh_ops _
      (batches_current_of_no_batches _
        (mesh_build_no_batches E mpoly mloop looptri mvert face_indices sfs face_indices_len
          mesh)),
    grid_ops_current E grid_ops _ rfl (fun _ => rfl),
    bmesh_ops_current E bmesh_ops _ true rfl (fun _ => ⟨rfl, fun _ => rfl⟩) hfree⟩

/-- Witness for C21: a mesh node updated, flushed and updated again; a grid node updated, freed
for an update with the other shading mode and updated again; a smooth dynamic-topology node
updated, freed, updated and flushed.  Each ends with its batches present and current. -/
theorem batches_current_under_operations_witness :
    bmesh_free_before_update true
      [bmesh_update_mat1, BMeshOp.update_free, bmesh_update_mat1, BMeshOp.flush] = true ∧
    ((([bmesh_update_mat1, BMeshOp.update_free, bmesh_update_mat1, BMeshOp.flush].foldl
      (BMeshOp.run deps_plain) (GPU_pbvh_bmesh_buffers_build true)).lines.isSome = true) ∧
     (([GridOp.update true none one_grid one_grid_flag_mats [0] 1 none 0 0 one_grid_key 0,
        GridOp.update_free [⟨0, 0⟩] [0],
        GridOp.update true none one_grid [⟨0, 0⟩] [0] 1 none 0 0 one_grid_key 0].foldl
      (GridOp.run deps_plain) (GPU_pbvh_grid_buffers_build 1 [none])).triangles.isSome = true))
    ∧
    (batches_current
      ([MeshOp.update true tri_mvert none none (some [1]) 0 0 none 0, MeshOp.flush,
        MeshOp.update true tri_mvert none none (some [1]) 0 0 none 0].foldl
        (MeshOp.run deps_plain)
        (GPU_pbvh_mesh_buffers_build deps_plain tri_mpoly tri_mloop tri_looptri tri_mvert [0]
          (some [1]) 1 tri_mesh)) = true ∧
    batches_current
      ([GridOp.update true none one_grid one_grid_flag_mats [0] 1 none 0 0 one_grid_key 0,
        GridOp.update_free [⟨0, 0⟩] [0],
        GridOp.update true none one_grid [⟨0, 0⟩] [0] 1 none 0 0 one_grid_key 0].foldl
        (GridOp.run deps_plain) (GPU_pbvh_grid_buffers_build 1 [none])) = true ∧
    batches_current
      ([bmesh_update_mat1, BMeshOp.update_free, bmesh_update_mat1, BMeshOp.flush].foldl
        (BMeshOp.run deps_plain) (GPU_pbvh_bmesh_buffers_build true)) = true) :=
  ⟨by decide, ⟨by decide, by decide⟩,
    batches_current_under_operations deps_plain tri_mpoly tri_mloop tri_looptri tri_mvert [0]
      (some [1]) 1 tri_mesh
      [MeshOp.update true tri_mvert none none (some [1]) 0 0 none 0, MeshOp.flush,
        MeshOp.update true tri_mvert none none (some [1]) 0 0 none 0]
      1 [none]
      [GridOp.update true none one_grid one_grid_flag_mats [0] 1 none 0 0 one_grid_key 0,
        GridOp.update_free [⟨0, 0⟩] [0],
        GridOp.update true none one_grid [⟨0, 0⟩] [0] 1 none 0 0 one_grid_key 0]
      true [bmesh_update_mat1, BMeshOp.update_free, bmesh_update_mat1, BMeshOp.flush]
      (by decide)⟩

/-- Counterexample for C21: a smooth dynamic-topology node updated twice in a row.  The second
update replaces the line index buffer (handle 2) by a new one (handle 5), while the line batch
created by the first update stays and still refers to the replaced buffer. -/
theorem batches_current_under_operations_counterexample :
    batches_current ([bmesh_update_mat1, bmesh_update_mat1].foldl (BMeshOp.run deps_plain)
      (GPU_pbvh_bmesh_buffers_build true)) = false ∧
    (([bmesh_update_mat1].foldl (BMeshOp.run deps_plain)
      (GPU_pbvh_bmesh_buffers_build true)).index_lines_buf.map GPUIndexBuf.handle = some 2) ∧
    (([bmesh_update_mat1, bmesh_update_mat1].foldl (BMeshOp.run deps_plain)
      (GPU_pbvh_bmesh_buffers_build true)).index_lines_buf.map GPUIndexBuf.handle = some 5) ∧
    (([bmesh_update_mat1, bmesh_update_mat1].foldl (BMeshOp.run deps_plain)
      (GPU_pbvh_bmesh_buffers_build true)).lines.map GPUBatch.elem = some (some 2)) ∧
    bmesh_free_before_update true [bmesh_update_mat1, bmesh_update_mat1] = false := by
  decide

/-! ### The vertex format registry -/

theorem modify_last_append_one {α : Type} (f : α → α) (l : List α) (a : α) :
    modify_last f (l ++ [a]) = l ++ [f a] := by
  induction l with
  | nil => rfl
  | cons x rest ih =>
    cases rest with
    | nil => rfl
    | cons y r =>
      show x :: modify_last f (y :: r ++ [a]) = x :: (y :: r ++ [f a])
      rw [ih]

/-- Adding an alias to a format whose last attribute is `a`. -/
theorem alias_add_append_one (l : List GPUVertAttr) (a : GPUVertAttr) (name : String) :
    GPU_vertformat_alias_add ⟨l ++ [a]⟩ name =
      ⟨l ++ [{ a with aliases := a.aliases ++ [name] }]⟩ := by
  unfold GPU_vertformat_alias_add
  rw [modify_last_append_one]

/-- Adding several aliases to a format whose last attribute is `a`. -/
theorem alias_fold_append_one (names : List String) (l : List GPUVertAttr) (a : GPUVertAttr) :
    names.foldl GPU_vertformat_alias_add ⟨l ++ [a]⟩ =
      ⟨l ++ [{ a with aliases := a.aliases ++ names }]⟩ := by
  induction names generalizing a with
  | nil => simp
  | cons n rest ih =>
    rw [List.foldl_cons, alias_add_append_one, ih]
    simp

/-- The colour-layer loop of `GPU_pbvh_update_attribute_names`, started with `c0` colour slots
registered after three other attributes: it registers a slot for each of its first
`MAX_MCOL - c0` layers and nothing for the layers beyond. -/
theorem attribute_names_layers (alias_names : String → CustomData → CustomDataLayer → List String)
    (vdata : CustomData) (act : Int) (cd_vcol_layers : List Int) (steps : List Nat) :
    ∀ (s : AttrNamesLoop), s.ci = s.g.totcol → s.g.format.attrs.length = 3 + s.g.totcol →
      steps.foldl (attribute_names_layer alias_names vdata act cd_vcol_layers) s =
        ⟨{ s.g with
            format := ⟨s.g.format.attrs ++
              (steps.take (MAX_MCOL - s.g.totcol)).map
                (vcol_attr alias_names vdata act cd_vcol_layers)⟩
            col := col_slots s.g.totcol (min steps.length (MAX_MCOL - s.g.totcol)) s.g.col
            totcol := s.g.totcol + min steps.length (MAX_MCOL - s.g.totcol) },
          s.ci + min steps.length (MAX_MCOL - s.g.totcol)⟩ := by
  induction steps with
  | nil =>
    intro s _ _
    simp [col_slots]
  | cons i rest ih =>
    intro s hci hlen
    rw [List.foldl_cons]
    by_cases hlt : s.g.totcol < MAX_MCOL
    · have hstep : attribute_names_layer alias_names vdata act cd_vcol_layers s i =
          ⟨{ s.g with
              format := ⟨s.g.format.attrs ++ [vcol_attr alias_names vdata act cd_vcol_layers i]⟩
              col := s.g.col.set s.g.totcol (3 + s.g.totcol)
              totcol := s.g.totcol + 1 }, s.ci + 1⟩ := by
        unfold attribute_names_layer
        simp only [hlt, if_true, GPU_vertformat_attr_add, DRW_make_cdlayer_attr_aliases,
          alias_fold_append_one, GPUVertFormat.attr_len, hlen, hci]
        split_ifs with hact
        · simp only [alias_add_append_one, vcol_attr, hact, if_true, List.nil_append]
        · simp only [vcol_attr, hact, List.nil_append]
          simp
      rw [hstep, ih _ (by simp [hci]) (by simp [hlen]; omega)]
      obtain ⟨k, hk⟩ : ∃ k, MAX_MCOL - s.g.totcol = k + 1 := ⟨MAX_MCOL - s.g.totcol - 1, by omega⟩
      have hk2 : MAX_MCOL - (s.g.totcol + 1) = k := by omega
      dsimp only
      simp only [hk, hk2, List.take_succ_cons, List.map_cons, List.append_assoc,
        List.singleton_append, List.length_cons, Nat.add_min_add_right, col_slots]
      have e1 : s.g.totcol + 1 + min rest.length k = s.g.totcol + (min rest.length k + 1) := by
        omega
      have e2 : s.ci + 1 + min rest.length k = s.ci + (min rest.length k + 1) := by omega
      rw [e1, e2]
    · have hstep : attribute_names_layer alias_names vdata act cd_vcol_layers s i = s := by
        unfold attribute_names_layer
        simp only [hlt, if_false]
      have h0 : MAX_MCOL - s.g.totcol = 0 := by omega
      rw [hstep, ih s hci hlen]
      simp only [h0, List.take_zero, Nat.min_zero, List.length_cons]
theorem col_slots_one (start : Nat) (col : List Nat) :
    col_slots start 1 col = col.set start (3 + start) := rfl

theorem layer_vcol_attrs_length (E : Deps)
    (alias_names : String → CustomData → CustomDataLayer → List String)
    (vdata : Option CustomData) (active_only : Bool) :
    (layer_vcol_attrs E alias_names vdata active_only).length =
      min (vcol_layer_count E vdata active_only) MAX_MCOL := by
  unfold layer_vcol_attrs vcol_layer_count
  cases vdata with
  | none => simp
  | some vd =>
    dsimp only
    split_ifs
    · simp [Nat.min_comm]
    · simp

/-- The colour block of `GPU_pbvh_update_attribute_names`, entered with three attributes and no
colour slot: it appends the colour attributes of the layers and records their slots. -/
theorem attribute_names_colours_eq (E : Deps)
    (alias_names : String → CustomData → CustomDataLayer → List String) (g : VboId)
    (hlen : g.format.attrs.length = 3) (htot : g.totcol = 0)
    (vdata : Option CustomData) (active_only : Bool) :
    attribute_names_colours E alias_names g vdata active_only =
    { g with
      format := ⟨g.format.attrs ++ layer_vcol_attrs E alias_names vdata active_only⟩
      col := col_slots 0 (layer_vcol_attrs E alias_names vdata active_only).length g.col
      totcol := (layer_vcol_attrs E alias_names vdata active_only).length } := by
  unfold attribute_names_colours
  cases vdata with
  | none =>
    simp only [layer_vcol_attrs, List.append_nil, List.length_nil, col_slots]
    rw [← htot]
  | some vd =>
    dsimp only
    by_cases hl : E.CustomData_has_layer vd CD_PROP_COLOR = true
    · rw [if_pos hl, attribute_names_layers alias_names vd _ _ _ _ htot.symm
        (by rw [hlen, htot])]
      simp only [layer_vcol_attrs, hl, if_true, htot, Nat.sub_zero, Nat.zero_add,
        List.length_map, List.length_take, List.length_range]
      rw [Nat.min_comm MAX_MCOL]
    · rw [if_neg hl]
      obtain ⟨⟨attrs⟩, p, n, m, fs, u, c, t⟩ := g
      simp_all [layer_vcol_attrs, col_slots]

/-- The block that ensures a colour slot: without one it appends the placeholder. -/
theorem attribute_names_ensure_colour_eq (g : VboId) :
    attribute_names_ensure_colour g =
      if g.totcol = 0 then
        { g with
          format := ⟨g.format.attrs ++ [placeholder_vcol_attr]⟩
          col := g.col.set 0 g.format.attrs.length
          totcol := 1 }
      else g := by
  unfold attribute_names_ensure_colour
  by_cases h : g.totcol = 0
  · simp only [h, beq_self_eq_true, if_true, GPU_vertformat_attr_add, alias_add_append_one,
      GPUVertFormat.attr_len, placeholder_vcol_attr, List.nil_append]
  · simp only [beq_iff_eq, h, if_false]

/-- The UV block appends the aliases of the active UV layer to the attribute added last. -/
theorem attribute_names_uv_aliases_eq (E : Deps)
    (alias_names : String → CustomData → CustomDataLayer → List String) (g : VboId)
    (A : List GPUVertAttr) (a : GPUVertAttr) (hg : g.format = ⟨A ++ [a]⟩)
    (ldata : Option CustomData) :
    attribute_names_uv_aliases E alias_names g ldata =
      { g with
        format := ⟨A ++ [{ a with
          aliases := a.aliases ++ uv_layer_aliases E alias_names ldata }]⟩ } := by
  unfold attribute_names_uv_aliases uv_layer_aliases
  cases ldata with
  | none =>
    simp only [List.append_nil]
    rw [← hg]
  | some ld =>
    dsimp only
    by_cases hu : E.CustomData_has_layer ld CD_MLOOPUV = true
    · simp only [hu, if_true, DRW_make_cdlayer_attr_aliases, hg, alias_fold_append_one]
    · obtain ⟨⟨attrs⟩, p, n, m, fs, u, c, t⟩ := g
      simp_all

/-- The registry `GPU_pbvh_update_attribute_names` leaves: the format holds `pos`, `nor`, `msk`,
the colour attributes, `fset` and `uvs`, in this order; the slot identifiers are the positions in
this order; of the registry passed in only the entries of `col` beyond the colour slots
remain. -/
theorem update_attribute_names_eq (E : Deps)
    (alias_names : String → CustomData → CustomDataLayer → List String) (g : VboId)
    (vdata ldata : Option CustomData) (active_only : Bool) :
    GPU_pbvh_update_attribute_names E alias_names g vdata ldata active_only =
      { format := ⟨[⟨"pos", [], GPU_COMP_F32, 3, GPU_FETCH_FLOAT⟩,
                    ⟨"nor", [], GPU_COMP_I16, 3, GPU_FETCH_INT_TO_FLOAT_UNIT⟩,
                    ⟨"msk", [], GPU_COMP_U8, 1, GPU_FETCH_INT_TO_FLOAT_UNIT⟩] ++
                   registered_vcol_attrs E alias_names vdata active_only ++
                   [⟨"fset", [], GPU_COMP_U8, 3, GPU_FETCH_INT_TO_FLOAT_UNIT⟩,
                    ⟨"uvs", "u" :: uv_layer_aliases E alias_names ldata, GPU_COMP_F32, 2,
                      GPU_FETCH_FLOAT⟩]⟩
        pos := 0
        nor := 1
        msk := 2
        fset := 3 + (registered_vcol_attrs E alias_names vdata active_only).length
        uv := 4 + (registered_vcol_attrs E alias_names vdata active_only).length
        col := col_slots 0 (registered_vcol_attrs E alias_names vdata active_only).length g.col
        totcol := (registered_vcol_attrs E alias_names vdata active_only).length } := by
  unfold GPU_pbvh_update_attribute_names
  simp only [GPU_vertformat_clear, GPUVertFormat.attr_len, List.length_nil, beq_self_eq_true,
    if_true, GPU_vertformat_attr_add]
  rw [attribute_names_colours_eq E alias_names _ (by rfl) (by rfl),
    attribute_names_ensure_colour_eq]
  dsimp only
  by_cases h0 : (layer_vcol_attrs E alias_names vdata active_only).length = 0
  · have hnil : layer_vcol_attrs E alias_names vdata active_only = [] :=
      List.length_eq_zero.mp h0
    have hreg : registered_vcol_attrs E alias_names vdata active_only =
        [placeholder_vcol_attr] := by
      unfold registered_vcol_attrs
      rw [if_pos h0]
    rw [hreg, if_pos h0]
    dsimp only
    rw [alias_add_append_one, attribute_names_uv_aliases_eq E alias_names _ _ _ (by rfl)]
    simp [hnil, col_slots]
  · have hreg : registered_vcol_attrs E alias_names vdata active_only =
        layer_vcol_attrs E alias_names vdata active_only := by
      unfold registered_vcol_attrs
      rw [if_neg h0]
    rw [hreg, if_neg h0]
    dsimp only
    rw [alias_add_append_one, attribute_names_uv_aliases_eq E alias_names _ _ _ (by rfl)]
    simp
    omega
theorem col_slots_length (start k : Nat) (col : List Nat) :
    (col_slots start k col).length = col.length := by
  induction k generalizing start col with
  | zero => rfl
  | succ k ih => rw [col_slots, ih, List.length_set]

/-- Entry `j` of the array `col` after `k` slots from `start` on were registered. -/
theorem col_slots_getElem? (start k : Nat) (col : List Nat) (j : Nat) :
    (col_slots start k col)[j]? =
      if start ≤ j ∧ j < start + k ∧ j < col.length then some (3 + j) else col[j]? := by
  induction k generalizing start col with
  | zero =>
    rw [col_slots, if_neg (by omega)]
  | succ k ih =>
    rw [col_slots, ih, List.length_set, List.getElem?_set]
    by_cases h1 : start = j
    · subst h1
      by_cases h2 : start < col.length
      · rw [if_neg (by omega), if_pos rfl, if_pos h2, if_pos (by omega)]
      · rw [if_neg (by omega), if_pos rfl, if_neg h2, if_neg (by omega)]
        exact (List.getElem?_eq_none (by omega)).symm
    · rw [if_neg h1]
      by_cases h3 : start + 1 ≤ j ∧ j < start + 1 + k ∧ j < col.length
      · rw [if_pos h3, if_pos (by omega)]
      · rw [if_neg h3, if_neg (by omega)]

/-- Registering the same slots again leaves the array `col` as it is. -/
theorem col_slots_idem (start k : Nat) (col : List Nat) :
    col_slots start k (col_slots start k col) = col_slots start k col := by
  apply List.ext_getElem?
  intro j
  rw [col_slots_getElem? start k (col_slots start k col), col_slots_length,
    col_slots_getElem?]
  split_ifs <;> rfl

theorem registered_vcol_attrs_length (E : Deps)
    (alias_names : String → CustomData → CustomDataLayer → List String)
    (vdata : Option CustomData) (active_only : Bool) :
    (registered_vcol_attrs E alias_names vdata active_only).length =
      max 1 (min (vcol_layer_count E vdata active_only) MAX_MCOL) := by
  unfold registered_vcol_attrs
  rw [← layer_vcol_attrs_length E alias_names vdata active_only]
  split_ifs with h
  · rw [h]; rfl
  · omega

theorem registered_vcol_attrs_layout (E : Deps)
    (alias_names : String → CustomData → CustomDataLayer → List String)
    (vdata : Option CustomData) (active_only : Bool) :
    (registered_vcol_attrs E alias_names vdata active_only).map GPUVertAttr.layout =
      List.replicate (registered_vcol_attrs E alias_names vdata active_only).length
        ("c", GPU_COMP_U16, 4, GPU_FETCH_INT_TO_FLOAT_UNIT) := by
  rw [List.eq_replicate_iff]
  refine ⟨List.length_map _ _, ?_⟩
  · intro b hb
    rw [List.mem_map] at hb
    obtain ⟨a, ha, rfl⟩ := hb
    unfold registered_vcol_attrs at ha
    split_ifs at ha with h
    · rw [List.mem_singleton] at ha
      subst ha; rfl
    · unfold layer_vcol_attrs at ha
      cases vdata with
      | none => simp at ha
      | some vd =>
        dsimp only at ha
        split_ifs at ha
        · rw [List.mem_map] at ha
          obtain ⟨i, _, rfl⟩ := ha
          rfl
        · simp at ha

/-- C29: after `GPU_pbvh_update_attribute_names`, whatever the registry held and whatever custom
data are given, the format lists `pos` (3 x 32-bit float), `nor` (3 x signed 16-bit, normalised),
`msk` (1 x unsigned 8-bit, normalised), then `totcol` colour slots `c` (4 x unsigned 16-bit,
normalised) with `1 ≤ totcol ≤ MAX_MCOL`, then `fset` (3 x unsigned 8-bit, normalised) and `uvs`
(2 x 32-bit float); the slot identifiers are the positions in this order; `totcol` is the number
of colour layers walked over, capped at `MAX_MCOL` and at least 1; and without vertex data, or
without a colour layer in it, `totcol` is 1 and the one colour slot is the placeholder. -/
theorem update_attribute_names_format (E : Deps)
    (alias_names : String → CustomData → CustomDataLayer → List String) (g : VboId)
    (vdata ldata : Option CustomData) (active_only : Bool) :
    (GPU_pbvh_update_attribute_names E alias_names g vdata ldata
      active_only).format.attrs.map GPUVertAttr.layout =
      [("pos", GPU_COMP_F32, 3, GPU_FETCH_FLOAT),
       ("nor", GPU_COMP_I16, 3, GPU_FETCH_INT_TO_FLOAT_UNIT),
       ("msk", GPU_COMP_U8, 1, GPU_FETCH_INT_TO_FLOAT_UNIT)] ++
      List.replicate
        (GPU_pbvh_update_attribute_names E alias_names g vdata ldata active_only).totcol
        ("c", GPU_COMP_U16, 4, GPU_FETCH_INT_TO_FLOAT_UNIT) ++
      [("fset", GPU_COMP_U8, 3, GPU_FETCH_INT_TO_FLOAT_UNIT),
       ("uvs", GPU_COMP_F32, 2, GPU_FETCH_FLOAT)] ∧
    1 ≤ (GPU_pbvh_update_attribute_names E alias_names g vdata ldata active_only).totcol ∧
    (GPU_pbvh_update_attribute_names E alias_names g vdata ldata active_only).totcol
      ≤ MAX_MCOL ∧
    (GPU_pbvh_update_attribute_names E alias_names g vdata ldata active_only).totcol =
      max 1 (min (vcol_layer_count E vdata active_only) MAX_MCOL) ∧
    (GPU_pbvh_update_attribute_names E alias_names g vdata ldata active_only).pos = 0 ∧
    (GPU_pbvh_update_attribute_names E alias_names g vdata ldata active_only).nor = 1 ∧
    (GPU_pbvh_update_attribute_names E alias_names g vdata ldata active_only).msk = 2 ∧
    (GPU_pbvh_update_attribute_names E alias_names g vdata ldata active_only).fset =
      3 + (GPU_pbvh_update_attribute_names E alias_names g vdata ldata active_only).totcol ∧
    (GPU_pbvh_update_attribute_names E alias_names g vdata ldata active_only).uv =
      4 + (GPU_pbvh_update_attribute_names E alias_names g vdata ldata active_only).totcol ∧
    ((vdata = none ∨ ∃ vd, vdata = some vd ∧ E.CustomData_has_layer vd CD_PROP_COLOR = false) →
      (GPU_pbvh_update_attribute_names E alias_names g vdata ldata active_only).totcol = 1 ∧
      (GPU_pbvh_update_attribute_names E alias_names g vdata ldata
        active_only).format.attrs[3]? = some placeholder_vcol_attr) := by
  rw [update_attribute_names_eq]
  dsimp only
  have hlen := registered_vcol_attrs_length E alias_names vdata active_only
  refine ⟨?_, ?_, ?_, hlen, rfl, rfl, rfl, rfl, rfl, ?_⟩
  · rw [List.map_append, List.map_append, registered_vcol_attrs_layout]
    rfl
  · rw [hlen]; omega
  · rw [hlen]
    have : 1 ≤ MAX_MCOL := by decide
    omega
  · intro hno
    have hnil : layer_vcol_attrs E alias_names vdata active_only = [] := by
      rcases hno with h | ⟨vd, h, hl⟩
      · rw [h]; rfl
      · rw [h]; simp [layer_vcol_attrs, hl]
    have hreg : registered_vcol_attrs E alias_names vdata active_only =
        [placeholder_vcol_attr] := by
      unfold registered_vcol_attrs
      rw [hnil]; rfl
    rw [hreg]
    exact ⟨rfl, rfl⟩

/-- Witness for C29: from an empty registry, vertex data with two colour layers give two colour
slots; no vertex data give the one placeholder slot. -/
theorem update_attribute_names_format_witness :
    (GPU_pbvh_update_attribute_names deps_plain (fun _ _ _ => []) vbo_id_zero
      (some two_vcol_layers) none false).totcol = 2 ∧
    (GPU_pbvh_update_attribute_names deps_plain (fun _ _ _ => []) vbo_id_zero
      (some two_vcol_layers) none false).col = [3, 4, 0, 0, 0, 0, 0, 0] ∧
    ((GPU_pbvh_update_attribute_names deps_plain (fun _ _ _ => []) vbo_id_zero none none
        false).totcol = 1 ∧
      (GPU_pbvh_update_attribute_names deps_plain (fun _ _ _ => []) vbo_id_zero none none
        false).format.attrs[3]? = some placeholder_vcol_attr) :=
  ⟨by decide, by decide,
    (update_attribute_names_format deps_plain (fun _ _ _ => []) vbo_id_zero none none
      false).2.2.2.2.2.2.2.2.2 (Or.inl rfl)⟩

/-- C30: rebuilding the vertex format is idempotent: a second call of
`GPU_pbvh_update_attribute_names` with the same custom data and the same `active_only` flag
returns the registry the first call returned - the same attributes in the same order, the same
slot identifiers, the same `totcol` - and the format has as many attributes as before; so does a
second `gpu_pbvh_init`. -/
theorem update_attribute_names_idempotent (E : Deps)
    (alias_names : String → CustomData → CustomDataLayer → List String) (g : VboId)
    (vdata ldata : Option CustomData) (active_only : Bool) :
    GPU_pbvh_update_attribute_names E alias_names
      (GPU_pbvh_update_attribute_names E alias_names g vdata ldata active_only)
      vdata ldata active_only =
      GPU_pbvh_update_attribute_names E alias_names g vdata ldata active_only ∧
    (GPU_pbvh_update_attribute_names E alias_names
      (GPU_pbvh_update_attribute_names E alias_names g vdata ldata active_only)
      vdata ldata active_only).format.attr_len =
      (GPU_pbvh_update_attribute_names E alias_names g vdata ldata active_only).format.attr_len ∧
    gpu_pbvh_init E alias_names (gpu_pbvh_init E alias_names g) =
      gpu_pbvh_init E alias_names g := by
  have h : ∀ (vdata ldata : Option CustomData) (active_only : Bool),
      GPU_pbvh_update_attribute_names E alias_names
        (GPU_pbvh_update_attribute_names E alias_names g vdata ldata active_only)
        vdata ldata active_only =
      GPU_pbvh_update_attribute_names E alias_names g vdata ldata active_only := by
    intro vdata ldata active_only
    rw [update_attribute_names_eq E alias_names
      (GPU_pbvh_update_attribute_names E alias_names g vdata ldata active_only),
      update_attribute_names_eq E alias_names g]
    dsimp only
    rw [col_slots_idem]
  exact ⟨h vdata ldata active_only, by rw [h], h none none false⟩

/-! ### Face strength of the weighted normal modifier -/

/-- C34: `check_item_face_strength` returns true iff the strength of the face is at least the
current strength of the item before the call; after the call `curr_strength` is the maximum of
its previous value and the strength of the face; when the strength of the face is strictly
greater, `normal`, `curr_val` and `loops_num` are reset to zero, and otherwise the three are
left as they were. -/
theorem check_item_face_strength_effect (E : Deps) (wn_data : WeightedNormalData)
    (item_data : WeightedNormalDataAggregateItem) (face_index : Nat) :
    ((check_item_face_strength E wn_data item_data face_index).1 = true ↔
      item_data.curr_strength ≤ deref wn_data.face_strength face_index) ∧
    (check_item_face_strength E wn_data item_data face_index).2.curr_strength =
      max item_data.curr_strength (deref wn_data.face_strength face_index) ∧
    (item_data.curr_strength < deref wn_data.face_strength face_index →
      (check_item_face_strength E wn_data item_data face_index).2.normal =
        ⟨E.float_of_int 0, E.float_of_int 0, E.float_of_int 0⟩ ∧
      (check_item_face_strength E wn_data item_data face_index).2.curr_val = E.float_of_int 0 ∧
      (check_item_face_strength E wn_data item_data face_index).2.loops_num = 0) ∧
    (¬ item_data.curr_strength < deref wn_data.face_strength face_index →
      (check_item_face_strength E wn_data item_data face_index).2 = item_data) := by
  unfold check_item_face_strength
  dsimp only
  by_cases h : deref wn_data.face_strength face_index > item_data.curr_strength
  · rw [if_pos h]
    refine ⟨?_, ?_, fun _ => ⟨rfl, rfl, rfl⟩, fun hn => absurd h hn⟩
    · simp only [beq_self_eq_true, true_iff]
      exact le_of_lt h
    · exact (max_eq_right (le_of_lt h)).symm
  · rw [if_neg h]
    refine ⟨?_, ?_, fun hl => absurd hl h, fun _ => rfl⟩
    · rw [beq_iff_eq]
      constructor
      · intro he; rw [he]
      · intro hle; exact le_antisymm (not_lt.mp h) hle
    · exact (max_eq_left (not_lt.mp h)).symm

/-- Witness for C34: an item of strength 1 that has counted two loops meets a face of
strength 2 and is reset; meeting a face of strength 1 it is kept. -/
theorem check_item_face_strength_effect_witness :
    (check_item_face_strength deps_plain ⟨some [2, 1, 0]⟩ ⟨⟨⟨5⟩, ⟨6⟩, ⟨7⟩⟩, 2, ⟨9⟩, 1⟩ 0 =
      (true, ⟨⟨⟨0⟩, ⟨0⟩, ⟨0⟩⟩, 0, ⟨0⟩, 2⟩)) ∧
    (check_item_face_strength deps_plain ⟨some [2, 1, 0]⟩ ⟨⟨⟨5⟩, ⟨6⟩, ⟨7⟩⟩, 2, ⟨9⟩, 1⟩ 2 =
      (false, ⟨⟨⟨5⟩, ⟨6⟩, ⟨7⟩⟩, 2, ⟨9⟩, 1⟩)) ∧
    (check_item_face_strength deps_plain ⟨some [2, 1, 0]⟩ ⟨⟨⟨5⟩, ⟨6⟩, ⟨7⟩⟩, 2, ⟨9⟩, 1⟩ 1).2 =
      ⟨⟨⟨5⟩, ⟨6⟩, ⟨7⟩⟩, 2, ⟨9⟩, 1⟩ :=
  ⟨by decide, by decide,
    (check_item_face_strength_effect deps_plain ⟨some [2, 1, 0]⟩
      ⟨⟨⟨5⟩, ⟨6⟩, ⟨7⟩⟩, 2, ⟨9⟩, 1⟩ 1).2.2.2 (by decide)⟩

/-! ### The clear flag of a dynamic-topology node -/

/-- A dynamic-topology update that finds a triangle (a triangle in the flattened buffer and a
visible face of the material in the face table) leaves `clear_bmesh_on_flush` as it was. -/
theorem bmesh_update_keeps_clear_flag (E : Deps) (dt alloc_ok : Bool)
    (buffers : GPU_PBVH_Buffers) (bm : BMesh) (bm_faces : TableGSet BMFace)
    (bm_unique_verts bm_other_verts : TableGSet BMVert) (tribuf : PBVHTriBuf)
    (update_flags : Nat) (cd_vert_node_offset : Int) (seed dflt : Int)
    (flat_vcol active_vcol_only : Bool) (mat_nr : Int)
    (htri : tribuf.tottri ≠ 0) (hvis : gpu_bmesh_face_visible_count bm_faces mat_nr ≠ 0) :
    (GPU_pbvh_bmesh_buffers_update E dt alloc_ok buffers bm bm_faces bm_unique_verts
      bm_other_verts tribuf update_flags cd_vert_node_offset seed dflt flat_vcol active_vcol_only
      mat_nr).clear_bmesh_on_flush = buffers.clear_bmesh_on_flush := by
  have h0 : (tribuf.tottri == 0) = false := by simpa using htri
  have h1 : (gpu_bmesh_face_visible_count bm_faces mat_nr * 6 == 0) = false := by
    simp only [beq_eq_false_iff_ne, ne_eq]; omega
  have hds : ∀ n, (gpu_pbvh_vert_buf_data_set buffers n alloc_ok).1.clear_bmesh_on_flush =
      buffers.clear_bmesh_on_flush := fun n =>
    vert_buf_data_set_keeps GPU_PBVH_Buffers.clear_bmesh_on_flush (fun _ _ _ => rfl) buffers n
      alloc_ok
  unfold GPU_pbvh_bmesh_buffers_update
  dsimp only
  split_ifs with c1 c2
  · unfold GPU_pbvh_bmesh_buffers_update_flat_vcol
    simp only [h1, Bool.false_eq_true, if_false]
    split_ifs
    · exact hds _
    · rw [gpu_pbvh_batch_init_keeps_field GPU_PBVH_Buffers.clear_bmesh_on_flush
        (fun _ _ _ _ _ _ => rfl)]
      exact hds _
  · unfold GPU_pbvh_bmesh_buffers_update_indexed
    simp only [h0, Bool.false_eq_true, if_false]
    split_ifs
    · exact hds _
    · rw [gpu_pbvh_batch_init_keeps_field GPU_PBVH_Buffers.clear_bmesh_on_flush
        (fun _ _ _ _ _ _ => rfl)]
      dsimp only
      split <;> exact hds _
  · unfold GPU_pbvh_bmesh_buffers_update_nonindexed
    simp only [h0, Bool.false_eq_true, if_false]
    split_ifs
    · exact hds _
    · rw [gpu_pbvh_batch_init_keeps_field GPU_PBVH_Buffers.clear_bmesh_on_flush
        (fun _ _ _ _ _ _ => rfl)]
      exact hds _
    · rw [gpu_pbvh_batch_init_keeps_field GPU_PBVH_Buffers.clear_bmesh_on_flush
        (fun _ _ _ _ _ _ => rfl)]
      exact hds _

/-- C40 (amended): a dynamic-topology update that finds at least one triangle leaves
`clear_bmesh_on_flush` as it was before the update.  When the flag was false before, the next
`GPU_pbvh_buffers_update_flush` returns the object as the update left it, with the vertex
buffer, the index buffers and the batches the update built.  When the flag was true before (an
earlier update had found the face table empty and no flush happened in between), it is still
true, and the next flush discards the vertex buffer, the index buffers and the batches. -/
theorem bmesh_update_then_flush (E : Deps) (dt alloc_ok : Bool)
    (buffers : GPU_PBVH_Buffers) (bm : BMesh) (bm_faces : TableGSet BMFace)
    (bm_unique_verts bm_other_verts : TableGSet BMVert) (tribuf : PBVHTriBuf)
    (update_flags : Nat) (cd_vert_node_offset : Int) (seed dflt : Int)
    (flat_vcol active_vcol_only : Bool) (mat_nr : Int)
    (htri : tribuf.tottri ≠ 0) (hvis : gpu_bmesh_face_visible_count bm_faces mat_nr ≠ 0) :
    (GPU_pbvh_bmesh_buffers_update E dt alloc_ok buffers bm bm_faces bm_unique_verts
      bm_other_verts tribuf update_flags cd_vert_node_offset seed dflt flat_vcol active_vcol_only
      mat_nr).clear_bmesh_on_flush = buffers.clear_bmesh_on_flush ∧
    (buffers.clear_bmesh_on_flush = false →
      GPU_pbvh_buffers_update_flush
        (GPU_pbvh_bmesh_buffers_update E dt alloc_ok buffers bm bm_faces bm_unique_verts
          bm_other_verts tribuf update_flags cd_vert_node_offset seed dflt flat_vcol
          active_vcol_only mat_nr) =
      GPU_pbvh_bmesh_buffers_update E dt alloc_ok buffers bm bm_faces bm_unique_verts
        bm_other_verts tribuf update_flags cd_vert_node_offset seed dflt flat_vcol
        active_vcol_only mat_nr) ∧
    (buffers.clear_bmesh_on_flush = true →
      (GPU_pbvh_buffers_update_flush
        (GPU_pbvh_bmesh_buffers_update E dt alloc_ok buffers bm bm_faces bm_unique_verts
          bm_other_verts tribuf update_flags cd_vert_node_offset seed dflt flat_vcol
          active_vcol_only mat_nr)).vert_buf = none ∧
      (GPU_pbvh_buffers_update_flush
        (GPU_pbvh_bmesh_buffers_update E dt alloc_ok buffers bm bm_faces bm_unique_verts
          bm_other_verts tribuf update_flags cd_vert_node_offset seed dflt flat_vcol
          active_vcol_only mat_nr)).index_buf = none ∧
      (GPU_pbvh_buffers_update_flush
        (GPU_pbvh_bmesh_buffers_update E dt alloc_ok buffers bm bm_faces bm_unique_verts
          bm_other_verts tribuf update_flags cd_vert_node_offset seed dflt flat_vcol
          active_vcol_only mat_nr)).index_lines_buf = none ∧
      (GPU_pbvh_buffers_update_flush
        (GPU_pbvh_bmesh_buffers_update E dt alloc_ok buffers bm bm_faces bm_unique_verts
          bm_other_verts tribuf update_flags cd_vert_node_offset seed dflt flat_vcol
          active_vcol_only mat_nr)).triangles = none ∧
      (GPU_pbvh_buffers_update_flush
        (GPU_pbvh_bmesh_buffers_update E dt alloc_ok buffers bm bm_faces bm_unique_verts
          bm_other_verts tribuf update_flags cd_vert_node_offset seed dflt flat_vcol
          active_vcol_only mat_nr)).lines = none) := by
  have hk := bmesh_update_keeps_clear_flag E dt alloc_ok buffers bm bm_faces bm_unique_verts
    bm_other_verts tribuf update_flags cd_vert_node_offset seed dflt flat_vcol active_vcol_only
    mat_nr htri hvis
  refine ⟨hk, fun hf => ?_, fun ht => ?_⟩
  · unfold GPU_pbvh_buffers_update_flush
    rw [hk, hf]
    rfl
  · unfold GPU_pbvh_buffers_update_flush
    rw [hk, ht]
    exact ⟨rfl, rfl, rfl, rfl, rfl⟩

/-- Witness for C40: a fresh smooth node updated with one triangle; the flag is false before and
after, and the flush keeps the vertex buffer. -/
theorem bmesh_update_then_flush_witness :
    tribuf_mat1.tottri ≠ 0 ∧ gpu_bmesh_face_visible_count [face_mat1] 1 ≠ 0 ∧
    (GPU_pbvh_buffers_update_flush
      (GPU_pbvh_bmesh_buffers_update deps_plain true true (GPU_pbvh_bmesh_buffers_build true)
        plain_bmesh [face_mat1] [] [] tribuf_mat1 0 0 0 1 false false 1)).vert_buf.isSome
      = true ∧
    GPU_pbvh_buffers_update_flush
      (GPU_pbvh_bmesh_buffers_update deps_plain true true (GPU_pbvh_bmesh_buffers_build true)
        plain_bmesh [face_mat1] [] [] tribuf_mat1 0 0 0 1 false false 1) =
    GPU_pbvh_bmesh_buffers_update deps_plain true true (GPU_pbvh_bmesh_buffers_build true)
      plain_bmesh [face_mat1] [] [] tribuf_mat1 0 0 0 1 false false 1 :=
  ⟨by decide, by decide, by decide,
    (bmesh_update_then_flush deps_plain true true (GPU_pbvh_bmesh_buffers_build true)
      plain_bmesh [face_mat1] [] [] tribuf_mat1 0 0 0 1 false false 1 (by decide)
      (by decide)).2.1 (by decide)⟩

/-- Counterexample for C40: a smooth node is updated with an empty face table and an empty
triangle buffer, which sets the flag, and then, without a flush in between, with one triangle.
The second update builds a vertex buffer and the triangle batch and leaves the flag true, and
the flush that follows discards what was built. -/
theorem bmesh_update_then_flush_counterexample :
    (GPU_pbvh_bmesh_buffers_update deps_plain true true (GPU_pbvh_bmesh_buffers_build true)
      plain_bmesh [] [] [] empty_tribuf 0 0 0 1 false false 1).clear_bmesh_on_flush = true ∧
    (GPU_pbvh_bmesh_buffers_update deps_plain true true
      (GPU_pbvh_bmesh_buffers_update deps_plain true true (GPU_pbvh_bmesh_buffers_build true)
        plain_bmesh [] [] [] empty_tribuf 0 0 0 1 false false 1)
      plain_bmesh [face_mat1] [] [] tribuf_mat1 0 0 0 1 false false 1).clear_bmesh_on_flush
      = true ∧
    (GPU_pbvh_bmesh_buffers_update deps_plain true true
      (GPU_pbvh_bmesh_buffers_update deps_plain true true (GPU_pbvh_bmesh_buffers_build true)
        plain_bmesh [] [] [] empty_tribuf 0 0 0 1 false false 1)
      plain_bmesh [face_mat1] [] [] tribuf_mat1 0 0 0 1 false false 1).vert_buf.isSome = true ∧
    (GPU_pbvh_bmesh_buffers_update deps_plain true true
      (GPU_pbvh_bmesh_buffers_update deps_plain true true (GPU_pbvh_bmesh_buffers_build true)
        plain_bmesh [] [] [] empty_tribuf 0 0 0 1 false false 1)
      plain_bmesh [face_mat1] [] [] tribuf_mat1 0 0 0 1 false false 1).triangles.isSome = true ∧
    (GPU_pbvh_buffers_update_flush
      (GPU_pbvh_bmesh_buffers_update deps_plain true true
        (GPU_pbvh_bmesh_buffers_update deps_plain true true (GPU_pbvh_bmesh_buffers_build true)
          plain_bmesh [] [] [] empty_tribuf 0 0 0 1 false false 1)
        plain_bmesh [face_mat1] [] [] tribuf_mat1 0 0 0 1 false false 1)).vert_buf = none ∧
    (GPU_pbvh_buffers_update_flush
      (GPU_pbvh_bmesh_buffers_update deps_plain true true
        (GPU_pbvh_bmesh_buffers_update deps_plain true true (GPU_pbvh_bmesh_buffers_build true)
          plain_bmesh [] [] [] empty_tribuf 0 0 0 1 false false 1)
        plain_bmesh [face_mat1] [] [] tribuf_mat1 0 0 0 1 false false 1)).triangles = none := by
  decide

/-! ### Discovery of the colour layers -/

/-- Reading entry `j` of an array after the write `a[i] = v` (absent entries read as 0). -/
theorem array_write_getD (a : List Int) (i : Nat) (v : Int) (j : Nat) :
    (array_write a i v).getD j 0 = if j = i then v else a.getD j 0 := by
  unfold array_write
  by_cases hi : i < a.length
  · rw [if_pos hi]
    simp only [List.getD_eq_getElem?_getD, List.getElem?_set]
    by_cases hj : j = i
    · subst hj; simp [hi]
    · rw [if_neg (Ne.symm hj), if_neg hj]
  · rw [if_neg hi]
    simp only [List.getD_eq_getElem?_getD]
    by_cases hj : j = i
    · subst hj
      rw [if_pos rfl, List.getElem?_append_right (by simp; omega)]
      simp
      have : j - (a.length + (j - a.length)) = 0 := by omega
      rw [this]; rfl
    · rw [if_neg hj]
      by_cases hja : j < a.length
      · rw [List.append_assoc, List.getElem?_append_left hja]
      · rw [List.getElem?_eq_none (l := a) (by omega)]
        by_cases hji : j < i
        · rw [List.getElem?_append_left (by simp; omega),
            List.getElem?_append_right (by omega)]
          simp
        · rw [List.getElem?_eq_none (by simp; omega)]

/-- Once the loop has stopped, the layer step does nothing. -/
theorem make_vcol_offs_layer_stopped (E : Deps) (vdata : CustomData) (s : VcolOffs) (i : Nat)
    (h : s.stop = true) : make_vcol_offs_layer E vdata s i = s := by
  unfold make_vcol_offs_layer
  rw [if_pos h]

/-- The layer loop of `gpu_pbvh_bmesh_make_vcol_offs` when no index lookup fails: it appends
layer index and offset of every non-temporary layer it walks over. -/
theorem make_vcol_offs_layers_fold (E : Deps) (vdata : CustomData) (xs : List Nat) :
    ∀ (s : VcolOffs), s.stop = false →
      (∀ x ∈ xs, 0 ≤ E.CustomData_get_layer_index_n vdata CD_PROP_COLOR x) →
      (xs.foldl (make_vcol_offs_layer E vdata) s).stop = false ∧
      (xs.foldl (make_vcol_offs_layer E vdata) s).count =
        s.count + (xs.filter (vcol_layer_kept E vdata)).length ∧
      (∀ j, (xs.foldl (make_vcol_offs_layer E vdata) s).r_cd_layers.getD j 0 =
        if s.count ≤ j ∧ j < s.count + (xs.filter (vcol_layer_kept E vdata)).length then
          E.CustomData_get_layer_index_n vdata CD_PROP_COLOR
            ((xs.filter (vcol_layer_kept E vdata)).getD (j - s.count) 0)
        else s.r_cd_layers.getD j 0) ∧
      (∀ j, (xs.foldl (make_vcol_offs_layer E vdata) s).r_cd_vcols.getD j 0 =
        if s.count ≤ j ∧ j < s.count + (xs.filter (vcol_layer_kept E vdata)).length then
          E.CustomData_get_n_offset vdata CD_PROP_COLOR
            ((xs.filter (vcol_layer_kept E vdata)).getD (j - s.count) 0)
        else s.r_cd_vcols.getD j 0) := by
  induction xs with
  | nil =>
    intro s hs _
    refine ⟨hs, rfl, fun j => ?_, fun j => ?_⟩ <;>
      simp only [List.foldl_nil, List.filter_nil, List.length_nil, Nat.add_zero] <;>
      rw [if_neg (by omega)]
  | cons x rest ih =>
    intro s hs hv
    have hx : ¬ E.CustomData_get_layer_index_n vdata CD_PROP_COLOR x < 0 :=
      not_lt.mpr (hv x (List.mem_cons_self _ _))
    have hrest : ∀ y ∈ rest, 0 ≤ E.CustomData_get_layer_index_n vdata CD_PROP_COLOR y :=
      fun y hy => hv y (List.mem_cons_of_mem _ hy)
    rw [List.foldl_cons]
    by_cases hk : vcol_layer_kept E vdata x = true
    · have hstep : make_vcol_offs_layer E vdata s x =
          { s with
            r_cd_layers := array_write s.r_cd_layers s.count
              (E.CustomData_get_layer_index_n vdata CD_PROP_COLOR x)
            r_cd_vcols := array_write s.r_cd_vcols s.count
              (E.CustomData_get_n_offset vdata CD_PROP_COLOR x)
            count := s.count + 1 } := by
        unfold make_vcol_offs_layer
        have ht : ((vdata.layers.getD
            (E.CustomData_get_layer_index_n vdata CD_PROP_COLOR x).toNat default).flag
            &&& CD_FLAG_TEMPORARY != 0) = false := by
          unfold vcol_layer_kept at hk
          simpa using hk
        simp only [hs, Bool.false_eq_true, if_false, hx, ht]
      obtain ⟨i1, i2, i3, i4⟩ := ih (make_vcol_offs_layer E vdata s x)
        (by rw [hstep]; exact hs) hrest
      rw [List.filter_cons_of_pos hk, List.length_cons]
      rw [hstep] at i1 i2 i3 i4
      dsimp only at i2 i3 i4
      refine ⟨by rw [hstep]; exact i1, by rw [hstep, i2]; omega, fun j => ?_, fun j => ?_⟩
      · rw [hstep, i3 j, array_write_getD]
        by_cases hj : j = s.count
        · subst hj
          rw [if_neg (by omega), if_pos rfl, if_pos (by omega), Nat.sub_self]
          rfl
        · by_cases hr : s.count + 1 ≤ j ∧
              j < s.count + 1 + (rest.filter (vcol_layer_kept E vdata)).length
          · rw [if_pos hr, if_pos (by omega)]
            have : j - s.count = (j - (s.count + 1)) + 1 := by omega
            rw [this, List.getD_cons_succ]
          · rw [if_neg hr, if_neg hj, if_neg (by omega)]
      · rw [hstep, i4 j, array_write_getD]
        by_cases hj : j = s.count
        · subst hj
          rw [if_neg (by omega), if_pos rfl, if_pos (by omega), Nat.sub_self]
          rfl
        · by_cases hr : s.count + 1 ≤ j ∧
              j < s.count + 1 + (rest.filter (vcol_layer_kept E vdata)).length
          · rw [if_pos hr, if_pos (by omega)]
            have : j - s.count = (j - (s.count + 1)) + 1 := by omega
            rw [this, List.getD_cons_succ]
          · rw [if_neg hr, if_neg hj, if_neg (by omega)]
    · have hstep : make_vcol_offs_layer E vdata s x = s := by
        unfold make_vcol_offs_layer
        have ht : ((vdata.layers.getD
            (E.CustomData_get_layer_index_n vdata CD_PROP_COLOR x).toNat default).flag
            &&& CD_FLAG_TEMPORARY != 0) = true := by
          unfold vcol_layer_kept at hk
          simpa using hk
        simp only [hs, Bool.false_eq_true, if_false, hx, ht, if_true]
      rw [hstep, List.filter_cons_of_neg hk]
      exact ih s hs hrest
/-- Once the swap was made, the swap step does nothing. -/
theorem make_vcol_offs_swap_stopped (render : Int) (xs : List Nat) (s : VcolOffs)
    (h : s.stop = true) : xs.foldl (make_vcol_offs_swap render) s = s := by
  induction xs with
  | nil => rfl
  | cons x rest ih =>
    rw [List.foldl_cons]
    have : make_vcol_offs_swap render s x = s := by
      unfold make_vcol_offs_swap
      rw [if_pos h]
    rw [this, ih]

/-- The loop of `gpu_pbvh_bmesh_make_vcol_offs` that moves the render layer last makes one swap,
at the first entry it walks over that holds the render layer, and none when there is no such
entry. -/
theorem make_vcol_offs_swap_fold (render : Int) (xs : List Nat) (s : VcolOffs)
    (hs : s.stop = false) :
    xs.foldl (make_vcol_offs_swap render) s =
      match xs.find? (fun i => s.r_cd_layers.getD i 0 == render) with
      | none => s
      | some i0 => make_vcol_offs_swap render s i0 := by
  induction xs with
  | nil => rfl
  | cons x rest ih =>
    rw [List.foldl_cons]
    by_cases hp : (s.r_cd_layers.getD x 0 == render) = true
    · simp only [List.find?_cons, hp]
      apply make_vcol_offs_swap_stopped
      unfold make_vcol_offs_swap
      simp only [hs, Bool.false_eq_true, if_false, hp, if_true]
    · simp only [List.find?_cons, hp]
      have : make_vcol_offs_swap render s x = s := by
        unfold make_vcol_offs_swap
        simp only [hs, Bool.false_eq_true, if_false, hp]
      rw [this, ih]

theorem getD_map_of_lt {α β : Type} (f : α → β) (l : List α) (j : Nat) (d : α) (e : β)
    (h : j < l.length) : (l.map f).getD j e = f (l.getD j d) := by
  simp only [List.getD_eq_getElem?_getD, List.getElem?_map, List.getElem?_eq_getElem h,
    Option.map_some', Option.getD_some]

/-- The result of `gpu_pbvh_bmesh_make_vcol_offs` for all layers, when no index lookup fails:
the count is the number of non-temporary colour layers, and the first `count` entries of the two
arrays hold the layer index and the offset of these layers, entry `j` those of layer `σ j`, where
`σ` is the identity or exchanges the last entry with the first entry holding the render layer. -/
theorem make_vcol_offs_all (E : Deps) (vdata : CustomData)
    (hvalid : ∀ i, i < E.CustomData_number_of_layers vdata CD_PROP_COLOR →
      0 ≤ E.CustomData_get_layer_index_n vdata CD_PROP_COLOR i) :
    (gpu_pbvh_bmesh_make_vcol_offs E vdata false).2.2 =
      ((vcol_layer_pairs E vdata).length : Int) ∧
    (∃ σ : Equiv.Perm Nat,
      (∀ j, j < (vcol_layer_pairs E vdata).length → σ j < (vcol_layer_pairs E vdata).length) ∧
      ∀ j, j < (vcol_layer_pairs E vdata).length →
        ((gpu_pbvh_bmesh_make_vcol_offs E vdata false).2.1.getD j 0,
         (gpu_pbvh_bmesh_make_vcol_offs E vdata false).1.getD j 0) =
        (vcol_layer_pairs E vdata).getD (σ j) (0, 0)) ∧
    ((∃ j, j < (vcol_layer_pairs E vdata).length ∧
        (gpu_pbvh_bmesh_make_vcol_offs E vdata false).2.1.getD j 0 =
          E.CustomData_get_render_layer_index vdata CD_PROP_COLOR) →
      (gpu_pbvh_bmesh_make_vcol_offs E vdata false).2.1.getD
        ((vcol_layer_pairs E vdata).length - 1) 0 =
        E.CustomData_get_render_layer_index vdata CD_PROP_COLOR) := by
  obtain ⟨h1, h2, h3, h4⟩ := make_vcol_offs_layers_fold E vdata
    (List.range (E.CustomData_number_of_layers vdata CD_PROP_COLOR))
    ⟨List.replicate MAX_MCOL 0, List.replicate MAX_MCOL 0, 0, false⟩ rfl
    (fun x hx => hvalid x (List.mem_range.mp hx))
  have hn : (vcol_layer_pairs E vdata).length =
      ((List.range (E.CustomData_number_of_layers vdata CD_PROP_COLOR)).filter
        (vcol_layer_kept E vdata)).length := by
    unfold vcol_layer_pairs vcol_layer_numbers
    rw [List.length_map]
  have hP : ∀ j, j < (vcol_layer_pairs E vdata).length →
      (vcol_layer_pairs E vdata).getD j (0, 0) =
        (E.CustomData_get_layer_index_n vdata CD_PROP_COLOR
          (((List.range (E.CustomData_number_of_layers vdata CD_PROP_COLOR)).filter
            (vcol_layer_kept E vdata)).getD j 0),
         E.CustomData_get_n_offset vdata CD_PROP_COLOR
          (((List.range (E.CustomData_number_of_layers vdata CD_PROP_COLOR)).filter
            (vcol_layer_kept E vdata)).getD j 0)) := by
    intro j hj
    unfold vcol_layer_pairs vcol_layer_numbers
    rw [getD_map_of_lt _ _ j 0 (0, 0) (by rw [← hn]; exact hj)]
  have hz : ∀ j, (List.replicate MAX_MCOL (0 : Int)).getD j 0 = 0 := by
    intro j
    simp only [List.getD_eq_getElem?_getD, List.getElem?_replicate]
    split_ifs <;> rfl
  dsimp only at h2 h3 h4
  simp only [Nat.zero_add, Nat.zero_le, true_and, Nat.sub_zero, hz] at h2 h3 h4
  rw [← hn] at h2 h3 h4
  unfold gpu_pbvh_bmesh_make_vcol_offs
  simp only [Bool.false_eq_true, if_false]
  rw [make_vcol_offs_swap_fold _ _ _ rfl, h2]
  dsimp only
  cases hf : (List.range (vcol_layer_pairs E vdata).length).find?
      (fun i => ((List.range (E.CustomData_number_of_layers vdata CD_PROP_COLOR)).foldl
        (make_vcol_offs_layer E vdata) ⟨List.replicate MAX_MCOL 0, List.replicate MAX_MCOL 0, 0,
          false⟩).r_cd_layers.getD i 0 ==
        E.CustomData_get_render_layer_index vdata CD_PROP_COLOR) with
  | none =>
    dsimp only
    refine ⟨rfl, ⟨Equiv.refl _, fun j hj => hj, fun j hj => ?_⟩, ?_⟩
    · rw [h3 j, h4 j, if_pos hj, if_pos hj, Equiv.refl_apply, hP j hj]
    · rintro ⟨j, hj, hr⟩
      rw [List.find?_eq_none] at hf
      have := hf j (List.mem_range.mpr hj)
      rw [hr] at this
      simp at this
  | some i0 =>
    have hi0 : i0 < (vcol_layer_pairs E vdata).length :=
      List.mem_range.mp (List.mem_of_find?_eq_some hf)
    have hr0 := List.find?_some hf
    rw [beq_iff_eq] at hr0
    have hsw : ∀ (s : VcolOffs), s.stop = false →
        (s.r_cd_layers.getD i0 0 == E.CustomData_get_render_layer_index vdata CD_PROP_COLOR)
          = true →
        make_vcol_offs_swap (E.CustomData_get_render_layer_index vdata CD_PROP_COLOR) s i0 =
          { s with
            r_cd_layers := array_write (array_write s.r_cd_layers i0
              (s.r_cd_layers.getD (s.count - 1) 0)) (s.count - 1) (s.r_cd_layers.getD i0 0)
            r_cd_vcols := array_write (array_write s.r_cd_vcols i0
              (s.r_cd_vcols.getD (s.count - 1) 0)) (s.count - 1) (s.r_cd_vcols.getD i0 0)
            stop := true } := by
      intro s hs hp
      unfold make_vcol_offs_swap
      simp only [hs, Bool.false_eq_true, if_false, hp, if_true]
    dsimp only
    rw [hsw _ rfl (by dsimp only; rw [hr0]; exact beq_self_eq_true _)]
    dsimp only
    refine ⟨rfl, ⟨Equiv.swap i0 ((vcol_layer_pairs E vdata).length - 1), fun j hj => ?_,
      fun j hj => ?_⟩, fun _ => ?_⟩
    · rw [Equiv.swap_apply_def]
      split_ifs <;> omega
    · have hl : (vcol_layer_pairs E vdata).length - 1 < (vcol_layer_pairs E vdata).length := by
        omega
      rw [array_write_getD, array_write_getD, array_write_getD, array_write_getD,
        Equiv.swap_apply_def]
      by_cases c1 : j = (vcol_layer_pairs E vdata).length - 1
      · rw [if_pos c1, if_pos c1, h3 i0, h4 i0, if_pos hi0, if_pos hi0]
        by_cases c2 : j = i0
        · rw [if_pos c2, ← c2, c1, hP _ hl]
        · rw [if_neg c2, if_pos c1, hP _ hi0]
      · rw [if_neg c1, if_neg c1]
        by_cases c2 : j = i0
        · rw [if_pos c2, if_pos c2, if_pos c2, h3 _, h4 _, if_pos hl, if_pos hl, hP _ hl]
        · rw [if_neg c2, if_neg c2, if_neg c2, if_neg c1, h3 j, h4 j, if_pos hj, if_pos hj,
            hP j hj]
    · rw [array_write_getD, if_pos rfl]
      exact hr0

/-- C31 (amended): when no index lookup fails, `gpu_pbvh_bmesh_make_vcol_offs` called for all
layers returns exactly the non-temporary per-vertex colour layers, each once: the count is their
number, and entry `j` of the two arrays holds layer index and data offset of one and the same
layer `σ j`, for a permutation `σ` of the entries; whenever the render colour layer is among the
returned layers it is in the last returned entry.  Called with `active_only`, it returns one
layer, temporary or not, when a colour layer exists (the offset `CustomData_get_offset` yields
and the active layer index), and none otherwise. -/
theorem make_vcol_offs_returns_layers (E : Deps) (vdata : CustomData)
    (hvalid : ∀ i, i < E.CustomData_number_of_layers vdata CD_PROP_COLOR →
      0 ≤ E.CustomData_get_layer_index_n vdata CD_PROP_COLOR i) :
    ((gpu_pbvh_bmesh_make_vcol_offs E vdata false).2.2 =
        ((vcol_layer_pairs E vdata).length : Int) ∧
     (∃ σ : Equiv.Perm Nat,
       (∀ j, j < (vcol_layer_pairs E vdata).length → σ j < (vcol_layer_pairs E vdata).length) ∧
       ∀ j, j < (vcol_layer_pairs E vdata).length →
         ((gpu_pbvh_bmesh_make_vcol_offs E vdata false).2.1.getD j 0,
          (gpu_pbvh_bmesh_make_vcol_offs E vdata false).1.getD j 0) =
         (vcol_layer_pairs E vdata).getD (σ j) (0, 0)) ∧
     ((∃ j, j < (vcol_layer_pairs E vdata).length ∧
         (gpu_pbvh_bmesh_make_vcol_offs E vdata false).2.1.getD j 0 =
           E.CustomData_get_render_layer_index vdata CD_PROP_COLOR) →
       (gpu_pbvh_bmesh_make_vcol_offs E vdata false).2.1.getD
         ((vcol_layer_pairs E vdata).length - 1) 0 =
         E.CustomData_get_render_layer_index vdata CD_PROP_COLOR)) ∧
    ((gpu_pbvh_bmesh_make_vcol_offs E vdata true).2.2 =
        (if 0 ≤ E.CustomData_get_offset vdata CD_PROP_COLOR then 1 else 0) ∧
     (0 ≤ E.CustomData_get_offset vdata CD_PROP_COLOR →
       (gpu_pbvh_bmesh_make_vcol_offs E vdata true).1.getD 0 0 =
         E.CustomData_get_offset vdata CD_PROP_COLOR ∧
       (gpu_pbvh_bmesh_make_vcol_offs E vdata true).2.1.getD 0 0 =
         E.CustomData_get_active_layer_index vdata CD_PROP_COLOR)) := by
  refine ⟨make_vcol_offs_all E vdata hvalid, ?_, ?_⟩
  · unfold gpu_pbvh_bmesh_make_vcol_offs
    simp only [if_true, ge_iff_le]
    split_ifs <;> rfl
  · intro h
    unfold gpu_pbvh_bmesh_make_vcol_offs
    simp only [if_true, ge_iff_le, h]
    exact ⟨by rw [array_write_getD, if_pos rfl], by rw [array_write_getD, if_pos rfl]⟩

/-- Witness for C31: three colour layers, the first the render layer and the second temporary;
the layers 2 and 0 are returned with their offsets 32 and 0, the render layer last. -/
theorem make_vcol_offs_returns_layers_witness :
    (∀ i, i < deps_plain.CustomData_number_of_layers three_vcol_layers CD_PROP_COLOR →
      0 ≤ deps_plain.CustomData_get_layer_index_n three_vcol_layers CD_PROP_COLOR i) ∧
    vcol_layer_pairs deps_plain three_vcol_layers = [(0, 0), (2, 32)] ∧
    deps_plain.CustomData_get_render_layer_index three_vcol_layers CD_PROP_COLOR = 0 ∧
    gpu_pbvh_bmesh_make_vcol_offs deps_plain three_vcol_layers false =
      ([32, 0, 0, 0, 0, 0, 0, 0], [2, 0, 0, 0, 0, 0, 0, 0], 2) ∧
    (gpu_pbvh_bmesh_make_vcol_offs deps_plain three_vcol_layers false).2.2 =
      ((vcol_layer_pairs deps_plain three_vcol_layers).length : Int) :=
  ⟨by decide, by decide, by decide, by decide,
    (make_vcol_offs_returns_layers deps_plain three_vcol_layers (by decide)).1.1⟩

/-- Counterexample for C31: called with `active_only` on vertex data with two non-temporary
colour layers, one layer is returned; on vertex data whose one colour layer is temporary, that
layer is returned; and when the lookup of the second of two layers fails, the walk ends and one
layer is returned. -/
theorem make_vcol_offs_returns_layers_counterexample :
    (vcol_layer_pairs deps_plain two_vcol_layers).length = 2 ∧
    (gpu_pbvh_bmesh_make_vcol_offs deps_plain two_vcol_layers true).2.2 = 1 ∧
    (vcol_layer_pairs deps_plain ⟨[⟨CD_PROP_COLOR, CD_FLAG_TEMPORARY, 0, 0, 0⟩], 1⟩).length
      = 0 ∧
    (gpu_pbvh_bmesh_make_vcol_offs deps_plain ⟨[⟨CD_PROP_COLOR, CD_FLAG_TEMPORARY, 0, 0, 0⟩], 1⟩
      true).2.2 = 1 ∧
    (vcol_layer_pairs deps_corrupt two_vcol_layers).length = 2 ∧
    (gpu_pbvh_bmesh_make_vcol_offs deps_corrupt two_vcol_layers false).2.2 = 1 := by
  decide

/-- The failing input of C39: vertex data with nine non-temporary colour layers.  The count
returned by `gpu_pbvh_bmesh_make_vcol_offs` is 9, above `MAX_MCOL = 8`, and entry 8 of both
arrays is written (the arrays of the model grow to nine entries, the ninth holding layer index 8
and its offset). -/
theorem make_vcol_offs_count_exceeds_max :
    MAX_MCOL = 8 ∧
    (gpu_pbvh_bmesh_make_vcol_offs deps_plain nine_vcol_layers false).2.2 = 9 ∧
    (gpu_pbvh_bmesh_make_vcol_offs deps_plain nine_vcol_layers false).1.length = 9 ∧
    (gpu_pbvh_bmesh_make_vcol_offs deps_plain nine_vcol_layers false).2.1.length = 9 ∧
    (gpu_pbvh_bmesh_make_vcol_offs deps_plain nine_vcol_layers false).2.1 =
      [8, 1, 2, 3, 4, 5, 6, 7, 0] := by
  decide

/-! ### Flat normals of a mesh node -/

theorem nor_writes_append (a b : List VertWrite) :
    nor_writes (a ++ b) = nor_writes a ++ nor_writes b := by
  unfold nor_writes
  rw [List.filterMap_append]

/-- One corner step of a flat node: the normal in the state is written at the normal cursor, and
the cached normal and polygon stay. -/
theorem mesh_fill_vert_flat (E : Deps) (show_mask show_vcol : Bool) (mvert : List MVert)
    (vmask : Option (List float)) (vcol : Option (List MLoopCol))
    (vtcol : Option (List MPropCol)) (lt : MLoopTri) (vtri : Nat → Nat)
    (fsc : uchar4) (s : MeshFill) (j : Nat) :
    (mesh_fill_vert E false show_mask show_vcol mvert vmask vcol vtcol lt vtri fsc s j).no
      = s.no ∧
    (mesh_fill_vert E false show_mask show_vcol mvert vmask vcol vtcol lt vtri fsc s j).mpoly_prev
      = s.mpoly_prev ∧
    (mesh_fill_vert E false show_mask show_vcol mvert vmask vcol vtcol lt vtri fsc s j).nor_step
      = s.nor_step + 1 ∧
    nor_writes
      (mesh_fill_vert E false show_mask show_vcol mvert vmask vcol vtcol lt vtri fsc s j).writes
      = nor_writes s.writes ++ [(s.nor_step, s.no)] := by
  refine ⟨rfl, rfl, rfl, ?_⟩
  simp only [mesh_fill_vert, nor_writes]
  cases show_vcol <;> simp
  split_ifs <;> simp

/-- The three corner steps of a triangle of a flat node. -/
theorem mesh_fill_vert_flat3 (E : Deps) (show_mask show_vcol : Bool) (mvert : List MVert)
    (vmask : Option (List float)) (vcol : Option (List MLoopCol))
    (vtcol : Option (List MPropCol)) (lt : MLoopTri) (vtri : Nat → Nat)
    (fsc : uchar4) (s : MeshFill) :
    ((List.range 3).foldl
      (mesh_fill_vert E false show_mask show_vcol mvert vmask vcol vtcol lt vtri fsc) s).no
      = s.no ∧
    ((List.range 3).foldl
      (mesh_fill_vert E false show_mask show_vcol mvert vmask vcol vtcol lt vtri fsc)
        s).mpoly_prev = s.mpoly_prev ∧
    ((List.range 3).foldl
      (mesh_fill_vert E false show_mask show_vcol mvert vmask vcol vtcol lt vtri fsc)
        s).nor_step = s.nor_step + 3 ∧
    nor_writes ((List.range 3).foldl
      (mesh_fill_vert E false show_mask show_vcol mvert vmask vcol vtcol lt vtri fsc) s).writes
      = nor_writes s.writes ++
        [(s.nor_step, s.no), (s.nor_step + 1, s.no), (s.nor_step + 2, s.no)] := by
  have hr : List.range 3 = [0, 1, 2] := rfl
  simp only [hr, List.foldl_cons, List.foldl_nil]
  obtain ⟨a1, a2, a3, a4⟩ := mesh_fill_vert_flat E show_mask show_vcol mvert vmask vcol vtcol lt
    vtri fsc s 0
  obtain ⟨b1, b2, b3, b4⟩ := mesh_fill_vert_flat E show_mask show_vcol mvert vmask vcol vtcol lt
    vtri fsc (mesh_fill_vert E false show_mask show_vcol mvert vmask vcol vtcol lt vtri fsc s 0) 1
  obtain ⟨c1, c2, c3, c4⟩ := mesh_fill_vert_flat E show_mask show_vcol mvert vmask vcol vtcol lt
    vtri fsc (mesh_fill_vert E false show_mask show_vcol mvert vmask vcol vtcol lt vtri fsc
      (mesh_fill_vert E false show_mask show_vcol mvert vmask vcol vtcol lt vtri fsc s 0) 1) 2
  refine ⟨by rw [c1, b1, a1], by rw [c2, b2, a2], by rw [c3, b3, a3], ?_⟩
  rw [c4, b4, a4, b3, a3, b1, a1, List.append_assoc, List.append_assoc]
  rfl
/-- One visible triangle of a flat node whose cache is valid: the cached step is the recomputing
step, the cache is valid afterwards, and the three normal records hold the normal of the
polygon of the triangle. -/
theorem mesh_fill_tri_flat (E : Deps) (buffers : GPU_PBVH_Buffers)
    (show_mask show_face_sets show_vcol : Bool)
    (mvert : List MVert) (vmask : Option (List float)) (vcol : Option (List MLoopCol))
    (sfs : Option (List Int)) (seed dflt : Int) (vtcol : Option (List MPropCol))
    (s : MeshFill) (i : Nat) (hs : buffers.smooth = false)
    (hv : gpu_pbvh_is_looptri_visible E (deref buffers.looptri (deref buffers.face_indices i))
      mvert (buffers.mloop.getD []) sfs = true)
    (hinv : s.mpoly_prev ≠ UINT_MAX → s.no = mesh_poly_normal E buffers mvert s.mpoly_prev)
    (hp : (deref buffers.looptri (deref buffers.face_indices i)).poly ≠ UINT_MAX) :
    mesh_fill_tri E buffers show_mask show_face_sets show_vcol mvert vmask vcol sfs seed dflt
      vtcol s i =
    mesh_fill_tri_recompute E buffers show_mask show_face_sets show_vcol mvert vmask vcol sfs seed
      dflt vtcol s i ∧
    (mesh_fill_tri_recompute E buffers show_mask show_face_sets show_vcol mvert vmask vcol sfs seed
      dflt vtcol s i).mpoly_prev = (deref buffers.looptri (deref buffers.face_indices i)).poly ∧
    (mesh_fill_tri_recompute E buffers show_mask show_face_sets show_vcol mvert vmask vcol sfs seed
      dflt vtcol s i).no = mesh_poly_normal E buffers mvert
        (deref buffers.looptri (deref buffers.face_indices i)).poly ∧
    (mesh_fill_tri_recompute E buffers show_mask show_face_sets show_vcol mvert vmask vcol sfs seed
      dflt vtcol s i).nor_step = s.nor_step + 3 ∧
    nor_writes (mesh_fill_tri_recompute E buffers show_mask show_face_sets show_vcol mvert vmask
      vcol sfs seed dflt vtcol s i).writes = nor_writes s.writes ++
        [(s.nor_step, mesh_poly_normal E buffers mvert
            (deref buffers.looptri (deref buffers.face_indices i)).poly),
         (s.nor_step + 1, mesh_poly_normal E buffers mvert
            (deref buffers.looptri (deref buffers.face_indices i)).poly),
         (s.nor_step + 2, mesh_poly_normal E buffers mvert
            (deref buffers.looptri (deref buffers.face_indices i)).poly)] := by
  refine ⟨?_, ?_⟩
  · unfold mesh_fill_tri mesh_fill_tri_recompute
    simp only [hv, hs, Bool.not_true, Bool.not_false, Bool.and_true, if_true, Bool.false_eq_true,
      if_false]
    by_cases he : (deref buffers.looptri (deref buffers.face_indices i)).poly = s.mpoly_prev
    · have hn := hinv (he ▸ hp)
      simp only [mesh_poly_normal] at hn
      simp only [he, bne_self_eq_false, Bool.false_eq_true, if_false, mesh_poly_normal]
      rw [hn]
    · have hb : ((deref buffers.looptri (deref buffers.face_indices i)).poly != s.mpoly_prev)
          = true := by simpa using he
      simp only [hb, if_true, mesh_poly_normal]
  · unfold mesh_fill_tri_recompute
    simp only [hv, hs, Bool.not_true, Bool.not_false, Bool.and_true, if_true, Bool.false_eq_true,
      if_false]
    obtain ⟨h1, h2, h3, h4⟩ := mesh_fill_vert_flat3 E show_mask show_vcol mvert vmask vcol vtcol
      (deref buffers.looptri (deref buffers.face_indices i))
      (fun j => (deref buffers.mloop
        ((deref buffers.looptri (deref buffers.face_indices i)).tri j)).v)
      (if show_face_sets = true then
          if (|deref sfs (deref buffers.looptri (deref buffers.face_indices i)).poly| != dflt)
              = true then
            (E.BKE_paint_face_set_overlay_color_get
              |deref sfs (deref buffers.looptri (deref buffers.face_indices i)).poly| seed, false)
          else (⟨UCHAR_MAX, UCHAR_MAX, UCHAR_MAX, UCHAR_MAX⟩, s.default_face_set)
        else (⟨UCHAR_MAX, UCHAR_MAX, UCHAR_MAX, UCHAR_MAX⟩, s.default_face_set)).1
      _
    exact ⟨h2, h1, h3, h4⟩
theorem mesh_fill_tri_recompute_hidden (E : Deps) (buffers : GPU_PBVH_Buffers)
    (show_mask show_face_sets show_vcol : Bool)
    (mvert : List MVert) (vmask : Option (List float)) (vcol : Option (List MLoopCol))
    (sfs : Option (List Int)) (seed dflt : Int)
    (vtcol : Option (List MPropCol)) (s : MeshFill) (i : Nat)
    (h : gpu_pbvh_is_looptri_visible E (deref buffers.looptri (deref buffers.face_indices i))
      mvert (buffers.mloop.getD []) sfs = false) :
    mesh_fill_tri_recompute E buffers show_mask show_face_sets show_vcol mvert vmask vcol sfs seed
      dflt vtcol s i = s := by
  simp [mesh_fill_tri_recompute, h]

/-- The fill loop of a flat node from a state whose cache is valid: the cached loop is the
recomputing loop, and the normal records it adds are those of the visible triangles visited. -/
theorem mesh_fill_fold_flat (E : Deps) (buffers : GPU_PBVH_Buffers)
    (show_mask show_face_sets show_vcol : Bool)
    (mvert : List MVert) (vmask : Option (List float)) (vcol : Option (List MLoopCol))
    (sfs : Option (List Int)) (seed dflt : Int) (vtcol : Option (List MPropCol))
    (hs : buffers.smooth = false) (steps : List Nat)
    (hp : ∀ i ∈ steps,
      gpu_pbvh_is_looptri_visible E (deref buffers.looptri (deref buffers.face_indices i))
        mvert (buffers.mloop.getD []) sfs = true →
      (deref buffers.looptri (deref buffers.face_indices i)).poly ≠ UINT_MAX)
    (s : MeshFill) (r0 : Nat) (h0 : s.nor_step = 3 * r0)
    (hinv : s.mpoly_prev ≠ UINT_MAX → s.no = mesh_poly_normal E buffers mvert s.mpoly_prev) :
    steps.foldl (mesh_fill_tri E buffers show_mask show_face_sets show_vcol mvert vmask vcol sfs
      seed dflt vtcol) s =
    steps.foldl (mesh_fill_tri_recompute E buffers show_mask show_face_sets show_vcol mvert vmask
      vcol sfs seed dflt vtcol) s ∧
    nor_writes (steps.foldl (mesh_fill_tri_recompute E buffers show_mask show_face_sets show_vcol
      mvert vmask vcol sfs seed dflt vtcol) s).writes =
    nor_writes s.writes ++ mesh_normal_records E buffers mvert
      ((visited_tris (buffers.looptri.getD []) (buffers.face_indices.getD []) steps).filter
        (mesh_vis E mvert (buffers.mloop.getD []) sfs)) r0 := by
  induction steps generalizing s r0 with
  | nil =>
    simp [visited_tris, mesh_normal_records]
  | cons i rest ih =>
    have hd : (buffers.looptri.getD []).getD ((buffers.face_indices.getD []).getD i 0) default
        = deref buffers.looptri (deref buffers.face_indices i) := rfl
    have hp2 : ∀ k ∈ rest,
        gpu_pbvh_is_looptri_visible E (deref buffers.looptri (deref buffers.face_indices k))
          mvert (buffers.mloop.getD []) sfs = true →
        (deref buffers.looptri (deref buffers.face_indices k)).poly ≠ UINT_MAX :=
      fun k hk => hp k (List.mem_cons_of_mem _ hk)
    rw [List.foldl_cons, List.foldl_cons]
    simp only [visited_tris, List.map_cons] at ih ⊢
    rw [hd]
    by_cases hv : mesh_vis E mvert (buffers.mloop.getD []) sfs
        (deref buffers.looptri (deref buffers.face_indices i)) = true
    · obtain ⟨e1, e2, e3, e4, e5⟩ := mesh_fill_tri_flat E buffers show_mask show_face_sets
        show_vcol mvert vmask vcol sfs seed dflt vtcol s i hs hv hinv
        (hp i (List.mem_cons_self _ _) hv)
      obtain ⟨i1, i2⟩ := ih hp2 (mesh_fill_tri_recompute E buffers show_mask show_face_sets
        show_vcol mvert vmask vcol sfs seed dflt vtcol s i) (r0 + 1) (by rw [e4, h0]; ring)
        (fun _ => by rw [e3, e2])
      rw [e1]
      refine ⟨i1, ?_⟩
      rw [i2, e5, List.filter_cons_of_pos hv, List.append_assoc, h0]
      rfl
    · have hv2 : gpu_pbvh_is_looptri_visible E
          (deref buffers.looptri (deref buffers.face_indices i)) mvert (buffers.mloop.getD []) sfs
          = false := by simpa [mesh_vis] using hv
      rw [mesh_fill_tri_hidden E buffers show_mask show_face_sets show_vcol mvert vmask vcol sfs
        seed dflt vtcol s i hv2, mesh_fill_tri_recompute_hidden E buffers show_mask show_face_sets
        show_vcol mvert vmask vcol sfs seed dflt vtcol s i hv2, List.filter_cons_of_neg hv]
      exact ih hp2 s r0 h0 hinv

/-- The vertex buffer after a mesh update that is given vertex storage: the records kept from
before, followed by the writes of the fill loop. -/
theorem mesh_update_data (E : Deps) (buffers : GPU_PBVH_Buffers)
    (mvert : List MVert) (vmask : Option (List float)) (vcol : Option (List MLoopCol))
    (sfs : Option (List Int)) (seed dflt : Int) (vtcol : Option (List MPropCol))
    (update_flags : Nat) :
    (GPU_pbvh_mesh_buffers_update E true buffers mvert vmask vcol sfs seed dflt vtcol
      update_flags).vert_buf =
    some ⟨vert_buf_handle_after buffers, buffers.tot_tri * 3,
      some (vert_buf_kept buffers (buffers.tot_tri * 3) ++
        (mesh_fill E buffers
          (vmask.isSome && (update_flags &&& GPU_PBVH_BUFFERS_SHOW_MASK != 0))
          (sfs.isSome && (update_flags &&& GPU_PBVH_BUFFERS_SHOW_SCULPT_FACE_SETS != 0))
          ((vcol.isSome || (vtcol.isSome && E.use_sculpt_vertex_colors)) &&
            (update_flags &&& GPU_PBVH_BUFFERS_SHOW_VCOL != 0))
          mvert vmask vcol sfs seed dflt vtcol).writes)⟩ := by
  simp only [GPU_pbvh_mesh_buffers_update, gpu_pbvh_batch_init_vert_buf, vert_buf_data_set_ok,
    if_true, mesh_fill_data_set, vert_buf_write, vert_buf_data_set_vert_buf, Option.map_some']

/-- C33: in flat mode, whatever the order of the node's face indices (every visible triangle
having a polygon index other than the `UINT_MAX` the cache starts from), the fill loop with the
cached polygon normal is the fill loop that recomputes the normal for every visible triangle;
the normal records it writes are, for the `r`-th visible triangle, the normal of that
triangle's own polygon at the slots `3r`, `3r + 1`, `3r + 2`; and the vertex buffer of the
update is the one the recomputing loop fills. -/
theorem mesh_flat_normals_cache_is_recompute (E : Deps) (buffers : GPU_PBVH_Buffers)
    (mvert : List MVert) (vmask : Option (List float)) (vcol : Option (List MLoopCol))
    (sfs : Option (List Int)) (seed dflt : Int) (vtcol : Option (List MPropCol))
    (update_flags : Nat)
    (hs : buffers.smooth = false)
    (hp : ∀ i, i < buffers.face_indices_len →
      gpu_pbvh_is_looptri_visible E (deref buffers.looptri (deref buffers.face_indices i))
        mvert (buffers.mloop.getD []) sfs = true →
      (deref buffers.looptri (deref buffers.face_indices i)).poly ≠ UINT_MAX) :
    (∀ show_mask show_face_sets show_vcol,
      mesh_fill E buffers show_mask show_face_sets show_vcol mvert vmask vcol sfs seed dflt vtcol
        = mesh_fill_recompute E buffers show_mask show_face_sets show_vcol mvert vmask vcol sfs
            seed dflt vtcol ∧
      nor_writes (mesh_fill E buffers show_mask show_face_sets show_vcol mvert vmask vcol sfs seed
        dflt vtcol).writes =
        mesh_normal_records E buffers mvert
          (mesh_visible_tris E (buffers.mloop.getD []) (buffers.looptri.getD []) mvert
            (buffers.face_indices.getD []) sfs buffers.face_indices_len) 0) ∧
    (GPU_pbvh_mesh_buffers_update E true buffers mvert vmask vcol sfs seed dflt vtcol
      update_flags).vert_buf =
    some ⟨vert_buf_handle_after buffers, buffers.tot_tri * 3,
      some (vert_buf_kept buffers (buffers.tot_tri * 3) ++
        (mesh_fill_recompute E buffers
          (vmask.isSome && (update_flags &&& GPU_PBVH_BUFFERS_SHOW_MASK != 0))
          (sfs.isSome && (update_flags &&& GPU_PBVH_BUFFERS_SHOW_SCULPT_FACE_SETS != 0))
          ((vcol.isSome || (vtcol.isSome && E.use_sculpt_vertex_colors)) &&
            (update_flags &&& GPU_PBVH_BUFFERS_SHOW_VCOL != 0))
          mvert vmask vcol sfs seed dflt vtcol).writes)⟩ := by
  have key : ∀ show_mask show_face_sets show_vcol,
      mesh_fill E buffers show_mask show_face_sets show_vcol mvert vmask vcol sfs seed dflt vtcol
        = mesh_fill_recompute E buffers show_mask show_face_sets show_vcol mvert vmask vcol sfs
            seed dflt vtcol ∧
      nor_writes (mesh_fill_recompute E buffers show_mask show_face_sets show_vcol mvert vmask
        vcol sfs seed dflt vtcol).writes =
        mesh_normal_records E buffers mvert
          (mesh_visible_tris E (buffers.mloop.getD []) (buffers.looptri.getD []) mvert
            (buffers.face_indices.getD []) sfs buffers.face_indices_len) 0 := by
    intro show_mask show_face_sets show_vcol
    have h := mesh_fill_fold_flat E buffers show_mask show_face_sets show_vcol mvert vmask vcol
      sfs seed dflt vtcol hs (List.range buffers.face_indices_len)
      (fun i hi => hp i (List.mem_range.mp hi)) mesh_fill_init 0 rfl (fun h => absurd rfl h)
    exact ⟨h.1, h.2.trans rfl⟩
  refine ⟨fun a b c => ⟨(key a b c).1, by rw [(key a b c).1]; exact (key a b c).2⟩, ?_⟩
  rw [mesh_update_data, (key _ _ _).1]

/-- The flat two-polygon node visited in the order polygon 1, polygon 0, polygon 1. -/
theorem mesh_flat_normals_cache_is_recompute_witness :
    (GPU_pbvh_mesh_buffers_build deps_normals pair_mpoly pair_mloop
      [⟨0, 1, 2, 0⟩, ⟨3, 4, 5, 1⟩, ⟨3, 5, 4, 1⟩] pair_mvert [1, 0, 2] (some [1, 1]) 3
      pair_mesh).smooth = false ∧
    nor_writes (mesh_fill deps_normals
      (GPU_pbvh_mesh_buffers_build deps_normals pair_mpoly pair_mloop
        [⟨0, 1, 2, 0⟩, ⟨3, 4, 5, 1⟩, ⟨3, 5, 4, 1⟩] pair_mvert [1, 0, 2] (some [1, 1]) 3
        pair_mesh) false false false pair_mvert none none (some [1, 1]) 0 0 none).writes =
      [(0, ⟨3, 0, 1⟩), (1, ⟨3, 0, 1⟩), (2, ⟨3, 0, 1⟩),
       (3, ⟨0, 0, 1⟩), (4, ⟨0, 0, 1⟩), (5, ⟨0, 0, 1⟩),
       (6, ⟨3, 0, 1⟩), (7, ⟨3, 0, 1⟩), (8, ⟨3, 0, 1⟩)] ∧
    mesh_fill deps_normals
      (GPU_pbvh_mesh_buffers_build deps_normals pair_mpoly pair_mloop
        [⟨0, 1, 2, 0⟩, ⟨3, 4, 5, 1⟩, ⟨3, 5, 4, 1⟩] pair_mvert [1, 0, 2] (some [1, 1]) 3
        pair_mesh) false false false pair_mvert none none (some [1, 1]) 0 0 none =
    mesh_fill_recompute deps_normals
      (GPU_pbvh_mesh_buffers_build deps_normals pair_mpoly pair_mloop
        [⟨0, 1, 2, 0⟩, ⟨3, 4, 5, 1⟩, ⟨3, 5, 4, 1⟩] pair_mvert [1, 0, 2] (some [1, 1]) 3
        pair_mesh) false false false pair_mvert none none (some [1, 1]) 0 0 none :=
  ⟨by decide, by decide,
   ((mesh_flat_normals_cache_is_recompute deps_normals
      (GPU_pbvh_mesh_buffers_build deps_normals pair_mpoly pair_mloop
        [⟨0, 1, 2, 0⟩, ⟨3, 4, 5, 1⟩, ⟨3, 5, 4, 1⟩] pair_mvert [1, 0, 2] (some [1, 1]) 3
        pair_mesh) pair_mvert none none (some [1, 1]) 0 0 none 0 (by decide)
      (by decide)).1 false false false).1⟩

/-! ### Sizes of the non-indexed dynamic-topology strategy -/

/-- The writes of one vertex copy: one position record, everything at the given slot. -/
theorem vert_to_buffer_copy_slots (E : Deps) (v : BMVert) (v_index : Nat)
    (fno : Option float3) (fmask : Option float) (o1 o2 : Int)
    (show_mask show_vcol : Bool) (empty_mask : Bool) (offs : List Int) (totvcol : Int) :
    (pos_writes (gpu_bmesh_vert_to_buffer_copy E v v_index fno fmask o1 o2 show_mask show_vcol
      empty_mask offs totvcol).1).length = 1 ∧
    ∀ w ∈ (gpu_bmesh_vert_to_buffer_copy E v v_index fno fmask o1 o2 show_mask show_vcol
      empty_mask offs totvcol).1, w.v_index = v_index := by
  unfold gpu_bmesh_vert_to_buffer_copy
  cases show_mask <;> cases show_vcol <;> by_cases h : totvcol > 0 <;>
    simp [pos_writes, vcol_writes, h, List.filterMap_append, List.filterMap_map] <;> aesop

/-- One corner of the non-indexed strategy: one more position record, every new record in the
slot of the cursor, the cursor one further, the wireframe builder untouched. -/
theorem bmesh_corner_slots (E : Deps) (smooth : Bool) (have_uv show_mask : Bool)
    (o1 o2 o3 o4 : Int) (cd_vcols : List Int) (cd_vcol_count : Int) (f : BMFace)
    (l : Nat → BMLoop) (fmask : float) (fsc : uchar4) (s : BMeshFill) (i : Nat) :
    (bmesh_corner E smooth have_uv show_mask o1 o2 o3 o4 cd_vcols cd_vcol_count f l fmask fsc
      s i).v_index = s.v_index + 1 ∧
    (bmesh_corner E smooth have_uv show_mask o1 o2 o3 o4 cd_vcols cd_vcol_count f l fmask fsc
      s i).elb_lines = s.elb_lines ∧
    (pos_writes (bmesh_corner E smooth have_uv show_mask o1 o2 o3 o4 cd_vcols cd_vcol_count f l
      fmask fsc s i).writes).length = (pos_writes s.writes).length + 1 ∧
    ∀ w ∈ (bmesh_corner E smooth have_uv show_mask o1 o2 o3 o4 cd_vcols cd_vcol_count f l fmask
      fsc s i).writes, w ∈ s.writes ∨ w.v_index = s.v_index := by
  obtain ⟨c1, c2⟩ := vert_to_buffer_copy_slots E (l i).v s.v_index
    (some (if smooth then (l i).v.no else f.no)) (some fmask) o1 o2 show_mask false s.empty_mask
    [] 0
  refine ⟨rfl, rfl, ?_, ?_⟩
  · simp only [bmesh_corner, pos_writes_append, List.length_append, c1]
    have e1 : (pos_writes (if cd_vcol_count ≥ 0 then
          vcol_writes E (l i).v s.v_index cd_vcols cd_vcol_count.toNat
        else if o3 ≥ 0 then
          [⟨s.v_index, AttrData.col 0
            ⟨(BM_ELEM_CD_GET_LOOPCOL (l i).cd o3).r * 257 % 65536,
             (BM_ELEM_CD_GET_LOOPCOL (l i).cd o3).g * 257 % 65536,
             (BM_ELEM_CD_GET_LOOPCOL (l i).cd o3).b * 257 % 65536,
             (BM_ELEM_CD_GET_LOOPCOL (l i).cd o3).a * 257 % 65536⟩⟩]
        else [])).length = 0 := by
      split_ifs <;> simp [pos_writes, vcol_writes, List.filterMap_map]
    have e2 : (pos_writes (if have_uv = true then
          [(⟨s.v_index, AttrData.uv (BM_ELEM_CD_GET_UV (l i).cd o4)⟩ : VertWrite)]
        else [])).length = 0 := by
      split_ifs <;> simp [pos_writes]
    rw [e1, e2]
    simp [pos_writes]
  · intro w hw
    simp only [bmesh_corner, List.mem_append, List.mem_singleton] at hw
    rcases hw with (((hw | hw) | hw) | hw) | hw
    · exact Or.inl hw
    · exact Or.inr (c2 w hw)
    · right
      split_ifs at hw
      · simp only [vcol_writes, List.mem_map] at hw
        obtain ⟨k, -, rfl⟩ := hw
        rfl
      · simp only [List.mem_singleton] at hw
        rw [hw]
      · simp at hw
    · right
      split_ifs at hw
      · simp only [List.mem_singleton] at hw
        rw [hw]
      · simp at hw
    · right
      rw [hw]
/-- The three corners of one face of the non-indexed strategy. -/
theorem bmesh_corner_slots3 (E : Deps) (smooth : Bool) (have_uv show_mask : Bool)
    (o1 o2 o3 o4 : Int) (cd_vcols : List Int) (cd_vcol_count : Int) (f : BMFace)
    (l : Nat → BMLoop) (fmask : float) (fsc : uchar4) (s : BMeshFill) :
    ((List.range 3).foldl (bmesh_corner E smooth have_uv show_mask o1 o2 o3 o4 cd_vcols
      cd_vcol_count f l fmask fsc) s).v_index = s.v_index + 3 ∧
    ((List.range 3).foldl (bmesh_corner E smooth have_uv show_mask o1 o2 o3 o4 cd_vcols
      cd_vcol_count f l fmask fsc) s).elb_lines = s.elb_lines ∧
    (pos_writes ((List.range 3).foldl (bmesh_corner E smooth have_uv show_mask o1 o2 o3 o4
      cd_vcols cd_vcol_count f l fmask fsc) s).writes).length = (pos_writes s.writes).length + 3 ∧
    ∀ w ∈ ((List.range 3).foldl (bmesh_corner E smooth have_uv show_mask o1 o2 o3 o4 cd_vcols
      cd_vcol_count f l fmask fsc) s).writes, w ∈ s.writes ∨ w.v_index < s.v_index + 3 := by
  have hr : List.range 3 = [0, 1, 2] := rfl
  simp only [hr, List.foldl_cons, List.foldl_nil]
  obtain ⟨a1, a2, a3, a4⟩ := bmesh_corner_slots E smooth have_uv show_mask o1 o2 o3 o4 cd_vcols
    cd_vcol_count f l fmask fsc s 0
  obtain ⟨b1, b2, b3, b4⟩ := bmesh_corner_slots E smooth have_uv show_mask o1 o2 o3 o4 cd_vcols
    cd_vcol_count f l fmask fsc
    (bmesh_corner E smooth have_uv show_mask o1 o2 o3 o4 cd_vcols cd_vcol_count f l fmask fsc
      s 0) 1
  obtain ⟨c1, c2, c3, c4⟩ := bmesh_corner_slots E smooth have_uv show_mask o1 o2 o3 o4 cd_vcols
    cd_vcol_count f l fmask fsc
    (bmesh_corner E smooth have_uv show_mask o1 o2 o3 o4 cd_vcols cd_vcol_count f l fmask fsc
      (bmesh_corner E smooth have_uv show_mask o1 o2 o3 o4 cd_vcols cd_vcol_count f l fmask fsc
        s 0) 1) 2
  refine ⟨by rw [c1, b1, a1], by rw [c2, b2, a2], by rw [c3, b3, a3], ?_⟩
  intro w hw
  rcases c4 w hw with h | h
  · rcases b4 w h with h | h
    · rcases a4 w h with h | h
      · exact Or.inl h
      · exact Or.inr (by omega)
    · exact Or.inr (by omega)
  · exact Or.inr (by omega)

/-- A step that writes three records from the cursor on and adds at most three lines over these
slots keeps the state within the sizes of one more drawn face. -/
theorem bmesh_within_step (s r : BMeshFill) (n : Nat) (h : s.within n)
    (h1 : r.v_index = s.v_index + 3)
    (h2 : (pos_writes r.writes).length = (pos_writes s.writes).length + 3)
    (h3 : ∀ w ∈ r.writes, w ∈ s.writes ∨ w.v_index < s.v_index + 3)
    (h4 : r.elb_lines.data.length ≤ s.elb_lines.data.length + 6)
    (h5 : ∀ x ∈ r.elb_lines.data, x ∈ s.elb_lines.data ∨ x < s.v_index + 3) :
    r.within (n + 1) := by
  obtain ⟨w1, w2, w3, w4, w5⟩ := h
  refine ⟨by omega, by omega, ?_, by omega, ?_⟩
  · intro w hw
    rcases h3 w hw with h | h
    · have := w3 w h
      omega
    · omega
  · intro x hx
    rcases h5 x hx with h | h
    · have := w5 x h
      omega
    · omega

/-- A non-hidden face of the material in the face-table variant. -/
theorem bmesh_face_within (E : Deps) (smooth have_uv show_mask show_face_sets : Bool)
    (o1 o2 o3 o4 o5 : Int) (seed dflt : Int) (cd_vcols : List Int) (cd_vcol_count : Int)
    (mat_nr : Int) (s : BMeshFill) (f : BMFace) (n : Nat)
    (hf : (face_has_material mat_nr f && face_not_hidden f) = true) (h : s.within n) :
    (bmesh_face E smooth have_uv show_mask show_face_sets o1 o2 o3 o4 o5 seed dflt cd_vcols
      cd_vcol_count mat_nr s f).within (n + 1) := by
  simp only [Bool.and_eq_true, face_has_material, face_not_hidden] at hf
  have hm : (f.mat_nr != mat_nr) = false := by simp [bne, hf.1]
  unfold bmesh_face
  simp only [hm, hf.2, Bool.false_eq_true, if_false, if_true]
  obtain ⟨a1, a2, a3, a4⟩ := bmesh_corner_slots3 E smooth have_uv show_mask o1 o2 o3 o4 cd_vcols
    cd_vcol_count f f.l (bmesh_face_mask E o1 f.l)
    (bmesh_face_set_color E show_face_sets o5 seed dflt f s.default_face_set).1
    { s with
      elb_lines := GPU_indexbuf_add_line_verts (GPU_indexbuf_add_line_verts
        (GPU_indexbuf_add_line_verts s.elb_lines (s.v_index + 0) (s.v_index + 1))
        (s.v_index + 1) (s.v_index + 2)) (s.v_index + 2) (s.v_index + 0)
      default_face_set :=
        (bmesh_face_set_color E show_face_sets o5 seed dflt f s.default_face_set).2 }
  refine bmesh_within_step s _ n h a1 a3 a4 ?_ ?_
  · rw [a2]
    simp [GPU_indexbuf_add_line_verts]
  · rw [a2]
    intro x hx
    simp only [GPU_indexbuf_add_line_verts, List.mem_append, List.mem_cons, List.mem_singleton,
      List.not_mem_nil, or_false] at hx
    rcases hx with ((hx | hx | hx) | hx | hx) | hx | hx
    · exact Or.inl hx
    all_goals exact Or.inr (by omega)

/-- A triangle of a non-hidden face in the `DYNTOPO_DYNAMIC_TESS` variant. -/
theorem bmesh_tess_tri_within (E : Deps) (smooth have_uv show_mask show_face_sets : Bool)
    (o1 o2 o3 o4 o5 : Int) (seed dflt : Int) (cd_vcols : List Int) (cd_vcol_count : Int)
    (tribuf : PBVHTriBuf) (s : BMeshFill) (i : Nat) (n : Nat)
    (hf : face_not_hidden (tribuf.tris.getD i default).f = true) (h : s.within n) :
    (bmesh_tess_tri E smooth have_uv show_mask show_face_sets o1 o2 o3 o4 o5 seed dflt cd_vcols
      cd_vcol_count tribuf s i).within (n + 1) := by
  have hh : BM_elem_hidden (tribuf.tris.getD i default).f.hflag = false := by
    simpa [face_not_hidden] using hf
  unfold bmesh_tess_tri
  simp only [hh, Bool.false_eq_true, if_false]
  obtain ⟨a1, a2, a3, a4⟩ := bmesh_corner_slots3 E smooth have_uv show_mask o1 o2 o3 o4 cd_vcols
    cd_vcol_count (tribuf.tris.getD i default).f (tribuf.tris.getD i default).l
    (bmesh_face_mask E o1 (tribuf.tris.getD i default).l)
    (bmesh_face_set_color E show_face_sets o5 seed dflt (tribuf.tris.getD i default).f
      s.default_face_set).1
    { s with
      elb_lines :=
        if ((tribuf.tris.getD i default).eflag &&& 4 != 0) = true then
          GPU_indexbuf_add_line_verts
            (if ((tribuf.tris.getD i default).eflag &&& 2 != 0) = true then
              GPU_indexbuf_add_line_verts
                (if ((tribuf.tris.getD i default).eflag &&& 1 != 0) = true then
                  GPU_indexbuf_add_line_verts s.elb_lines (s.v_index + 0) (s.v_index + 1)
                else s.elb_lines) (s.v_index + 1) (s.v_index + 2)
            else
              if ((tribuf.tris.getD i default).eflag &&& 1 != 0) = true then
                GPU_indexbuf_add_line_verts s.elb_lines (s.v_index + 0) (s.v_index + 1)
              else s.elb_lines) (s.v_index + 2) (s.v_index + 0)
        else
          if ((tribuf.tris.getD i default).eflag &&& 2 != 0) = true then
            GPU_indexbuf_add_line_verts
              (if ((tribuf.tris.getD i default).eflag &&& 1 != 0) = true then
                GPU_indexbuf_add_line_verts s.elb_lines (s.v_index + 0) (s.v_index + 1)
              else s.elb_lines) (s.v_index + 1) (s.v_index + 2)
          else
            if ((tribuf.tris.getD i default).eflag &&& 1 != 0) = true then
              GPU_indexbuf_add_line_verts s.elb_lines (s.v_index + 0) (s.v_index + 1)
            else s.elb_lines
      default_face_set :=
        (bmesh_face_set_color E show_face_sets o5 seed dflt (tribuf.tris.getD i default).f
          s.default_face_set).2 }
  refine bmesh_within_step s _ n h a1 a3 a4 ?_ ?_
  · rw [a2]
    dsimp only
    split_ifs <;> simp [GPU_indexbuf_add_line_verts]
  · rw [a2]
    intro x hx
    dsimp only at hx
    split_ifs at hx <;>
      first
        | exact Or.inl hx
        | (simp only [GPU_indexbuf_add_line_verts, List.mem_append, List.mem_cons,
            List.mem_singleton, List.not_mem_nil, or_false] at hx
           first
            | (rcases hx with hx | hx | hx
               · exact Or.inl hx
               all_goals exact Or.inr (by omega))
            | (rcases hx with (hx | hx | hx) | hx | hx
               · exact Or.inl hx
               all_goals exact Or.inr (by omega))
            | (rcases hx with ((hx | hx | hx) | hx | hx) | hx | hx
               · exact Or.inl hx
               all_goals exact Or.inr (by omega)))
/-- A loop all of whose steps draw one face keeps the state within the sizes of the faces drawn
so far. -/
theorem foldl_within {α : Type} (f : BMeshFill → α → BMeshFill) (l : List α)
    (h : ∀ s n x, x ∈ l → BMeshFill.within s n → (f s x).within (n + 1))
    (s : BMeshFill) (n : Nat) (h0 : s.within n) :
    (l.foldl f s).within (n + l.length) := by
  induction l generalizing s n with
  | nil => exact h0
  | cons x rest ih =>
    rw [List.foldl_cons, List.length_cons, Nat.add_comm rest.length 1, ← Nat.add_assoc]
    exact ih (fun s n y hy => h s n y (List.mem_cons_of_mem _ hy)) _ _
      (h s n x (List.mem_cons_self _ _) h0)

/-- The face loop of the non-indexed strategy, in either variant, stays within three records and
three lines per drawn face. -/
theorem bmesh_nonindexed_fill_within (E : Deps) (dt smooth : Bool) (bm : BMesh)
    (bm_faces : TableGSet BMFace) (tribuf : PBVHTriBuf) (update_flags : Nat)
    (cd_vert_node_offset : Int) (seed dflt : Int) (active_vcol_only : Bool) (mat_nr : Int) :
    (bmesh_nonindexed_fill E dt smooth bm bm_faces tribuf update_flags cd_vert_node_offset seed
      dflt active_vcol_only mat_nr).within
      (bmesh_nonindexed_faces dt bm_faces tribuf mat_nr).length := by
  have hinit : (bmesh_fill_init
      (GPU_indexbuf_init GPU_PRIM_LINES (tribuf.tottri * 3) (tribuf.tottri * 3))).within 0 := by
    refine ⟨rfl, rfl, ?_, ?_, ?_⟩
    · intro w hw
      simp [bmesh_fill_init] at hw
    · simp [bmesh_fill_init, GPU_indexbuf_init]
    · intro x hx
      simp [bmesh_fill_init, GPU_indexbuf_init] at hx
  unfold bmesh_nonindexed_fill bmesh_nonindexed_faces
  cases dt
  · simp only [Bool.false_eq_true, if_false]
    rw [foldl_filter_noop _ (fun f => face_has_material mat_nr f && face_not_hidden f)
      (fun s f hf => bmesh_face_noop E _ _ _ _ _ _ _ _ _ _ _ _ _ mat_nr s f
        (by
          cases h1 : face_has_material mat_nr f
          · exact Or.inl rfl
          · right; simpa [h1] using hf))]
    have := foldl_within
      (bmesh_face E smooth (E.CustomData_has_layer bm.ldata CD_MLOOPUV)
        (update_flags &&& GPU_PBVH_BUFFERS_SHOW_MASK != 0)
        (E.CustomData_has_layer bm.pdata CD_SCULPT_FACE_SETS &&
          (update_flags &&& GPU_PBVH_BUFFERS_SHOW_SCULPT_FACE_SETS != 0))
        (E.CustomData_get_offset bm.vdata CD_PAINT_MASK) cd_vert_node_offset
        (E.CustomData_get_offset bm.ldata CD_MLOOPCOL)
        (E.CustomData_get_offset bm.ldata CD_MLOOPUV)
        (E.CustomData_get_offset bm.pdata CD_SCULPT_FACE_SETS) seed dflt
        (gpu_pbvh_bmesh_make_vcol_offs E bm.vdata active_vcol_only).1
        (gpu_pbvh_bmesh_make_vcol_offs E bm.vdata active_vcol_only).2.2 mat_nr)
      (bm_faces.filter (fun f => face_has_material mat_nr f && face_not_hidden f))
      (fun s n f hf hs => bmesh_face_within E _ _ _ _ _ _ _ _ _ _ _ _ _ mat_nr s f n
        (List.mem_filter.mp hf).2 hs) _ 0 hinit
    rw [Nat.zero_add] at this
    exact this
  · simp only [if_true]
    rw [foldl_filter_noop _ (fun i => face_not_hidden (tribuf.tris.getD i default).f)
      (fun s i hf => bmesh_tess_tri_noop E _ _ _ _ _ _ _ _ _ _ _ _ _ tribuf s i hf)]
    have := foldl_within
      (bmesh_tess_tri E smooth (E.CustomData_has_layer bm.ldata CD_MLOOPUV)
        (update_flags &&& GPU_PBVH_BUFFERS_SHOW_MASK != 0)
        (E.CustomData_has_layer bm.pdata CD_SCULPT_FACE_SETS &&
          (update_flags &&& GPU_PBVH_BUFFERS_SHOW_SCULPT_FACE_SETS != 0))
        (E.CustomData_get_offset bm.vdata CD_PAINT_MASK) cd_vert_node_offset
        (E.CustomData_get_offset bm.ldata CD_MLOOPCOL)
        (E.CustomData_get_offset bm.ldata CD_MLOOPUV)
        (E.CustomData_get_offset bm.pdata CD_SCULPT_FACE_SETS) seed dflt
        (gpu_pbvh_bmesh_make_vcol_offs E bm.vdata active_vcol_only).1
        (gpu_pbvh_bmesh_make_vcol_offs E bm.vdata active_vcol_only).2.2 tribuf)
      ((List.range tribuf.tottri).filter
        (fun i => face_not_hidden (tribuf.tris.getD i default).f))
      (fun s n i hf hs => bmesh_tess_tri_within E _ _ _ _ _ _ _ _ _ _ _ _ _ tribuf s i n
        (List.mem_filter.mp hf).2 hs) _ 0 hinit
    rw [Nat.zero_add] at this
    have hl : ((tribuf_faces tribuf).filter face_not_hidden).length =
        ((List.range tribuf.tottri).filter
          (fun i => face_not_hidden (tribuf.tris.getD i default).f)).length := by
      unfold tribuf_faces
      rw [List.filter_map, List.length_map]
      rfl
    rw [hl]
    exact this

/-- The number of faces the `DYNTOPO_DYNAMIC_TESS` variant draws is at most the triangle count
of the flattened buffer. -/
theorem bmesh_nonindexed_faces_tess_le (bm_faces : TableGSet BMFace) (tribuf : PBVHTriBuf)
    (mat_nr : Int) :
    (bmesh_nonindexed_faces true bm_faces tribuf mat_nr).length ≤ tribuf.tottri := by
  unfold bmesh_nonindexed_faces tribuf_faces
  simp only [if_true]
  refine (List.length_filter_le _ _).trans ?_
  simp

/-- The vertex buffer and the wireframe index buffer after a non-indexed update that has
triangles and is given vertex storage: what the face loop wrote. -/
theorem bmesh_nonindexed_update_data (E : Deps) (dt : Bool)
    (buffers : GPU_PBVH_Buffers) (bm : BMesh) (bm_faces : TableGSet BMFace)
    (tribuf : PBVHTriBuf) (update_flags : Nat) (cd_vert_node_offset : Int)
    (seed dflt : Int) (active_vcol_only : Bool) (mat_nr : Int) (hne : tribuf.tottri ≠ 0) :
    (GPU_pbvh_bmesh_buffers_update_nonindexed E dt true buffers bm bm_faces tribuf update_flags
        cd_vert_node_offset seed dflt active_vcol_only mat_nr).vert_buf =
      some ⟨vert_buf_handle_after buffers, tribuf.tottri * 3,
        some (vert_buf_kept buffers (tribuf.tottri * 3) ++
          (bmesh_nonindexed_fill E dt buffers.smooth bm bm_faces tribuf update_flags
            cd_vert_node_offset seed dflt active_vcol_only mat_nr).writes)⟩ ∧
    (GPU_pbvh_bmesh_buffers_update_nonindexed E dt true buffers bm bm_faces tribuf update_flags
        cd_vert_node_offset seed dflt active_vcol_only mat_nr).index_lines_buf.map
          (fun ib => ib.index) =
      some (bmesh_nonindexed_fill E dt buffers.smooth bm bm_faces tribuf update_flags
        cd_vert_node_offset seed dflt active_vcol_only mat_nr).elb_lines.data := by
  have h0 : (tribuf.tottri == 0) = false := by
    simp only [beq_eq_false_iff_ne, ne_eq]; exact hne
  unfold GPU_pbvh_bmesh_buffers_update_nonindexed
  simp only [h0, Bool.false_eq_true, if_false, vert_buf_data_set_ok, Bool.not_true]
  constructor
  · simp only [gpu_pbvh_batch_init_vert_buf, GPU_indexbuf_build, vert_buf_write,
      vert_buf_data_set_vert_buf, Option.map_some', vert_buf_data_set_smooth]
    rfl
  · rw [gpu_pbvh_batch_init_keeps_field GPU_PBVH_Buffers.index_lines_buf
      (fun _ _ _ _ _ _ => rfl)]
    simp only [GPU_indexbuf_build, Option.map_some', vert_buf_data_set_smooth, vert_buf_write]
    rfl
/-- C38 as amended: in the non-indexed dynamic-topology strategy the face loop writes three
vertex records per drawn face, into the slots below three times the number of drawn faces, and
adds at most three wireframe lines per drawn face.  When the triangles of the flattened buffer
are iterated (`DYNTOPO_DYNAMIC_TESS`), records and lines stay within the `3 * tottri` vertices
and `3 * tottri` lines allocated, for every face table and every flattened buffer.  When the
face table is iterated, the records written are three per non-hidden face of the material: they
stay within the allocation when the table holds at most `tottri` such faces and exceed it
otherwise.  With triangles and vertex storage, the vertex buffer of the update has `3 * tottri`
vertices and receives the writes of the face loop, and the wireframe index buffer the lines. -/
theorem bmesh_nonindexed_within_allocation (E : Deps) (buffers : GPU_PBVH_Buffers) (bm : BMesh)
    (bm_faces : TableGSet BMFace) (tribuf : PBVHTriBuf) (update_flags : Nat)
    (cd_vert_node_offset : Int) (seed dflt : Int) (active_vcol_only : Bool) (mat_nr : Int) :
    (∀ dt, (bmesh_nonindexed_fill E dt buffers.smooth bm bm_faces tribuf update_flags
      cd_vert_node_offset seed dflt active_vcol_only mat_nr).within
        (bmesh_nonindexed_faces dt bm_faces tribuf mat_nr).length) ∧
    ((pos_writes (bmesh_nonindexed_fill E true buffers.smooth bm bm_faces tribuf update_flags
        cd_vert_node_offset seed dflt active_vcol_only mat_nr).writes).length
        ≤ 3 * tribuf.tottri ∧
      (∀ w ∈ (bmesh_nonindexed_fill E true buffers.smooth bm bm_faces tribuf update_flags
        cd_vert_node_offset seed dflt active_vcol_only mat_nr).writes,
        w.v_index < 3 * tribuf.tottri) ∧
      (bmesh_nonindexed_fill E true buffers.smooth bm bm_faces tribuf update_flags
        cd_vert_node_offset seed dflt active_vcol_only mat_nr).elb_lines.data.length
        ≤ 2 * (3 * tribuf.tottri)) ∧
    (pos_writes (bmesh_nonindexed_fill E false buffers.smooth bm bm_faces tribuf update_flags
        cd_vert_node_offset seed dflt active_vcol_only mat_nr).writes).length
      = 3 * gpu_bmesh_face_visible_count bm_faces mat_nr ∧
    (gpu_bmesh_face_visible_count bm_faces mat_nr ≤ tribuf.tottri →
      (∀ w ∈ (bmesh_nonindexed_fill E false buffers.smooth bm bm_faces tribuf update_flags
        cd_vert_node_offset seed dflt active_vcol_only mat_nr).writes,
        w.v_index < 3 * tribuf.tottri) ∧
      (bmesh_nonindexed_fill E false buffers.smooth bm bm_faces tribuf update_flags
        cd_vert_node_offset seed dflt active_vcol_only mat_nr).elb_lines.data.length
        ≤ 2 * (3 * tribuf.tottri)) ∧
    (tribuf.tottri ≠ 0 → ∀ dt,
      (GPU_pbvh_bmesh_buffers_update_nonindexed E dt true buffers bm bm_faces tribuf
        update_flags cd_vert_node_offset seed dflt active_vcol_only mat_nr).vert_buf =
        some ⟨vert_buf_handle_after buffers, tribuf.tottri * 3,
          some (vert_buf_kept buffers (tribuf.tottri * 3) ++
            (bmesh_nonindexed_fill E dt buffers.smooth bm bm_faces tribuf update_flags
              cd_vert_node_offset seed dflt active_vcol_only mat_nr).writes)⟩ ∧
      (GPU_pbvh_bmesh_buffers_update_nonindexed E dt true buffers bm bm_faces tribuf
        update_flags cd_vert_node_offset seed dflt active_vcol_only mat_nr).index_lines_buf.map
          (fun ib => ib.index) =
        some (bmesh_nonindexed_fill E dt buffers.smooth bm bm_faces tribuf update_flags
          cd_vert_node_offset seed dflt active_vcol_only mat_nr).elb_lines.data) := by
  have hw := fun dt => bmesh_nonindexed_fill_within E dt buffers.smooth bm bm_faces tribuf
    update_flags cd_vert_node_offset seed dflt active_vcol_only mat_nr
  have ht := bmesh_nonindexed_faces_tess_le bm_faces tribuf mat_nr
  have hf : (bmesh_nonindexed_faces false bm_faces tribuf mat_nr).length =
      gpu_bmesh_face_visible_count bm_faces mat_nr := by
    rw [face_visible_count_visible_faces]
    rfl
  refine ⟨hw, ?_, ?_, ?_, ?_⟩
  · obtain ⟨-, w2, w3, w4, -⟩ := hw true
    refine ⟨by omega, fun w h => ?_, by omega⟩
    have := w3 w h
    omega
  · rw [(hw false).2.1, hf]
  · intro hle
    obtain ⟨-, -, w3, w4, -⟩ := hw false
    rw [hf] at w3 w4
    refine ⟨fun w h => ?_, by omega⟩
    have := w3 w h
    omega
  · intro hne dt
    exact bmesh_nonindexed_update_data E dt buffers bm bm_faces tribuf update_flags
      cd_vert_node_offset seed dflt active_vcol_only mat_nr hne

/-- One face of material 1 and the flattened buffer holding its triangle. -/
theorem bmesh_nonindexed_within_allocation_witness :
    gpu_bmesh_face_visible_count [face_mat1] 1 ≤ tribuf_mat1.tottri ∧
    tribuf_mat1.tottri ≠ 0 ∧
    (pos_writes (bmesh_nonindexed_fill deps_plain false false plain_bmesh [face_mat1]
      tribuf_mat1 0 0 0 0 false 1).writes).length = 3 ∧
    (GPU_pbvh_bmesh_buffers_update_nonindexed deps_plain false true
      (GPU_pbvh_bmesh_buffers_build false) plain_bmesh [face_mat1] tribuf_mat1 0 0 0 0 false
      1).index_lines_buf.map (fun ib => ib.index) = some [0, 1, 1, 2, 2, 0] :=
  ⟨by decide, by decide,
   (bmesh_nonindexed_within_allocation deps_plain (GPU_pbvh_bmesh_buffers_build false)
      plain_bmesh [face_mat1] tribuf_mat1 0 0 0 0 false 1).2.2.1,
   (((bmesh_nonindexed_within_allocation deps_plain (GPU_pbvh_bmesh_buffers_build false)
      plain_bmesh [face_mat1] tribuf_mat1 0 0 0 0 false 1).2.2.2.2 (by decide) false).2).trans
     (by decide)⟩

/-- C38 fails as stated: with the face table iterated, a table of two non-hidden faces of the
material and a flattened buffer of one triangle give a vertex buffer of three vertices into
which six records are written, the slots 3, 4 and 5 among them, and six wireframe lines in a
builder made for three. -/
theorem bmesh_nonindexed_within_allocation_counterexample :
    (GPU_pbvh_bmesh_buffers_update_nonindexed deps_plain false true
      (GPU_pbvh_bmesh_buffers_build false) plain_bmesh [face_mat1, face_mat1] tribuf_mat1 0 0 0 0
      false 1).vert_buf.map (fun vb => vb.vertex_len) = some 3 ∧
    ((GPU_pbvh_bmesh_buffers_update_nonindexed deps_plain false true
      (GPU_pbvh_bmesh_buffers_build false) plain_bmesh [face_mat1, face_mat1] tribuf_mat1 0 0 0 0
      false 1).vert_buf.bind (fun vb => vb.data)).map
        (fun ws => (pos_writes ws).map (fun p => p.1)) = some [0, 1, 2, 3, 4, 5] ∧
    (GPU_pbvh_bmesh_buffers_update_nonindexed deps_plain false true
      (GPU_pbvh_bmesh_buffers_build false) plain_bmesh [face_mat1, face_mat1] tribuf_mat1 0 0 0 0
      false 1).index_lines_buf.map (fun ib => ib.index) =
        some [0, 1, 1, 2, 2, 0, 3, 4, 4, 5, 5, 3] ∧
    (GPU_indexbuf_init GPU_PRIM_LINES (tribuf_mat1.tottri * 3)
      (tribuf_mat1.tottri * 3)).max_index_len = 6 := by
  decide

/-! ### Bounds of the grid index buffers -/

/-- An invariant that every step over an element of the list keeps holds after the loop. -/
theorem foldl_invariant_mem {σ α : Type} (P : σ → Prop) (f : σ → α → σ) (l : List α)
    (h : ∀ s x, x ∈ l → P s → P (f s x)) (s : σ) (h0 : P s) : P (l.foldl f s) := by
  induction l generalizing s with
  | nil => exact h0
  | cons x rest ih =>
    rw [List.foldl_cons]
    exact ih (fun s y hy => h s y (List.mem_cons_of_mem _ hy)) _
      (h s x (List.mem_cons_self _ _) h0)

/-- The four corner slots of a subface lie among the vertices of its grid. -/
theorem grid_quad_verts_lt (smooth : Bool) (gridsize offset j k : Nat)
    (hj : j < gridsize - 1) (hk : k < gridsize - 1) :
    (grid_quad_verts smooth gridsize offset j k).1 < offset + grid_vert_len smooth gridsize ∧
    (grid_quad_verts smooth gridsize offset j k).2.1 < offset + grid_vert_len smooth gridsize ∧
    (grid_quad_verts smooth gridsize offset j k).2.2.1
      < offset + grid_vert_len smooth gridsize ∧
    (grid_quad_verts smooth gridsize offset j k).2.2.2
      < offset + grid_vert_len smooth gridsize := by
  obtain ⟨n, rfl⟩ : ∃ n, gridsize = n + 2 := ⟨gridsize - 2, by omega⟩
  have hj2 : j ≤ n := by omega
  have hk2 : k ≤ n := by omega
  cases smooth
  · simp only [grid_quad_verts, grid_vert_len, Bool.false_eq_true, if_false,
      Nat.add_sub_cancel]
    have e1 : n + 2 - 1 = n + 1 := by omega
    rw [e1]
    have h1 : j * (n + 1) ≤ n * (n + 1) := Nat.mul_le_mul_right _ hj2
    have h2 : (n + 1) * (n + 1) * 4 = (n * (n + 1) + n + 1) * 4 := by ring
    rw [h2]
    refine ⟨?_, ?_, ?_, ?_⟩ <;> omega
  · simp only [grid_quad_verts, grid_vert_len, if_true]
    have h1 : j * (n + 2) ≤ n * (n + 2) := Nat.mul_le_mul_right _ hj2
    have h2 : (n + 2) * (n + 2) = n * (n + 2) + 2 * n + 4 := by ring
    rw [h2]
    refine ⟨?_, ?_, ?_, ?_⟩ <;> omega

/-- The four corner slots of a grid lie among the vertices of the grid. -/
theorem grid_corner_verts_lt (smooth : Bool) (gridsize offset : Nat) (hg : 2 ≤ gridsize) :
    (grid_corner_verts smooth gridsize offset).1 < offset + grid_vert_len smooth gridsize ∧
    (grid_corner_verts smooth gridsize offset).2.1 < offset + grid_vert_len smooth gridsize ∧
    (grid_corner_verts smooth gridsize offset).2.2.1
      < offset + grid_vert_len smooth gridsize ∧
    (grid_corner_verts smooth gridsize offset).2.2.2
      < offset + grid_vert_len smooth gridsize := by
  obtain ⟨n, rfl⟩ : ∃ n, gridsize = n + 2 := ⟨gridsize - 2, by omega⟩
  cases smooth
  · simp only [grid_corner_verts, grid_vert_len, Bool.false_eq_true, if_false]
    have e1 : n + 2 - 1 = n + 1 := by omega
    rw [e1]
    have h2 : (n + 1) * (n + 1) * 4 = n * n * 4 + 8 * n + 4 := by ring
    rw [h2]
    refine ⟨?_, ?_, ?_, ?_⟩ <;> omega
  · simp only [grid_corner_verts, grid_vert_len, if_true]
    have h2 : (n + 2) * (n + 2) = n * n + 4 * n + 4 := by ring
    rw [h2]
    refine ⟨?_, ?_, ?_, ?_⟩ <;> omega

/-- One subface step keeps the indices among the vertices of the grids visited so far. -/
theorem grid_fill_quad_below (E : Deps) (smooth : Bool) (gh : Option BLI_bitmap)
    (gridsize j : Nat) (off : Nat) (s : GridFill) (k : Nat)
    (hj : j < gridsize - 1) (hk : k < gridsize - 1)
    (h : s.offset = off ∧ s.below (off + grid_vert_len smooth gridsize)) :
    (grid_fill_quad E smooth gh gridsize j s k).offset = off ∧
    (grid_fill_quad E smooth gh gridsize j s k).below (off + grid_vert_len smooth gridsize) := by
  obtain ⟨ho, b1, b2, b3, b4, b5⟩ := h
  obtain ⟨q0, q1, q2, q3⟩ := grid_quad_verts_lt smooth gridsize off j k hj hk
  unfold grid_fill_quad
  split_ifs with hh he
  · exact ⟨ho, b1, b2, b3, b4, b5⟩
  · refine ⟨ho, ?_, b2, ?_, b4, fun _ => ?_⟩
    · intro x hx
      simp only [GPU_indexbuf_add_tri_verts, List.mem_append, List.mem_cons, List.mem_singleton,
        List.not_mem_nil, or_false, ho] at hx
      rcases hx with (hx | hx | hx | hx) | hx | hx | hx
      · exact b1 x hx
      all_goals (rw [hx]; assumption)
    · intro x hx
      simp only [GPU_indexbuf_add_line_verts, List.mem_append, List.mem_cons,
        List.mem_singleton, List.not_mem_nil, or_false, ho] at hx
      rcases hx with ((hx | hx | hx) | hx | hx) | hx | hx
      · exact b3 x hx
      all_goals (rw [hx]; assumption)
    · rw [ho]
      exact ⟨q1, q2⟩
  · refine ⟨ho, ?_, b2, ?_, b4, fun _ => ?_⟩
    · intro x hx
      simp only [GPU_indexbuf_add_tri_verts, List.mem_append, List.mem_cons, List.mem_singleton,
        List.not_mem_nil, or_false, ho] at hx
      rcases hx with (hx | hx | hx | hx) | hx | hx | hx
      · exact b1 x hx
      all_goals (rw [hx]; assumption)
    · intro x hx
      simp only [GPU_indexbuf_add_line_verts, List.mem_append, List.mem_cons,
        List.mem_singleton, List.not_mem_nil, or_false, ho] at hx
      rcases hx with (hx | hx | hx) | hx | hx
      · exact b3 x hx
      all_goals (rw [hx]; assumption)
    · rw [ho]
      exact ⟨q1, q2⟩

/-- One row keeps the indices among the vertices of the grids visited so far. -/
theorem grid_fill_row_below (E : Deps) (smooth : Bool) (gh : Option BLI_bitmap)
    (gridsize : Nat) (off : Nat) (s : GridFill) (j : Nat) (hj : j < gridsize - 1)
    (h : s.offset = off ∧ s.below (off + grid_vert_len smooth gridsize)) :
    (grid_fill_row E smooth gh gridsize s j).offset = off ∧
    (grid_fill_row E smooth gh gridsize s j).below (off + grid_vert_len smooth gridsize) := by
  have hq := foldl_invariant_mem
    (fun s : GridFill => s.offset = off ∧ s.below (off + grid_vert_len smooth gridsize))
    (grid_fill_quad E smooth gh gridsize j) (List.range (gridsize - 1))
    (fun s k hk hs => grid_fill_quad_below E smooth gh gridsize j off s k hj
      (List.mem_range.mp hk) hs) s h
  obtain ⟨ho, b1, b2, b3, b4, b5⟩ := hq
  unfold grid_fill_row
  dsimp only
  split_ifs with hv
  · refine ⟨ho, b1, b2, ?_, b4, b5⟩
    intro x hx
    simp only [GPU_indexbuf_add_line_verts, List.mem_append, List.mem_cons,
      List.mem_singleton, List.not_mem_nil, or_false] at hx
    rcases hx with hx | hx | hx
    · exact b3 x hx
    · rw [hx]; exact (b5 hv).1
    · rw [hx]; exact (b5 hv).2
  · exact ⟨ho, b1, b2, b3, b4, b5⟩

/-- One grid: the indices stay among the vertices of the grids visited, the current one
included, and the offset moves to the next grid. -/
theorem grid_fill_grid_below (E : Deps) (smooth : Bool) (grid_hidden : List (Option BLI_bitmap))
    (grid_indices : List Nat) (gridsize : Nat) (hg : 2 ≤ gridsize) (s : GridFill) (i : Nat)
    (h : s.offset = i * grid_vert_len smooth gridsize ∧
      s.below (i * grid_vert_len smooth gridsize)) :
    (grid_fill_grid E smooth grid_hidden grid_indices gridsize s i).offset
      = (i + 1) * grid_vert_len smooth gridsize ∧
    (grid_fill_grid E smooth grid_hidden grid_indices gridsize s i).below
      ((i + 1) * grid_vert_len smooth gridsize) := by
  obtain ⟨ho, b1, b2, b3, b4, -⟩ := h
  have e : (i + 1) * grid_vert_len smooth gridsize =
      i * grid_vert_len smooth gridsize + grid_vert_len smooth gridsize := by ring
  rw [e]
  have h0 : ({ s with grid_visible := false } : GridFill).offset
        = i * grid_vert_len smooth gridsize ∧
      ({ s with grid_visible := false } : GridFill).below
        (i * grid_vert_len smooth gridsize + grid_vert_len smooth gridsize) :=
    ⟨ho, fun x hx => Nat.lt_add_right _ (b1 x hx), fun x hx => Nat.lt_add_right _ (b2 x hx),
     fun x hx => Nat.lt_add_right _ (b3 x hx), fun x hx => Nat.lt_add_right _ (b4 x hx),
     fun hv => by simp at hv⟩
  have hr := foldl_invariant_mem
    (fun s : GridFill => s.offset = i * grid_vert_len smooth gridsize ∧
      s.below (i * grid_vert_len smooth gridsize + grid_vert_len smooth gridsize))
    (grid_fill_row E smooth (grid_hidden.getD (grid_indices.getD i 0) none) gridsize)
    (List.range (gridsize - 1))
    (fun s j hj hs => grid_fill_row_below E smooth _ gridsize _ s j (List.mem_range.mp hj) hs)
    _ h0
  obtain ⟨ro, r1, r2, r3, r4, r5⟩ := hr
  obtain ⟨c0, c1, c2, c3⟩ := grid_corner_verts_lt smooth gridsize
    (i * grid_vert_len smooth gridsize) hg
  unfold grid_fill_grid
  dsimp only
  split_ifs with hv
  · refine ⟨by rw [ro], r1, ?_, r3, ?_, fun _ => ⟨?_, ?_⟩⟩
    · intro x hx
      simp only [GPU_indexbuf_add_tri_verts, List.mem_append, List.mem_cons, List.mem_singleton,
        List.not_mem_nil, or_false, ro] at hx
      rcases hx with (hx | hx | hx | hx) | hx | hx | hx
      · exact r2 x hx
      all_goals (rw [hx]; assumption)
    · intro x hx
      simp only [GPU_indexbuf_add_line_verts, List.mem_append, List.mem_cons,
        List.mem_singleton, List.not_mem_nil, or_false, ro] at hx
      rcases hx with ((((hx | hx | hx) | hx | hx) | hx | hx) | hx | hx)
      · exact r4 x hx
      all_goals (rw [hx]; assumption)
    · rw [ro]; exact c1
    · rw [ro]; exact c2
  · exact ⟨by rw [ro], r1, r2, r3, r4, r5⟩
/-- After `n` grids the offset is at `n` grids of vertices and every index is below it. -/
theorem grid_fill_fold_below (E : Deps) (smooth : Bool) (grid_hidden : List (Option BLI_bitmap))
    (grid_indices : List Nat) (gridsize : Nat) (hg : 2 ≤ gridsize) (s0 : GridFill)
    (h0 : s0.offset = 0 ∧ s0.below 0) (n : Nat) :
    ((List.range n).foldl (grid_fill_grid E smooth grid_hidden grid_indices gridsize) s0).offset
      = n * grid_vert_len smooth gridsize ∧
    ((List.range n).foldl (grid_fill_grid E smooth grid_hidden grid_indices gridsize) s0).below
      (n * grid_vert_len smooth gridsize) := by
  induction n with
  | zero =>
    rw [Nat.zero_mul]
    exact h0
  | succ n ih =>
    rw [List.range_succ, List.foldl_append, List.foldl_cons, List.foldl_nil]
    exact grid_fill_grid_below E smooth grid_hidden grid_indices gridsize hg _ n ih

/-- Every index in the four builders of the filling loops is below the vertex count of the
node grids. -/
theorem grid_fill_below (E : Deps) (smooth : Bool) (grid_hidden : List (Option BLI_bitmap))
    (grid_indices : List Nat) (visible_quad_len totgrid gridsize : Nat) (hg : 2 ≤ gridsize) :
    (grid_fill E smooth grid_hidden grid_indices visible_quad_len totgrid gridsize).below
      (totgrid * grid_vert_len smooth gridsize) := by
  refine (grid_fill_fold_below E smooth grid_hidden grid_indices gridsize hg
    (grid_fill_init visible_quad_len totgrid gridsize) ⟨rfl, ?_, ?_, ?_, ?_, ?_⟩ totgrid).2
  all_goals first
    | (intro x hx; simp [grid_fill_init, GPU_indexbuf_init] at hx)
    | (intro hv; simp [grid_fill_init] at hv)

/-- The index buffers `gpu_pbvh_grid_fill_index_buffers` stores are the four it builds from
the builders of the filling loops. -/
theorem grid_fill_index_bufs (E : Deps) (buffers : GPU_PBVH_Buffers)
    (grid_indices : List Nat) (visible_quad_len totgrid gridsize : Nat) :
    (node_index_bufs (gpu_pbvh_grid_fill_index_buffers E buffers grid_indices visible_quad_len
      totgrid gridsize)).map (fun ib => ib.index) =
    [(grid_fill E buffers.smooth (buffers.grid_hidden.getD []) grid_indices visible_quad_len
        totgrid gridsize).elb.data,
     (grid_fill E buffers.smooth (buffers.grid_hidden.getD []) grid_indices visible_quad_len
        totgrid gridsize).elb_fast.data,
     (grid_fill E buffers.smooth (buffers.grid_hidden.getD []) grid_indices visible_quad_len
        totgrid gridsize).elb_lines.data,
     (grid_fill E buffers.smooth (buffers.grid_hidden.getD []) grid_indices visible_quad_len
        totgrid gridsize).elb_lines_fast.data] := by
  simp [node_index_bufs, gpu_pbvh_grid_fill_index_buffers, GPU_indexbuf_build]

/-- Every index of the four index buffers is below the vertex count of the node grids. -/
theorem grid_fill_index_bufs_below (E : Deps) (buffers : GPU_PBVH_Buffers)
    (grid_indices : List Nat) (visible_quad_len totgrid gridsize : Nat) (hg : 2 ≤ gridsize) :
    ∀ ib ∈ node_index_bufs (gpu_pbvh_grid_fill_index_buffers E buffers grid_indices
      visible_quad_len totgrid gridsize),
      ∀ x ∈ ib.index, x < totgrid * grid_vert_len buffers.smooth gridsize := by
  obtain ⟨b1, b2, b3, b4, -⟩ := grid_fill_below E buffers.smooth (buffers.grid_hidden.getD [])
    grid_indices visible_quad_len totgrid gridsize hg
  have hm := grid_fill_index_bufs E buffers grid_indices visible_quad_len totgrid gridsize
  intro ib hib x hx
  have hmem : ib.index ∈ (node_index_bufs (gpu_pbvh_grid_fill_index_buffers E buffers
      grid_indices visible_quad_len totgrid gridsize)).map (fun ib => ib.index) :=
    List.mem_map_of_mem _ hib
  rw [hm] at hmem
  simp only [List.mem_cons, List.mem_singleton, List.not_mem_nil, or_false] at hmem
  rcases hmem with h | h | h | h
  · exact b1 x (h ▸ hx)
  · exact b2 x (h ▸ hx)
  · exact b3 x (h ▸ hx)
  · exact b4 x (h ▸ hx)
/-- C35: for a grid size of at least 2 (and a key whose grid area is the square of the grid
size), every vertex index that `gpu_pbvh_grid_fill_index_buffers` puts into any of its four
index buffers is below `totgrid * vert_per_grid`, where `vert_per_grid` is `g * g` for a
smooth node and `4 * (g - 1) * (g - 1)` for a flat one, whatever the hidden bitmaps say; and
after a `GPU_pbvh_grid_buffers_update` that builds the index buffers and is given vertex
storage, every index of the four index buffers of the node is below the vertex count of its
vertex buffer. -/
theorem grid_indices_below_vertex_count (E : Deps) (buffers : GPU_PBVH_Buffers)
    (subdiv_ccg : Option SubdivCCG) (grids : List (List CCGElem))
    (grid_flag_mats : List DMFlagMat) (grid_indices : List Nat)
    (visible_quad_len totgrid : Nat) (sfs : Option (List Int)) (seed dflt : Int) (key : CCGKey)
    (update_flags : Nat) (hg : 2 ≤ key.grid_size)
    (hA : key.grid_area = key.grid_size * key.grid_size) :
    (node_index_bufs (gpu_pbvh_grid_fill_index_buffers E buffers grid_indices visible_quad_len
      totgrid key.grid_size)).length = 4 ∧
    (∀ ib ∈ node_index_bufs (gpu_pbvh_grid_fill_index_buffers E buffers grid_indices
      visible_quad_len totgrid key.grid_size),
      ∀ x ∈ ib.index, x < totgrid * grid_vert_per_grid buffers.smooth key) ∧
    (∀ smooth, grid_vert_per_grid smooth key =
      if smooth then key.grid_size * key.grid_size
      else 4 * (key.grid_size - 1) * (key.grid_size - 1)) ∧
    (buffers.index_buf = none →
      1 ≤ BKE_pbvh_count_grid_quads E (buffers.grid_hidden.getD []) grid_indices totgrid
        key.grid_size →
      ∃ vb, (GPU_pbvh_grid_buffers_update E true buffers subdiv_ccg grids grid_flag_mats
          grid_indices totgrid sfs seed dflt key update_flags).vert_buf = some vb ∧
        vb.vertex_len = totgrid * grid_vert_per_grid (grid_smooth_flag grid_flag_mats
          grid_indices) key ∧
        (node_index_bufs (GPU_pbvh_grid_buffers_update E true buffers subdiv_ccg grids
          grid_flag_mats grid_indices totgrid sfs seed dflt key update_flags)).length = 4 ∧
        ∀ ib ∈ node_index_bufs (GPU_pbvh_grid_buffers_update E true buffers subdiv_ccg grids
          grid_flag_mats grid_indices totgrid sfs seed dflt key update_flags),
          ∀ x ∈ ib.index, x < vb.vertex_len) := by
  have hv : ∀ smooth, grid_vert_per_grid smooth key = grid_vert_len smooth key.grid_size := by
    intro smooth
    cases smooth
    · rfl
    · simp [grid_vert_per_grid, grid_vert_len, hA]
  have hlen : ∀ (b : GPU_PBVH_Buffers) (vql : Nat),
      (node_index_bufs (gpu_pbvh_grid_fill_index_buffers E b grid_indices vql totgrid
        key.grid_size)).length = 4 := by
    intro b vql
    have := congrArg List.length (grid_fill_index_bufs E b grid_indices vql totgrid
      key.grid_size)
    simpa using this
  refine ⟨hlen _ _, ?_, ?_, ?_⟩
  · rw [hv]
    exact grid_fill_index_bufs_below E buffers grid_indices visible_quad_len totgrid
      key.grid_size hg
  · intro smooth
    rw [hv]
    cases smooth
    · simp only [grid_vert_len, Bool.false_eq_true, if_false]
      ring
    · simp only [grid_vert_len, if_true]
  · intro hnone hvis
    have hc : (buffers.index_buf.isNone &&
        BKE_pbvh_count_grid_quads E (buffers.grid_hidden.getD []) grid_indices totgrid
          key.grid_size == 0) = false := by
      have : (BKE_pbvh_count_grid_quads E (buffers.grid_hidden.getD []) grid_indices totgrid
          key.grid_size == 0) = false := by
        simp only [beq_eq_false_iff_ne, ne_eq]
        omega
      rw [this, Bool.and_false]
    have hl := grid_update_vertex_len E buffers subdiv_ccg grids grid_flag_mats grid_indices
      totgrid sfs seed dflt key update_flags
    rw [hc] at hl
    simp only [Bool.false_eq_true, if_false] at hl
    have hk := grid_update_late_keeps node_index_bufs
      (fun _ _ _ _ _ _ _ _ _ _ _ _ _ _ => rfl) E true buffers subdiv_ccg grids grid_flag_mats
      grid_indices totgrid sfs seed dflt key update_flags hc
    have hi : grid_update_indexed E buffers grid_flag_mats grid_indices totgrid key =
        gpu_pbvh_grid_fill_index_buffers E
          { buffers with smooth := grid_smooth_flag grid_flag_mats grid_indices } grid_indices
          (BKE_pbvh_count_grid_quads E (buffers.grid_hidden.getD []) grid_indices totgrid
            key.grid_size) totgrid key.grid_size := by
      unfold grid_update_indexed
      rw [hnone]
      rfl
    rw [hi] at hk
    cases hvb : (GPU_pbvh_grid_buffers_update E true buffers subdiv_ccg grids grid_flag_mats
        grid_indices totgrid sfs seed dflt key update_flags).vert_buf with
    | none => rw [hvb] at hl; simp at hl
    | some vb =>
      rw [hvb] at hl
      simp only [Option.map_some', Option.some.injEq] at hl
      refine ⟨vb, rfl, hl, ?_, ?_⟩
      · rw [hk]
        exact hlen _ _
      · rw [hk, hl, hv]
        exact grid_fill_index_bufs_below E
          { buffers with smooth := grid_smooth_flag grid_flag_mats grid_indices } grid_indices
          _ totgrid key.grid_size hg

/-- One smooth grid of size 2 with nothing hidden: four vertices, every index below 4. -/
theorem grid_indices_below_vertex_count_witness :
    2 ≤ one_grid_key.grid_size ∧
    one_grid_key.grid_area = one_grid_key.grid_size * one_grid_key.grid_size ∧
    (node_index_bufs (gpu_pbvh_grid_fill_index_buffers deps_plain
      { GPU_pbvh_grid_buffers_build 1 [none] with smooth := true } [0] 1 1
      one_grid_key.grid_size)).map (fun ib => ib.index) =
      [[0, 3, 1, 0, 2, 3], [0, 3, 1, 0, 2, 3], [0, 1, 0, 2, 3, 2, 1, 3],
       [0, 1, 1, 3, 3, 2, 2, 0]] ∧
    ∀ ib ∈ node_index_bufs (gpu_pbvh_grid_fill_index_buffers deps_plain
      { GPU_pbvh_grid_buffers_build 1 [none] with smooth := true } [0] 1 1
      one_grid_key.grid_size),
      ∀ x ∈ ib.index, x < 1 * grid_vert_per_grid true one_grid_key :=
  ⟨by decide, by decide, by decide,
   (grid_indices_below_vertex_count deps_plain
      { GPU_pbvh_grid_buffers_build 1 [none] with smooth := true } none one_grid
      one_grid_flag_mats [0] 1 1 none 0 0 one_grid_key 0 (by decide) (by decide)).2.1⟩

/-! ### Sizes of the grid wireframe and coarse buffers -/

/-- A loop whose steps each add at most `c` to a measure adds at most `c` per step. -/
theorem foldl_add_le {σ α : Type} (μ : σ → Nat) (f : σ → α → σ) (l : List α) (c : Nat)
    (h : ∀ s x, x ∈ l → μ (f s x) ≤ μ s + c) (s : σ) :
    μ (l.foldl f s) ≤ μ s + l.length * c := by
  induction l generalizing s with
  | nil => simp
  | cons x rest ih =>
    rw [List.foldl_cons, List.length_cons, Nat.succ_mul]
    have h1 := ih (fun s y hy => h s y (List.mem_cons_of_mem _ hy)) (f s x)
    have h2 := h s x (List.mem_cons_self _ _)
    omega

/-- A loop whose steps each add exactly `c` to a measure adds `c` per step. -/
theorem foldl_add_eq {σ α : Type} (μ : σ → Nat) (f : σ → α → σ) (l : List α) (c : Nat)
    (h : ∀ s x, x ∈ l → μ (f s x) = μ s + c) (s : σ) :
    μ (l.foldl f s) = μ s + l.length * c := by
  induction l generalizing s with
  | nil => simp
  | cons x rest ih =>
    rw [List.foldl_cons, List.length_cons, Nat.succ_mul]
    have h1 := ih (fun s y hy => h s y (List.mem_cons_of_mem _ hy)) (f s x)
    have h2 := h s x (List.mem_cons_self _ _)
    omega

/-- One subface adds at most two lines, three in the last row; a non-hidden one adds exactly
that many and marks the grid visible. -/
theorem grid_fill_quad_lines_length (E : Deps) (smooth : Bool) (gh : Option BLI_bitmap)
    (gridsize j : Nat) (s : GridFill) (k : Nat) :
    (grid_fill_quad E smooth gh gridsize j s k).elb_lines.data.length
      ≤ s.elb_lines.data.length + (4 + if j + 2 = gridsize then 2 else 0) ∧
    (grid_face_hidden E gh gridsize k j = false →
      (grid_fill_quad E smooth gh gridsize j s k).elb_lines.data.length
        = s.elb_lines.data.length + (4 + if j + 2 = gridsize then 2 else 0) ∧
      (grid_fill_quad E smooth gh gridsize j s k).grid_visible = true) := by
  unfold grid_fill_quad
  by_cases hh : grid_face_hidden E gh gridsize k j = true
  · simp only [hh, if_true]
    exact ⟨by omega, fun h => by simp at h⟩
  · by_cases hj : j + 2 = gridsize
    · simp [hh, hj, GPU_indexbuf_add_line_verts]
    · simp [hh, hj, GPU_indexbuf_add_line_verts]

/-- One row adds at most two lines per subface and the closing line, one more per subface in
the last row. -/
theorem grid_fill_row_lines_le (E : Deps) (smooth : Bool) (gh : Option BLI_bitmap)
    (gridsize : Nat) (s : GridFill) (j : Nat) :
    (grid_fill_row E smooth gh gridsize s j).elb_lines.data.length
      ≤ s.elb_lines.data.length +
        ((gridsize - 1) * (4 + if j + 2 = gridsize then 2 else 0) + 2) := by
  have h := foldl_add_le (fun s : GridFill => s.elb_lines.data.length)
    (grid_fill_quad E smooth gh gridsize j) (List.range (gridsize - 1))
    (4 + if j + 2 = gridsize then 2 else 0)
    (fun s k _ => (grid_fill_quad_lines_length E smooth gh gridsize j s k).1) s
  rw [List.length_range] at h
  unfold grid_fill_row
  generalize (4 + if j + 2 = gridsize then 2 else 0) = c at h ⊢
  generalize (gridsize - 1) * c = d at h ⊢
  dsimp only at h ⊢
  by_cases hvis : ((List.range (gridsize - 1)).foldl (grid_fill_quad E smooth gh gridsize j)
      s).grid_visible = true
  · rw [if_pos hvis]
    simp only [GPU_indexbuf_add_line_verts, List.length_append, List.length_cons,
      List.length_nil]
    omega
  · rw [if_neg hvis]
    omega

/-- A row all of whose subfaces are visible adds exactly that many lines. -/
theorem grid_fill_row_lines_eq (E : Deps) (smooth : Bool) (gh : Option BLI_bitmap)
    (gridsize : Nat) (hg : 2 ≤ gridsize) (s : GridFill) (j : Nat)
    (hv : ∀ k, k < gridsize - 1 → grid_face_hidden E gh gridsize k j = false) :
    (grid_fill_row E smooth gh gridsize s j).elb_lines.data.length
      = s.elb_lines.data.length +
        ((gridsize - 1) * (4 + if j + 2 = gridsize then 2 else 0) + 2) := by
  have h := foldl_add_eq (fun s : GridFill => s.elb_lines.data.length)
    (grid_fill_quad E smooth gh gridsize j) (List.range (gridsize - 1))
    (4 + if j + 2 = gridsize then 2 else 0)
    (fun s k hk => ((grid_fill_quad_lines_length E smooth gh gridsize j s k).2
      (hv k (List.mem_range.mp hk))).1) s
  rw [List.length_range] at h
  have hvis : ((List.range (gridsize - 1)).foldl (grid_fill_quad E smooth gh gridsize j)
      s).grid_visible = true := by
    obtain ⟨m, hm⟩ : ∃ m, gridsize - 1 = m + 1 := ⟨gridsize - 2, by omega⟩
    rw [hm, List.range_succ, List.foldl_append, List.foldl_cons, List.foldl_nil]
    exact ((grid_fill_quad_lines_length E smooth gh gridsize j _ m).2
      (hv m (by omega))).2
  unfold grid_fill_row
  generalize (4 + if j + 2 = gridsize then 2 else 0) = c at h ⊢
  generalize (gridsize - 1) * c = d at h ⊢
  dsimp only at h ⊢
  rw [if_pos hvis]
  simp only [GPU_indexbuf_add_line_verts, List.length_append, List.length_cons,
    List.length_nil]
  omega

/-- The rows of one grid. -/
theorem grid_fill_rows_lines (E : Deps) (smooth : Bool) (gh : Option BLI_bitmap)
    (gridsize : Nat) (s : GridFill) :
    ((List.range (gridsize - 1)).foldl (grid_fill_row E smooth gh gridsize) s).elb_lines.data.length
      ≤ s.elb_lines.data.length + 4 * gridsize * (gridsize - 1) ∧
    (2 ≤ gridsize →
      (∀ j k, j < gridsize - 1 → k < gridsize - 1 →
        grid_face_hidden E gh gridsize k j = false) →
      ((List.range (gridsize - 1)).foldl (grid_fill_row E smooth gh gridsize)
        s).elb_lines.data.length = s.elb_lines.data.length + 4 * gridsize * (gridsize - 1)) := by
  by_cases hg : 2 ≤ gridsize
  · obtain ⟨n, rfl⟩ : ∃ n, gridsize = n + 2 := ⟨gridsize - 2, by omega⟩
    have e1 : n + 2 - 1 = n + 1 := by omega
    have hsum : n * ((n + 1) * 4 + 2) + ((n + 1) * 6 + 2) = 4 * (n + 2) * (n + 1) := by ring
    rw [e1, List.range_succ, List.foldl_append, List.foldl_cons, List.foldl_nil]
    constructor
    · have h1 := foldl_add_le (fun s : GridFill => s.elb_lines.data.length)
        (grid_fill_row E smooth gh (n + 2)) (List.range n) ((n + 1) * 4 + 2)
        (fun s j hj => by
          have := grid_fill_row_lines_le E smooth gh (n + 2) s j
          have hne : ¬ (j + 2 = n + 2) := by have := List.mem_range.mp hj; omega
          rw [if_neg hne, e1] at this
          exact this) s
      have h2 := grid_fill_row_lines_le E smooth gh (n + 2)
        ((List.range n).foldl (grid_fill_row E smooth gh (n + 2)) s) n
      rw [if_pos rfl, e1] at h2
      rw [List.length_range] at h1
      omega
    · intro _ hv
      have h1 := foldl_add_eq (fun s : GridFill => s.elb_lines.data.length)
        (grid_fill_row E smooth gh (n + 2)) (List.range n) ((n + 1) * 4 + 2)
        (fun s j hj => by
          have hjn := List.mem_range.mp hj
          have := grid_fill_row_lines_eq E smooth gh (n + 2) (by omega) s j
            (fun k hk => hv j k (by omega) hk)
          have hne : ¬ (j + 2 = n + 2) := by omega
          rw [if_neg hne, e1] at this
          exact this) s
      have h2 := grid_fill_row_lines_eq E smooth gh (n + 2) (by omega)
        ((List.range n).foldl (grid_fill_row E smooth gh (n + 2)) s) n
        (fun k hk => hv n k (by omega) hk)
      rw [if_pos rfl, e1] at h2
      rw [List.length_range] at h1
      omega
  · have e0 : gridsize - 1 = 0 := by omega
    rw [e0]
    exact ⟨by simp, fun h => absurd h hg⟩

/-- One grid adds at most `2 * g * (g - 1)` lines to the full-resolution wireframe, and exactly
that many when none of its subfaces is hidden. -/
theorem grid_fill_grid_lines (E : Deps) (smooth : Bool) (grid_hidden : List (Option BLI_bitmap))
    (grid_indices : List Nat) (gridsize : Nat) (s : GridFill) (i : Nat) :
    (grid_fill_grid E smooth grid_hidden grid_indices gridsize s i).elb_lines.data.length
      ≤ s.elb_lines.data.length + 4 * gridsize * (gridsize - 1) ∧
    (2 ≤ gridsize →
      (∀ j k, j < gridsize - 1 → k < gridsize - 1 →
        grid_face_hidden E (grid_hidden.getD (grid_indices.getD i 0) none) gridsize k j
          = false) →
      (grid_fill_grid E smooth grid_hidden grid_indices gridsize s i).elb_lines.data.length
        = s.elb_lines.data.length + 4 * gridsize * (gridsize - 1)) := by
  have h := grid_fill_rows_lines E smooth (grid_hidden.getD (grid_indices.getD i 0) none)
    gridsize { s with grid_visible := false }
  unfold grid_fill_grid
  dsimp only at h ⊢
  split_ifs <;> exact h
/-- The number of grids with a non-hidden subface is at most the number of grids. -/
theorem node_visible_grids_length_le (E : Deps) (grid_hidden : List (Option BLI_bitmap))
    (grid_indices : List Nat) (gridsize totgrid : Nat) :
    (node_visible_grids E grid_hidden grid_indices gridsize (List.range totgrid)).length
      ≤ totgrid := by
  unfold node_visible_grids
  refine (List.length_filter_le _ _).trans ?_
  simp

/-- C36: whatever the hidden bitmaps say, the full-resolution wireframe index buffer that
`gpu_pbvh_grid_fill_index_buffers` builds holds at most the `2 * totgrid * g * (g - 1)` lines
its builder was initialised for, and exactly that many when the grid size is at least 2 and no
subface of any grid is hidden; the coarse buffers hold at most the `2 * totgrid` triangles and
`4 * totgrid` lines their builders were initialised for.  (Sizes are in indices: two per line,
three per triangle.) -/
theorem grid_lines_within_capacity (E : Deps) (buffers : GPU_PBVH_Buffers)
    (grid_indices : List Nat) (visible_quad_len totgrid gridsize : Nat) :
    ((grid_fill_init visible_quad_len totgrid gridsize).elb_lines.max_index_len
        = 2 * (2 * totgrid * gridsize * (gridsize - 1)) ∧
      (grid_fill_init visible_quad_len totgrid gridsize).elb_fast.max_index_len
        = 3 * (2 * totgrid) ∧
      (grid_fill_init visible_quad_len totgrid gridsize).elb_lines_fast.max_index_len
        = 2 * (4 * totgrid)) ∧
    ((gpu_pbvh_grid_fill_index_buffers E buffers grid_indices visible_quad_len totgrid
        gridsize).index_lines_buf.map (fun ib => ib.index) =
        some (grid_fill E buffers.smooth (buffers.grid_hidden.getD []) grid_indices
          visible_quad_len totgrid gridsize).elb_lines.data ∧
      (gpu_pbvh_grid_fill_index_buffers E buffers grid_indices visible_quad_len totgrid
        gridsize).index_buf_fast.map (fun ib => ib.index) =
        some (grid_fill E buffers.smooth (buffers.grid_hidden.getD []) grid_indices
          visible_quad_len totgrid gridsize).elb_fast.data ∧
      (gpu_pbvh_grid_fill_index_buffers E buffers grid_indices visible_quad_len totgrid
        gridsize).index_lines_buf_fast.map (fun ib => ib.index) =
        some (grid_fill E buffers.smooth (buffers.grid_hidden.getD []) grid_indices
          visible_quad_len totgrid gridsize).elb_lines_fast.data) ∧
    (grid_fill E buffers.smooth (buffers.grid_hidden.getD []) grid_indices visible_quad_len
      totgrid gridsize).elb_lines.data.length
      ≤ 2 * (2 * totgrid * gridsize * (gridsize - 1)) ∧
    (2 ≤ gridsize →
      (∀ i, i < totgrid → ∀ j, j < gridsize - 1 → ∀ k, k < gridsize - 1 →
        grid_face_hidden E (node_grid_hidden (buffers.grid_hidden.getD []) grid_indices i)
          gridsize k j = false) →
      (grid_fill E buffers.smooth (buffers.grid_hidden.getD []) grid_indices visible_quad_len
        totgrid gridsize).elb_lines.data.length
        = 2 * (2 * totgrid * gridsize * (gridsize - 1))) ∧
    (grid_fill E buffers.smooth (buffers.grid_hidden.getD []) grid_indices visible_quad_len
      totgrid gridsize).elb_fast.data.length ≤ 3 * (2 * totgrid) ∧
    (grid_fill E buffers.smooth (buffers.grid_hidden.getD []) grid_indices visible_quad_len
      totgrid gridsize).elb_lines_fast.data.length ≤ 2 * (4 * totgrid) := by
  have hcap : totgrid * (4 * gridsize * (gridsize - 1))
      = 2 * (2 * totgrid * gridsize * (gridsize - 1)) := by ring
  have hvg := node_visible_grids_length_le E (buffers.grid_hidden.getD []) grid_indices gridsize
    totgrid
  have h0 : (grid_fill_init visible_quad_len totgrid gridsize).elb_lines.data.length = 0 := rfl
  obtain ⟨-, q2, q3⟩ := grid_fill_eq E buffers.smooth (buffers.grid_hidden.getD [])
    grid_indices visible_quad_len totgrid gridsize
  refine ⟨⟨?_, ?_, ?_⟩, ?_, ?_, ?_, ?_, ?_⟩
  · simp only [grid_fill_init, GPU_indexbuf_init, indices_per_primitive]
    ring
  · simp only [grid_fill_init, GPU_indexbuf_init, indices_per_primitive]
    ring
  · simp only [grid_fill_init, GPU_indexbuf_init, indices_per_primitive]
    ring
  · simp only [gpu_pbvh_grid_fill_index_buffers, GPU_indexbuf_build, Option.map_some',
      and_self]
  · have h := foldl_add_le (fun s : GridFill => s.elb_lines.data.length)
      (grid_fill_grid E buffers.smooth (buffers.grid_hidden.getD []) grid_indices gridsize)
      (List.range totgrid) (4 * gridsize * (gridsize - 1))
      (fun s i _ => (grid_fill_grid_lines E buffers.smooth _ grid_indices gridsize s i).1)
      (grid_fill_init visible_quad_len totgrid gridsize)
    rw [List.length_range, hcap, h0, Nat.zero_add] at h
    exact h
  · intro hg hv
    have h := foldl_add_eq (fun s : GridFill => s.elb_lines.data.length)
      (grid_fill_grid E buffers.smooth (buffers.grid_hidden.getD []) grid_indices gridsize)
      (List.range totgrid) (4 * gridsize * (gridsize - 1))
      (fun s i hi => (grid_fill_grid_lines E buffers.smooth _ grid_indices gridsize s i).2 hg
        (fun j k hj hk => hv i (List.mem_range.mp hi) j hj k hk))
      (grid_fill_init visible_quad_len totgrid gridsize)
    rw [List.length_range, hcap, h0, Nat.zero_add] at h
    exact h
  · rw [q2]
    simp only [GPUIndexBufBuilder.extend, GPU_indexbuf_init, List.nil_append,
      node_tris_fast_length]
    omega
  · rw [q3]
    simp only [GPUIndexBufBuilder.extend, GPU_indexbuf_init, List.nil_append,
      node_lines_fast_length]
    omega

/-- One smooth grid of size 3 with nothing hidden: twelve lines, the capacity of the builder. -/
theorem grid_lines_within_capacity_witness :
    2 ≤ 3 ∧
    (∀ i, i < 1 → ∀ j, j < 3 - 1 → ∀ k, k < 3 - 1 →
      grid_face_hidden deps_plain
        (node_grid_hidden ((GPU_pbvh_grid_buffers_build 1 [none]).grid_hidden.getD []) [0] i) 3
        k j = false) ∧
    (grid_fill deps_plain (GPU_pbvh_grid_buffers_build 1 [none]).smooth
      ((GPU_pbvh_grid_buffers_build 1 [none]).grid_hidden.getD []) [0] 4 1
      3).elb_lines.data.length = 24 :=
  ⟨by decide, by decide,
   (grid_lines_within_capacity deps_plain (GPU_pbvh_grid_buffers_build 1 [none]) [0] 4 1
      3).2.2.2.1 (by decide) (by decide)⟩

/-! ### Wireframe of a grid with hidden subfaces -/

/-- C37 does not hold on the code: on one smooth grid of size 3 of which only subface `(0, 0)`
is not hidden, `gpu_pbvh_grid_fill_index_buffers` emits the lines `0-1`, `0-3`, `1-4`, `1-4`.
The bottom edge `3-4` of the visible subface is missing, and its right edge `1-4` is emitted
twice, the second time at the end of the row without visible subface, from the corners left
over from the row before.  With nothing hidden the twelve lines emitted are the twelve edges
of the grid, each once. -/
theorem grid_wireframe_hidden_neighbour :
    (gpu_pbvh_grid_fill_index_buffers deps_plain
      { GPU_pbvh_grid_buffers_build 1 [some [false, true, false, true, true]] with
        smooth := true } [0] 1 1 3).index_lines_buf.map (fun ib => ib.index)
      = some [0, 1, 0, 3, 1, 4, 1, 4] ∧
    row_visible deps_plain (some [false, true, false, true, true]) 3 0 (List.range 2) = [0] ∧
    row_visible deps_plain (some [false, true, false, true, true]) 3 1 (List.range 2) = [] ∧
    grid_visible_edges deps_plain (some [false, true, false, true, true]) 3 0
      = [(0, 1), (1, 4), (3, 4), (0, 3)] ∧
    (3, 4) ∉ index_lines [0, 1, 0, 3, 1, 4, 1, 4] ∧
    (index_lines [0, 1, 0, 3, 1, 4, 1, 4]).count (1, 4) = 2 ∧
    (((gpu_pbvh_grid_fill_index_buffers deps_plain
      { GPU_pbvh_grid_buffers_build 1 [none] with smooth := true } [0] 4 1
      3).index_lines_buf.map (fun ib => index_lines ib.index)).getD []).Perm
      (grid_visible_edges deps_plain none 3 0) := by
  decide

end GpuBuffers
